import Mathlib

/-!
TrenchBroom: tool chain and entity model manager.

A shallow embedding of `common/src/View/ToolChain.cpp` and
`common/src/Assets/EntityModelManager.cpp`.

Conventions of the embedding:

* a C++ pointer is an `Option` of an object identity (`none` is `NULL`);
* an `assert` that fails, and the dereference of a null pointer, end the run:
  `ToolChain` operations then return `none`, manager operations `Outcome.abort`;
* code that lives outside the translated files (the tools' handlers, the game's
  model loader, the mesh builder, the logger, the vertex buffer) acts on an
  external world of type `σ` and is passed in as a record of functions;
* `traced` wraps such a record so that every external call is also written to a
  call log, which is how "is queried", "is invoked" and "how often" are observed.
-/

namespace TrenchBroom

/-! Section: View::ToolChain -/

namespace View

/-- Identity of a `ToolAdapter` object (what a non-null `ToolAdapter*` points to). -/
abbrev ToolAdapter := Nat

/-- The handlers of `View/ToolAdapter.h`, which is not among the translated sources:
each takes the tool, the input state (of type `ι`) and the world it may change. The
`PickResult`, `RenderContext` and `RenderBatch` reference arguments are part of the world. -/
structure ToolOps (ι σ : Type) where
  pick : ToolAdapter → ι → σ → σ
  modifierKeyChange : ToolAdapter → ι → σ → σ
  mouseDown : ToolAdapter → ι → σ → σ
  mouseUp : ToolAdapter → ι → σ → σ
  mouseClick : ToolAdapter → ι → σ → Bool × σ
  mouseDoubleClick : ToolAdapter → ι → σ → Bool × σ
  mouseScroll : ToolAdapter → ι → σ → σ
  mouseMove : ToolAdapter → ι → σ → σ
  startMouseDrag : ToolAdapter → ι → σ → Bool × σ
  dragEnter : ToolAdapter → ι → String → σ → Bool × σ
  setRenderOptions : ToolAdapter → ι → σ → σ
  render : ToolAdapter → ι → σ → σ
  cancel : ToolAdapter → σ → Bool × σ

/-- One call of a tool handler, with the answer for the handlers that return `bool`. -/
inductive ToolCall where
  | pick (t : ToolAdapter)
  | modifierKeyChange (t : ToolAdapter)
  | mouseDown (t : ToolAdapter)
  | mouseUp (t : ToolAdapter)
  | mouseClick (t : ToolAdapter) (r : Bool)
  | mouseDoubleClick (t : ToolAdapter) (r : Bool)
  | mouseScroll (t : ToolAdapter)
  | mouseMove (t : ToolAdapter)
  | startMouseDrag (t : ToolAdapter) (r : Bool)
  | dragEnter (t : ToolAdapter) (r : Bool)
  | setRenderOptions (t : ToolAdapter)
  | render (t : ToolAdapter)
  | cancel (t : ToolAdapter) (r : Bool)
  deriving DecidableEq, Repr

/-- The same handlers, each also appending its call to a log kept next to the world. -/
def ToolOps.traced {ι σ : Type} (ops : ToolOps ι σ) : ToolOps ι (σ × List ToolCall) where
  pick t i s := (ops.pick t i s.1, s.2 ++ [ToolCall.pick t])
  modifierKeyChange t i s := (ops.modifierKeyChange t i s.1, s.2 ++ [ToolCall.modifierKeyChange t])
  mouseDown t i s := (ops.mouseDown t i s.1, s.2 ++ [ToolCall.mouseDown t])
  mouseUp t i s := (ops.mouseUp t i s.1, s.2 ++ [ToolCall.mouseUp t])
  mouseClick t i s :=
    ((ops.mouseClick t i s.1).1,
      ((ops.mouseClick t i s.1).2, s.2 ++ [ToolCall.mouseClick t (ops.mouseClick t i s.1).1]))
  mouseDoubleClick t i s :=
    ((ops.mouseDoubleClick t i s.1).1,
      ((ops.mouseDoubleClick t i s.1).2,
        s.2 ++ [ToolCall.mouseDoubleClick t (ops.mouseDoubleClick t i s.1).1]))
  mouseScroll t i s := (ops.mouseScroll t i s.1, s.2 ++ [ToolCall.mouseScroll t])
  mouseMove t i s := (ops.mouseMove t i s.1, s.2 ++ [ToolCall.mouseMove t])
  startMouseDrag t i s :=
    ((ops.startMouseDrag t i s.1).1,
      ((ops.startMouseDrag t i s.1).2,
        s.2 ++ [ToolCall.startMouseDrag t (ops.startMouseDrag t i s.1).1]))
  dragEnter t i p s :=
    ((ops.dragEnter t i p s.1).1,
      ((ops.dragEnter t i p s.1).2, s.2 ++ [ToolCall.dragEnter t (ops.dragEnter t i p s.1).1]))
  setRenderOptions t i s := (ops.setRenderOptions t i s.1, s.2 ++ [ToolCall.setRenderOptions t])
  render t i s := (ops.render t i s.1, s.2 ++ [ToolCall.render t])
  cancel t s :=
    ((ops.cancel t s.1).1, ((ops.cancel t s.1).2, s.2 ++ [ToolCall.cancel t (ops.cancel t s.1).1]))

/-- A chain node: `m_tool` and `m_suffix`, both nullable pointers. -/
inductive ToolChain where
  | mk (m_tool : Option ToolAdapter) (m_suffix : Option ToolChain)

namespace ToolChain

/-- Field `m_tool`. -/
def m_tool : ToolChain → Option ToolAdapter
  | mk t _ => t

/-- Field `m_suffix`. -/
def m_suffix : ToolChain → Option ToolChain
  | mk _ s => s

/-- Embeds `ToolChain::ToolChain()`: both fields `NULL`. -/
def new : ToolChain := mk none none

/-- Embeds `ToolChain::checkInvariant`: `(m_tool == NULL) == (m_suffix == NULL)`. -/
def checkInvariant (c : ToolChain) : Bool :=
  c.m_tool.isNone == c.m_suffix.isNone

/-- Embeds `ToolChain::chainEndsHere`: `m_tool == NULL`. -/
def chainEndsHere (c : ToolChain) : Bool :=
  c.m_tool.isNone

/-- Embeds `ToolChain::append`. The result is `none` when one of the four assertions fails. -/
def append : ToolChain → Option ToolAdapter → Option ToolChain
  | mk m_tool m_suffix, tool =>
    if !(mk m_tool m_suffix).checkInvariant then none
    else if (mk m_tool m_suffix).chainEndsHere then
      if m_suffix.isSome then none
      else if (mk tool (some new)).checkInvariant then some (mk tool (some new))
      else none
    else
      match m_suffix with
      | none => none
      | some s =>
        match append s tool with
        | none => none
        | some s1 =>
          if (mk m_tool (some s1)).checkInvariant then some (mk m_tool (some s1)) else none

/-- A run of `append` calls, in the order of the list; `none` as soon as one call fails. -/
def appendAll : ToolChain → List (Option ToolAdapter) → Option ToolChain
  | c, [] => some c
  | c, tool :: rest =>
    match append c tool with
    | none => none
    | some c1 => appendAll c1 rest

/-- Embeds `ToolChain::pick`: unless the chain ends here, the tool's `pick`, then the suffix's.
`none` when the assertion fails or `m_suffix` is null where it is dereferenced. -/
def pick {ι σ : Type} (ops : ToolOps ι σ) : ToolChain → ι → σ → Option σ
  | mk m_tool m_suffix, inputState, w =>
    if !(mk m_tool m_suffix).checkInvariant then none
    else
      match m_tool with
      | none => some w
      | some t =>
        match m_suffix with
        | none => none
        | some s => pick ops s inputState (ops.pick t inputState w)

/-- Embeds `ToolChain::modifierKeyChange`: unless the chain ends here, the tool's `modifierKeyChange`, then the suffix's.
`none` when the assertion fails or `m_suffix` is null where it is dereferenced. -/
def modifierKeyChange {ι σ : Type} (ops : ToolOps ι σ) : ToolChain → ι → σ → Option σ
  | mk m_tool m_suffix, inputState, w =>
    if !(mk m_tool m_suffix).checkInvariant then none
    else
      match m_tool with
      | none => some w
      | some t =>
        match m_suffix with
        | none => none
        | some s => modifierKeyChange ops s inputState (ops.modifierKeyChange t inputState w)

/-- Embeds `ToolChain::mouseDown`: unless the chain ends here, the tool's `mouseDown`, then the suffix's.
`none` when the assertion fails or `m_suffix` is null where it is dereferenced. -/
def mouseDown {ι σ : Type} (ops : ToolOps ι σ) : ToolChain → ι → σ → Option σ
  | mk m_tool m_suffix, inputState, w =>
    if !(mk m_tool m_suffix).checkInvariant then none
    else
      match m_tool with
      | none => some w
      | some t =>
        match m_suffix with
        | none => none
        | some s => mouseDown ops s inputState (ops.mouseDown t inputState w)

/-- Embeds `ToolChain::mouseUp`: unless the chain ends here, the tool's `mouseUp`, then the suffix's.
`none` when the assertion fails or `m_suffix` is null where it is dereferenced. -/
def mouseUp {ι σ : Type} (ops : ToolOps ι σ) : ToolChain → ι → σ → Option σ
  | mk m_tool m_suffix, inputState, w =>
    if !(mk m_tool m_suffix).checkInvariant then none
    else
      match m_tool with
      | none => some w
      | some t =>
        match m_suffix with
        | none => none
        | some s => mouseUp ops s inputState (ops.mouseUp t inputState w)

/-- Embeds `ToolChain::mouseClick`: `false` at the end of the chain, `true` as soon as the tool's
`mouseClick` returns true, otherwise the suffix's answer. -/
def mouseClick {ι σ : Type} (ops : ToolOps ι σ) : ToolChain → ι → σ → Option (Bool × σ)
  | mk m_tool m_suffix, inputState, w =>
    if !(mk m_tool m_suffix).checkInvariant then none
    else
      match m_tool with
      | none => some (false, w)
      | some t =>
        if (ops.mouseClick t inputState w).1 then some (true, (ops.mouseClick t inputState w).2)
        else
          match m_suffix with
          | none => none
          | some s => mouseClick ops s inputState (ops.mouseClick t inputState w).2

/-- Embeds `ToolChain::mouseDoubleClick`: `false` at the end of the chain, `true` as soon as the tool's
`mouseDoubleClick` returns true, otherwise the suffix's answer. -/
def mouseDoubleClick {ι σ : Type} (ops : ToolOps ι σ) : ToolChain → ι → σ → Option (Bool × σ)
  | mk m_tool m_suffix, inputState, w =>
    if !(mk m_tool m_suffix).checkInvariant then none
    else
      match m_tool with
      | none => some (false, w)
      | some t =>
        if (ops.mouseDoubleClick t inputState w).1 then some (true, (ops.mouseDoubleClick t inputState w).2)
        else
          match m_suffix with
          | none => none
          | some s => mouseDoubleClick ops s inputState (ops.mouseDoubleClick t inputState w).2

/-- Embeds `ToolChain::mouseScroll`: unless the chain ends here, the tool's `mouseScroll`, then the suffix's.
`none` when the assertion fails or `m_suffix` is null where it is dereferenced. -/
def mouseScroll {ι σ : Type} (ops : ToolOps ι σ) : ToolChain → ι → σ → Option σ
  | mk m_tool m_suffix, inputState, w =>
    if !(mk m_tool m_suffix).checkInvariant then none
    else
      match m_tool with
      | none => some w
      | some t =>
        match m_suffix with
        | none => none
        | some s => mouseScroll ops s inputState (ops.mouseScroll t inputState w)

/-- Embeds `ToolChain::mouseMove`: unless the chain ends here, the tool's `mouseMove`, then the suffix's.
`none` when the assertion fails or `m_suffix` is null where it is dereferenced. -/
def mouseMove {ι σ : Type} (ops : ToolOps ι σ) : ToolChain → ι → σ → Option σ
  | mk m_tool m_suffix, inputState, w =>
    if !(mk m_tool m_suffix).checkInvariant then none
    else
      match m_tool with
      | none => some w
      | some t =>
        match m_suffix with
        | none => none
        | some s => mouseMove ops s inputState (ops.mouseMove t inputState w)

/-- Embeds `ToolChain::startMouseDrag`: `NULL` at the end of the chain, `m_tool` as soon as the
tool's `startMouseDrag` returns true, otherwise the suffix's answer. -/
def startMouseDrag {ι σ : Type} (ops : ToolOps ι σ) :
    ToolChain → ι → σ → Option (Option ToolAdapter × σ)
  | mk m_tool m_suffix, inputState, w =>
    if !(mk m_tool m_suffix).checkInvariant then none
    else
      match m_tool with
      | none => some (none, w)
      | some t =>
        if (ops.startMouseDrag t inputState w).1 then
          some (m_tool, (ops.startMouseDrag t inputState w).2)
        else
          match m_suffix with
          | none => none
          | some s => startMouseDrag ops s inputState (ops.startMouseDrag t inputState w).2

/-- Embeds `ToolChain::dragEnter`: `NULL` at the end of the chain, `m_tool` as soon as the tool's
`dragEnter` returns true, otherwise the suffix's answer. -/
def dragEnter {ι σ : Type} (ops : ToolOps ι σ) :
    ToolChain → ι → String → σ → Option (Option ToolAdapter × σ)
  | mk m_tool m_suffix, inputState, payload, w =>
    if !(mk m_tool m_suffix).checkInvariant then none
    else
      match m_tool with
      | none => some (none, w)
      | some t =>
        if (ops.dragEnter t inputState payload w).1 then
          some (m_tool, (ops.dragEnter t inputState payload w).2)
        else
          match m_suffix with
          | none => none
          | some s => dragEnter ops s inputState payload (ops.dragEnter t inputState payload w).2

/-- Embeds `ToolChain::setRenderOptions`: unless the chain ends here, the tool's `setRenderOptions`, then the suffix's.
`none` when the assertion fails or `m_suffix` is null where it is dereferenced. -/
def setRenderOptions {ι σ : Type} (ops : ToolOps ι σ) : ToolChain → ι → σ → Option σ
  | mk m_tool m_suffix, inputState, w =>
    if !(mk m_tool m_suffix).checkInvariant then none
    else
      match m_tool with
      | none => some w
      | some t =>
        match m_suffix with
        | none => none
        | some s => setRenderOptions ops s inputState (ops.setRenderOptions t inputState w)

/-- Embeds `ToolChain::render`: unless the chain ends here, the tool's `render`, then the suffix's.
`none` when the assertion fails or `m_suffix` is null where it is dereferenced. -/
def render {ι σ : Type} (ops : ToolOps ι σ) : ToolChain → ι → σ → Option σ
  | mk m_tool m_suffix, inputState, w =>
    if !(mk m_tool m_suffix).checkInvariant then none
    else
      match m_tool with
      | none => some w
      | some t =>
        match m_suffix with
        | none => none
        | some s => render ops s inputState (ops.render t inputState w)

/-- Embeds `ToolChain::cancel`: `false` at the end of the chain, `true` as soon as the tool's
`cancel` returns true, otherwise the suffix's answer. -/
def cancel {ι σ : Type} (ops : ToolOps ι σ) : ToolChain → σ → Option (Bool × σ)
  | mk m_tool m_suffix, w =>
    if !(mk m_tool m_suffix).checkInvariant then none
    else
      match m_tool with
      | none => some (false, w)
      | some t =>
        if (ops.cancel t w).1 then some (true, (ops.cancel t w).2)
        else
          match m_suffix with
          | none => none
          | some s => cancel ops s (ops.cancel t w).2

/-- The chain that holds the given tools in order, closed by a terminal node. -/
def ofList : List ToolAdapter → ToolChain
  | [] => new
  | t :: rest => mk (some t) (some (ofList rest))

/-- The nodes met when walking from a node along `m_suffix` to the end. -/
def walk : ToolChain → List ToolChain
  | mk t none => [mk t none]
  | mk t (some s) => mk t (some s) :: walk s

/-- A terminal node has neither a tool nor a suffix. -/
def isTerminal (c : ToolChain) : Bool :=
  c.m_tool.isNone && c.m_suffix.isNone

end ToolChain

end View

/-! Section: Assets::EntityModelManager -/

namespace Assets

/-- Modelled from the spec: `IO::Path` is declared outside the translated sources. The
manager uses a path as a cache key, asks `isEmpty()` and prints `asString()`; a path is
taken to be its string form, empty when that string is empty. -/
structure Path where
  asString : String
  deriving DecidableEq, Repr

/-- Embeds `Path::isEmpty`. -/
def Path.isEmpty (p : Path) : Bool := p.asString.isEmpty

/-- Modelled from the spec: `Assets::ModelSpecification` is declared outside the translated
sources; the spec keys renderers "by full spec (path+skin+frame)". -/
structure ModelSpecification where
  path : Path
  skinIndex : Nat
  frameIndex : Nat
  deriving DecidableEq, Repr

/-- Embeds `ModelSpecification::asString`, used in log messages only. -/
def ModelSpecification.asString (spec : ModelSpecification) : String :=
  spec.path.asString ++ ":" ++ toString spec.skinIndex ++ ":" ++ toString spec.frameIndex

/-- Identity of an `EntityModel` object. -/
abbrev EntityModel := Nat

/-- Identity of a `Renderer::MeshRenderer` object. -/
abbrev MeshRenderer := Nat

/-- Identity of a `Model::Game` object; a `GamePtr` is an `Option Game`. -/
abbrev Game := Nat

/-- Identity of a `Logger` object. -/
abbrev Logger := Nat

/-- A `GameException`, with its `what()` text. -/
structure GameException where
  what : String
  deriving DecidableEq, Repr

/-- The collaborators of the manager that live outside the translated sources, acting on
the world `σ`: `Game::loadModel` (returns a pointer or throws a `GameException`),
`EntityModel::buildRenderer` (returns a pointer), `MeshRenderer::prepare`,
`Logger::debug`, and the `Vbo` calls (`activate`, `deactivate`, and the scoped
`SetVboState`: `mapped()` and the restore done by its destructor). -/
structure AssetOps (σ : Type) where
  loadModel : Game → Path → σ → Except GameException (Option EntityModel) × σ
  buildRenderer : EntityModel → Nat → Nat → σ → Option MeshRenderer × σ
  prepare : MeshRenderer → σ → σ
  debug : Logger → String → σ → σ
  vboActivate : σ → σ
  vboDeactivate : σ → σ
  vboMapped : σ → σ
  vboRestore : σ → σ

/-- One call of a collaborator. -/
inductive AssetCall where
  | loadModel (g : Game) (path : Path)
  | buildRenderer (model : EntityModel) (skinIndex frameIndex : Nat)
  | prepare (r : MeshRenderer)
  | debug (l : Logger) (msg : String)
  | vboActivate
  | vboDeactivate
  | vboMapped
  | vboRestore
  deriving DecidableEq, Repr

/-- The same collaborators, each also appending its call to a log kept next to the world. -/
def AssetOps.traced {σ : Type} (ops : AssetOps σ) : AssetOps (σ × List AssetCall) where
  loadModel g path s :=
    ((ops.loadModel g path s.1).1, ((ops.loadModel g path s.1).2, s.2 ++ [AssetCall.loadModel g path]))
  buildRenderer em skin frame s :=
    ((ops.buildRenderer em skin frame s.1).1,
      ((ops.buildRenderer em skin frame s.1).2, s.2 ++ [AssetCall.buildRenderer em skin frame]))
  prepare r s := (ops.prepare r s.1, s.2 ++ [AssetCall.prepare r])
  debug l msg s := (ops.debug l msg s.1, s.2 ++ [AssetCall.debug l msg])
  vboActivate s := (ops.vboActivate s.1, s.2 ++ [AssetCall.vboActivate])
  vboDeactivate s := (ops.vboDeactivate s.1, s.2 ++ [AssetCall.vboDeactivate])
  vboMapped s := (ops.vboMapped s.1, s.2 ++ [AssetCall.vboMapped])
  vboRestore s := (ops.vboRestore s.1, s.2 ++ [AssetCall.vboRestore])

/-- Embeds `std::map::find`: the value stored under the key, if any. -/
def mapFind {κ ν : Type} [DecidableEq κ] : List (κ × ν) → κ → Option ν
  | [], _ => none
  | (k, v) :: rest, key => if k = key then some v else mapFind rest key

/-- Embeds `map[key] = value`: overwrite the entry of the key, or add one. -/
def mapAssign {κ ν : Type} [DecidableEq κ] : List (κ × ν) → κ → ν → List (κ × ν)
  | [], key, value => [(key, value)]
  | (k, v) :: rest, key, value =>
    if k = key then (k, value) :: rest else (k, v) :: mapAssign rest key value

/-- Embeds `std::set::count`. -/
def setCount {κ : Type} [DecidableEq κ] (s : List κ) (key : κ) : Nat :=
  if key ∈ s then 1 else 0

/-- Embeds `std::set::insert`: no effect when the key is already in the set. -/
def setInsert {κ : Type} [DecidableEq κ] (s : List κ) (key : κ) : List κ :=
  if key ∈ s then s else s ++ [key]

/-- The fields of `EntityModelManager`; the two caches are `std::map`s to nullable
pointers, the two mismatch sets are `std::set`s. The state of `m_vbo` is in the world. -/
structure EntityModelManager where
  m_logger : Option Logger
  m_game : Option Game
  m_models : List (Path × Option EntityModel)
  m_renderers : List (ModelSpecification × Option MeshRenderer)
  m_rendererMismatches : List ModelSpecification
  m_modelMismatches : List Path
  m_prepared : Bool
  deriving DecidableEq, Repr

/-- How a call ends: it returns a value, a `GameException` leaves it, or the run ends on a
failed assertion or a null dereference. -/
inductive Outcome (α : Type) where
  | ret (a : α)
  | raise (e : GameException)
  | abort
  deriving DecidableEq, Repr

namespace EntityModelManager

/-- Embeds `EntityModelManager::EntityModelManager(logger)`: prepared, no game, empty caches. -/
def new (logger : Option Logger) : EntityModelManager :=
  { m_logger := logger, m_game := none, m_models := [], m_renderers := [],
    m_rendererMismatches := [], m_modelMismatches := [], m_prepared := true }

/-- Embeds `if (m_logger != NULL) m_logger->debug(msg)`. -/
def logDebug {σ : Type} (ops : AssetOps σ) (m : EntityModelManager) (msg : String) (w : σ) : σ :=
  match m.m_logger with
  | none => w
  | some l => ops.debug l msg w

/-- Embeds `EntityModelManager::clear`: both caches and both mismatch sets emptied (the cached
objects are deleted), `m_prepared` set, one log line. -/
def clear {σ : Type} (ops : AssetOps σ) (m : EntityModelManager) (w : σ) :
    EntityModelManager × σ :=
  ({ m with m_renderers := [], m_models := [], m_rendererMismatches := [],
            m_modelMismatches := [], m_prepared := true },
    logDebug ops m "Cleared entity models" w)

/-- Embeds `EntityModelManager::reset`: nothing when the game is the current one, otherwise
`clear()` and the new game. -/
def reset {σ : Type} (ops : AssetOps σ) (game : Option Game) (m : EntityModelManager) (w : σ) :
    EntityModelManager × σ :=
  if m.m_game = game then (m, w)
  else ({ (clear ops m w).1 with m_game := game }, (clear ops m w).2)

/-- Embeds `EntityModelManager::model`. -/
def model {σ : Type} (ops : AssetOps σ) (path : Path) (m : EntityModelManager) (w : σ) :
    Outcome (Option EntityModel) × EntityModelManager × σ :=
  if path.isEmpty then (Outcome.ret none, m, w)
  else
    match mapFind m.m_models path with
    | some found => (Outcome.ret found, m, w)
    | none =>
      if setCount m.m_modelMismatches path > 0 then (Outcome.ret none, m, w)
      else
        match m.m_game with
        | none => (Outcome.abort, m, w)
        | some g =>
          match ops.loadModel g path w with
          | (Except.ok none, w1) => (Outcome.abort, m, w1)
          | (Except.ok (some em), w1) =>
            (Outcome.ret (some em),
              { m with m_models := mapAssign m.m_models path (some em) },
              logDebug ops m ("Loaded entity model " ++ path.asString) w1)
          | (Except.error e, w1) =>
            (Outcome.raise e,
              { m with m_modelMismatches := setInsert m.m_modelMismatches path },
              logDebug ops m
                ("Failed to load entity model " ++ path.asString ++ ": " ++ e.what) w1)

/-- Embeds `EntityModelManager::renderer`. -/
def renderer {σ : Type} (ops : AssetOps σ) (spec : ModelSpecification)
    (m : EntityModelManager) (w : σ) : Outcome (Option MeshRenderer) × EntityModelManager × σ :=
  match model ops spec.path m w with
  | (Outcome.abort, m1, w1) => (Outcome.abort, m1, w1)
  | (Outcome.raise e, m1, w1) => (Outcome.raise e, m1, w1)
  | (Outcome.ret none, m1, w1) => (Outcome.ret none, m1, w1)
  | (Outcome.ret (some entityModel), m1, w1) =>
    match mapFind m1.m_renderers spec with
    | some found => (Outcome.ret found, m1, w1)
    | none =>
      if setCount m1.m_rendererMismatches spec > 0 then (Outcome.ret none, m1, w1)
      else
        match ops.buildRenderer entityModel spec.skinIndex spec.frameIndex w1 with
        | (none, w2) =>
          (Outcome.ret none,
            { m1 with m_rendererMismatches := setInsert m1.m_rendererMismatches spec },
            logDebug ops m1
              ("Failed to construct entity model renderer for " ++ spec.asString) w2)
        | (some r, w2) =>
          (Outcome.ret (some r),
            { m1 with m_renderers := mapAssign m1.m_renderers spec (some r),
                      m_prepared := false },
            logDebug ops m1 ("Constructed entity model renderer for " ++ spec.asString) w2)

/-- The loop of `prepareRenderers`: `renderer->prepare(m_vbo)` for every entry, in
iteration order; `none` when an entry holds a null pointer. -/
def prepareEach {σ : Type} (ops : AssetOps σ) :
    List (ModelSpecification × Option MeshRenderer) → σ → Option σ
  | [], w => some w
  | (_, none) :: _, _ => none
  | (_, some r) :: rest, w => prepareEach ops rest (ops.prepare r w)

/-- Embeds `EntityModelManager::prepareRenderers`. -/
def prepareRenderers {σ : Type} (ops : AssetOps σ) (m : EntityModelManager) (w : σ) :
    Outcome Unit × EntityModelManager × σ :=
  if m.m_prepared then (Outcome.ret (), m, w)
  else
    match prepareEach ops m.m_renderers (ops.vboMapped w) with
    | none => (Outcome.abort, m, ops.vboMapped w)
    | some w1 => (Outcome.ret (), { m with m_prepared := true }, ops.vboRestore w1)

/-- Embeds `EntityModelManager::activateVbo`. -/
def activateVbo {σ : Type} (ops : AssetOps σ) (m : EntityModelManager) (w : σ) :
    Outcome Unit × EntityModelManager × σ :=
  prepareRenderers ops m (ops.vboActivate w)

/-- Embeds `EntityModelManager::deactivateVbo`. -/
def deactivateVbo {σ : Type} (ops : AssetOps σ) (m : EntityModelManager) (w : σ) :
    EntityModelManager × σ :=
  (m, ops.vboDeactivate w)

end EntityModelManager

/-- A call a client can make on the manager. -/
inductive ManagerCall where
  | clear
  | reset (game : Option Game)
  | model (path : Path)
  | renderer (spec : ModelSpecification)
  | activateVbo
  | deactivateVbo
  deriving DecidableEq, Repr

/-- The manager and world after a call, whichever way the call ends. -/
def ManagerCall.run {σ : Type} (ops : AssetOps σ) :
    ManagerCall → EntityModelManager × σ → EntityModelManager × σ
  | ManagerCall.clear, s => EntityModelManager.clear ops s.1 s.2
  | ManagerCall.reset game, s => EntityModelManager.reset ops game s.1 s.2
  | ManagerCall.model path, s => (EntityModelManager.model ops path s.1 s.2).2
  | ManagerCall.renderer spec, s => (EntityModelManager.renderer ops spec s.1 s.2).2
  | ManagerCall.activateVbo, s => (EntityModelManager.activateVbo ops s.1 s.2).2
  | ManagerCall.deactivateVbo, s => EntityModelManager.deactivateVbo ops s.1 s.2

/-- The manager and world after a run of calls, made in the order of the list. -/
def runCalls {σ : Type} (ops : AssetOps σ) :
    List ManagerCall → EntityModelManager × σ → EntityModelManager × σ
  | [], s => s
  | c :: rest, s => runCalls ops rest (c.run ops s)

/-- A call that empties no cache when the current game is `g`: anything but `clear` and
a `reset` to another game. -/
def ManagerCall.keepsCaches (g : Option Game) : ManagerCall → Bool
  | ManagerCall.clear => false
  | ManagerCall.reset game => decide (game = g)
  | _ => true

/-- How many `loadModel` calls for the path a call log holds. -/
def loadCount (path : Path) (log : List AssetCall) : Nat :=
  log.countP (fun c => match c with
    | AssetCall.loadModel _ p => decide (p = path)
    | _ => false)

/-- How many `buildRenderer` calls a call log holds. -/
def buildCount (log : List AssetCall) : Nat :=
  log.countP (fun c => match c with
    | AssetCall.buildRenderer _ _ _ => true
    | _ => false)

/-- A later manager state keeps what an earlier one had: the game, every cache entry, and
every negative-cache entry whose key has no cache entry. -/
def Keeps (m m1 : EntityModelManager) : Prop :=
  m1.m_game = m.m_game ∧
  (∀ p v, mapFind m.m_models p = some v → mapFind m1.m_models p = some v) ∧
  (∀ sp v, mapFind m.m_renderers sp = some v → mapFind m1.m_renderers sp = some v) ∧
  (∀ p, p ∈ m.m_modelMismatches → mapFind m.m_models p = none →
    p ∈ m1.m_modelMismatches ∧ mapFind m1.m_models p = none) ∧
  (∀ sp, sp ∈ m.m_rendererMismatches → mapFind m.m_renderers sp = none →
    sp ∈ m1.m_rendererMismatches ∧ mapFind m1.m_renderers sp = none)

/-- A sample game for concrete runs: only the path "a.mdl" loads (as model 7), every
other load throws, and a renderer can be built for skin 0 only. -/
def sampleAssets : AssetOps Unit where
  loadModel _ path w :=
    (if path.asString = "a.mdl" then Except.ok (some 7) else Except.error ⟨"missing"⟩, w)
  buildRenderer em skin _ w := (if skin = 0 then some (em + 100) else none, w)
  prepare _ w := w
  debug _ _ w := w
  vboActivate w := w
  vboDeactivate w := w
  vboMapped w := w
  vboRestore w := w

/-- A new manager without logger, after `reset` to game 1. -/
def sampleManager : EntityModelManager :=
  (EntityModelManager.reset sampleAssets (some 1) (EntityModelManager.new none) ()).1

end Assets

/-! Section: Renderer::MapRenderer (`Source/Renderer/MapRenderer.cpp`).

The model classes (`Model/Entity.h`, `Model/Brush.h`, `Model/Face.h`, ...), the vertex
buffer (`Renderer/Vbo.h`) and the preferences are declared outside the translated
sources. An object pointer is modelled by the values the renderer reads through it. A
`std::vector::size()` is a `size_t` and a loop counter is assumed not to wrap; the
`unsigned int` accumulators and offsets are kept modulo 2^32. -/

namespace Renderer

/-- An `unsigned int` holds its value modulo 2^32. -/
def u32 (n : Nat) : Nat := n % 4294967296

/-- The bit pattern of a `float`; the renderer copies such values and never computes
with them. -/
abbrev GLfloat := Nat

/-- A `Vec2f`. -/
structure Vec2f where
  x : GLfloat
  y : GLfloat
  deriving DecidableEq, Repr

/-- A `Vec3f`. -/
structure Vec3f where
  x : GLfloat
  y : GLfloat
  z : GLfloat
  deriving DecidableEq, Repr

/-- A `Color` (a `Vec4f`). -/
structure Color where
  x : GLfloat
  y : GLfloat
  z : GLfloat
  w : GLfloat
  deriving DecidableEq, Repr

/-- Constant `IndexSize = sizeof(GLuint)`. -/
def IndexSize : Nat := 4

/-- Constant `VertexSize = 3 * sizeof(GLfloat)`. -/
def VertexSize : Nat := 3 * 4

/-- Constant `ColorSize`. -/
def ColorSize : Nat := 4

/-- Constant `TexCoordSize = 2 * sizeof(GLfloat)`. -/
def TexCoordSize : Nat := 2 * 4

/-- Constant `FaceVertexSize`. -/
def FaceVertexSize : Nat := TexCoordSize + TexCoordSize + VertexSize

/-- Constant `EdgeVertexSize`. -/
def EdgeVertexSize : Nat := ColorSize + VertexSize

/-- Constant `EntityBoundsVertexSize`. -/
def EntityBoundsVertexSize : Nat := ColorSize + VertexSize

/-- What one `writeVec` or `writeColor` call stores in a block. -/
inductive BlockItem where
  | vec2 (v : Vec2f)
  | vec3 (v : Vec3f)
  | color (c : Color)
  deriving DecidableEq, Repr

/-- The number of bytes an item takes in a block: two or three floats, or four colour
bytes. -/
def BlockItem.size : BlockItem → Nat
  | BlockItem.vec2 _ => TexCoordSize
  | BlockItem.vec3 _ => VertexSize
  | BlockItem.color _ => ColorSize

/-- One write into a block: the offset it was made at and the item. -/
structure BlockWrite where
  offset : Nat
  item : BlockItem
  deriving DecidableEq, Repr

/-- Modelled from the spec: `VboBlock` is declared outside the translated sources. A block
is "an allocated GPU buffer region": its address in the buffer, the size it was allocated
with, and the writes made into it so far, in the order they were made. -/
structure VboBlock where
  address : Nat
  capacity : Nat
  writes : List BlockWrite
  deriving DecidableEq, Repr

/-- Embeds the statement `offset = block.writeVec(value, offset)` (and `writeColor`): the
item is stored at the offset and the `unsigned int` offset moves behind it. -/
def put (item : BlockItem) (s : VboBlock × Nat) : VboBlock × Nat :=
  ({ s.1 with writes := s.1.writes ++ [{ offset := s.2, item := item }] },
    u32 (s.2 + item.size))

/-- The items written into a block, in order. -/
def VboBlock.items (b : VboBlock) : List BlockItem := b.writes.map BlockWrite.item

/-- The number of bytes written into a block. -/
def VboBlock.bytesWritten (b : VboBlock) : Nat := (b.items.map BlockItem.size).sum

/-- Identity of a `Model::Texture` object. -/
abbrev Texture := Nat

/-- Identity of an `EntityRenderer` object. -/
abbrev EntityRenderer := Nat

/-- The values of `EntityDefinition::Type`. -/
inductive DefinitionType where
  | PointEntity
  | BrushEntity
  | BaseEntity
  deriving DecidableEq, Repr

/-- What the renderer reads of a `Model::EntityDefinition`: `type()` and `color()`. -/
structure EntityDefinition where
  type : DefinitionType
  color : Color
  deriving DecidableEq, Repr

/-- A `Model::Edge`: the positions of `start` and `end`. -/
structure Edge where
  startPosition : Vec3f
  endPosition : Vec3f
  deriving DecidableEq, Repr

/-- Modelled from the spec: a face has a "vertex list (≥3, polygon order), per-vertex
texture and lightmap coordinates"; entry `j` holds `vertices()[j]->position`,
`texCoords()[j]` and `gridCoords()[j]`. -/
structure FaceVertex where
  position : Vec3f
  texCoord : Vec2f
  gridCoord : Vec2f
  deriving DecidableEq, Repr

/-- What the renderer reads through `brush->entity()` when it writes edges:
`worldspawn()` and `definition()`. -/
structure Owner where
  worldspawn : Bool
  definition : Option EntityDefinition
  deriving DecidableEq, Repr

/-- What the renderer reads of a `Model::Face`: `selected()`, the vertices with their
coordinates, `texture()` (nullable), `edges()`, and the owner reached by
`brush()->entity()`. -/
structure Face where
  selected : Bool
  vertices : List FaceVertex
  texture : Option Texture
  edges : List Edge
  owner : Owner
  deriving DecidableEq, Repr

/-- What the renderer reads of a `Model::Brush`: `selected()`, `locked()`,
`partiallySelected()`, `edges()`, `faces()`, and the owner reached by `entity()`. -/
structure Brush where
  selected : Bool
  locked : Bool
  partiallySelected : Bool
  edges : List Edge
  faces : List Face
  owner : Owner
  deriving DecidableEq, Repr

/-- A `BBox`: its two corners. -/
structure BBox where
  min : Vec3f
  max : Vec3f
  deriving DecidableEq, Repr

/-- What the renderer reads of a `Model::Entity`: its identity (the pointer),
`selected()`, `locked()`, `partiallySelected()`, `worldspawn()`, `definition()`
(nullable), `brushes()`, `bounds()` and `classname()` (a nullable pointer to the value). -/
structure Entity where
  id : Nat
  selected : Bool
  locked : Bool
  partiallySelected : Bool
  worldspawn : Bool
  definition : Option EntityDefinition
  brushes : List Brush
  bounds : BBox
  classname : Option String
  deriving DecidableEq, Repr

/-- The `Model::Filter` reached by `context.filter()`. -/
structure Filter where
  brushVisible : Brush → Bool
  entityVisible : Entity → Bool

/-- What the rebuild reads of a `RenderContext`. -/
structure RenderContext where
  filter : Filter

/-- The colours read from the `PreferenceManager`: `EdgeColor` and `EntityBoundsColor`. -/
structure Preferences where
  edgeColor : Color
  entityBoundsColor : Color
  deriving DecidableEq, Repr

/-- What the renderer reads of the `MapDocument`: `Map().entities()` and `Mods()`. -/
structure MapDocument where
  entities : List Entity
  mods : List String
  deriving DecidableEq, Repr

/-- A `TexturedTriangleRenderInfo(texture, offset, vertexCount)`. -/
structure TexturedTriangleRenderInfo where
  texture : Texture
  offset : Nat
  vertexCount : Nat
  deriving DecidableEq, Repr

/-- An `EdgeRenderInfo(offset, vertexCount)`. -/
structure EdgeRenderInfo where
  offset : Nat
  vertexCount : Nat
  deriving DecidableEq, Repr

/-- A `FacesByTexture`: a `std::map` from texture pointer to face list, kept in key
order. -/
abbrev FacesByTexture := List (Texture × List Face)

/-- Embeds `map.insert(pair(texture, FaceList())).first->second.push_back(face)`: the face
is appended to the list of its texture, which is created empty when the map has none. -/
def insertFace : FacesByTexture → Texture → Face → FacesByTexture
  | [], texture, face => [(texture, [face])]
  | (k, faces) :: rest, texture, face =>
    if texture = k then (k, faces ++ [face]) :: rest
    else if texture < k then (texture, [face]) :: (k, faces) :: rest
    else (k, faces) :: insertFace rest texture face

/-- The face list stored under a texture (empty when there is none). -/
def facesOf : FacesByTexture → Texture → List Face
  | [], _ => []
  | (k, faces) :: rest, texture => if texture = k then faces else facesOf rest texture

/-- All faces of a map, group by group. -/
def allFaces (m : FacesByTexture) : List Face := m.flatMap (fun g => g.2)


/-- The three writes of one vertex tuple of `writeFaceData`: grid coordinate, texture
coordinate, position. -/
def putVertex (v : FaceVertex) (s : VboBlock × Nat) : VboBlock × Nat :=
  put (BlockItem.vec3 v.position) (put (BlockItem.vec2 v.texCoord)
    (put (BlockItem.vec2 v.gridCoord) s))

/-- The loop `for (j = 1; j < vertices.size() - 1; j++)` of `writeFaceData`, from counter
`j` with `k` iterations left: vertex 0, vertex `j`, vertex `j + 1`. `none` when an index
is out of range. -/
def writeFan (vertices : List FaceVertex) : Nat → Nat → VboBlock × Nat → Option (VboBlock × Nat)
  | _, 0, s => some s
  | j, k + 1, s =>
    match vertices[0]?, vertices[j]?, vertices[j + 1]? with
    | some v0, some vj, some vj1 =>
      writeFan vertices (j + 1) k (putVertex vj1 (putVertex vj (putVertex v0 s)))
    | _, _, _ => none

/-- The `size_t` value of `3 * vertices.size() - 6`, which wraps below two vertices. -/
def fanVertexCount (n : Nat) : Nat :=
  if 2 ≤ n then 3 * n - 6 else 3 * n + 18446744073709551616 - 6

/-- The body of the loop over the faces of one texture in `writeFaceData`, on the block
with its offset and the `vertexCount` of the texture. With no vertex, `size() - 1` wraps
and the first read is out of range. -/
def writeFace (face : Face) (s : (VboBlock × Nat) × Nat) : Option ((VboBlock × Nat) × Nat) :=
  if face.vertices.length = 0 then none
  else
    match writeFan face.vertices 1 (face.vertices.length - 2) s.1 with
    | none => none
    | some s1 => some (s1, u32 (s.2 + fanVertexCount face.vertices.length))

/-- The loop over the faces of one texture in `writeFaceData`. -/
def writeFaces : List Face → (VboBlock × Nat) × Nat → Option ((VboBlock × Nat) × Nat)
  | [], s => some s
  | face :: rest, s =>
    match writeFace face s with
    | none => none
    | some s1 => writeFaces rest s1

/-- The loop over the textures in `writeFaceData`: `address` is where the next group
starts, the state is the block with its offset and the render infos so far. -/
def writeFaceGroups : FacesByTexture → Nat → (VboBlock × Nat) × List TexturedTriangleRenderInfo →
    Option ((VboBlock × Nat) × List TexturedTriangleRenderInfo)
  | [], _, s => some s
  | (texture, faces) :: rest, address, s =>
    match writeFaces faces (s.1, 0) with
    | none => none
    | some (s1, vertexCount) =>
      writeFaceGroups rest (u32 (s1.1.address + s1.2))
        (s1, s.2 ++ [{ texture := texture, offset := address, vertexCount := vertexCount }])

/-- Embeds `MapRenderer::writeFaceData`: the render infos and the block afterwards. -/
def writeFaceData (facesByTexture : FacesByTexture)
    (renderInfos : List TexturedTriangleRenderInfo) (block : VboBlock) :
    Option (List TexturedTriangleRenderInfo × VboBlock) :=
  if facesByTexture.isEmpty then some (renderInfos, block)
  else
    match writeFaceGroups facesByTexture block.address ((block, 0), renderInfos) with
    | none => none
    | some (s1, infos) => some (infos, s1.1)

/-- The colour `writeEdgeData` gives the edges of a brush: the definition's colour for a
brush entity other than worldspawn, the world colour otherwise. -/
def edgeColor (worldColor : Color) (owner : Owner) : Color :=
  match owner.definition with
  | none => worldColor
  | some definition =>
    if !owner.worldspawn && definition.type == DefinitionType.BrushEntity then definition.color
    else worldColor

/-- The four writes of one edge in `writeEdgeData`. -/
def putEdge (color : Color) (edge : Edge) (s : VboBlock × Nat) : VboBlock × Nat :=
  put (BlockItem.vec3 edge.endPosition) (put (BlockItem.color color)
    (put (BlockItem.vec3 edge.startPosition) (put (BlockItem.color color) s)))

/-- The loop over the edges of one brush or face in `writeEdgeData`. -/
def writeEdges (color : Color) : List Edge → VboBlock × Nat → VboBlock × Nat
  | [], s => s
  | edge :: rest, s => writeEdges color rest (putEdge color edge s)

/-- The loop over the brushes in `writeEdgeData`, on the block with its offset and the
`vertexCount`. -/
def writeBrushEdges (worldColor : Color) : List Brush → (VboBlock × Nat) × Nat →
    (VboBlock × Nat) × Nat
  | [], s => s
  | brush :: rest, s =>
    writeBrushEdges worldColor rest
      (writeEdges (edgeColor worldColor brush.owner) brush.edges s.1,
        u32 (s.2 + 2 * brush.edges.length))

/-- The loop over the faces in `writeEdgeData`. -/
def writeFaceEdges (worldColor : Color) : List Face → (VboBlock × Nat) × Nat →
    (VboBlock × Nat) × Nat
  | [], s => s
  | face :: rest, s =>
    writeFaceEdges worldColor rest
      (writeEdges (edgeColor worldColor face.owner) face.edges s.1,
        u32 (s.2 + 2 * face.edges.length))

/-- Embeds `MapRenderer::writeEdgeData`: the render info and the block afterwards. -/
def writeEdgeData (prefs : Preferences) (brushes : List Brush) (faces : List Face)
    (renderInfo : EdgeRenderInfo) (block : VboBlock) : EdgeRenderInfo × VboBlock :=
  if brushes.isEmpty && faces.isEmpty then (renderInfo, block)
  else
    ({ offset := block.address,
       vertexCount :=
        (writeFaceEdges prefs.edgeColor faces
          (writeBrushEdges prefs.edgeColor brushes ((block, 0), 0))).2 },
      (writeFaceEdges prefs.edgeColor faces
        (writeBrushEdges prefs.edgeColor brushes ((block, 0), 0))).1.1)

/-- The local variables of `rebuildGeometryData` that the collecting loop fills. -/
structure GeometryCollection where
  unselectedFaces : FacesByTexture
  selectedFaces : FacesByTexture
  lockedFaces : FacesByTexture
  totalUnselectedFaceVertexCount : Nat
  totalSelectedFaceVertexCount : Nat
  totalLockedFaceVertexCount : Nat
  unselectedWorldBrushes : List Brush
  unselectedEntityBrushes : List Brush
  selectedBrushes : List Brush
  lockedBrushes : List Brush
  partiallySelectedBrushFaces : List Face
  totalUnselectedEdgeVertexCount : Nat
  totalSelectedEdgeVertexCount : Nat
  totalLockedEdgeVertexCount : Nat
  deriving DecidableEq, Repr

/-- The local variables as declared: empty containers and zero counts. -/
def GeometryCollection.empty : GeometryCollection :=
  { unselectedFaces := [], selectedFaces := [], lockedFaces := [],
    totalUnselectedFaceVertexCount := 0, totalSelectedFaceVertexCount := 0,
    totalLockedFaceVertexCount := 0,
    unselectedWorldBrushes := [], unselectedEntityBrushes := [], selectedBrushes := [],
    lockedBrushes := [], partiallySelectedBrushFaces := [],
    totalUnselectedEdgeVertexCount := 0, totalSelectedEdgeVertexCount := 0,
    totalLockedEdgeVertexCount := 0 }

/-- The list `unselectedBrushes` merged after the loop: world brushes, then entity
brushes. -/
def GeometryCollection.unselectedBrushes (c : GeometryCollection) : List Brush :=
  c.unselectedWorldBrushes ++ c.unselectedEntityBrushes

/-- The loop over the faces of a partially selected brush: a selected face is appended
to `partiallySelectedBrushFaces` and counted for the selected edges. -/
def collectSelectedFaces : List Face → GeometryCollection → GeometryCollection
  | [], c => c
  | face :: rest, c =>
    if face.selected then
      collectSelectedFaces rest
        { c with
          partiallySelectedBrushFaces := c.partiallySelectedBrushFaces ++ [face],
          totalSelectedEdgeVertexCount :=
            u32 (c.totalSelectedEdgeVertexCount + 2 * face.edges.length) }
    else collectSelectedFaces rest c

/-- The first part of the body of the loop over the brushes, for a visible brush: the
brush goes to the selected, the locked or one of the two unselected lists. -/
def collectBrushEdges (entity : Entity) (brush : Brush) (c : GeometryCollection) :
    GeometryCollection :=
  if entity.selected || brush.selected then
    { c with
      selectedBrushes := c.selectedBrushes ++ [brush],
      totalSelectedEdgeVertexCount :=
        u32 (c.totalSelectedEdgeVertexCount + 2 * brush.edges.length) }
  else if entity.locked || brush.locked then
    { c with
      lockedBrushes := c.lockedBrushes ++ [brush],
      totalLockedEdgeVertexCount :=
        u32 (c.totalLockedEdgeVertexCount + 2 * brush.edges.length) }
  else
    let c1 : GeometryCollection :=
      if entity.worldspawn then
        { c with
          unselectedWorldBrushes := c.unselectedWorldBrushes ++ [brush],
          totalUnselectedEdgeVertexCount :=
            u32 (c.totalUnselectedEdgeVertexCount + 2 * brush.edges.length) }
      else
        { c with
          unselectedEntityBrushes := c.unselectedEntityBrushes ++ [brush],
          totalUnselectedEdgeVertexCount :=
            u32 (c.totalUnselectedEdgeVertexCount + 2 * brush.edges.length) }
    if brush.partiallySelected then collectSelectedFaces brush.faces c1 else c1

/-- The body of the loop over the faces of a visible brush: the assertion on the vertex
count (`none` when it fails), then the face goes to the selected, locked or unselected
map under its texture, or under the dummy texture when it has none. -/
def collectFace (dummyTexture : Texture) (entity : Entity) (brush : Brush) (face : Face)
    (c : GeometryCollection) : Option GeometryCollection :=
  if face.vertices.length < 3 then none
  else
    let texture := match face.texture with
      | some t => t
      | none => dummyTexture
    if entity.selected || brush.selected || face.selected then
      some { c with
        selectedFaces := insertFace c.selectedFaces texture face,
        totalSelectedFaceVertexCount :=
          u32 (c.totalSelectedFaceVertexCount + fanVertexCount face.vertices.length) }
    else if entity.locked || brush.locked then
      some { c with
        lockedFaces := insertFace c.lockedFaces texture face,
        totalLockedFaceVertexCount :=
          u32 (c.totalLockedFaceVertexCount + fanVertexCount face.vertices.length) }
    else
      some { c with
        unselectedFaces := insertFace c.unselectedFaces texture face,
        totalUnselectedFaceVertexCount :=
          u32 (c.totalUnselectedFaceVertexCount + fanVertexCount face.vertices.length) }

/-- The loop over the faces of a visible brush. -/
def collectFaces (dummyTexture : Texture) (entity : Entity) (brush : Brush) :
    List Face → GeometryCollection → Option GeometryCollection
  | [], c => some c
  | face :: rest, c =>
    match collectFace dummyTexture entity brush face c with
    | none => none
    | some c1 => collectFaces dummyTexture entity brush rest c1

/-- The loop over the brushes of an entity. -/
def collectBrushes (filter : Filter) (dummyTexture : Texture) (entity : Entity) :
    List Brush → GeometryCollection → Option GeometryCollection
  | [], c => some c
  | brush :: rest, c =>
    if filter.brushVisible brush then
      match collectFaces dummyTexture entity brush brush.faces
          (collectBrushEdges entity brush c) with
      | none => none
      | some c1 => collectBrushes filter dummyTexture entity rest c1
    else collectBrushes filter dummyTexture entity rest c

/-- The loop over the entities of the map ("collect all visible faces and brushes"). -/
def collectEntities (filter : Filter) (dummyTexture : Texture) :
    List Entity → GeometryCollection → Option GeometryCollection
  | [], c => some c
  | entity :: rest, c =>
    match collectBrushes filter dummyTexture entity entity.brushes c with
    | none => none
    | some c1 => collectEntities filter dummyTexture rest c1


/-- The three vertex buffers of the renderer: `m_faceVbo`, `m_edgeVbo`,
`m_entityBoundsVbo`. -/
inductive VboKind where
  | face
  | edge
  | entityBounds
  deriving DecidableEq, Repr

/-- The collaborators of the renderer that live outside the translated sources, acting on
the world `σ`: the `Vbo` calls (`allocBlock` returns the address of the new block),
`VboBlock::freeBlock`, and `EntityRendererManager::entityRenderer` (returns a nullable
pointer). -/
structure MapOps (σ : Type) where
  vboActivate : VboKind → σ → σ
  vboDeactivate : VboKind → σ → σ
  vboMap : VboKind → σ → σ
  vboUnmap : VboKind → σ → σ
  allocBlock : VboKind → Nat → σ → Nat × σ
  freeBlock : VboKind → VboBlock → σ → σ
  entityRenderer : Entity → List String → σ → Option EntityRenderer × σ

/-- One call of a collaborator of the renderer. -/
inductive MapCall where
  | vboActivate (vbo : VboKind)
  | vboDeactivate (vbo : VboKind)
  | vboMap (vbo : VboKind)
  | vboUnmap (vbo : VboKind)
  | allocBlock (vbo : VboKind) (size : Nat)
  | freeBlock (vbo : VboKind) (address : Nat)
  | entityRenderer (entity : Nat)
  deriving DecidableEq, Repr

/-- The same collaborators, each also appending its call to a log kept next to the world. -/
def MapOps.traced {σ : Type} (ops : MapOps σ) : MapOps (σ × List MapCall) where
  vboActivate vbo s := (ops.vboActivate vbo s.1, s.2 ++ [MapCall.vboActivate vbo])
  vboDeactivate vbo s := (ops.vboDeactivate vbo s.1, s.2 ++ [MapCall.vboDeactivate vbo])
  vboMap vbo s := (ops.vboMap vbo s.1, s.2 ++ [MapCall.vboMap vbo])
  vboUnmap vbo s := (ops.vboUnmap vbo s.1, s.2 ++ [MapCall.vboUnmap vbo])
  allocBlock vbo size s :=
    ((ops.allocBlock vbo size s.1).1,
      ((ops.allocBlock vbo size s.1).2, s.2 ++ [MapCall.allocBlock vbo size]))
  freeBlock vbo block s :=
    (ops.freeBlock vbo block s.1, s.2 ++ [MapCall.freeBlock vbo block.address])
  entityRenderer entity mods s :=
    ((ops.entityRenderer entity mods s.1).1,
      ((ops.entityRenderer entity mods s.1).2, s.2 ++ [MapCall.entityRenderer entity.id]))

/-- A `CachedEntityRenderer(renderer, classname)`. -/
structure CachedEntityRenderer where
  renderer : EntityRenderer
  classname : String
  deriving DecidableEq, Repr

/-- An `EntityRenderers` map, keyed by the entity pointer. -/
abbrev EntityRenderers := List (Nat × CachedEntityRenderer)

/-- Modelled from the spec: `Text::TextRenderer` is declared outside the translated
sources; it holds the "label registrations", one string per entity key. -/
abbrev TextRenderer := List (Nat × String)

/-- Embeds `map[key] = value` and, modelled from the spec, `TextRenderer::addString`:
the entry of the key is overwritten, or added. -/
def assign {ν : Type} : List (Nat × ν) → Nat → ν → List (Nat × ν)
  | [], key, value => [(key, value)]
  | (k, v) :: rest, key, value =>
    if k = key then (k, value) :: rest else (k, v) :: assign rest key value

/-- Embeds `map.erase(key)` and, modelled from the spec, `TextRenderer::removeString`. -/
def erase {ν : Type} (m : List (Nat × ν)) (key : Nat) : List (Nat × ν) :=
  m.filter (fun e => e.1 ≠ key)

/-- The value stored under a key, if any. -/
def find {ν : Type} : List (Nat × ν) → Nat → Option ν
  | [], _ => none
  | (k, v) :: rest, key => if k = key then some v else find rest key

/-- Modelled from the spec: `TextRenderer::transferString(key, destination)` moves the
registration of the key, when there is one, from this renderer to the destination. -/
def transferString (source destination : TextRenderer) (key : Nat) :
    TextRenderer × TextRenderer :=
  match find source key with
  | none => (source, destination)
  | some s => (erase source key, assign destination key s)

/-- The fields of `MapRenderer` (the three `Vbo` objects, the entity renderer manager and
the string manager are in the world). -/
structure MapRenderer where
  m_faceBlock : Option VboBlock
  m_selectedFaceBlock : Option VboBlock
  m_lockedFaceBlock : Option VboBlock
  m_edgeBlock : Option VboBlock
  m_selectedEdgeBlock : Option VboBlock
  m_lockedEdgeBlock : Option VboBlock
  m_entityBoundsBlock : Option VboBlock
  m_selectedEntityBoundsBlock : Option VboBlock
  m_lockedEntityBoundsBlock : Option VboBlock
  m_faceRenderInfos : List TexturedTriangleRenderInfo
  m_selectedFaceRenderInfos : List TexturedTriangleRenderInfo
  m_lockedFaceRenderInfos : List TexturedTriangleRenderInfo
  m_edgeRenderInfo : EdgeRenderInfo
  m_selectedEdgeRenderInfo : EdgeRenderInfo
  m_lockedEdgeRenderInfo : EdgeRenderInfo
  m_entityBoundsRenderInfo : EdgeRenderInfo
  m_selectedEntityBoundsRenderInfo : EdgeRenderInfo
  m_lockedEntityBoundsRenderInfo : EdgeRenderInfo
  m_geometryDataValid : Bool
  m_selectedGeometryDataValid : Bool
  m_lockedGeometryDataValid : Bool
  m_entityDataValid : Bool
  m_selectedEntityDataValid : Bool
  m_lockedEntityDataValid : Bool
  m_entityRendererCacheValid : Bool
  m_entityRenderers : EntityRenderers
  m_selectedEntityRenderers : EntityRenderers
  m_lockedEntityRenderers : EntityRenderers
  m_classnameRenderer : TextRenderer
  m_selectedClassnameRenderer : TextRenderer
  m_lockedClassnameRenderer : TextRenderer
  m_dummyTexture : Texture
  deriving DecidableEq, Repr

/-- Embeds `if (block != NULL) block->freeBlock();` (the caller then stores `NULL`). -/
def freeIfAllocated {σ : Type} (ops : MapOps σ) (vbo : VboKind) (block : Option VboBlock)
    (w : σ) : σ :=
  match block with
  | none => w
  | some b => ops.freeBlock vbo b w

/-- Embeds `block = vbo->allocBlock(size)`: a block at the address the buffer hands out,
of the requested size, with nothing written. -/
def allocate {σ : Type} (ops : MapOps σ) (vbo : VboKind) (size : Nat) (w : σ) : VboBlock × σ :=
  ({ address := (ops.allocBlock vbo size w).1, capacity := size, writes := [] },
    (ops.allocBlock vbo size w).2)

namespace MapRenderer

/-- Embeds `MapRenderer::MapRenderer`: no blocks, no render infos, the six data flags false, the
entity renderer cache flag true, empty maps; `dummyTexture` is the texture created by the
constructor. -/
def new (dummyTexture : Texture) : MapRenderer :=
  { m_faceBlock := none, m_selectedFaceBlock := none, m_lockedFaceBlock := none,
    m_edgeBlock := none, m_selectedEdgeBlock := none, m_lockedEdgeBlock := none,
    m_entityBoundsBlock := none, m_selectedEntityBoundsBlock := none,
    m_lockedEntityBoundsBlock := none,
    m_faceRenderInfos := [], m_selectedFaceRenderInfos := [], m_lockedFaceRenderInfos := [],
    m_edgeRenderInfo := ⟨0, 0⟩, m_selectedEdgeRenderInfo := ⟨0, 0⟩,
    m_lockedEdgeRenderInfo := ⟨0, 0⟩,
    m_entityBoundsRenderInfo := ⟨0, 0⟩, m_selectedEntityBoundsRenderInfo := ⟨0, 0⟩,
    m_lockedEntityBoundsRenderInfo := ⟨0, 0⟩,
    m_geometryDataValid := false, m_selectedGeometryDataValid := false,
    m_lockedGeometryDataValid := false,
    m_entityDataValid := false, m_selectedEntityDataValid := false,
    m_lockedEntityDataValid := false,
    m_entityRendererCacheValid := true,
    m_entityRenderers := [], m_selectedEntityRenderers := [], m_lockedEntityRenderers := [],
    m_classnameRenderer := [], m_selectedClassnameRenderer := [],
    m_lockedClassnameRenderer := [],
    m_dummyTexture := dummyTexture }

/-- The first three blocks of `rebuildGeometryData`: for each invalid aspect the face and
edge blocks are freed and set to `NULL` and the render infos are reset. -/
def resetGeometry {σ : Type} (ops : MapOps σ) (m : MapRenderer) (w : σ) : MapRenderer × σ :=
  let s1 : MapRenderer × σ :=
    if !m.m_geometryDataValid then
      ({ m with m_faceBlock := none, m_edgeBlock := none, m_faceRenderInfos := [],
                m_edgeRenderInfo := ⟨0, 0⟩ },
        freeIfAllocated ops VboKind.edge m.m_edgeBlock
          (freeIfAllocated ops VboKind.face m.m_faceBlock w))
    else (m, w)
  let s2 : MapRenderer × σ :=
    if !s1.1.m_selectedGeometryDataValid then
      ({ s1.1 with m_selectedFaceBlock := none, m_selectedEdgeBlock := none,
                   m_selectedFaceRenderInfos := [], m_selectedEdgeRenderInfo := ⟨0, 0⟩ },
        freeIfAllocated ops VboKind.edge s1.1.m_selectedEdgeBlock
          (freeIfAllocated ops VboKind.face s1.1.m_selectedFaceBlock s1.2))
    else s1
  if !s2.1.m_lockedGeometryDataValid then
    ({ s2.1 with m_lockedFaceBlock := none, m_lockedEdgeBlock := none,
                 m_lockedFaceRenderInfos := [], m_lockedEdgeRenderInfo := ⟨0, 0⟩ },
      freeIfAllocated ops VboKind.edge s2.1.m_lockedEdgeBlock
        (freeIfAllocated ops VboKind.face s2.1.m_lockedFaceBlock s2.2))
  else s2

/-- The three `allocBlock` statements for the face blocks ("write face triangles"). -/
def allocFaceBlocks {σ : Type} (ops : MapOps σ) (c : GeometryCollection) (m : MapRenderer)
    (w : σ) : MapRenderer × σ :=
  let s1 : MapRenderer × σ :=
    if !m.m_geometryDataValid && !c.unselectedFaces.isEmpty then
      ({ m with m_faceBlock := some (allocate ops VboKind.face
          (u32 (c.totalUnselectedFaceVertexCount * FaceVertexSize)) w).1 },
        (allocate ops VboKind.face (u32 (c.totalUnselectedFaceVertexCount * FaceVertexSize)) w).2)
    else (m, w)
  let s2 : MapRenderer × σ :=
    if !s1.1.m_selectedGeometryDataValid && !c.selectedFaces.isEmpty then
      ({ s1.1 with m_selectedFaceBlock := some (allocate ops VboKind.face
          (u32 (c.totalSelectedFaceVertexCount * FaceVertexSize)) s1.2).1 },
        (allocate ops VboKind.face
          (u32 (c.totalSelectedFaceVertexCount * FaceVertexSize)) s1.2).2)
    else s1
  if !s2.1.m_lockedGeometryDataValid && !c.lockedFaces.isEmpty then
    ({ s2.1 with m_lockedFaceBlock := some (allocate ops VboKind.face
        (u32 (c.totalLockedFaceVertexCount * FaceVertexSize)) s2.2).1 },
      (allocate ops VboKind.face (u32 (c.totalLockedFaceVertexCount * FaceVertexSize)) s2.2).2)
  else s2

/-- The first `writeFaceData` statement (unselected faces); `none` when the block pointer
that is dereferenced is null or a read in `writeFaceData` is out of range. -/
def writeUnselectedFaces (c : GeometryCollection) (m : MapRenderer) : Option MapRenderer :=
  if !m.m_geometryDataValid && !c.unselectedFaces.isEmpty then
    match m.m_faceBlock with
    | none => none
    | some block =>
      match writeFaceData c.unselectedFaces m.m_faceRenderInfos block with
      | none => none
      | some r => some { m with m_faceRenderInfos := r.1, m_faceBlock := some r.2 }
  else some m

/-- The second `writeFaceData` statement (selected faces). -/
def writeSelectedFaces (c : GeometryCollection) (m : MapRenderer) : Option MapRenderer :=
  if !m.m_selectedGeometryDataValid && !c.selectedFaces.isEmpty then
    match m.m_selectedFaceBlock with
    | none => none
    | some block =>
      match writeFaceData c.selectedFaces m.m_selectedFaceRenderInfos block with
      | none => none
      | some r =>
        some { m with m_selectedFaceRenderInfos := r.1, m_selectedFaceBlock := some r.2 }
  else some m

/-- The third `writeFaceData` statement (locked faces). -/
def writeLockedFaces (c : GeometryCollection) (m : MapRenderer) : Option MapRenderer :=
  if !m.m_lockedGeometryDataValid && !c.lockedFaces.isEmpty then
    match m.m_lockedFaceBlock with
    | none => none
    | some block =>
      match writeFaceData c.lockedFaces m.m_lockedFaceRenderInfos block with
      | none => none
      | some r => some { m with m_lockedFaceRenderInfos := r.1, m_lockedFaceBlock := some r.2 }
  else some m

/-- The three `writeFaceData` statements in order. -/
def writeFaceBlocks (c : GeometryCollection) (m : MapRenderer) : Option MapRenderer :=
  (writeUnselectedFaces c m).bind (fun m1 =>
    (writeSelectedFaces c m1).bind (fun m2 => writeLockedFaces c m2))

/-- The three `allocBlock` statements for the edge blocks ("write edges"). -/
def allocEdgeBlocks {σ : Type} (ops : MapOps σ) (c : GeometryCollection) (m : MapRenderer)
    (w : σ) : MapRenderer × σ :=
  let s1 : MapRenderer × σ :=
    if !m.m_geometryDataValid && !c.unselectedBrushes.isEmpty then
      ({ m with m_edgeBlock := some (allocate ops VboKind.edge
          (u32 (c.totalUnselectedEdgeVertexCount * EdgeVertexSize)) w).1 },
        (allocate ops VboKind.edge (u32 (c.totalUnselectedEdgeVertexCount * EdgeVertexSize)) w).2)
    else (m, w)
  let s2 : MapRenderer × σ :=
    if !s1.1.m_selectedGeometryDataValid &&
        (!c.selectedBrushes.isEmpty || !c.partiallySelectedBrushFaces.isEmpty) then
      ({ s1.1 with m_selectedEdgeBlock := some (allocate ops VboKind.edge
          (u32 (c.totalSelectedEdgeVertexCount * EdgeVertexSize)) s1.2).1 },
        (allocate ops VboKind.edge
          (u32 (c.totalSelectedEdgeVertexCount * EdgeVertexSize)) s1.2).2)
    else s1
  if !s2.1.m_lockedGeometryDataValid && !c.lockedBrushes.isEmpty then
    ({ s2.1 with m_lockedEdgeBlock := some (allocate ops VboKind.edge
        (u32 (c.totalLockedEdgeVertexCount * EdgeVertexSize)) s2.2).1 },
      (allocate ops VboKind.edge (u32 (c.totalLockedEdgeVertexCount * EdgeVertexSize)) s2.2).2)
  else s2

/-- The first `writeEdgeData` statement (unselected brushes); `none` when the block
pointer that is dereferenced is null. -/
def writeUnselectedEdges (prefs : Preferences) (c : GeometryCollection) (m : MapRenderer) :
    Option MapRenderer :=
  if !m.m_geometryDataValid && !c.unselectedBrushes.isEmpty then
    match m.m_edgeBlock with
    | none => none
    | some block =>
      some { m with
        m_edgeRenderInfo :=
          (writeEdgeData prefs c.unselectedBrushes [] m.m_edgeRenderInfo block).1,
        m_edgeBlock :=
          some (writeEdgeData prefs c.unselectedBrushes [] m.m_edgeRenderInfo block).2 }
  else some m

/-- The second `writeEdgeData` statement (selected brushes and the selected faces of
partially selected brushes). -/
def writeSelectedEdges (prefs : Preferences) (c : GeometryCollection) (m : MapRenderer) :
    Option MapRenderer :=
  if !m.m_selectedGeometryDataValid &&
      (!c.selectedBrushes.isEmpty || !c.partiallySelectedBrushFaces.isEmpty) then
    match m.m_selectedEdgeBlock with
    | none => none
    | some block =>
      some { m with
        m_selectedEdgeRenderInfo := (writeEdgeData prefs c.selectedBrushes
          c.partiallySelectedBrushFaces m.m_selectedEdgeRenderInfo block).1,
        m_selectedEdgeBlock := some (writeEdgeData prefs c.selectedBrushes
          c.partiallySelectedBrushFaces m.m_selectedEdgeRenderInfo block).2 }
  else some m

/-- The third `writeEdgeData` statement (locked brushes). -/
def writeLockedEdges (prefs : Preferences) (c : GeometryCollection) (m : MapRenderer) :
    Option MapRenderer :=
  if !m.m_lockedGeometryDataValid && !c.lockedBrushes.isEmpty then
    match m.m_lockedEdgeBlock with
    | none => none
    | some block =>
      some { m with
        m_lockedEdgeRenderInfo :=
          (writeEdgeData prefs c.lockedBrushes [] m.m_lockedEdgeRenderInfo block).1,
        m_lockedEdgeBlock :=
          some (writeEdgeData prefs c.lockedBrushes [] m.m_lockedEdgeRenderInfo block).2 }
  else some m

/-- The three `writeEdgeData` statements in order. -/
def writeEdgeBlocks (prefs : Preferences) (c : GeometryCollection) (m : MapRenderer) :
    Option MapRenderer :=
  (writeUnselectedEdges prefs c m).bind (fun m1 =>
    (writeSelectedEdges prefs c m1).bind (fun m2 => writeLockedEdges prefs c m2))

/-- Embeds `MapRenderer::rebuildGeometryData`; `none` when the assertion on a face fails (or a
null block would be dereferenced). -/
def rebuildGeometryData {σ : Type} (ops : MapOps σ) (prefs : Preferences)
    (document : MapDocument) (context : RenderContext) (m : MapRenderer) (w : σ) :
    Option (MapRenderer × σ) :=
  let s1 := resetGeometry ops m w
  match collectEntities context.filter m.m_dummyTexture document.entities
      GeometryCollection.empty with
  | none => none
  | some c =>
    let s2 := allocFaceBlocks ops c s1.1 (ops.vboMap VboKind.face
      (ops.vboActivate VboKind.face s1.2))
    match writeFaceBlocks c s2.1 with
    | none => none
    | some m3 =>
      let s4 := allocEdgeBlocks ops c m3 (ops.vboMap VboKind.edge
        (ops.vboActivate VboKind.edge (ops.vboDeactivate VboKind.face
          (ops.vboUnmap VboKind.face s2.2))))
      match writeEdgeBlocks prefs c s4.1 with
      | none => none
      | some m5 =>
        some ({ m5 with m_geometryDataValid := true, m_selectedGeometryDataValid := true,
                        m_lockedGeometryDataValid := true },
          ops.vboDeactivate VboKind.edge (ops.vboUnmap VboKind.edge s4.2))

end MapRenderer


/-- Modelled from the spec: `BBox::vertices` is declared outside the translated sources;
it fills the list with the end points of the "bounding-box's 12 edges (24 vertices)". -/
def BBox.vertices (b : BBox) : List Vec3f :=
  [⟨b.min.x, b.min.y, b.min.z⟩, ⟨b.max.x, b.min.y, b.min.z⟩,
   ⟨b.min.x, b.min.y, b.min.z⟩, ⟨b.min.x, b.max.y, b.min.z⟩,
   ⟨b.min.x, b.min.y, b.min.z⟩, ⟨b.min.x, b.min.y, b.max.z⟩,
   ⟨b.max.x, b.max.y, b.max.z⟩, ⟨b.min.x, b.max.y, b.max.z⟩,
   ⟨b.max.x, b.max.y, b.max.z⟩, ⟨b.max.x, b.min.y, b.max.z⟩,
   ⟨b.max.x, b.max.y, b.max.z⟩, ⟨b.max.x, b.max.y, b.min.z⟩,
   ⟨b.max.x, b.min.y, b.min.z⟩, ⟨b.max.x, b.max.y, b.min.z⟩,
   ⟨b.max.x, b.min.y, b.min.z⟩, ⟨b.max.x, b.min.y, b.max.z⟩,
   ⟨b.min.x, b.max.y, b.min.z⟩, ⟨b.max.x, b.max.y, b.min.z⟩,
   ⟨b.min.x, b.max.y, b.min.z⟩, ⟨b.min.x, b.max.y, b.max.z⟩,
   ⟨b.min.x, b.min.y, b.max.z⟩, ⟨b.max.x, b.min.y, b.max.z⟩,
   ⟨b.min.x, b.min.y, b.max.z⟩, ⟨b.min.x, b.max.y, b.max.z⟩]

/-- The colour `writeEntityBounds` gives an entity: the definition's colour with the
alpha of the preference colour, or the preference colour when there is no definition. -/
def entityBoundsColor (prefs : Preferences) (entity : Entity) : Color :=
  match entity.definition with
  | some definition => { definition.color with w := prefs.entityBoundsColor.w }
  | none => prefs.entityBoundsColor

/-- The loop over the vertices of one bounding box in `writeEntityBounds`. -/
def writeBoundsVertices (color : Color) : List Vec3f → VboBlock × Nat → VboBlock × Nat
  | [], s => s
  | v :: rest, s =>
    writeBoundsVertices color rest (put (BlockItem.vec3 v) (put (BlockItem.color color) s))

/-- The loop over the entities in `writeEntityBounds`, on the block with its offset and
the `vertexCount`. -/
def writeEntitiesBounds (prefs : Preferences) : List Entity → (VboBlock × Nat) × Nat →
    (VboBlock × Nat) × Nat
  | [], s => s
  | entity :: rest, s =>
    writeEntitiesBounds prefs rest
      (writeBoundsVertices (entityBoundsColor prefs entity) entity.bounds.vertices s.1,
        u32 (s.2 + entity.bounds.vertices.length))

/-- Embeds `MapRenderer::writeEntityBounds`: the render info and the block afterwards. -/
def writeEntityBounds (prefs : Preferences) (entities : List Entity)
    (renderInfo : EdgeRenderInfo) (block : VboBlock) : EdgeRenderInfo × VboBlock :=
  if entities.isEmpty then (renderInfo, block)
  else
    ({ offset := block.address,
       vertexCount := (writeEntitiesBounds prefs entities ((block, 0), 0)).2 },
      (writeEntitiesBounds prefs entities ((block, 0), 0)).1.1)

/-- The lists `allEntities`, `allSelectedEntities` and `allLockedEntities` that
`rebuildEntityData` collects. -/
structure EntityCollection where
  allEntities : List Entity
  allSelectedEntities : List Entity
  allLockedEntities : List Entity
  deriving DecidableEq, Repr

/-- The loop "collect all model entities" of `rebuildEntityData`. -/
def collectBoundsEntities (filter : Filter) : List Entity → EntityCollection → EntityCollection
  | [], c => c
  | entity :: rest, c =>
    if filter.entityVisible entity then
      if entity.selected || entity.partiallySelected then
        collectBoundsEntities filter rest
          { c with allSelectedEntities := c.allSelectedEntities ++ [entity] }
      else if entity.locked then
        collectBoundsEntities filter rest
          { c with allLockedEntities := c.allLockedEntities ++ [entity] }
      else
        collectBoundsEntities filter rest { c with allEntities := c.allEntities ++ [entity] }
    else collectBoundsEntities filter rest c

/-- The block size `rebuildEntityData` asks for: `2 * 4 * 6 * size` vertices of
`EntityBoundsVertexSize` bytes, in `unsigned int` arithmetic. -/
def entityBoundsBlockSize (count : Nat) : Nat :=
  u32 (u32 (2 * 4 * 6 * u32 count) * EntityBoundsVertexSize)

/-- The values of `Model::EditState` the renderer refers to. -/
inductive EditState where
  | Default
  | Selected
  | Locked
  deriving DecidableEq, Repr

/-- What the renderer reads of a `Model::EditStateChangeSet`. -/
structure EditStateChangeSet where
  entityStateChangedFrom : EditState → Bool
  entityStateChangedTo : EditState → Bool
  brushStateChangedFrom : EditState → Bool
  brushStateChangedTo : EditState → Bool
  faceSelectionChanged : Bool
  entitiesFrom : EditState → List Entity
  entitiesTo : EditState → List Entity

namespace MapRenderer

/-- The first three blocks of `rebuildEntityData`: for each invalid aspect the bounds
block is freed and set to `NULL` and the render info is reset. -/
def resetEntityData {σ : Type} (ops : MapOps σ) (m : MapRenderer) (w : σ) : MapRenderer × σ :=
  let s1 : MapRenderer × σ :=
    if !m.m_entityDataValid then
      ({ m with m_entityBoundsBlock := none, m_entityBoundsRenderInfo := ⟨0, 0⟩ },
        freeIfAllocated ops VboKind.entityBounds m.m_entityBoundsBlock w)
    else (m, w)
  let s2 : MapRenderer × σ :=
    if !s1.1.m_selectedEntityDataValid then
      ({ s1.1 with m_selectedEntityBoundsBlock := none,
                   m_selectedEntityBoundsRenderInfo := ⟨0, 0⟩ },
        freeIfAllocated ops VboKind.entityBounds s1.1.m_selectedEntityBoundsBlock s1.2)
    else s1
  if !s2.1.m_lockedEntityDataValid then
    ({ s2.1 with m_lockedEntityBoundsBlock := none,
                 m_lockedEntityBoundsRenderInfo := ⟨0, 0⟩ },
      freeIfAllocated ops VboKind.entityBounds s2.1.m_lockedEntityBoundsBlock s2.2)
  else s2

/-- The three `allocBlock` statements of `rebuildEntityData`. -/
def allocBoundsBlocks {σ : Type} (ops : MapOps σ) (c : EntityCollection) (m : MapRenderer)
    (w : σ) : MapRenderer × σ :=
  let s1 : MapRenderer × σ :=
    if !m.m_entityDataValid && !c.allEntities.isEmpty then
      ({ m with m_entityBoundsBlock := some (allocate ops VboKind.entityBounds
          (entityBoundsBlockSize c.allEntities.length) w).1 },
        (allocate ops VboKind.entityBounds (entityBoundsBlockSize c.allEntities.length) w).2)
    else (m, w)
  let s2 : MapRenderer × σ :=
    if !s1.1.m_selectedEntityDataValid && !c.allSelectedEntities.isEmpty then
      ({ s1.1 with m_selectedEntityBoundsBlock := some (allocate ops VboKind.entityBounds
          (entityBoundsBlockSize c.allSelectedEntities.length) s1.2).1 },
        (allocate ops VboKind.entityBounds
          (entityBoundsBlockSize c.allSelectedEntities.length) s1.2).2)
    else s1
  if !s2.1.m_lockedEntityDataValid && !c.allLockedEntities.isEmpty then
    ({ s2.1 with m_lockedEntityBoundsBlock := some (allocate ops VboKind.entityBounds
        (entityBoundsBlockSize c.allLockedEntities.length) s2.2).1 },
      (allocate ops VboKind.entityBounds
        (entityBoundsBlockSize c.allLockedEntities.length) s2.2).2)
  else s2

/-- The first `writeEntityBounds` statement (normal entities); `none` when the block
pointer that is dereferenced is null. -/
def writeNormalBounds (prefs : Preferences) (c : EntityCollection) (m : MapRenderer) :
    Option MapRenderer :=
  if !m.m_entityDataValid && !c.allEntities.isEmpty then
    match m.m_entityBoundsBlock with
    | none => none
    | some block =>
      some { m with
        m_entityBoundsRenderInfo :=
          (writeEntityBounds prefs c.allEntities m.m_entityBoundsRenderInfo block).1,
        m_entityBoundsBlock :=
          some (writeEntityBounds prefs c.allEntities m.m_entityBoundsRenderInfo block).2 }
  else some m

/-- The second `writeEntityBounds` statement (selected entities). -/
def writeSelectedBounds (prefs : Preferences) (c : EntityCollection) (m : MapRenderer) :
    Option MapRenderer :=
  if !m.m_selectedEntityDataValid && !c.allSelectedEntities.isEmpty then
    match m.m_selectedEntityBoundsBlock with
    | none => none
    | some block =>
      some { m with
        m_selectedEntityBoundsRenderInfo := (writeEntityBounds prefs c.allSelectedEntities
          m.m_selectedEntityBoundsRenderInfo block).1,
        m_selectedEntityBoundsBlock := some (writeEntityBounds prefs c.allSelectedEntities
          m.m_selectedEntityBoundsRenderInfo block).2 }
  else some m

/-- The third `writeEntityBounds` statement (locked entities). -/
def writeLockedBounds (prefs : Preferences) (c : EntityCollection) (m : MapRenderer) :
    Option MapRenderer :=
  if !m.m_lockedEntityDataValid && !c.allLockedEntities.isEmpty then
    match m.m_lockedEntityBoundsBlock with
    | none => none
    | some block =>
      some { m with
        m_lockedEntityBoundsRenderInfo := (writeEntityBounds prefs c.allLockedEntities
          m.m_lockedEntityBoundsRenderInfo block).1,
        m_lockedEntityBoundsBlock := some (writeEntityBounds prefs c.allLockedEntities
          m.m_lockedEntityBoundsRenderInfo block).2 }
  else some m

/-- The three `writeEntityBounds` statements in order. -/
def writeBoundsBlocks (prefs : Preferences) (c : EntityCollection) (m : MapRenderer) :
    Option MapRenderer :=
  (writeNormalBounds prefs c m).bind (fun m1 =>
    (writeSelectedBounds prefs c m1).bind (fun m2 => writeLockedBounds prefs c m2))

/-- Embeds `MapRenderer::rebuildEntityData`; `none` when a null block would be dereferenced. -/
def rebuildEntityData {σ : Type} (ops : MapOps σ) (prefs : Preferences)
    (document : MapDocument) (context : RenderContext) (m : MapRenderer) (w : σ) :
    Option (MapRenderer × σ) :=
  let s1 := resetEntityData ops m w
  let c := collectBoundsEntities context.filter document.entities ⟨[], [], []⟩
  let s2 := allocBoundsBlocks ops c s1.1 (ops.vboMap VboKind.entityBounds
    (ops.vboActivate VboKind.entityBounds s1.2))
  match writeBoundsBlocks prefs c s2.1 with
  | none => none
  | some m3 =>
    some ({ m3 with m_entityDataValid := true, m_selectedEntityDataValid := true,
                    m_lockedEntityDataValid := true },
      ops.vboDeactivate VboKind.entityBounds (ops.vboUnmap VboKind.entityBounds s2.2))

/-- The loop of `reloadEntityModels(context)`: an entity with a renderer goes to the
selected, the locked or the normal map; `none` when `classname()` is null where it is
dereferenced. -/
def reloadEach {σ : Type} (ops : MapOps σ) (mods : List String) :
    List Entity → MapRenderer → σ → Option (MapRenderer × σ)
  | [], m, w => some (m, w)
  | entity :: rest, m, w =>
    match ops.entityRenderer entity mods w with
    | (none, w1) => reloadEach ops mods rest m w1
    | (some renderer, w1) =>
      match entity.classname with
      | none => none
      | some classname =>
        if entity.selected then
          reloadEach ops mods rest
            { m with m_selectedEntityRenderers :=
                assign m.m_selectedEntityRenderers entity.id ⟨renderer, classname⟩ } w1
        else if entity.locked then
          reloadEach ops mods rest
            { m with m_lockedEntityRenderers :=
                assign m.m_lockedEntityRenderers entity.id ⟨renderer, classname⟩ } w1
        else
          reloadEach ops mods rest
            { m with m_entityRenderers :=
                assign m.m_entityRenderers entity.id ⟨renderer, classname⟩ } w1

/-- Embeds `MapRenderer::reloadEntityModels(context)`: the normal and the selected map are
cleared, every entity of the map is looked up again, and the cache flag is set. -/
def reloadEntityModels {σ : Type} (ops : MapOps σ) (document : MapDocument) (m : MapRenderer)
    (w : σ) : Option (MapRenderer × σ) :=
  match reloadEach ops document.mods document.entities
      { m with m_entityRenderers := [], m_selectedEntityRenderers := [] } w with
  | none => none
  | some (m1, w1) => some ({ m1 with m_entityRendererCacheValid := true }, w1)

/-- The first statement of `validate`: the entity renderers are reloaded when the cache
flag is false. -/
def validateEntityRenderers {σ : Type} (ops : MapOps σ) (document : MapDocument)
    (s : MapRenderer × σ) : Option (MapRenderer × σ) :=
  if !s.1.m_entityRendererCacheValid then reloadEntityModels ops document s.1 s.2
  else some s

/-- The second statement of `validate`: the geometry data is rebuilt when one of its three
flags is false. -/
def validateGeometry {σ : Type} (ops : MapOps σ) (prefs : Preferences) (document : MapDocument)
    (context : RenderContext) (s : MapRenderer × σ) : Option (MapRenderer × σ) :=
  if !s.1.m_geometryDataValid || !s.1.m_selectedGeometryDataValid ||
      !s.1.m_lockedGeometryDataValid then
    rebuildGeometryData ops prefs document context s.1 s.2
  else some s

/-- The third statement of `validate`: the entity data is rebuilt when one of its three
flags is false. -/
def validateEntityData {σ : Type} (ops : MapOps σ) (prefs : Preferences)
    (document : MapDocument) (context : RenderContext) (s : MapRenderer × σ) :
    Option (MapRenderer × σ) :=
  if !s.1.m_entityDataValid || !s.1.m_selectedEntityDataValid ||
      !s.1.m_lockedEntityDataValid then
    rebuildEntityData ops prefs document context s.1 s.2
  else some s

/-- Embeds `MapRenderer::validate`: its three statements in order. -/
def validate {σ : Type} (ops : MapOps σ) (prefs : Preferences) (document : MapDocument)
    (context : RenderContext) (m : MapRenderer) (w : σ) : Option (MapRenderer × σ) :=
  (validateEntityRenderers ops document (m, w)).bind (fun s1 =>
    (validateGeometry ops prefs document context s1).bind (fun s2 =>
      validateEntityData ops prefs document context s2))

/-- The loop of `addEntities`: the renderer of the entity, when there is one, is cached
in the normal map, and the classname is registered; `none` when `classname()` is null. -/
def addEach {σ : Type} (ops : MapOps σ) (mods : List String) :
    List Entity → MapRenderer → σ → Option (MapRenderer × σ)
  | [], m, w => some (m, w)
  | entity :: rest, m, w =>
    match ops.entityRenderer entity mods w with
    | (renderer, w1) =>
      match entity.classname with
      | none => none
      | some classname =>
        match renderer with
        | none =>
          addEach ops mods rest
            { m with m_classnameRenderer := assign m.m_classnameRenderer entity.id classname } w1
        | some r =>
          addEach ops mods rest
            { m with
              m_entityRenderers := assign m.m_entityRenderers entity.id ⟨r, classname⟩,
              m_classnameRenderer := assign m.m_classnameRenderer entity.id classname } w1

/-- Embeds `MapRenderer::addEntities`. -/
def addEntities {σ : Type} (ops : MapOps σ) (document : MapDocument) (entities : List Entity)
    (m : MapRenderer) (w : σ) : Option (MapRenderer × σ) :=
  match addEach ops document.mods entities m w with
  | none => none
  | some (m1, w1) => some ({ m1 with m_entityDataValid := false }, w1)

/-- The loop of `removeEntities`. -/
def removeEach : List Entity → MapRenderer → MapRenderer
  | [], m => m
  | entity :: rest, m =>
    removeEach rest
      { m with m_entityRenderers := erase m.m_entityRenderers entity.id,
               m_classnameRenderer := erase m.m_classnameRenderer entity.id }

/-- Embeds `MapRenderer::removeEntities`. -/
def removeEntities (entities : List Entity) (m : MapRenderer) : MapRenderer :=
  { removeEach entities m with m_entityDataValid := false }

/-- The loops of `changeEditState` that move classname registrations from the normal
renderer to the selected one. -/
def transferToSelected : List Entity → MapRenderer → MapRenderer
  | [], m => m
  | entity :: rest, m =>
    transferToSelected rest
      { m with
        m_classnameRenderer :=
          (transferString m.m_classnameRenderer m.m_selectedClassnameRenderer entity.id).1,
        m_selectedClassnameRenderer :=
          (transferString m.m_classnameRenderer m.m_selectedClassnameRenderer entity.id).2 }

/-- From the selected renderer back to the normal one. -/
def transferFromSelected : List Entity → MapRenderer → MapRenderer
  | [], m => m
  | entity :: rest, m =>
    transferFromSelected rest
      { m with
        m_selectedClassnameRenderer :=
          (transferString m.m_selectedClassnameRenderer m.m_classnameRenderer entity.id).1,
        m_classnameRenderer :=
          (transferString m.m_selectedClassnameRenderer m.m_classnameRenderer entity.id).2 }

/-- From the normal renderer to the locked one. -/
def transferToLocked : List Entity → MapRenderer → MapRenderer
  | [], m => m
  | entity :: rest, m =>
    transferToLocked rest
      { m with
        m_classnameRenderer :=
          (transferString m.m_classnameRenderer m.m_lockedClassnameRenderer entity.id).1,
        m_lockedClassnameRenderer :=
          (transferString m.m_classnameRenderer m.m_lockedClassnameRenderer entity.id).2 }

/-- From the locked renderer back to the normal one. -/
def transferFromLocked : List Entity → MapRenderer → MapRenderer
  | [], m => m
  | entity :: rest, m =>
    transferFromLocked rest
      { m with
        m_lockedClassnameRenderer :=
          (transferString m.m_lockedClassnameRenderer m.m_classnameRenderer entity.id).1,
        m_classnameRenderer :=
          (transferString m.m_lockedClassnameRenderer m.m_classnameRenderer entity.id).2 }

/-- The first block of `changeEditState`: entities changed from or to `Default`. -/
def changeEntityDefault (changeSet : EditStateChangeSet) (m : MapRenderer) : MapRenderer :=
  if changeSet.entityStateChangedFrom EditState.Default ||
      changeSet.entityStateChangedTo EditState.Default then
    { m with m_entityDataValid := false }
  else m

/-- The second block of `changeEditState`: entities changed from or to `Selected`. -/
def changeEntitySelected (changeSet : EditStateChangeSet) (m : MapRenderer) : MapRenderer :=
  if changeSet.entityStateChangedFrom EditState.Selected ||
      changeSet.entityStateChangedTo EditState.Selected then
    transferFromSelected (changeSet.entitiesFrom EditState.Selected)
      (transferToSelected (changeSet.entitiesTo EditState.Selected)
        { m with m_selectedEntityDataValid := false })
  else m

/-- The third block of `changeEditState`: entities changed from or to `Locked`. -/
def changeEntityLocked (changeSet : EditStateChangeSet) (m : MapRenderer) : MapRenderer :=
  if changeSet.entityStateChangedFrom EditState.Locked ||
      changeSet.entityStateChangedTo EditState.Locked then
    transferFromLocked (changeSet.entitiesFrom EditState.Locked)
      (transferToLocked (changeSet.entitiesTo EditState.Locked)
        { m with m_lockedEntityDataValid := false })
  else m

/-- The fourth block of `changeEditState`: brushes changed from or to `Default`, or the
face selection changed. -/
def changeBrushDefault (changeSet : EditStateChangeSet) (m : MapRenderer) : MapRenderer :=
  if changeSet.brushStateChangedFrom EditState.Default ||
      changeSet.brushStateChangedTo EditState.Default || changeSet.faceSelectionChanged then
    { m with m_geometryDataValid := false }
  else m

/-- The fifth block of `changeEditState`: brushes changed from or to `Selected`, or the
face selection changed. -/
def changeBrushSelected (changeSet : EditStateChangeSet) (m : MapRenderer) : MapRenderer :=
  if changeSet.brushStateChangedFrom EditState.Selected ||
      changeSet.brushStateChangedTo EditState.Selected || changeSet.faceSelectionChanged then
    { m with m_selectedGeometryDataValid := false }
  else m

/-- The sixth block of `changeEditState`: brushes changed from or to `Locked`, or the
face selection changed. -/
def changeBrushLocked (changeSet : EditStateChangeSet) (m : MapRenderer) : MapRenderer :=
  if changeSet.brushStateChangedFrom EditState.Locked ||
      changeSet.brushStateChangedTo EditState.Locked || changeSet.faceSelectionChanged then
    { m with m_lockedGeometryDataValid := false }
  else m

/-- Embeds `MapRenderer::changeEditState`: its six blocks in order. -/
def changeEditState (changeSet : EditStateChangeSet) (m : MapRenderer) : MapRenderer :=
  changeBrushLocked changeSet (changeBrushSelected changeSet (changeBrushDefault changeSet
    (changeEntityLocked changeSet (changeEntitySelected changeSet
      (changeEntityDefault changeSet m)))))

/-- Embeds `MapRenderer::loadMap`. -/
def loadMap {σ : Type} (ops : MapOps σ) (document : MapDocument) (m : MapRenderer) (w : σ) :
    Option (MapRenderer × σ) :=
  match addEntities ops document document.entities m w with
  | none => none
  | some (m1, w1) =>
    some ({ m1 with m_geometryDataValid := false, m_selectedGeometryDataValid := false,
                    m_lockedGeometryDataValid := false, m_entityDataValid := false,
                    m_selectedEntityDataValid := false, m_lockedEntityDataValid := false },
      w1)

/-- Embeds `MapRenderer::clearMap`. -/
def clearMap (m : MapRenderer) : MapRenderer :=
  { m with m_entityRenderers := [], m_selectedEntityRenderers := [],
           m_classnameRenderer := [], m_selectedClassnameRenderer := [],
           m_geometryDataValid := false, m_selectedGeometryDataValid := false,
           m_lockedGeometryDataValid := false, m_entityDataValid := false,
           m_selectedEntityDataValid := false, m_lockedEntityDataValid := false }

end MapRenderer

/-- The seven validity flags of a renderer, in the order geometry, selected geometry,
locked geometry, entity data, selected entity data, locked entity data, entity renderer
cache. -/
def MapRenderer.flags (m : MapRenderer) : List Bool :=
  [m.m_geometryDataValid, m.m_selectedGeometryDataValid, m.m_lockedGeometryDataValid,
   m.m_entityDataValid, m.m_selectedEntityDataValid, m.m_lockedEntityDataValid,
   m.m_entityRendererCacheValid]

/-- The three state classes of a partition. -/
inductive Bucket where
  | selected
  | locked
  | normal
  deriving DecidableEq, Repr

/-- The brushes that pass the visibility filter, each with its owning entity, in the
order of the map. -/
def visibleBrushes (filter : Filter) (entities : List Entity) : List (Entity × Brush) :=
  entities.flatMap (fun e => (e.brushes.filter filter.brushVisible).map (fun b => (e, b)))

/-- The faces of a brush, each with the brush and its entity. -/
def brushFaces (p : Entity × Brush) : List (Entity × Brush × Face) :=
  p.2.faces.map (fun f => (p.1, p.2, f))

/-- The faces of the brushes that pass the visibility filter, each with its brush and
entity, in the order of the map. -/
def visibleFaces (filter : Filter) (entities : List Entity) : List (Entity × Brush × Face) :=
  (visibleBrushes filter entities).flatMap brushFaces

/-- The state class of a brush: selected if it or its entity is selected, otherwise locked
if it or its entity is locked, otherwise normal. -/
def brushBucket (p : Entity × Brush) : Bucket :=
  if p.1.selected || p.2.selected then Bucket.selected
  else if p.1.locked || p.2.locked then Bucket.locked
  else Bucket.normal

/-- The state class of a face: selected if it, its brush or its entity is selected,
otherwise locked if its brush or entity is locked, otherwise normal. -/
def faceBucket (p : Entity × Brush × Face) : Bucket :=
  if p.1.selected || p.2.1.selected || p.2.2.selected then Bucket.selected
  else if p.1.locked || p.2.1.locked then Bucket.locked
  else Bucket.normal

/-- The texture a face is grouped under: its own, or the dummy texture. -/
def faceTexture (dummyTexture : Texture) (face : Face) : Texture :=
  match face.texture with
  | some t => t
  | none => dummyTexture

/-- The face map of a state class among the collected local variables. -/
def GeometryCollection.faces (c : GeometryCollection) : Bucket → FacesByTexture
  | Bucket.selected => c.selectedFaces
  | Bucket.locked => c.lockedFaces
  | Bucket.normal => c.unselectedFaces

/-- The brush list of a state class among the collected local variables. -/
def GeometryCollection.brushes (c : GeometryCollection) : Bucket → List Brush
  | Bucket.selected => c.selectedBrushes
  | Bucket.locked => c.lockedBrushes
  | Bucket.normal => c.unselectedBrushes

/-- A sample face vertex. -/
def sampleVertex (n : Nat) : FaceVertex := ⟨⟨n, 0, 0⟩, ⟨n, 1⟩, ⟨n, 2⟩⟩

/-- A sample edge. -/
def sampleEdge (n : Nat) : Edge := ⟨⟨n, 0, 0⟩, ⟨n, 1, 0⟩⟩

/-- A sample face with `n` vertices and `n` edges. -/
def sampleFace (selected : Bool) (n : Nat) (texture : Option Texture) : Face :=
  { selected := selected, vertices := (List.range n).map sampleVertex, texture := texture,
    edges := (List.range n).map sampleEdge, owner := ⟨true, none⟩ }

/-- A sample brush with six edges. -/
def sampleBrush (selected locked partiallySelected : Bool) (faces : List Face) : Brush :=
  { selected := selected, locked := locked, partiallySelected := partiallySelected,
    edges := (List.range 6).map sampleEdge, faces := faces, owner := ⟨true, none⟩ }

/-- A sample worldspawn entity, neither selected nor locked. -/
def sampleWorld (brushes : List Brush) : Entity :=
  { id := 1, selected := false, locked := false, partiallySelected := false,
    worldspawn := true, definition := none, brushes := brushes,
    bounds := ⟨⟨0, 0, 0⟩, ⟨1, 1, 1⟩⟩, classname := some "worldspawn" }

/-- Sample collaborators: blocks are handed out back to back, the world being the next
free address, and no entity has a renderer. -/
def sampleMapOps : MapOps Nat where
  vboActivate _ w := w
  vboDeactivate _ w := w
  vboMap _ w := w
  vboUnmap _ w := w
  allocBlock _ size w := (w, w + size)
  freeBlock _ _ w := w
  entityRenderer _ _ w := (none, w)

/-- A sample context whose filter shows everything. -/
def sampleContext : RenderContext := ⟨⟨fun _ => true, fun _ => true⟩⟩

/-- Sample preference colours. -/
def samplePreferences : Preferences := ⟨⟨1, 1, 1, 1⟩, ⟨2, 2, 2, 2⟩⟩

/-- A sample map: one selected brush and one partially selected brush, of whose two
faces one is selected. -/
def sampleDocument : MapDocument :=
  ⟨[sampleWorld [sampleBrush true false false [sampleFace false 3 none],
      sampleBrush false false true [sampleFace true 3 none, sampleFace false 4 (some 9)]]], []⟩

/-- A sample map with one brush that is locked and partially selected: of its two faces
one is selected. -/
def lockedPartialDocument : MapDocument :=
  ⟨[sampleWorld [sampleBrush false true true
      [sampleFace true 3 none, sampleFace false 4 (some 9)]]], []⟩

/-- No validity flag that is false in `m` is true in `m1`. -/
def NoFlagRaised (m m1 : MapRenderer) : Prop :=
  List.Forall₂ (fun before after => after = true → before = true) m.flags m1.flags

/-- The brushes of a state class among the visible brushes. -/
def brushesOf (k : Bucket) (brushes : List (Entity × Brush)) : List Brush :=
  (brushes.filter (fun p => brushBucket p = k)).map (fun p => p.2)

/-- The unselected brushes among the visible brushes in the order of the merged list:
those of worldspawn entities first, then those of the other entities. -/
def unselectedOf (brushes : List (Entity × Brush)) : List Brush :=
  (brushes.filter (fun p => brushBucket p = Bucket.normal && p.1.worldspawn)).map
      (fun p => p.2) ++
    (brushes.filter (fun p => brushBucket p = Bucket.normal && !p.1.worldspawn)).map
      (fun p => p.2)

/-- The selected faces of the visible brushes that are routed to the normal class and are
partially selected. -/
def partialFacesOf (brushes : List (Entity × Brush)) : List Face :=
  (brushes.filter (fun p => brushBucket p = Bucket.normal && p.2.partiallySelected)).flatMap
    (fun p => p.2.faces.filter (fun f => f.selected))

/-- The faces of a state class among the visible faces. -/
def facesIn (k : Bucket) (faces : List (Entity × Brush × Face)) : List Face :=
  (faces.filter (fun p => faceBucket p = k)).map (fun p => p.2.2)

/-- Two vertices per edge of each brush. -/
def brushEdgeVertices (brushes : List Brush) : Nat :=
  (brushes.map (fun b => 2 * b.edges.length)).sum

/-- Two vertices per edge of each face. -/
def faceEdgeVertices (faces : List Face) : Nat :=
  (faces.map (fun f => 2 * f.edges.length)).sum

/-- The sum of `3 * N - 6` over faces with `N` vertices each. -/
def fanVertices (faces : List Face) : Nat :=
  (faces.map (fun f => fanVertexCount f.vertices.length)).sum

/-- The faces inserted one after the other into a face map, each under its texture. -/
def insertFaces (dummyTexture : Texture) : List Face → FacesByTexture → FacesByTexture
  | [], m => m
  | face :: rest, m =>
    insertFaces dummyTexture rest (insertFace m (faceTexture dummyTexture face) face)

/-- The local variables of `rebuildGeometryData` after the collecting loop has gone through
the given visible brushes and visible faces, starting from the values `c`: a description
of what the loop computes, used to state its result. -/
def collected (dummyTexture : Texture) (brushes : List (Entity × Brush))
    (faces : List (Entity × Brush × Face)) (c : GeometryCollection) : GeometryCollection :=
  { unselectedFaces := insertFaces dummyTexture (facesIn Bucket.normal faces) c.unselectedFaces,
    selectedFaces := insertFaces dummyTexture (facesIn Bucket.selected faces) c.selectedFaces,
    lockedFaces := insertFaces dummyTexture (facesIn Bucket.locked faces) c.lockedFaces,
    totalUnselectedFaceVertexCount :=
      u32 (c.totalUnselectedFaceVertexCount + fanVertices (facesIn Bucket.normal faces)),
    totalSelectedFaceVertexCount :=
      u32 (c.totalSelectedFaceVertexCount + fanVertices (facesIn Bucket.selected faces)),
    totalLockedFaceVertexCount :=
      u32 (c.totalLockedFaceVertexCount + fanVertices (facesIn Bucket.locked faces)),
    unselectedWorldBrushes := c.unselectedWorldBrushes ++
      (brushes.filter (fun p => brushBucket p = Bucket.normal && p.1.worldspawn)).map
        (fun p => p.2),
    unselectedEntityBrushes := c.unselectedEntityBrushes ++
      (brushes.filter (fun p => brushBucket p = Bucket.normal && !p.1.worldspawn)).map
        (fun p => p.2),
    selectedBrushes := c.selectedBrushes ++ brushesOf Bucket.selected brushes,
    lockedBrushes := c.lockedBrushes ++ brushesOf Bucket.locked brushes,
    partiallySelectedBrushFaces := c.partiallySelectedBrushFaces ++ partialFacesOf brushes,
    totalUnselectedEdgeVertexCount :=
      u32 (c.totalUnselectedEdgeVertexCount +
        brushEdgeVertices (brushesOf Bucket.normal brushes)),
    totalSelectedEdgeVertexCount :=
      u32 (c.totalSelectedEdgeVertexCount +
        (brushEdgeVertices (brushesOf Bucket.selected brushes) +
          faceEdgeVertices (partialFacesOf brushes))),
    totalLockedEdgeVertexCount :=
      u32 (c.totalLockedEdgeVertexCount +
        brushEdgeVertices (brushesOf Bucket.locked brushes)) }

/-- The six `unsigned int` counts among the collected local variables hold values below
2^32. -/
def GeometryCollection.InRange (c : GeometryCollection) : Prop :=
  c.totalUnselectedFaceVertexCount < 4294967296 ∧
  c.totalSelectedFaceVertexCount < 4294967296 ∧
  c.totalLockedFaceVertexCount < 4294967296 ∧
  c.totalUnselectedEdgeVertexCount < 4294967296 ∧
  c.totalSelectedEdgeVertexCount < 4294967296 ∧
  c.totalLockedEdgeVertexCount < 4294967296

/-- The assertion of the collecting loop holds for a face: it has at least three
vertices. -/
def faceOk (p : Entity × Brush × Face) : Bool := decide (3 ≤ p.2.2.vertices.length)

/-- The three items of one vertex tuple in a face block: grid coordinate, texture
coordinate, position. -/
def vertexTuple (v : FaceVertex) : List BlockItem :=
  [BlockItem.vec2 v.gridCoord, BlockItem.vec2 v.texCoord, BlockItem.vec3 v.position]

/-- The triangles of the fan of a vertex list anchored at its first vertex: for the
vertices `v0, v1, ..., v(N-1)` the triangles `(v0, vk, v(k+1))` for `k = 1, ..., N-2`. -/
def fanTriangles : List FaceVertex → List (FaceVertex × FaceVertex × FaceVertex)
  | [] => []
  | v0 :: rest => (rest.zip rest.tail).map (fun p => (v0, p.1, p.2))

/-- The items of a triangle: the tuples of its three vertices in order. -/
def triangleItems (t : FaceVertex × FaceVertex × FaceVertex) : List BlockItem :=
  vertexTuple t.1 ++ vertexTuple t.2.1 ++ vertexTuple t.2.2

/-- The items of the fan of a face. -/
def faceItems (face : Face) : List BlockItem :=
  (fanTriangles face.vertices).flatMap triangleItems

/-- Between two states of a block with its offset, exactly the given items were written
behind what the block held: address and size are the same, the items are appended, and
the `unsigned int` offset has moved by their total size. -/
def Wrote (s s1 : VboBlock × Nat) (items : List BlockItem) : Prop :=
  s1.1.address = s.1.address ∧ s1.1.capacity = s.1.capacity ∧
  s1.1.items = s.1.items ++ items ∧
  s1.2 = u32 (s.2 + (items.map BlockItem.size).sum)

/-- The sizes of the `allocBlock` calls on the face buffer in a call log, in order. -/
def faceAllocs (log : List MapCall) : List Nat :=
  log.filterMap (fun call =>
    match call with
    | MapCall.allocBlock VboKind.face size => some size
    | _ => none)

/-- The sum over the faces of `3 * N - 6`, `N` being the number of vertices of the face. -/
def fanTotal (faces : List Face) : Nat :=
  (faces.map (fun f => 3 * f.vertices.length - 6)).sum

/-- The face block of a partition. -/
def MapRenderer.faceBlock (m : MapRenderer) : Bucket → Option VboBlock
  | Bucket.selected => m.m_selectedFaceBlock
  | Bucket.locked => m.m_lockedFaceBlock
  | Bucket.normal => m.m_faceBlock

/-- The validity flag of the geometry data of a partition. -/
def MapRenderer.geometryDataValid (m : MapRenderer) : Bucket → Bool
  | Bucket.selected => m.m_selectedGeometryDataValid
  | Bucket.locked => m.m_lockedGeometryDataValid
  | Bucket.normal => m.m_geometryDataValid

/-- The vertex count that the specification states for the selected-edge partition: twice
the number of edges of the visible selected brushes plus twice the number of edges of the
selected faces of the visible partially selected brushes. -/
def statedSelectedEdgeVertexCount (filter : Filter) (entities : List Entity) : Nat :=
  2 * (((visibleBrushes filter entities).filter (fun p => p.1.selected || p.2.selected)).map
      (fun p => p.2.edges.length)).sum +
    2 * ((((visibleBrushes filter entities).filter (fun p => p.2.partiallySelected)).flatMap
      (fun p => p.2.faces.filter (fun f => f.selected))).map (fun f => f.edges.length)).sum

/-- The vertices of the triangles of a fan, in the order they are written. -/
def fanVertexList (vertices : List FaceVertex) : List FaceVertex :=
  (fanTriangles vertices).flatMap (fun t => [t.1, t.2.1, t.2.2])

end Renderer

namespace View

/-- The list of the tools of a chain, from the head to the terminal node. -/
def ToolChain.tools : ToolChain → List ToolAdapter
  | ToolChain.mk none _ => []
  | ToolChain.mk (some t) none => [t]
  | ToolChain.mk (some t) (some s) => t :: tools s

/-- The replacement the specification describes for the linked chain: "an ordered,
growable sequence abstraction (dynamic array of tool handles)". -/
abbrev ToolList := List ToolAdapter

namespace ToolList

/-- Appending a tool to the sequence adds one element at its end. -/
def append (l : ToolList) (tool : ToolAdapter) : ToolList := l ++ [tool]

/-- A fan-out operation on the sequence: the handler is called for each tool in order. -/
def forEach {σ : Type} (handler : ToolAdapter → σ → σ) : ToolList → σ → σ
  | [], w => w
  | t :: rest, w => forEach handler rest (handler t w)

/-- A decision operation on the sequence, as a first-match search: the tools are asked in
order, the first tool that answers true is the result and no later tool is asked; without
such a tool the result is null. -/
def firstMatch {σ : Type} (handler : ToolAdapter → σ → Bool × σ) :
    ToolList → σ → Option ToolAdapter × σ
  | [], w => (none, w)
  | t :: rest, w =>
    if (handler t w).1 then (some t, (handler t w).2)
    else firstMatch handler rest (handler t w).2

end ToolList

end View

namespace Renderer

/-- A sample point entity with a classname, neither selected nor locked. -/
def sampleEntity : Entity :=
  { id := 2, selected := false, locked := false, partiallySelected := false,
    worldspawn := false, definition := none, brushes := [],
    bounds := ⟨⟨0, 0, 0⟩, ⟨1, 1, 1⟩⟩, classname := some "light" }

/-- The sample point entity once it is selected. -/
def sampleSelectedEntity : Entity := { sampleEntity with selected := true }

/-- A sample change set: the sample entity changed to `Selected`, nothing else. -/
def sampleSelectChange : EditStateChangeSet :=
  { entityStateChangedFrom := fun _ => false,
    entityStateChangedTo := fun s => decide (s = EditState.Selected),
    brushStateChangedFrom := fun _ => false,
    brushStateChangedTo := fun _ => false,
    faceSelectionChanged := false,
    entitiesFrom := fun _ => [],
    entitiesTo := fun s => if s = EditState.Selected then [sampleSelectedEntity] else [] }

/-- A sample change set: the face selection changed, nothing else. -/
def sampleFaceChange : EditStateChangeSet :=
  { entityStateChangedFrom := fun _ => false,
    entityStateChangedTo := fun _ => false,
    brushStateChangedFrom := fun _ => false,
    brushStateChangedTo := fun _ => false,
    faceSelectionChanged := true,
    entitiesFrom := fun _ => [],
    entitiesTo := fun _ => [] }

/-- A sample context whose filter hides the locked brushes and the locked entities. -/
def sampleHidingContext : RenderContext :=
  ⟨{ brushVisible := fun b => !b.locked, entityVisible := fun e => !e.locked }⟩

end Renderer

namespace Renderer

/-- The edge block of a partition. -/
def MapRenderer.edgeBlock (m : MapRenderer) : Bucket → Option VboBlock
  | Bucket.selected => m.m_selectedEdgeBlock
  | Bucket.locked => m.m_lockedEdgeBlock
  | Bucket.normal => m.m_edgeBlock

/-- The entity bounds block of a partition. -/
def MapRenderer.boundsBlock (m : MapRenderer) : Bucket → Option VboBlock
  | Bucket.selected => m.m_selectedEntityBoundsBlock
  | Bucket.locked => m.m_lockedEntityBoundsBlock
  | Bucket.normal => m.m_entityBoundsBlock

/-- The face render infos of a partition. -/
def MapRenderer.faceRenderInfos (m : MapRenderer) : Bucket → List TexturedTriangleRenderInfo
  | Bucket.selected => m.m_selectedFaceRenderInfos
  | Bucket.locked => m.m_lockedFaceRenderInfos
  | Bucket.normal => m.m_faceRenderInfos

/-- The edge render info of a partition. -/
def MapRenderer.edgeRenderInfo (m : MapRenderer) : Bucket → EdgeRenderInfo
  | Bucket.selected => m.m_selectedEdgeRenderInfo
  | Bucket.locked => m.m_lockedEdgeRenderInfo
  | Bucket.normal => m.m_edgeRenderInfo

/-- The entity bounds render info of a partition. -/
def MapRenderer.boundsRenderInfo (m : MapRenderer) : Bucket → EdgeRenderInfo
  | Bucket.selected => m.m_selectedEntityBoundsRenderInfo
  | Bucket.locked => m.m_lockedEntityBoundsRenderInfo
  | Bucket.normal => m.m_entityBoundsRenderInfo

/-- The validity flag of the entity data of a partition. -/
def MapRenderer.entityDataValid (m : MapRenderer) : Bucket → Bool
  | Bucket.selected => m.m_selectedEntityDataValid
  | Bucket.locked => m.m_lockedEntityDataValid
  | Bucket.normal => m.m_entityDataValid

/-- The block of a partition: a buffer (face, edge or entity bounds) and a state class. -/
def MapRenderer.block (m : MapRenderer) : VboKind → Bucket → Option VboBlock
  | VboKind.face, k => m.faceBlock k
  | VboKind.edge, k => m.edgeBlock k
  | VboKind.entityBounds, k => m.boundsBlock k

/-- The validity flag of the aspect a partition belongs to: the geometry flag of its state
class for a face or edge partition, the entity data flag for an entity bounds partition. -/
def MapRenderer.aspectValid (m : MapRenderer) : VboKind → Bucket → Bool
  | VboKind.face, k => m.geometryDataValid k
  | VboKind.edge, k => m.geometryDataValid k
  | VboKind.entityBounds, k => m.entityDataValid k

/-- The entity list of a state class among the lists `rebuildEntityData` collects. -/
def EntityCollection.entities (c : EntityCollection) : Bucket → List Entity
  | Bucket.selected => c.allSelectedEntities
  | Bucket.locked => c.allLockedEntities
  | Bucket.normal => c.allEntities

/-- The brushes whose edges go to the edge partition of a state class. -/
def edgeBrushes (filter : Filter) (entities : List Entity) : Bucket → List Brush
  | Bucket.selected => brushesOf Bucket.selected (visibleBrushes filter entities)
  | Bucket.locked => brushesOf Bucket.locked (visibleBrushes filter entities)
  | Bucket.normal => unselectedOf (visibleBrushes filter entities)

/-- The faces whose edges go to the edge partition of a state class: the selected faces
of the partially selected brushes for the selected partition, none for the others. -/
def edgeFaces (filter : Filter) (entities : List Entity) : Bucket → List Face
  | Bucket.selected => partialFacesOf (visibleBrushes filter entities)
  | Bucket.locked => []
  | Bucket.normal => []

/-- Whether the source set of a partition is non-empty for a document and a context: the
condition under which the rebuild allocates the block of the partition. -/
def sourceNonEmpty (document : MapDocument) (context : RenderContext) :
    VboKind → Bucket → Bool
  | VboKind.face, k => !(facesIn k (visibleFaces context.filter document.entities)).isEmpty
  | VboKind.edge, k =>
    !(edgeBrushes context.filter document.entities k).isEmpty ||
      !(edgeFaces context.filter document.entities k).isEmpty
  | VboKind.entityBounds, k =>
    !((collectBoundsEntities context.filter document.entities ⟨[], [], []⟩).entities k).isEmpty

/-- A call of one of the operations of the renderer that change its state, with the
document, the context and the preferences as they are at the time of the call. -/
inductive RendererCall where
  | addEntities (document : MapDocument) (entities : List Entity)
  | removeEntities (entities : List Entity)
  | changeEditState (changeSet : EditStateChangeSet)
  | loadMap (document : MapDocument)
  | clearMap
  | validate (prefs : Preferences) (document : MapDocument) (context : RenderContext)

/-- The effect of one call; `none` when the call does not complete. -/
def MapRenderer.call {σ : Type} (ops : MapOps σ) (call : RendererCall) (s : MapRenderer × σ) :
    Option (MapRenderer × σ) :=
  match call with
  | RendererCall.addEntities document entities =>
    MapRenderer.addEntities ops document entities s.1 s.2
  | RendererCall.removeEntities entities => some (MapRenderer.removeEntities entities s.1, s.2)
  | RendererCall.changeEditState changeSet =>
    some (MapRenderer.changeEditState changeSet s.1, s.2)
  | RendererCall.loadMap document => MapRenderer.loadMap ops document s.1 s.2
  | RendererCall.clearMap => some (MapRenderer.clearMap s.1, s.2)
  | RendererCall.validate prefs document context =>
    MapRenderer.validate ops prefs document context s.1 s.2

/-- For each partition, whether its source set was non-empty when the partition was last
rebuilt; false as long as it has not been rebuilt. -/
abbrev LastRebuild := VboKind → Bucket → Bool

/-- The record before any rebuild. -/
def LastRebuild.never : LastRebuild := fun _ _ => false

/-- How a call changes the record of the last rebuilds: `validate` rebuilds the partitions
whose flag is false when it is called, from the document and context of the call; no other
call rebuilds a partition. -/
def trackCall (call : RendererCall) (m : MapRenderer) (last : LastRebuild) : LastRebuild :=
  match call with
  | RendererCall.validate _ document context =>
    fun g k => if m.aspectValid g k then last g k else sourceNonEmpty document context g k
  | _ => last

/-- A run of calls from a state together with the record of the last rebuilds; `none` as
soon as a call does not complete. -/
def MapRenderer.calls {σ : Type} (ops : MapOps σ) :
    List RendererCall → (MapRenderer × σ) × LastRebuild → Option ((MapRenderer × σ) × LastRebuild)
  | [], s => some s
  | call :: rest, s =>
    match MapRenderer.call ops call s.1 with
    | none => none
    | some s1 => MapRenderer.calls ops rest (s1, trackCall call s.1.1 s.2)

/-- A sample brush that has neither faces nor edges. -/
def edgelessBrush : Brush :=
  { selected := false, locked := false, partiallySelected := false, edges := [], faces := [],
    owner := ⟨true, none⟩ }

/-- A sample map whose only brush, a world brush, has neither faces nor edges. -/
def edgelessDocument : MapDocument := ⟨[sampleWorld [edgelessBrush]], []⟩

/-- A sample state with valid and invalid aspects side by side: the state of a new
renderer after a `validate` on the sample map followed by the sample selection change, which
leaves every flag true except that of the selected entity data. -/
def sampleStaleState : MapRenderer × Nat :=
  match MapRenderer.validate sampleMapOps samplePreferences sampleDocument sampleContext
      (MapRenderer.new 0) 0 with
  | some r => (MapRenderer.changeEditState sampleSelectChange r.1, r.2)
  | none => (MapRenderer.new 0, 0)

end Renderer

namespace Assets

/-- The caches of a manager agree with each other: no path has both an entry in the model
cache and in the set of model mismatches, no specification has both an entry in the
renderer cache and in the set of renderer mismatches, and the path of every specification
with an entry in the renderer cache has an entry in the model cache. -/
def EntityModelManager.Consistent (m : EntityModelManager) : Prop :=
  (∀ p, (mapFind m.m_models p).isSome = true → p ∉ m.m_modelMismatches) ∧
  (∀ sp, (mapFind m.m_renderers sp).isSome = true → sp ∉ m.m_rendererMismatches) ∧
  (∀ sp, (mapFind m.m_renderers sp).isSome = true →
    (mapFind m.m_models sp.path).isSome = true)

end Assets

namespace Renderer

/-- The list an entity goes to in the collecting loop of `rebuildEntityData`. -/
def entityBucket (e : Entity) : Bucket :=
  if e.selected || e.partiallySelected then Bucket.selected
  else if e.locked then Bucket.locked
  else Bucket.normal

/-- The visible entities of a state class, in the order of the map. -/
def entitiesIn (filter : Filter) (k : Bucket) (entities : List Entity) : List Entity :=
  entities.filter (fun e => filter.entityVisible e && decide (entityBucket e = k))

end Renderer

namespace Renderer

/-- The writes that store the given items one behind the other from an offset on, the
offset moving in `unsigned int` arithmetic as `writeVec` and `writeColor` return it. -/
def layout : Nat → List BlockItem → List BlockWrite
  | _, [] => []
  | offset, item :: rest => ⟨offset, item⟩ :: layout (u32 (offset + item.size)) rest

/-- The offset behind the items stored from an offset on. -/
def layoutEnd : Nat → List BlockItem → Nat
  | offset, [] => offset
  | offset, item :: rest => layoutEnd (u32 (offset + item.size)) rest

/-- Between two states of a block with its offset, items were stored one behind the other
from the offset of the first state on, and nothing else was written. -/
def Laid (s s1 : VboBlock × Nat) : Prop :=
  ∃ items, s1.1.writes = s.1.writes ++ layout s.2 items ∧ s1.2 = layoutEnd s.2 items

/-- The vertex tuple in the order the specification states: texture coordinate, grid
coordinate, position. -/
def statedVertexTuple (v : FaceVertex) : List BlockItem :=
  [BlockItem.vec2 v.texCoord, BlockItem.vec2 v.gridCoord, BlockItem.vec3 v.position]

/-- The writes of the vertex tuples number `i`, `i + 1`, ... of a face block: tuple `i`
starts at byte `FaceVertexSize * i` with the grid coordinate, has the texture coordinate
`TexCoordSize` bytes further and the position `TexCoordSize + TexCoordSize` bytes further,
which are the offsets `renderFaces` passes to `glTexCoordPointer` and `glVertexPointer`. -/
def tupleWritesFrom : Nat → List FaceVertex → List BlockWrite
  | _, [] => []
  | i, v :: rest =>
    ⟨FaceVertexSize * i, BlockItem.vec2 v.gridCoord⟩ ::
    ⟨FaceVertexSize * i + TexCoordSize, BlockItem.vec2 v.texCoord⟩ ::
    ⟨FaceVertexSize * i + (TexCoordSize + TexCoordSize), BlockItem.vec3 v.position⟩ ::
    tupleWritesFrom (i + 1) rest

/-- The vertices whose tuples `writeFaceData` writes for a face map, in the order they are
written: group by group and face by face, the vertices of the triangles of the fan. -/
def writtenVertices (facesByTexture : FacesByTexture) : List FaceVertex :=
  (allFaces facesByTexture).flatMap (fun f => fanVertexList f.vertices)

/-- A sample face map: one face with three vertices and no texture, kept under the dummy
texture 0. -/
def sampleFaceMap : FacesByTexture := [(0, [sampleFace false 3 none])]

end Renderer

namespace Renderer

/-- The four items `writeEdgeData` stores for one edge: colour, start, colour, end. -/
def edgeItems (color : Color) (edge : Edge) : List BlockItem :=
  [BlockItem.color color, BlockItem.vec3 edge.startPosition, BlockItem.color color,
    BlockItem.vec3 edge.endPosition]

/-- The items `writeEdgeData` stores for a list of brushes followed by a list of faces. -/
def edgeDataItems (worldColor : Color) (brushes : List Brush) (faces : List Face) :
    List BlockItem :=
  brushes.flatMap (fun b => b.edges.flatMap (edgeItems (edgeColor worldColor b.owner))) ++
    faces.flatMap (fun f => f.edges.flatMap (edgeItems (edgeColor worldColor f.owner)))

/-- The items `writeEntityBounds` stores for one entity: for each of the vertices of its
bounding box the colour of the entity and the vertex. -/
def boundsItems (prefs : Preferences) (entity : Entity) : List BlockItem :=
  entity.bounds.vertices.flatMap (fun v =>
    [BlockItem.color (entityBoundsColor prefs entity), BlockItem.vec3 v])

/-- A list of `n` sample point entities with the identities `0`, ..., `n - 1`. -/
def manyEntities (n : Nat) : List Entity :=
  (List.range n).map (fun i => { sampleEntity with id := i })

end Renderer

namespace Renderer

/-- The render infos `writeFaceData` makes for the groups of a face map, in the `unsigned
int` arithmetic of the code: `address` is where the next group starts, `offset` the offset
reached in the block, `blockAddress` the address of the block. -/
def wrappedRenderInfos (blockAddress : Nat) :
    Nat → Nat → FacesByTexture → List TexturedTriangleRenderInfo
  | _, _, [] => []
  | address, offset, (texture, faces) :: rest =>
    ⟨texture, address, u32 (fanVertices faces)⟩ ::
      wrappedRenderInfos blockAddress
        (u32 (blockAddress + u32 (offset + fanVertices faces * FaceVertexSize)))
        (u32 (offset + fanVertices faces * FaceVertexSize)) rest

/-- One render info per group of a face map, the first starting at `address`, each
following one where the previous one ends: at the start of the previous one plus its vertex
count times `FaceVertexSize`. -/
def faceRenderInfosFrom : Nat → FacesByTexture → List TexturedTriangleRenderInfo
  | _, [] => []
  | address, (texture, faces) :: rest =>
    ⟨texture, address, fanTotal faces⟩ ::
      faceRenderInfosFrom (address + fanTotal faces * FaceVertexSize) rest

end Renderer

namespace Renderer

/-- The edge vertex total of a state class among the collected local variables. -/
def GeometryCollection.edgeTotal (c : GeometryCollection) : Bucket → Nat
  | Bucket.selected => c.totalSelectedEdgeVertexCount
  | Bucket.locked => c.totalLockedEdgeVertexCount
  | Bucket.normal => c.totalUnselectedEdgeVertexCount

end Renderer

namespace Renderer

end Renderer

namespace Renderer

/-- An argument of an OpenGL call: a constant as it is written in the source
(`GL_BLEND`, `0.01f`), a computed integer, a `float` value, a colour or a `bool`. -/
inductive GlArg where
  | const (name : String)
  | nat (value : Nat)
  | float (value : GLfloat)
  | color (value : Color)
  | bool (value : Bool)
  deriving DecidableEq, Repr

/-- One call that `render` and its helpers make on the graphics state or on an object
declared outside the translated sources: an OpenGL function (the `gl...` helpers
included) with its arguments, `Texture::activate` and `deactivate`,
`EntityRendererManager::activate` and `deactivate`, `EntityRenderer::render(entity)`,
`StringManager::activate` and `deactivate`, and `TextRenderer::render` of the classname
renderer of a state class, with its registrations and the colour. -/
inductive DrawCall where
  | gl (function : String) (arguments : List GlArg)
  | textureActivate (texture : Texture)
  | textureDeactivate (texture : Texture)
  | rendererManagerActivate
  | rendererManagerDeactivate
  | entityRender (renderer : EntityRenderer) (entity : Nat)
  | stringManagerActivate
  | stringManagerDeactivate
  | textRender (renderer : Bucket) (labels : TextRenderer) (color : Color)
  deriving DecidableEq, Repr

/-- The effect of a draw call on the world `σ`. -/
structure DrawOps (σ : Type) where
  call : DrawCall → σ → σ

/-- The calls of a list made one after the other. -/
def DrawOps.run {σ : Type} (draw : DrawOps σ) (calls : List DrawCall) (w : σ) : σ :=
  calls.foldl (fun s c => draw.call c s) w

/-- One entry of the log of a `render` run: a call of a collaborator of the rebuild or a
draw call. -/
inductive RenderEvent where
  | map (call : MapCall)
  | draw (call : DrawCall)
  deriving DecidableEq, Repr

/-- The collaborators of the rebuild, each also appending its call to the render log kept
next to the world. -/
def MapOps.recorded {σ : Type} (ops : MapOps σ) : MapOps (σ × List RenderEvent) where
  vboActivate vbo s :=
    (ops.vboActivate vbo s.1, s.2 ++ [RenderEvent.map (MapCall.vboActivate vbo)])
  vboDeactivate vbo s :=
    (ops.vboDeactivate vbo s.1, s.2 ++ [RenderEvent.map (MapCall.vboDeactivate vbo)])
  vboMap vbo s := (ops.vboMap vbo s.1, s.2 ++ [RenderEvent.map (MapCall.vboMap vbo)])
  vboUnmap vbo s := (ops.vboUnmap vbo s.1, s.2 ++ [RenderEvent.map (MapCall.vboUnmap vbo)])
  allocBlock vbo size s :=
    ((ops.allocBlock vbo size s.1).1,
      ((ops.allocBlock vbo size s.1).2,
        s.2 ++ [RenderEvent.map (MapCall.allocBlock vbo size)]))
  freeBlock vbo block s :=
    (ops.freeBlock vbo block s.1,
      s.2 ++ [RenderEvent.map (MapCall.freeBlock vbo block.address)])
  entityRenderer entity mods s :=
    ((ops.entityRenderer entity mods s.1).1,
      ((ops.entityRenderer entity mods s.1).2,
        s.2 ++ [RenderEvent.map (MapCall.entityRenderer entity.id)]))

/-- The draw calls, each also appended to the render log kept next to the world. -/
def DrawOps.recorded {σ : Type} (draw : DrawOps σ) : DrawOps (σ × List RenderEvent) where
  call c s := (draw.call c s.1, s.2 ++ [RenderEvent.draw c])

/-- The colours and the brightness that `render` and its helpers read from the
`PreferenceManager`. -/
structure RenderPreferences where
  selectedFaceColor : Color
  lockedFaceColor : Color
  faceColor : Color
  lockedEdgeColor : Color
  occludedSelectedEdgeColor : Color
  selectedEdgeColor : Color
  lockedEntityBoundsColor : Color
  occludedSelectedEntityBoundsColor : Color
  selectedEntityBoundsColor : Color
  infoOverlayColor : Color
  selectedInfoOverlayColor : Color
  rendererBrightness : GLfloat
  deriving DecidableEq, Repr

/-- What the render helpers read of objects declared outside the translated sources:
`Texture::dummy()`, `Texture::averageColor()` and the entity that an entity pointer of a
renderer map points to. -/
structure RenderQueries where
  dummy : Texture → Bool
  averageColor : Texture → Color
  entityAt : Nat → Entity

/-- The call `glEnable(cap)`. -/
def glEnable (cap : String) : DrawCall := DrawCall.gl "glEnable" [GlArg.const cap]

/-- The call `glDisable(cap)`. -/
def glDisable (cap : String) : DrawCall := DrawCall.gl "glDisable" [GlArg.const cap]

/-- The call `glDepthFunc(func)`. -/
def glDepthFunc (func : String) : DrawCall := DrawCall.gl "glDepthFunc" [GlArg.const func]

/-- The call `glActiveTexture(texture)`. -/
def glActiveTexture (texture : String) : DrawCall :=
  DrawCall.gl "glActiveTexture" [GlArg.const texture]

/-- The call `glEnableClientState(array)`. -/
def glEnableClientState (array : String) : DrawCall :=
  DrawCall.gl "glEnableClientState" [GlArg.const array]

/-- The call `glDisableClientState(array)`. -/
def glDisableClientState (array : String) : DrawCall :=
  DrawCall.gl "glDisableClientState" [GlArg.const array]

/-- The call `glSetEdgeOffset(f)` with the literal of the source. -/
def glSetEdgeOffset (f : String) : DrawCall := DrawCall.gl "glSetEdgeOffset" [GlArg.const f]

/-- The call `glResetEdgeOffset()`. -/
def glResetEdgeOffset : DrawCall := DrawCall.gl "glResetEdgeOffset" []

/-- The call `glColorV4f(color)`. -/
def glColorV4f (color : Color) : DrawCall := DrawCall.gl "glColorV4f" [GlArg.color color]

/-- The call `glTexEnvi(GL_TEXTURE_ENV, pname, param)`. -/
def glTexEnvi (pname param : String) : DrawCall :=
  DrawCall.gl "glTexEnvi" [GlArg.const "GL_TEXTURE_ENV", GlArg.const pname, GlArg.const param]

/-- The entries of a `std::map` in the order an iterator visits them: by key. -/
def inKeyOrder {ν : Type} (m : List (Nat × ν)) : List (Nat × ν) :=
  m.insertionSort (fun a b => a.1 ≤ b.1)

namespace MapRenderer

/-- The texture-unit-1 setup of `renderFaces` for the selected (`GL_MODULATE`, scale 2) or
the locked pass (`GL_REPLACE`, `GL_MODULATE` for alpha, scale 1), with the tint colour. -/
def faceTintCalls (dummyTexture : Texture) (rprefs : RenderPreferences)
    (selected locked : Bool) : List DrawCall :=
  if selected then
    [glActiveTexture "GL_TEXTURE1", glEnable "GL_TEXTURE_2D",
     DrawCall.textureActivate dummyTexture,
     glTexEnvi "GL_TEXTURE_ENV_MODE" "GL_COMBINE",
     glTexEnvi "GL_COMBINE_RGB" "GL_MODULATE",
     glTexEnvi "GL_COMBINE_ALPHA" "GL_REPLACE",
     DrawCall.gl "glTexEnvfv" [GlArg.const "GL_TEXTURE_ENV", GlArg.const "GL_TEXTURE_ENV_COLOR",
       GlArg.color rprefs.selectedFaceColor],
     glTexEnvi "GL_SRC0_RGB" "GL_PREVIOUS",
     glTexEnvi "GL_SRC0_ALPHA" "GL_PREVIOUS",
     glTexEnvi "GL_SRC1_RGB" "GL_CONSTANT",
     DrawCall.gl "glTexEnvf" [GlArg.const "GL_TEXTURE_ENV", GlArg.const "GL_RGB_SCALE",
       GlArg.const "2"]]
  else if locked then
    [glActiveTexture "GL_TEXTURE1", glEnable "GL_TEXTURE_2D",
     DrawCall.textureActivate dummyTexture,
     glTexEnvi "GL_TEXTURE_ENV_MODE" "GL_COMBINE",
     glTexEnvi "GL_COMBINE_RGB" "GL_REPLACE",
     glTexEnvi "GL_COMBINE_ALPHA" "GL_MODULATE",
     DrawCall.gl "glTexEnvfv" [GlArg.const "GL_TEXTURE_ENV", GlArg.const "GL_TEXTURE_ENV_COLOR",
       GlArg.color rprefs.lockedFaceColor],
     glTexEnvi "GL_SRC0_RGB" "GL_PREVIOUS",
     glTexEnvi "GL_SRC0_ALPHA" "GL_PREVIOUS",
     glTexEnvi "GL_SRC1_RGB" "GL_CONSTANT",
     glTexEnvi "GL_SRC1_ALPHA" "GL_CONSTANT",
     DrawCall.gl "glTexEnvf" [GlArg.const "GL_TEXTURE_ENV", GlArg.const "GL_RGB_SCALE",
       GlArg.const "1"]]
  else []

/-- The body of the loop over the render infos in `renderFaces`: the texture or the colour
is set, the triangles of the region are drawn, and a texture that is not the dummy is
deactivated. -/
def renderFaceInfo (queries : RenderQueries) (rprefs : RenderPreferences)
    (textured textureActive : Bool) (renderInfo : TexturedTriangleRenderInfo) :
    List DrawCall :=
  (if textured then
    (if queries.dummy renderInfo.texture && textureActive then [glDisable "GL_TEXTURE_2D"]
     else [glEnable "GL_TEXTURE_2D"]) ++
    (if !queries.dummy renderInfo.texture then [DrawCall.textureActivate renderInfo.texture]
     else [glColorV4f rprefs.faceColor])
   else
    (if !queries.dummy renderInfo.texture then
      [glColorV4f (queries.averageColor renderInfo.texture)]
     else [glColorV4f rprefs.faceColor])) ++
  [DrawCall.gl "glDrawArrays" [GlArg.const "GL_TRIANGLES",
    GlArg.nat (renderInfo.offset / FaceVertexSize), GlArg.nat renderInfo.vertexCount]] ++
  (if !queries.dummy renderInfo.texture then [DrawCall.textureDeactivate renderInfo.texture]
   else [])

/-- The calls of `renderFaces` before its loop over the render infos: the polygon mode, the
saved client state, the tint of texture unit 1 for a selected or locked pass, and the
texture coordinate and vertex arrays of unit 0. -/
def faceSetupCalls (rprefs : RenderPreferences) (dummyTexture : Texture)
    (textured selected locked : Bool) : List DrawCall :=
  [DrawCall.gl "glPolygonMode" [GlArg.const "GL_FRONT", GlArg.const "GL_FILL"],
   DrawCall.gl "glPushClientAttrib" [GlArg.const "GL_CLIENT_VERTEX_ARRAY_BIT"]] ++
  faceTintCalls dummyTexture rprefs selected locked ++
  [glActiveTexture "GL_TEXTURE0"] ++
  (if textured then
    [glEnable "GL_TEXTURE_2D",
     DrawCall.gl "glSetBrightness" [GlArg.float rprefs.rendererBrightness, GlArg.bool false],
     DrawCall.gl "glClientActiveTexture" [GlArg.const "GL_TEXTURE0"],
     glEnableClientState "GL_TEXTURE_COORD_ARRAY",
     DrawCall.gl "glTexCoordPointer" [GlArg.nat 2, GlArg.const "GL_FLOAT",
       GlArg.nat FaceVertexSize, GlArg.nat TexCoordSize]]
   else [glDisable "GL_TEXTURE_2D"]) ++
  [DrawCall.gl "glVertexPointer" [GlArg.nat 3, GlArg.const "GL_FLOAT",
    GlArg.nat FaceVertexSize, GlArg.nat (TexCoordSize + TexCoordSize)]]

/-- The calls of `renderFaces` after its loop: texturing is switched off (`textureActive`
is `textured`, it is never assigned again), the tint of unit 1 is taken back, and the
client state is restored. -/
def faceTeardownCalls (dummyTexture : Texture) (textured selected locked : Bool) :
    List DrawCall :=
  (if textured && textured then [glDisable "GL_TEXTURE_2D"] else []) ++
  (if selected || locked then
    [glActiveTexture "GL_TEXTURE1", DrawCall.textureDeactivate dummyTexture,
     glDisable "GL_TEXTURE_2D", glActiveTexture "GL_TEXTURE0"]
   else []) ++
  [DrawCall.gl "glPopClientAttrib" []]

/-- Embeds `MapRenderer::renderFaces`: the calls it makes, in order; none when there is no
render info. -/
def renderFaces (queries : RenderQueries) (rprefs : RenderPreferences) (dummyTexture : Texture)
    (textured selected locked : Bool) (renderInfos : List TexturedTriangleRenderInfo) :
    List DrawCall :=
  if renderInfos.isEmpty then []
  else
    faceSetupCalls rprefs dummyTexture textured selected locked ++
    renderInfos.flatMap (renderFaceInfo queries rprefs textured textured) ++
    faceTeardownCalls dummyTexture textured selected locked

/-- The colour and vertex array setup shared by `renderEdges` and `renderEntityBounds`:
with a colour, the colour is set and only the positions are read from the buffer; with
`NULL`, colours and positions are read interleaved. -/
def lineArrayCalls (vertexSize : Nat) (color : Option Color) : List DrawCall :=
  match color with
  | some c =>
    [glColorV4f c,
     DrawCall.gl "glVertexPointer" [GlArg.nat 3, GlArg.const "GL_FLOAT", GlArg.nat vertexSize,
       GlArg.nat ColorSize]]
  | none =>
    [DrawCall.gl "glInterleavedArrays" [GlArg.const "GL_C4UB_V3F", GlArg.nat vertexSize,
      GlArg.nat 0]]

/-- Embeds `MapRenderer::renderEdges`: the calls it makes, in order; none when the vertex
count is zero. -/
def renderEdges (renderInfo : EdgeRenderInfo) (color : Option Color) : List DrawCall :=
  if renderInfo.vertexCount = 0 then []
  else
    [glDisable "GL_TEXTURE_2D",
     DrawCall.gl "glPushClientAttrib" [GlArg.const "GL_CLIENT_VERTEX_ARRAY_BIT"]] ++
    lineArrayCalls EdgeVertexSize color ++
    [DrawCall.gl "glDrawArrays" [GlArg.const "GL_LINES",
      GlArg.nat (renderInfo.offset / EdgeVertexSize), GlArg.nat renderInfo.vertexCount],
     DrawCall.gl "glPopClientAttrib" []]

/-- Embeds `MapRenderer::renderEntityBounds`: the calls it makes, in order; none when the
vertex count is zero. -/
def renderEntityBounds (renderInfo : EdgeRenderInfo) (color : Option Color) : List DrawCall :=
  if renderInfo.vertexCount = 0 then []
  else
    [glSetEdgeOffset "0.01f",
     DrawCall.gl "glPushClientAttrib" [GlArg.const "GL_CLIENT_VERTEX_ARRAY_BIT"]] ++
    lineArrayCalls EntityBoundsVertexSize color ++
    [DrawCall.gl "glDrawArrays" [GlArg.const "GL_LINES",
      GlArg.nat (renderInfo.offset / EntityBoundsVertexSize), GlArg.nat renderInfo.vertexCount],
     DrawCall.gl "glPopClientAttrib" [],
     glResetEdgeOffset]

/-- Embeds `MapRenderer::renderEntityModels`: the calls it makes, in order; none when the
map is empty. The renderer of each visible entity of the map renders it. -/
def renderEntityModels (queries : RenderQueries) (rprefs : RenderPreferences)
    (context : RenderContext) (entities : EntityRenderers) : List DrawCall :=
  if entities.isEmpty then []
  else
    [DrawCall.gl "glPushAttrib" [GlArg.const "GL_TEXTURE_BIT"],
     DrawCall.gl "glPolygonMode" [GlArg.const "GL_FRONT", GlArg.const "GL_FILL"],
     glEnable "GL_TEXTURE_2D",
     DrawCall.gl "glSetBrightness" [GlArg.float rprefs.rendererBrightness, GlArg.bool false],
     DrawCall.rendererManagerActivate,
     DrawCall.gl "glMatrixMode" [GlArg.const "GL_MODELVIEW"]] ++
    (inKeyOrder entities).flatMap (fun it =>
      if context.filter.entityVisible (queries.entityAt it.1) then
        [DrawCall.entityRender it.2.renderer it.1]
      else []) ++
    [DrawCall.rendererManagerDeactivate, DrawCall.gl "glPopAttrib" []]

/-- The OpenGL state that `render` sets before its passes. -/
def renderSetup : List DrawCall :=
  [glEnable "GL_BLEND",
   DrawCall.gl "glBlendFunc" [GlArg.const "GL_SRC_ALPHA", GlArg.const "GL_ONE_MINUS_SRC_ALPHA"],
   DrawCall.gl "glFrontFace" [GlArg.const "GL_CW"],
   glEnable "GL_CULL_FACE",
   glEnable "GL_DEPTH_TEST",
   glDepthFunc "GL_LESS",
   DrawCall.gl "glShadeModel" [GlArg.const "GL_SMOOTH"],
   glResetEdgeOffset]

/-- Embeds `MapRenderer::render`: `validate`, the OpenGL setup, then the faces from the
face buffer, the edges from the edge buffer, the entity bounds from the entity bounds
buffer, the entity models and the classnames. `none` when `validate` does not return. -/
def render {σ : Type} (ops : MapOps σ) (draw : DrawOps σ) (queries : RenderQueries)
    (prefs : Preferences) (rprefs : RenderPreferences) (document : MapDocument)
    (context : RenderContext) (m : MapRenderer) (w : σ) : Option (MapRenderer × σ) :=
  match validate ops prefs document context m w with
  | none => none
  | some (m1, w1) =>
    let w2 := draw.run renderSetup w1
    let w3 := ops.vboActivate VboKind.face w2
    let w4 := draw.run
      ([glEnableClientState "GL_VERTEX_ARRAY"] ++
        renderFaces queries rprefs m1.m_dummyTexture true false false m1.m_faceRenderInfos ++
        renderFaces queries rprefs m1.m_dummyTexture true true false
          m1.m_selectedFaceRenderInfos ++
        renderFaces queries rprefs m1.m_dummyTexture true false true
          m1.m_lockedFaceRenderInfos ++
        [glDisableClientState "GL_VERTEX_ARRAY"]) w3
    let w5 := ops.vboDeactivate VboKind.face w4
    let w6 := ops.vboActivate VboKind.edge w5
    let w7 := draw.run
      ([glEnableClientState "GL_VERTEX_ARRAY", glSetEdgeOffset "0.01f"] ++
        renderEdges m1.m_edgeRenderInfo none ++
        renderEdges m1.m_lockedEdgeRenderInfo (some rprefs.lockedEdgeColor) ++
        [glSetEdgeOffset "0.02f", glDisable "GL_DEPTH_TEST"] ++
        renderEdges m1.m_selectedEdgeRenderInfo (some rprefs.occludedSelectedEdgeColor) ++
        [glEnable "GL_DEPTH_TEST"] ++
        renderEdges m1.m_selectedEdgeRenderInfo (some rprefs.selectedEdgeColor) ++
        [glResetEdgeOffset, glDisableClientState "GL_VERTEX_ARRAY"]) w6
    let w8 := ops.vboDeactivate VboKind.edge w7
    let w9 := ops.vboActivate VboKind.entityBounds w8
    let w10 := draw.run
      ([glEnableClientState "GL_VERTEX_ARRAY"] ++
        renderEntityBounds m1.m_entityBoundsRenderInfo none ++
        renderEntityBounds m1.m_lockedEntityBoundsRenderInfo
          (some rprefs.lockedEntityBoundsColor) ++
        [glDisable "GL_DEPTH_TEST"] ++
        renderEntityBounds m1.m_selectedEntityBoundsRenderInfo
          (some rprefs.occludedSelectedEntityBoundsColor) ++
        [glEnable "GL_DEPTH_TEST", glDepthFunc "GL_LEQUAL"] ++
        renderEntityBounds m1.m_selectedEntityBoundsRenderInfo
          (some rprefs.selectedEntityBoundsColor) ++
        [glDepthFunc "GL_LESS", glDisableClientState "GL_VERTEX_ARRAY"]) w9
    let w11 := ops.vboDeactivate VboKind.entityBounds w10
    let w12 := draw.run
      (renderEntityModels queries rprefs context m1.m_entityRenderers ++
        renderEntityModels queries rprefs context m1.m_selectedEntityRenderers ++
        [DrawCall.stringManagerActivate,
         DrawCall.textRender Bucket.normal m1.m_classnameRenderer rprefs.infoOverlayColor,
         DrawCall.textRender Bucket.selected m1.m_selectedClassnameRenderer
           rprefs.selectedInfoOverlayColor,
         DrawCall.stringManagerDeactivate]) w11
    some (m1, w12)

end MapRenderer

/-- The part of the OpenGL state that decides what a draw call of `render` draws with:
whether the depth test is enabled, the texture unit selected by `glActiveTexture`, whether
`GL_TEXTURE_2D` is enabled on unit 0 and on unit 1, the texture activated on unit 0, the
`GL_TEXTURE_ENV_COLOR` of unit 1 (the tint), the current colour, whether colours are read
from the buffer, the values saved by `glPushClientAttrib` and by `glPushAttrib`, and the
active vertex buffer. -/
structure GlState where
  depthTest : Bool
  activeTexture : String
  texture2D0 : Bool
  texture2D1 : Bool
  bound0 : Option Texture
  envColor1 : Option Color
  color : Option Color
  colorArray : Bool
  clientStack : List Bool
  textureStack : List (Bool × Bool)
  buffer : Option VboKind
  deriving DecidableEq, Repr

/-- Where the colour of drawn lines comes from: the colours stored with the vertices in
the buffer, or the current colour. -/
inductive ColorSource where
  | vertices
  | current (color : Option Color)
  deriving DecidableEq, Repr

/-- What a call draws: triangles from a buffer, with the texture of unit 0, if any, and the
tint of unit 1, if any; lines from a buffer, with their colour source and with the depth
test enabled or not; the model of an entity; the texts of a classname renderer. -/
inductive Drawn where
  | triangles (buffer : Option VboKind) (texture : Option Texture) (tint : Option Color)
      (first count : Nat)
  | lines (buffer : Option VboKind) (color : ColorSource) (depthTest : Bool)
      (first count : Nat)
  | model (renderer : EntityRenderer) (entity : Nat)
  | text (renderer : Bucket) (labels : TextRenderer) (color : Color)
  deriving DecidableEq, Repr

/-- The effect of `glEnable(cap)` and `glDisable(cap)` on the tracked state: the depth
test, or `GL_TEXTURE_2D` of the selected texture unit. -/
def GlState.setCap (s : GlState) (cap : String) (value : Bool) : GlState :=
  if cap = "GL_DEPTH_TEST" then { s with depthTest := value }
  else if cap = "GL_TEXTURE_2D" then
    if s.activeTexture = "GL_TEXTURE0" then { s with texture2D0 := value }
    else if s.activeTexture = "GL_TEXTURE1" then { s with texture2D1 := value }
    else s
  else s

/-- The effect of an OpenGL call on the tracked state. -/
def GlState.gl (s : GlState) (function : String) (arguments : List GlArg) : GlState :=
  if function = "glEnable" then
    match arguments with
    | [GlArg.const cap] => s.setCap cap true
    | _ => s
  else if function = "glDisable" then
    match arguments with
    | [GlArg.const cap] => s.setCap cap false
    | _ => s
  else if function = "glActiveTexture" then
    match arguments with
    | [GlArg.const unit] => { s with activeTexture := unit }
    | _ => s
  else if function = "glTexEnvfv" then
    match arguments with
    | [_, GlArg.const pname, GlArg.color c] =>
      if pname = "GL_TEXTURE_ENV_COLOR" ∧ s.activeTexture = "GL_TEXTURE1" then
        { s with envColor1 := some c }
      else s
    | _ => s
  else if function = "glColorV4f" then
    match arguments with
    | [GlArg.color c] => { s with color := some c }
    | _ => s
  else if function = "glInterleavedArrays" then { s with colorArray := true }
  else if function = "glPushClientAttrib" then
    { s with clientStack := s.colorArray :: s.clientStack }
  else if function = "glPopClientAttrib" then
    match s.clientStack with
    | saved :: rest => { s with colorArray := saved, clientStack := rest }
    | [] => s
  else if function = "glPushAttrib" then
    { s with textureStack := (s.texture2D0, s.texture2D1) :: s.textureStack }
  else if function = "glPopAttrib" then
    match s.textureStack with
    | saved :: rest => { s with texture2D0 := saved.1, texture2D1 := saved.2,
                                textureStack := rest }
    | [] => s
  else s

/-- The tracked state after an event of the render log. -/
def GlState.step (s : GlState) : RenderEvent → GlState
  | RenderEvent.map (MapCall.vboActivate vbo) => { s with buffer := some vbo }
  | RenderEvent.map (MapCall.vboDeactivate _) => { s with buffer := none }
  | RenderEvent.map _ => s
  | RenderEvent.draw (DrawCall.gl function arguments) => s.gl function arguments
  | RenderEvent.draw (DrawCall.textureActivate texture) =>
    if s.activeTexture = "GL_TEXTURE0" then { s with bound0 := some texture } else s
  | RenderEvent.draw (DrawCall.textureDeactivate _) =>
    if s.activeTexture = "GL_TEXTURE0" then { s with bound0 := none } else s
  | RenderEvent.draw _ => s

/-- What an event of the render log draws in a state: `glDrawArrays` draws triangles or
lines, an entity renderer a model, a text renderer its texts; no other call draws. -/
def GlState.emits (s : GlState) : RenderEvent → List Drawn
  | RenderEvent.draw (DrawCall.gl function arguments) =>
    if function = "glDrawArrays" then
      match arguments with
      | [GlArg.const mode, GlArg.nat first, GlArg.nat count] =>
        if mode = "GL_TRIANGLES" then
          [Drawn.triangles s.buffer (if s.texture2D0 then s.bound0 else none)
            (if s.texture2D1 then s.envColor1 else none) first count]
        else if mode = "GL_LINES" then
          [Drawn.lines s.buffer
            (if s.colorArray then ColorSource.vertices else ColorSource.current s.color)
            s.depthTest first count]
        else []
      | _ => []
    else []
  | RenderEvent.draw (DrawCall.entityRender renderer entity) => [Drawn.model renderer entity]
  | RenderEvent.draw (DrawCall.textRender renderer labels color) =>
    [Drawn.text renderer labels color]
  | _ => []

/-- The tracked state after the events of a log. -/
def GlState.run (s : GlState) : List RenderEvent → GlState
  | [] => s
  | e :: rest => GlState.run (s.step e) rest

/-- What the events of a log draw, in order, from a state on. -/
def observe (s : GlState) : List RenderEvent → List Drawn
  | [] => []
  | e :: rest => s.emits e ++ observe (s.step e) rest

/-- The state between two passes of `render`: texture unit 0 is selected, unit 1 does not
tint, no texture is activated, colours are not read from the buffer; with the active
buffer and the state of the depth test. -/
def GlState.Ready (s : GlState) (buffer : Option VboKind) (depthTest : Bool) : Prop :=
  s.activeTexture = "GL_TEXTURE0" ∧ s.texture2D1 = false ∧ s.bound0 = none ∧
    s.colorArray = false ∧ s.buffer = buffer ∧ s.depthTest = depthTest

/-- A stretch of the render log taken between two passes: from every state between passes
with the given buffer and depth test it draws the given list and ends in a state between
passes with the second buffer and depth test. -/
def Stretch (log : List RenderEvent) (buffer : Option VboKind) (depthTest : Bool)
    (buffer1 : Option VboKind) (depthTest1 : Bool) (drawn : List Drawn) : Prop :=
  ∀ s : GlState, s.Ready buffer depthTest →
    observe s log = drawn ∧ (s.run log).Ready buffer1 depthTest1

/-- The state inside a face pass, between the setup and the teardown of `renderFaces`:
texture unit 0 is selected with no texture activated, unit 1 tints with the tint of the
pass or not at all, colours are not read from the buffer, and the client state saved at
the start of the pass is on top of its stack. -/
def GlState.InFacePass (s : GlState) (depthTest : Bool) (tint : Option Color) : Prop :=
  s.activeTexture = "GL_TEXTURE0" ∧ s.texture2D1 = tint.isSome ∧
    (if s.texture2D1 then s.envColor1 else none) = tint ∧ s.bound0 = none ∧
    s.colorArray = false ∧ s.buffer = some VboKind.face ∧ s.depthTest = depthTest ∧
    ∃ rest, s.clientStack = false :: rest

/-- A face pass as the specification states it: one draw of triangles per render info, in
order, from the face buffer, with the texture of the render info unless it is the dummy
texture, and with the tint of the pass. -/
def facePass (queries : RenderQueries) (tint : Option Color)
    (renderInfos : List TexturedTriangleRenderInfo) : List Drawn :=
  renderInfos.map (fun i =>
    Drawn.triangles (some VboKind.face)
      (if queries.dummy i.texture then none else some i.texture) tint
      (i.offset / FaceVertexSize) i.vertexCount)

/-- A pass of lines as the specification states it: nothing when the render info has no
vertex, otherwise one draw of its lines from the buffer, with the colour source and the
state of the depth test of the pass. -/
def linePass (buffer : VboKind) (vertexSize : Nat) (color : ColorSource) (depthTest : Bool)
    (renderInfo : EdgeRenderInfo) : List Drawn :=
  if renderInfo.vertexCount = 0 then []
  else [Drawn.lines (some buffer) color depthTest (renderInfo.offset / vertexSize)
    renderInfo.vertexCount]

/-- A model pass as the specification states it: the model of each visible entity of the
renderer map, in the order of the map. -/
def modelPass (queries : RenderQueries) (context : RenderContext)
    (entities : EntityRenderers) : List Drawn :=
  (inKeyOrder entities).flatMap (fun it =>
    if context.filter.entityVisible (queries.entityAt it.1) then
      [Drawn.model it.2.renderer it.1]
    else [])

/-- A state between passes in which nothing has been set up: the state OpenGL starts in. -/
def GlState.initial : GlState :=
  { depthTest := false, activeTexture := "GL_TEXTURE0", texture2D0 := false,
    texture2D1 := false, bound0 := none, envColor1 := none, color := none,
    colorArray := false, clientStack := [], textureStack := [], buffer := none }

/-- Sample draw operations on the sample world: a draw call leaves the world as it is. -/
def sampleDrawOps : DrawOps Nat := ⟨fun _ w => w⟩

/-- Sample render preferences: twelve different values. -/
def sampleRenderPreferences : RenderPreferences :=
  { selectedFaceColor := ⟨3, 3, 3, 3⟩, lockedFaceColor := ⟨4, 4, 4, 4⟩,
    faceColor := ⟨5, 5, 5, 5⟩, lockedEdgeColor := ⟨6, 6, 6, 6⟩,
    occludedSelectedEdgeColor := ⟨7, 7, 7, 7⟩, selectedEdgeColor := ⟨8, 8, 8, 8⟩,
    lockedEntityBoundsColor := ⟨9, 9, 9, 9⟩,
    occludedSelectedEntityBoundsColor := ⟨10, 10, 10, 10⟩,
    selectedEntityBoundsColor := ⟨11, 11, 11, 11⟩, infoOverlayColor := ⟨12, 12, 12, 12⟩,
    selectedInfoOverlayColor := ⟨13, 13, 13, 13⟩, rendererBrightness := 14 }

/-- Sample queries: texture 0 is the dummy texture, the average colour of a texture is
grey, and every entity pointer points to the sample point entity. -/
def sampleRenderQueries : RenderQueries :=
  { dummy := fun t => decide (t = 0), averageColor := fun _ => ⟨15, 15, 15, 15⟩,
    entityAt := fun _ => sampleEntity }

end Renderer

/-! Theorems: View::ToolChain -/

namespace View

namespace ToolChain

theorem append_ofList (ts : List ToolAdapter) (t : ToolAdapter) :
    append (ofList ts) (some t) = some (ofList (ts ++ [t])) := by
  induction ts with
  | nil => rfl
  | cons a rest ih =>
    show append (mk (some a) (some (ofList rest))) (some t) = _
    simp [append, checkInvariant, chainEndsHere, m_tool, m_suffix, ih, ofList]

theorem append_ofList_null (ts : List ToolAdapter) : append (ofList ts) none = none := by
  induction ts with
  | nil => rfl
  | cons a rest ih =>
    show append (mk (some a) (some (ofList rest))) none = _
    simp [append, checkInvariant, chainEndsHere, m_tool, m_suffix, ih]

theorem appendAll_ofList (us ts : List ToolAdapter) :
    appendAll (ofList ts) (us.map some) = some (ofList (ts ++ us)) := by
  induction us generalizing ts with
  | nil => simp [appendAll]
  | cons u rest ih =>
    simp only [List.map_cons, appendAll, append_ofList]
    rw [ih]
    simp

theorem appendAll_new (ts : List ToolAdapter) :
    appendAll new (ts.map some) = some (ofList ts) := by
  have h := appendAll_ofList ts []
  simpa [ofList] using h

theorem appendAll_ofList_cases (ptrs : List (Option ToolAdapter)) (ts : List ToolAdapter) :
    match appendAll (ofList ts) ptrs with
    | none => ptrs.any Option.isNone = true
    | some c => ptrs.all Option.isSome = true ∧
        ∃ us : List ToolAdapter, ptrs = us.map some ∧ c = ofList (ts ++ us) := by
  induction ptrs generalizing ts with
  | nil => exact ⟨rfl, [], rfl, by simp⟩
  | cons p rest ih =>
    cases p with
    | none => simp [appendAll, append_ofList_null]
    | some t =>
      have h := ih (ts ++ [t])
      simp only [appendAll, append_ofList]
      cases hc : appendAll (ofList (ts ++ [t])) rest with
      | none =>
        rw [hc] at h
        simpa using h
      | some c =>
        rw [hc] at h
        obtain ⟨hall, us, hus, hcu⟩ := h
        refine ⟨by simpa using hall, t :: us, by simp [hus], ?_⟩
        simpa using hcu

theorem walk_ofList (ts : List ToolAdapter) :
    ∃ l : List ToolChain, walk (ofList ts) = l ++ [new] ∧
      l.all (fun n => n.m_tool.isSome && n.m_suffix.isSome) = true ∧
      l.map m_tool = ts.map some := by
  induction ts with
  | nil => exact ⟨[], rfl, rfl, rfl⟩
  | cons t rest ih =>
    obtain ⟨l, hw, hall, hmap⟩ := ih
    refine ⟨ofList (t :: rest) :: l, ?_, ?_, ?_⟩
    · show walk (mk (some t) (some (ofList rest))) = _
      simp [walk, hw, ofList]
    · simp only [List.all_cons, hall, Bool.and_true]
      rfl
    · simp only [List.map_cons, hmap]
      rfl

theorem countP_isTerminal_eq_zero (l : List ToolChain)
    (h : l.all (fun n => n.m_tool.isSome && n.m_suffix.isSome) = true) :
    l.countP isTerminal = 0 := by
  rw [List.countP_eq_zero]
  intro n hn
  have hn2 := List.all_eq_true.mp h n hn
  cases n with
  | mk t s =>
    cases t with
    | none => simp [m_tool] at hn2
    | some a => simp [isTerminal, m_tool]

theorem pick_ofList_nil {ι σ : Type} (ops : ToolOps ι σ) (i : ι) (w : σ) :
    pick ops (ofList []) i w = some w := rfl

theorem pick_ofList_cons {ι σ : Type} (ops : ToolOps ι σ) (i : ι) (t : ToolAdapter)
    (rest : List ToolAdapter) (w : σ) :
    pick ops (ofList (t :: rest)) i w = pick ops (ofList rest) i (ops.pick t i w) := rfl

theorem pick_ofList {ι σ : Type} (ops : ToolOps ι σ) (i : ι) (ts : List ToolAdapter) (w : σ) :
    pick ops (ofList ts) i w = some (ts.foldl (fun s t => ops.pick t i s) w) := by
  induction ts generalizing w with
  | nil => rfl
  | cons t rest ih => rw [pick_ofList_cons, ih]; rfl

theorem pick_traced_foldl {ι σ : Type} (ops : ToolOps ι σ) (i : ι) (ts : List ToolAdapter)
    (w : σ) (l0 : List ToolCall) :
    ts.foldl (fun s t => ops.traced.pick t i s) (w, l0) =
      (ts.foldl (fun s t => ops.pick t i s) w, l0 ++ ts.map ToolCall.pick) := by
  induction ts generalizing w l0 with
  | nil => simp
  | cons t rest ih =>
    simp only [List.foldl_cons, List.map_cons]
    rw [show ops.traced.pick t i (w, l0) = (ops.pick t i w, l0 ++ [ToolCall.pick t]) from rfl, ih]
    simp

theorem modifierKeyChange_ofList_nil {ι σ : Type} (ops : ToolOps ι σ) (i : ι) (w : σ) :
    modifierKeyChange ops (ofList []) i w = some w := rfl

theorem modifierKeyChange_ofList_cons {ι σ : Type} (ops : ToolOps ι σ) (i : ι) (t : ToolAdapter)
    (rest : List ToolAdapter) (w : σ) :
    modifierKeyChange ops (ofList (t :: rest)) i w = modifierKeyChange ops (ofList rest) i (ops.modifierKeyChange t i w) := rfl

theorem modifierKeyChange_ofList {ι σ : Type} (ops : ToolOps ι σ) (i : ι) (ts : List ToolAdapter) (w : σ) :
    modifierKeyChange ops (ofList ts) i w = some (ts.foldl (fun s t => ops.modifierKeyChange t i s) w) := by
  induction ts generalizing w with
  | nil => rfl
  | cons t rest ih => rw [modifierKeyChange_ofList_cons, ih]; rfl

theorem modifierKeyChange_traced_foldl {ι σ : Type} (ops : ToolOps ι σ) (i : ι) (ts : List ToolAdapter)
    (w : σ) (l0 : List ToolCall) :
    ts.foldl (fun s t => ops.traced.modifierKeyChange t i s) (w, l0) =
      (ts.foldl (fun s t => ops.modifierKeyChange t i s) w, l0 ++ ts.map ToolCall.modifierKeyChange) := by
  induction ts generalizing w l0 with
  | nil => simp
  | cons t rest ih =>
    simp only [List.foldl_cons, List.map_cons]
    rw [show ops.traced.modifierKeyChange t i (w, l0) = (ops.modifierKeyChange t i w, l0 ++ [ToolCall.modifierKeyChange t]) from rfl, ih]
    simp

theorem mouseDown_ofList_nil {ι σ : Type} (ops : ToolOps ι σ) (i : ι) (w : σ) :
    mouseDown ops (ofList []) i w = some w := rfl

theorem mouseDown_ofList_cons {ι σ : Type} (ops : ToolOps ι σ) (i : ι) (t : ToolAdapter)
    (rest : List ToolAdapter) (w : σ) :
    mouseDown ops (ofList (t :: rest)) i w = mouseDown ops (ofList rest) i (ops.mouseDown t i w) := rfl

theorem mouseDown_ofList {ι σ : Type} (ops : ToolOps ι σ) (i : ι) (ts : List ToolAdapter) (w : σ) :
    mouseDown ops (ofList ts) i w = some (ts.foldl (fun s t => ops.mouseDown t i s) w) := by
  induction ts generalizing w with
  | nil => rfl
  | cons t rest ih => rw [mouseDown_ofList_cons, ih]; rfl

theorem mouseDown_traced_foldl {ι σ : Type} (ops : ToolOps ι σ) (i : ι) (ts : List ToolAdapter)
    (w : σ) (l0 : List ToolCall) :
    ts.foldl (fun s t => ops.traced.mouseDown t i s) (w, l0) =
      (ts.foldl (fun s t => ops.mouseDown t i s) w, l0 ++ ts.map ToolCall.mouseDown) := by
  induction ts generalizing w l0 with
  | nil => simp
  | cons t rest ih =>
    simp only [List.foldl_cons, List.map_cons]
    rw [show ops.traced.mouseDown t i (w, l0) = (ops.mouseDown t i w, l0 ++ [ToolCall.mouseDown t]) from rfl, ih]
    simp

theorem mouseUp_ofList_nil {ι σ : Type} (ops : ToolOps ι σ) (i : ι) (w : σ) :
    mouseUp ops (ofList []) i w = some w := rfl

theorem mouseUp_ofList_cons {ι σ : Type} (ops : ToolOps ι σ) (i : ι) (t : ToolAdapter)
    (rest : List ToolAdapter) (w : σ) :
    mouseUp ops (ofList (t :: rest)) i w = mouseUp ops (ofList rest) i (ops.mouseUp t i w) := rfl

theorem mouseUp_ofList {ι σ : Type} (ops : ToolOps ι σ) (i : ι) (ts : List ToolAdapter) (w : σ) :
    mouseUp ops (ofList ts) i w = some (ts.foldl (fun s t => ops.mouseUp t i s) w) := by
  induction ts generalizing w with
  | nil => rfl
  | cons t rest ih => rw [mouseUp_ofList_cons, ih]; rfl

theorem mouseUp_traced_foldl {ι σ : Type} (ops : ToolOps ι σ) (i : ι) (ts : List ToolAdapter)
    (w : σ) (l0 : List ToolCall) :
    ts.foldl (fun s t => ops.traced.mouseUp t i s) (w, l0) =
      (ts.foldl (fun s t => ops.mouseUp t i s) w, l0 ++ ts.map ToolCall.mouseUp) := by
  induction ts generalizing w l0 with
  | nil => simp
  | cons t rest ih =>
    simp only [List.foldl_cons, List.map_cons]
    rw [show ops.traced.mouseUp t i (w, l0) = (ops.mouseUp t i w, l0 ++ [ToolCall.mouseUp t]) from rfl, ih]
    simp

theorem mouseScroll_ofList_nil {ι σ : Type} (ops : ToolOps ι σ) (i : ι) (w : σ) :
    mouseScroll ops (ofList []) i w = some w := rfl

theorem mouseScroll_ofList_cons {ι σ : Type} (ops : ToolOps ι σ) (i : ι) (t : ToolAdapter)
    (rest : List ToolAdapter) (w : σ) :
    mouseScroll ops (ofList (t :: rest)) i w = mouseScroll ops (ofList rest) i (ops.mouseScroll t i w) := rfl

theorem mouseScroll_ofList {ι σ : Type} (ops : ToolOps ι σ) (i : ι) (ts : List ToolAdapter) (w : σ) :
    mouseScroll ops (ofList ts) i w = some (ts.foldl (fun s t => ops.mouseScroll t i s) w) := by
  induction ts generalizing w with
  | nil => rfl
  | cons t rest ih => rw [mouseScroll_ofList_cons, ih]; rfl

theorem mouseScroll_traced_foldl {ι σ : Type} (ops : ToolOps ι σ) (i : ι) (ts : List ToolAdapter)
    (w : σ) (l0 : List ToolCall) :
    ts.foldl (fun s t => ops.traced.mouseScroll t i s) (w, l0) =
      (ts.foldl (fun s t => ops.mouseScroll t i s) w, l0 ++ ts.map ToolCall.mouseScroll) := by
  induction ts generalizing w l0 with
  | nil => simp
  | cons t rest ih =>
    simp only [List.foldl_cons, List.map_cons]
    rw [show ops.traced.mouseScroll t i (w, l0) = (ops.mouseScroll t i w, l0 ++ [ToolCall.mouseScroll t]) from rfl, ih]
    simp

theorem mouseMove_ofList_nil {ι σ : Type} (ops : ToolOps ι σ) (i : ι) (w : σ) :
    mouseMove ops (ofList []) i w = some w := rfl

theorem mouseMove_ofList_cons {ι σ : Type} (ops : ToolOps ι σ) (i : ι) (t : ToolAdapter)
    (rest : List ToolAdapter) (w : σ) :
    mouseMove ops (ofList (t :: rest)) i w = mouseMove ops (ofList rest) i (ops.mouseMove t i w) := rfl

theorem mouseMove_ofList {ι σ : Type} (ops : ToolOps ι σ) (i : ι) (ts : List ToolAdapter) (w : σ) :
    mouseMove ops (ofList ts) i w = some (ts.foldl (fun s t => ops.mouseMove t i s) w) := by
  induction ts generalizing w with
  | nil => rfl
  | cons t rest ih => rw [mouseMove_ofList_cons, ih]; rfl

theorem mouseMove_traced_foldl {ι σ : Type} (ops : ToolOps ι σ) (i : ι) (ts : List ToolAdapter)
    (w : σ) (l0 : List ToolCall) :
    ts.foldl (fun s t => ops.traced.mouseMove t i s) (w, l0) =
      (ts.foldl (fun s t => ops.mouseMove t i s) w, l0 ++ ts.map ToolCall.mouseMove) := by
  induction ts generalizing w l0 with
  | nil => simp
  | cons t rest ih =>
    simp only [List.foldl_cons, List.map_cons]
    rw [show ops.traced.mouseMove t i (w, l0) = (ops.mouseMove t i w, l0 ++ [ToolCall.mouseMove t]) from rfl, ih]
    simp

theorem setRenderOptions_ofList_nil {ι σ : Type} (ops : ToolOps ι σ) (i : ι) (w : σ) :
    setRenderOptions ops (ofList []) i w = some w := rfl

theorem setRenderOptions_ofList_cons {ι σ : Type} (ops : ToolOps ι σ) (i : ι) (t : ToolAdapter)
    (rest : List ToolAdapter) (w : σ) :
    setRenderOptions ops (ofList (t :: rest)) i w = setRenderOptions ops (ofList rest) i (ops.setRenderOptions t i w) := rfl

theorem setRenderOptions_ofList {ι σ : Type} (ops : ToolOps ι σ) (i : ι) (ts : List ToolAdapter) (w : σ) :
    setRenderOptions ops (ofList ts) i w = some (ts.foldl (fun s t => ops.setRenderOptions t i s) w) := by
  induction ts generalizing w with
  | nil => rfl
  | cons t rest ih => rw [setRenderOptions_ofList_cons, ih]; rfl

theorem setRenderOptions_traced_foldl {ι σ : Type} (ops : ToolOps ι σ) (i : ι) (ts : List ToolAdapter)
    (w : σ) (l0 : List ToolCall) :
    ts.foldl (fun s t => ops.traced.setRenderOptions t i s) (w, l0) =
      (ts.foldl (fun s t => ops.setRenderOptions t i s) w, l0 ++ ts.map ToolCall.setRenderOptions) := by
  induction ts generalizing w l0 with
  | nil => simp
  | cons t rest ih =>
    simp only [List.foldl_cons, List.map_cons]
    rw [show ops.traced.setRenderOptions t i (w, l0) = (ops.setRenderOptions t i w, l0 ++ [ToolCall.setRenderOptions t]) from rfl, ih]
    simp

theorem render_ofList_nil {ι σ : Type} (ops : ToolOps ι σ) (i : ι) (w : σ) :
    render ops (ofList []) i w = some w := rfl

theorem render_ofList_cons {ι σ : Type} (ops : ToolOps ι σ) (i : ι) (t : ToolAdapter)
    (rest : List ToolAdapter) (w : σ) :
    render ops (ofList (t :: rest)) i w = render ops (ofList rest) i (ops.render t i w) := rfl

theorem render_ofList {ι σ : Type} (ops : ToolOps ι σ) (i : ι) (ts : List ToolAdapter) (w : σ) :
    render ops (ofList ts) i w = some (ts.foldl (fun s t => ops.render t i s) w) := by
  induction ts generalizing w with
  | nil => rfl
  | cons t rest ih => rw [render_ofList_cons, ih]; rfl

theorem render_traced_foldl {ι σ : Type} (ops : ToolOps ι σ) (i : ι) (ts : List ToolAdapter)
    (w : σ) (l0 : List ToolCall) :
    ts.foldl (fun s t => ops.traced.render t i s) (w, l0) =
      (ts.foldl (fun s t => ops.render t i s) w, l0 ++ ts.map ToolCall.render) := by
  induction ts generalizing w l0 with
  | nil => simp
  | cons t rest ih =>
    simp only [List.foldl_cons, List.map_cons]
    rw [show ops.traced.render t i (w, l0) = (ops.render t i w, l0 ++ [ToolCall.render t]) from rfl, ih]
    simp

theorem mouseClick_ofList_nil {ι σ : Type} (ops : ToolOps ι σ) (i : ι) (w : σ) :
    mouseClick ops (ofList []) i w = some (false, w) := rfl

theorem mouseClick_ofList_cons {ι σ : Type} (ops : ToolOps ι σ) (i : ι) (t : ToolAdapter)
    (rest : List ToolAdapter) (w : σ) :
    mouseClick ops (ofList (t :: rest)) i w =
      if (ops.mouseClick t i w).1 then some (true, (ops.mouseClick t i w).2)
      else mouseClick ops (ofList rest) i (ops.mouseClick t i w).2 := rfl

theorem mouseDoubleClick_ofList_nil {ι σ : Type} (ops : ToolOps ι σ) (i : ι) (w : σ) :
    mouseDoubleClick ops (ofList []) i w = some (false, w) := rfl

theorem mouseDoubleClick_ofList_cons {ι σ : Type} (ops : ToolOps ι σ) (i : ι) (t : ToolAdapter)
    (rest : List ToolAdapter) (w : σ) :
    mouseDoubleClick ops (ofList (t :: rest)) i w =
      if (ops.mouseDoubleClick t i w).1 then some (true, (ops.mouseDoubleClick t i w).2)
      else mouseDoubleClick ops (ofList rest) i (ops.mouseDoubleClick t i w).2 := rfl

theorem cancel_ofList_nil {ι σ : Type} (ops : ToolOps ι σ) (w : σ) :
    cancel ops (ofList []) w = some (false, w) := rfl

theorem cancel_ofList_cons {ι σ : Type} (ops : ToolOps ι σ) (t : ToolAdapter)
    (rest : List ToolAdapter) (w : σ) :
    cancel ops (ofList (t :: rest)) w =
      if (ops.cancel t w).1 then some (true, (ops.cancel t w).2)
      else cancel ops (ofList rest) (ops.cancel t w).2 := rfl

theorem startMouseDrag_ofList_nil {ι σ : Type} (ops : ToolOps ι σ) (i : ι) (w : σ) :
    startMouseDrag ops (ofList []) i w = some (none, w) := rfl

theorem startMouseDrag_ofList_cons {ι σ : Type} (ops : ToolOps ι σ) (i : ι) (t : ToolAdapter)
    (rest : List ToolAdapter) (w : σ) :
    startMouseDrag ops (ofList (t :: rest)) i w =
      if (ops.startMouseDrag t i w).1 then some (some t, (ops.startMouseDrag t i w).2)
      else startMouseDrag ops (ofList rest) i (ops.startMouseDrag t i w).2 := rfl

theorem dragEnter_ofList_nil {ι σ : Type} (ops : ToolOps ι σ) (i : ι) (p : String) (w : σ) :
    dragEnter ops (ofList []) i p w = some (none, w) := rfl

theorem dragEnter_ofList_cons {ι σ : Type} (ops : ToolOps ι σ) (i : ι) (p : String)
    (t : ToolAdapter) (rest : List ToolAdapter) (w : σ) :
    dragEnter ops (ofList (t :: rest)) i p w =
      if (ops.dragEnter t i p w).1 then some (some t, (ops.dragEnter t i p w).2)
      else dragEnter ops (ofList rest) i p (ops.dragEnter t i p w).2 := rfl

theorem mouseClick_ofList_traced {ι σ : Type} (ops : ToolOps ι σ) (i : ι)
    (ts : List ToolAdapter) (w : σ) (l0 : List ToolCall) :
    ∃ (b : Bool) (w1 : σ) (k : Nat),
      mouseClick ops.traced (ofList ts) i (w, l0) =
        some (b, (w1, l0 ++ ((ts.take k).map (fun t => ToolCall.mouseClick t false) ++
          ((ts.drop k).take (if b then 1 else 0)).map (fun t => ToolCall.mouseClick t true)))) ∧
      (if b then k < ts.length else k = ts.length) := by
  induction ts generalizing w l0 with
  | nil => exact ⟨false, w, 0, by simp [mouseClick_ofList_nil], rfl⟩
  | cons t rest ih =>
    rw [mouseClick_ofList_cons]
    have htr : ops.traced.mouseClick t i (w, l0) =
        ((ops.mouseClick t i w).1, ((ops.mouseClick t i w).2,
          l0 ++ [ToolCall.mouseClick t (ops.mouseClick t i w).1])) := rfl
    rw [htr]
    cases hb : (ops.mouseClick t i w).1 with
    | true => exact ⟨true, (ops.mouseClick t i w).2, 0, by simp, by simp⟩
    | false =>
      obtain ⟨b, w1, k, hrun, hk⟩ :=
        ih (ops.mouseClick t i w).2 (l0 ++ [ToolCall.mouseClick t false])
      refine ⟨b, w1, k + 1, ?_, ?_⟩
      · simp only [Bool.false_eq_true, if_false]
        rw [hrun]
        simp
      · cases b <;> simpa using hk

theorem startMouseDrag_ofList_traced {ι σ : Type} (ops : ToolOps ι σ) (i : ι)
    (ts : List ToolAdapter) (w : σ) (l0 : List ToolCall) :
    ∃ (r : Option ToolAdapter) (w1 : σ) (k : Nat),
      startMouseDrag ops.traced (ofList ts) i (w, l0) =
        some (r, (w1, l0 ++ ((ts.take k).map (fun t => ToolCall.startMouseDrag t false) ++
          r.toList.map (fun t => ToolCall.startMouseDrag t true)))) ∧
      (match r with
        | some t => ts[k]? = some t
        | none => k = ts.length) := by
  induction ts generalizing w l0 with
  | nil => exact ⟨none, w, 0, by simp [startMouseDrag_ofList_nil], rfl⟩
  | cons t rest ih =>
    rw [startMouseDrag_ofList_cons]
    have htr : ops.traced.startMouseDrag t i (w, l0) =
        ((ops.startMouseDrag t i w).1, ((ops.startMouseDrag t i w).2,
          l0 ++ [ToolCall.startMouseDrag t (ops.startMouseDrag t i w).1])) := rfl
    rw [htr]
    cases hb : (ops.startMouseDrag t i w).1 with
    | true => exact ⟨some t, (ops.startMouseDrag t i w).2, 0, by simp, by simp⟩
    | false =>
      obtain ⟨r, w1, k, hrun, hk⟩ :=
        ih (ops.startMouseDrag t i w).2 (l0 ++ [ToolCall.startMouseDrag t false])
      refine ⟨r, w1, k + 1, ?_, ?_⟩
      · simp only [Bool.false_eq_true, if_false]
        rw [hrun]
        simp
      · cases r <;> simpa using hk

theorem dragEnter_ofList_traced {ι σ : Type} (ops : ToolOps ι σ) (i : ι) (p : String)
    (ts : List ToolAdapter) (w : σ) (l0 : List ToolCall) :
    ∃ (r : Option ToolAdapter) (w1 : σ) (k : Nat),
      dragEnter ops.traced (ofList ts) i p (w, l0) =
        some (r, (w1, l0 ++ ((ts.take k).map (fun t => ToolCall.dragEnter t false) ++
          r.toList.map (fun t => ToolCall.dragEnter t true)))) ∧
      (match r with
        | some t => ts[k]? = some t
        | none => k = ts.length) := by
  induction ts generalizing w l0 with
  | nil => exact ⟨none, w, 0, by simp [dragEnter_ofList_nil], rfl⟩
  | cons t rest ih =>
    rw [dragEnter_ofList_cons]
    have htr : ops.traced.dragEnter t i p (w, l0) =
        ((ops.dragEnter t i p w).1, ((ops.dragEnter t i p w).2,
          l0 ++ [ToolCall.dragEnter t (ops.dragEnter t i p w).1])) := rfl
    rw [htr]
    cases hb : (ops.dragEnter t i p w).1 with
    | true => exact ⟨some t, (ops.dragEnter t i p w).2, 0, by simp, by simp⟩
    | false =>
      obtain ⟨r, w1, k, hrun, hk⟩ :=
        ih (ops.dragEnter t i p w).2 (l0 ++ [ToolCall.dragEnter t false])
      refine ⟨r, w1, k + 1, ?_, ?_⟩
      · simp only [Bool.false_eq_true, if_false]
        rw [hrun]
        simp
      · cases r <;> simpa using hk

theorem mouseClick_traced_erase {ι σ : Type} (ops : ToolOps ι σ) (i : ι)
    (ts : List ToolAdapter) (w : σ) (l0 : List ToolCall) :
    (mouseClick ops.traced (ofList ts) i (w, l0)).map (fun r => (r.1, r.2.1)) =
      mouseClick ops (ofList ts) i w := by
  induction ts generalizing w l0 with
  | nil => rfl
  | cons t rest ih =>
    rw [mouseClick_ofList_cons, mouseClick_ofList_cons]
    have htr : ops.traced.mouseClick t i (w, l0) =
        ((ops.mouseClick t i w).1, ((ops.mouseClick t i w).2,
          l0 ++ [ToolCall.mouseClick t (ops.mouseClick t i w).1])) := rfl
    rw [htr]
    cases hb : (ops.mouseClick t i w).1 with
    | true => simp
    | false => simpa using ih _ _

theorem startMouseDrag_traced_erase {ι σ : Type} (ops : ToolOps ι σ) (i : ι)
    (ts : List ToolAdapter) (w : σ) (l0 : List ToolCall) :
    (startMouseDrag ops.traced (ofList ts) i (w, l0)).map (fun r => (r.1, r.2.1)) =
      startMouseDrag ops (ofList ts) i w := by
  induction ts generalizing w l0 with
  | nil => rfl
  | cons t rest ih =>
    rw [startMouseDrag_ofList_cons, startMouseDrag_ofList_cons]
    have htr : ops.traced.startMouseDrag t i (w, l0) =
        ((ops.startMouseDrag t i w).1, ((ops.startMouseDrag t i w).2,
          l0 ++ [ToolCall.startMouseDrag t (ops.startMouseDrag t i w).1])) := rfl
    rw [htr]
    cases hb : (ops.startMouseDrag t i w).1 with
    | true => simp
    | false => simpa using ih _ _

theorem dragEnter_traced_erase {ι σ : Type} (ops : ToolOps ι σ) (i : ι) (p : String)
    (ts : List ToolAdapter) (w : σ) (l0 : List ToolCall) :
    (dragEnter ops.traced (ofList ts) i p (w, l0)).map (fun r => (r.1, r.2.1)) =
      dragEnter ops (ofList ts) i p w := by
  induction ts generalizing w l0 with
  | nil => rfl
  | cons t rest ih =>
    rw [dragEnter_ofList_cons, dragEnter_ofList_cons]
    have htr : ops.traced.dragEnter t i p (w, l0) =
        ((ops.dragEnter t i p w).1, ((ops.dragEnter t i p w).2,
          l0 ++ [ToolCall.dragEnter t (ops.dragEnter t i p w).1])) := rfl
    rw [htr]
    cases hb : (ops.dragEnter t i p w).1 with
    | true => simp
    | false => simpa using ih _ _

/-- C1: for the chain built by appending the tools `ts` to a new chain (which always
succeeds), `mouseClick` asks the first `k` tools in append order, each of which declines;
when it returns `true` it then asks tool `k`, which accepts, and asks no tool after it;
when it returns `false`, `k` is the number of tools, so every tool was asked and declined
(and nothing is asked on the empty chain). The run without the call log gives the same
answer and world. -/
theorem mouseClick_stops_at_first_acceptor {ι σ : Type} (ops : ToolOps ι σ)
    (ts : List ToolAdapter) (i : ι) (w : σ) :
    ∃ (c : ToolChain) (b : Bool) (w1 : σ) (k : Nat),
      appendAll new (ts.map some) = some c ∧
      mouseClick ops.traced c i (w, []) =
        some (b, (w1, (ts.take k).map (fun t => ToolCall.mouseClick t false) ++
          ((ts.drop k).take (if b then 1 else 0)).map (fun t => ToolCall.mouseClick t true))) ∧
      mouseClick ops c i w = some (b, w1) ∧
      (if b then k < ts.length else k = ts.length) := by
  obtain ⟨b, w1, k, hrun, hk⟩ := mouseClick_ofList_traced ops i ts w []
  refine ⟨ofList ts, b, w1, k, appendAll_new ts, by simpa using hrun, ?_, hk⟩
  rw [← mouseClick_traced_erase ops i ts w [], hrun]
  rfl

/-- C2: a run of `append` calls on a new chain fails (an assertion fires) exactly when one
of the appended pointers is null. When it completes, walking the chain from the head,
every node but the last has a non-null tool and a non-null suffix, these nodes hold the
appended tools in order, the last node is terminal, and it is the only terminal node. -/
theorem append_keeps_chain_shape (ptrs : List (Option ToolAdapter)) :
    match appendAll new ptrs with
    | none => ptrs.any Option.isNone = true
    | some c =>
      ptrs.all Option.isSome = true ∧
      (walk c).dropLast.all (fun n => n.m_tool.isSome && n.m_suffix.isSome) = true ∧
      (walk c).dropLast.map m_tool = ptrs ∧
      (walk c).getLast?.map isTerminal = some true ∧
      (walk c).countP isTerminal = 1 := by
  have h := appendAll_ofList_cases ptrs []
  rw [show ofList [] = new from rfl] at h
  cases hc : appendAll new ptrs with
  | none => rw [hc] at h; exact h
  | some c =>
    rw [hc] at h
    obtain ⟨hall, us, hus, hcu⟩ := h
    obtain ⟨l, hw, hl, hmap⟩ := walk_ofList us
    have hwc : walk c = l ++ [new] := by rw [hcu]; simpa using hw
    refine ⟨hall, ?_, ?_, ?_, ?_⟩
    · rw [hwc, List.dropLast_concat]; exact hl
    · rw [hwc, List.dropLast_concat, hmap, hus]
    · rw [hwc]; simp [isTerminal, new, m_tool, m_suffix]
    · rw [hwc, List.countP_append, countP_isTerminal_eq_zero l hl]
      rfl

/-- C3: for the chain built by appending the tools `ts` to a new chain, each of `pick`,
`mouseDown`, `mouseUp`, `mouseMove`, `mouseScroll`, `modifierKeyChange` and `render` calls
the handler of the same name once per appended tool, in append order, whatever the
handlers do to the world, and calls nothing else; on the empty chain the call log stays
empty. -/
theorem fan_out_reaches_every_tool {ι σ : Type} (ops : ToolOps ι σ)
    (ts : List ToolAdapter) (i : ι) (w : σ) :
    ∃ c : ToolChain,
      appendAll new (ts.map some) = some c ∧
      pick ops.traced c i (w, []) =
        some (ts.foldl (fun s t => ops.pick t i s) w, ts.map ToolCall.pick) ∧
      mouseDown ops.traced c i (w, []) =
        some (ts.foldl (fun s t => ops.mouseDown t i s) w, ts.map ToolCall.mouseDown) ∧
      mouseUp ops.traced c i (w, []) =
        some (ts.foldl (fun s t => ops.mouseUp t i s) w, ts.map ToolCall.mouseUp) ∧
      mouseMove ops.traced c i (w, []) =
        some (ts.foldl (fun s t => ops.mouseMove t i s) w, ts.map ToolCall.mouseMove) ∧
      mouseScroll ops.traced c i (w, []) =
        some (ts.foldl (fun s t => ops.mouseScroll t i s) w, ts.map ToolCall.mouseScroll) ∧
      modifierKeyChange ops.traced c i (w, []) =
        some (ts.foldl (fun s t => ops.modifierKeyChange t i s) w, ts.map ToolCall.modifierKeyChange) ∧
      render ops.traced c i (w, []) =
        some (ts.foldl (fun s t => ops.render t i s) w, ts.map ToolCall.render) := by
  refine ⟨ofList ts, appendAll_new ts, ?_, ?_, ?_, ?_, ?_, ?_, ?_⟩
  · rw [pick_ofList, pick_traced_foldl]; simp
  · rw [mouseDown_ofList, mouseDown_traced_foldl]; simp
  · rw [mouseUp_ofList, mouseUp_traced_foldl]; simp
  · rw [mouseMove_ofList, mouseMove_traced_foldl]; simp
  · rw [mouseScroll_ofList, mouseScroll_traced_foldl]; simp
  · rw [modifierKeyChange_ofList, modifierKeyChange_traced_foldl]; simp
  · rw [render_ofList, render_traced_foldl]; simp

/-- C4: for the chain built by appending the tools `ts` to a new chain, `startMouseDrag`
asks the first `k` tools in append order, each of which declines; it then either returns
tool `k`, which was asked next and accepted, with no later tool asked, or returns null
with `k` the number of tools (every tool declined; nothing is asked on the empty chain).
`dragEnter` does the same with the handler `dragEnter`. -/
theorem drag_returns_first_claiming_tool {ι σ : Type} (ops : ToolOps ι σ)
    (ts : List ToolAdapter) (i : ι) (payload : String) (w : σ) :
    ∃ c : ToolChain,
      appendAll new (ts.map some) = some c ∧
      (∃ (r : Option ToolAdapter) (w1 : σ) (k : Nat),
        startMouseDrag ops.traced c i (w, []) =
          some (r, (w1, (ts.take k).map (fun t => ToolCall.startMouseDrag t false) ++
            r.toList.map (fun t => ToolCall.startMouseDrag t true))) ∧
        startMouseDrag ops c i w = some (r, w1) ∧
        (match r with
          | some t => ts[k]? = some t
          | none => k = ts.length)) ∧
      (∃ (r : Option ToolAdapter) (w1 : σ) (k : Nat),
        dragEnter ops.traced c i payload (w, []) =
          some (r, (w1, (ts.take k).map (fun t => ToolCall.dragEnter t false) ++
            r.toList.map (fun t => ToolCall.dragEnter t true))) ∧
        dragEnter ops c i payload w = some (r, w1) ∧
        (match r with
          | some t => ts[k]? = some t
          | none => k = ts.length)) := by
  refine ⟨ofList ts, appendAll_new ts, ?_, ?_⟩
  · obtain ⟨r, w1, k, hrun, hk⟩ := startMouseDrag_ofList_traced ops i ts w []
    refine ⟨r, w1, k, by simpa using hrun, ?_, hk⟩
    rw [← startMouseDrag_traced_erase ops i ts w [], hrun]
    rfl
  · obtain ⟨r, w1, k, hrun, hk⟩ := dragEnter_ofList_traced ops i payload ts w []
    refine ⟨r, w1, k, by simpa using hrun, ?_, hk⟩
    rw [← dragEnter_traced_erase ops i payload ts w [], hrun]
    rfl

end ToolChain

end View

end TrenchBroom

/-! Theorems: Assets::EntityModelManager -/

namespace TrenchBroom.Assets
open EntityModelManager

theorem mapFind_mapAssign_self {κ ν : Type} [DecidableEq κ] (l : List (κ × ν)) (k : κ) (v : ν) :
    mapFind (mapAssign l k v) k = some v := by
  induction l with
  | nil => simp [mapAssign, mapFind]
  | cons a rest ih =>
    obtain ⟨k0, v0⟩ := a
    by_cases h : k0 = k
    · simp [mapAssign, mapFind, h]
    · simp [mapAssign, mapFind, h, ih]

theorem mapFind_mapAssign_ne {κ ν : Type} [DecidableEq κ] (l : List (κ × ν)) (k k1 : κ) (v : ν)
    (h : k ≠ k1) : mapFind (mapAssign l k v) k1 = mapFind l k1 := by
  induction l with
  | nil => simp [mapAssign, mapFind, h]
  | cons a rest ih =>
    obtain ⟨k0, v0⟩ := a
    by_cases h0 : k0 = k
    · subst h0; simp [mapAssign, mapFind, h]
    · by_cases h1 : k0 = k1
      · subst h1; simp [mapAssign, mapFind, h0]
      · simp [mapAssign, mapFind, h0, h1, ih]

theorem setCount_pos {κ : Type} [DecidableEq κ] (s : List κ) (k : κ) :
    setCount s k > 0 ↔ k ∈ s := by
  unfold setCount
  split <;> simp_all

theorem mem_setInsert {κ : Type} [DecidableEq κ] (s : List κ) (k x : κ) :
    x ∈ setInsert s k ↔ x = k ∨ x ∈ s := by
  unfold setInsert
  split
  · constructor
    · intro h; exact Or.inr h
    · rintro (h | h)
      · subst h; assumption
      · exact h
  · simp [or_comm]

theorem Keeps.refl (m : EntityModelManager) : Keeps m m :=
  ⟨rfl, fun _ _ h => h, fun _ _ h => h, fun _ h1 h2 => ⟨h1, h2⟩, fun _ h1 h2 => ⟨h1, h2⟩⟩

theorem Keeps.trans {a b c : EntityModelManager} (h1 : Keeps a b) (h2 : Keeps b c) :
    Keeps a c := by
  obtain ⟨g1, m1, r1, mm1, rm1⟩ := h1
  obtain ⟨g2, m2, r2, mm2, rm2⟩ := h2
  refine ⟨g2.trans g1, fun p v h => m2 p v (m1 p v h), fun sp v h => r2 sp v (r1 sp v h), ?_, ?_⟩
  · intro p hp hf
    exact mm2 p (mm1 p hp hf).1 (mm1 p hp hf).2
  · intro sp hp hf
    exact rm2 sp (rm1 sp hp hf).1 (rm1 sp hp hf).2

theorem model_cached {σ : Type} (ops : AssetOps σ) (path : Path) (m : EntityModelManager)
    (w : σ) (v : Option EntityModel) (hne : path.isEmpty = false)
    (h : mapFind m.m_models path = some v) : model ops path m w = (Outcome.ret v, m, w) := by
  simp [model, hne, h]

theorem model_mismatch {σ : Type} (ops : AssetOps σ) (path : Path) (m : EntityModelManager)
    (w : σ) (hfind : mapFind m.m_models path = none) (hmis : path ∈ m.m_modelMismatches) :
    model ops path m w = (Outcome.ret none, m, w) := by
  have hc : setCount m.m_modelMismatches path > 0 := (setCount_pos _ _).2 hmis
  unfold model
  split
  · rfl
  · simp [hfind, hc]

theorem model_frame {σ : Type} (ops : AssetOps σ) (q : Path) (m : EntityModelManager) (w : σ) :
    (model ops q m w).2.1.m_game = m.m_game ∧
    (model ops q m w).2.1.m_renderers = m.m_renderers ∧
    (model ops q m w).2.1.m_rendererMismatches = m.m_rendererMismatches ∧
    (model ops q m w).2.1.m_prepared = m.m_prepared ∧
    (model ops q m w).2.1.m_logger = m.m_logger := by
  unfold model
  repeat' split
  all_goals simp

theorem model_keeps {σ : Type} (ops : AssetOps σ) (q : Path) (m : EntityModelManager) (w : σ) :
    Keeps m (model ops q m w).2.1 := by
  unfold model
  repeat' split
  any_goals exact Keeps.refl m
  · have hfind : mapFind m.m_models q = none := by assumption
    have hc : ¬ setCount m.m_modelMismatches q > 0 := by assumption
    refine ⟨rfl, ?_, fun _ _ h => h, ?_, fun _ h1 h2 => ⟨h1, h2⟩⟩
    · intro p v hp
      show mapFind (mapAssign m.m_models q _) p = some v
      rw [mapFind_mapAssign_ne]
      · exact hp
      · rintro rfl
        rw [hfind] at hp
        cases hp
    · intro p hp hf
      refine ⟨hp, ?_⟩
      show mapFind (mapAssign m.m_models q _) p = none
      rw [mapFind_mapAssign_ne]
      · exact hf
      · rintro rfl
        exact absurd ((setCount_pos _ _).2 hp) hc
  · refine ⟨rfl, fun _ _ h => h, fun _ _ h => h, ?_, fun _ h1 h2 => ⟨h1, h2⟩⟩
    intro p hp hf
    exact ⟨(mem_setInsert _ _ _).2 (Or.inr hp), hf⟩

theorem renderer_keeps {σ : Type} (ops : AssetOps σ) (spec : ModelSpecification)
    (m : EntityModelManager) (w : σ) : Keeps m (renderer ops spec m w).2.1 := by
  have hk := model_keeps ops spec.path m w
  unfold renderer
  generalize model ops spec.path m w = r at hk
  obtain ⟨o, m1, w1⟩ := r
  cases o with
  | abort => exact hk
  | raise e => exact hk
  | ret v =>
    cases v with
    | none => exact hk
    | some em =>
      simp only
      split
      · exact hk
      · have hfind : mapFind m1.m_renderers spec = none := by assumption
        split
        · exact hk
        · have hc : ¬ setCount m1.m_rendererMismatches spec > 0 := by assumption
          split
          · refine hk.trans ⟨rfl, fun _ _ h => h, fun _ _ h => h, fun _ h1 h2 => ⟨h1, h2⟩, ?_⟩
            intro sp hp hf
            exact ⟨(mem_setInsert _ _ _).2 (Or.inr hp), hf⟩
          · refine hk.trans ⟨rfl, fun _ _ h => h, ?_, fun _ h1 h2 => ⟨h1, h2⟩, ?_⟩
            · intro sp v hp
              show mapFind (mapAssign m1.m_renderers spec _) sp = some v
              rw [mapFind_mapAssign_ne]
              · exact hp
              · rintro rfl
                rw [hfind] at hp
                cases hp
            · intro sp hp hf
              refine ⟨hp, ?_⟩
              show mapFind (mapAssign m1.m_renderers spec _) sp = none
              rw [mapFind_mapAssign_ne]
              · exact hf
              · rintro rfl
                exact absurd ((setCount_pos _ _).2 hp) hc

theorem Keeps.of_caches_eq {m m1 : EntityModelManager} (hg : m1.m_game = m.m_game)
    (h1 : m1.m_models = m.m_models) (h2 : m1.m_renderers = m.m_renderers)
    (h3 : m1.m_modelMismatches = m.m_modelMismatches)
    (h4 : m1.m_rendererMismatches = m.m_rendererMismatches) : Keeps m m1 := by
  refine ⟨hg, ?_, ?_, ?_, ?_⟩
  · intro p v h; rw [h1]; exact h
  · intro sp v h; rw [h2]; exact h
  · intro p hp hf; rw [h1, h3]; exact ⟨hp, hf⟩
  · intro sp hp hf; rw [h2, h4]; exact ⟨hp, hf⟩

theorem prepareRenderers_keeps {σ : Type} (ops : AssetOps σ) (m : EntityModelManager) (w : σ) :
    Keeps m (prepareRenderers ops m w).2.1 := by
  unfold prepareRenderers
  repeat' split
  all_goals exact Keeps.of_caches_eq rfl rfl rfl rfl rfl

theorem call_keeps {σ : Type} (ops : AssetOps σ) (c : ManagerCall) (s : EntityModelManager × σ)
    (hc : c.keepsCaches s.1.m_game = true) : Keeps s.1 (c.run ops s).1 := by
  cases c with
  | clear => simp [ManagerCall.keepsCaches] at hc
  | reset game =>
    have hg : game = s.1.m_game := by simpa [ManagerCall.keepsCaches] using hc
    simp only [ManagerCall.run, reset, hg, if_true]
    exact Keeps.refl _
  | model path => exact model_keeps ops path s.1 s.2
  | renderer spec => exact renderer_keeps ops spec s.1 s.2
  | activateVbo => exact prepareRenderers_keeps ops s.1 _
  | deactivateVbo => exact Keeps.refl _

theorem runCalls_keeps {σ : Type} (ops : AssetOps σ) (calls : List ManagerCall)
    (s : EntityModelManager × σ)
    (hc : ∀ c ∈ calls, c.keepsCaches s.1.m_game = true) :
    Keeps s.1 (runCalls ops calls s).1 := by
  induction calls generalizing s with
  | nil => exact Keeps.refl _
  | cons c rest ih =>
    have h1 := call_keeps ops c s (hc c (List.mem_cons_self _ _))
    refine h1.trans (ih _ ?_)
    intro c1 hc1
    rw [h1.1]
    exact hc c1 (List.mem_cons_of_mem _ hc1)

theorem loadCount_append (p : Path) (l1 l2 : List AssetCall) :
    loadCount p (l1 ++ l2) = loadCount p l1 + loadCount p l2 := by
  simp [loadCount, List.countP_append]

theorem logDebug_traced_loadCount {σ : Type} (ops : AssetOps σ) (m : EntityModelManager)
    (msg : String) (s : σ × List AssetCall) (p : Path) :
    loadCount p (logDebug ops.traced m msg s).2 = loadCount p s.2 := by
  unfold logDebug
  split
  · rfl
  · show loadCount p (s.2 ++ [AssetCall.debug _ msg]) = _
    rw [loadCount_append]
    rfl

theorem loadModel_traced_loadCount {σ : Type} (ops : AssetOps σ) (g : Game) (q p : Path)
    (s : σ × List AssetCall) (r : Except GameException (Option EntityModel))
    (w1 : σ × List AssetCall) (h : ops.traced.loadModel g q s = (r, w1)) :
    loadCount p w1.2 = loadCount p s.2 + (if q = p then 1 else 0) := by
  have h2 : w1.2 = s.2 ++ [AssetCall.loadModel g q] := by
    rw [← show (ops.traced.loadModel g q s).2 = w1 from by rw [h]]
    rfl
  rw [h2, loadCount_append]
  by_cases hq : q = p <;> simp [loadCount, hq]

theorem model_traced_loadCount_ne {σ : Type} (ops : AssetOps σ) (q p : Path)
    (m : EntityModelManager) (s : σ × List AssetCall) (h : q ≠ p) :
    loadCount p (model ops.traced q m s).2.2.2 = loadCount p s.2 := by
  unfold model
  repeat' split
  any_goals rfl
  all_goals
    rename_i heq
    have hl := loadModel_traced_loadCount ops _ q p s _ _ heq
    simp only [logDebug_traced_loadCount]
    simpa [h] using hl

theorem model_raise_inv {σ : Type} (ops : AssetOps σ) (path : Path) (m : EntityModelManager)
    (w : σ) (e : GameException) (h : (model ops path m w).1 = Outcome.raise e) :
    ∃ g, path.isEmpty = false ∧ mapFind m.m_models path = none ∧
      path ∉ m.m_modelMismatches ∧ m.m_game = some g ∧
      (ops.loadModel g path w).1 = Except.error e ∧
      model ops path m w =
        (Outcome.raise e, { m with m_modelMismatches := setInsert m.m_modelMismatches path },
          logDebug ops m ("Failed to load entity model " ++ path.asString ++ ": " ++ e.what)
            (ops.loadModel g path w).2) := by
  cases hne : path.isEmpty with
  | true => simp [model, hne] at h
  | false =>
    cases hfind : mapFind m.m_models path with
    | some v => simp [model, hne, hfind] at h
    | none =>
      by_cases hc : setCount m.m_modelMismatches path > 0
      · simp [model, hne, hfind, hc] at h
      · cases hg : m.m_game with
        | none => simp [model, hne, hfind, hc, hg] at h
        | some g =>
          have hmem : path ∉ m.m_modelMismatches := fun hm => hc ((setCount_pos _ _).2 hm)
          rcases hl : ops.loadModel g path w with ⟨r, w1⟩
          cases r with
          | ok v =>
            cases v <;> simp [model, hne, hfind, hc, hg, hl] at h
          | error e1 =>
            have hrun : model ops path m w =
                (Outcome.raise e1,
                  { m with m_modelMismatches := setInsert m.m_modelMismatches path },
                  logDebug ops m
                    ("Failed to load entity model " ++ path.asString ++ ": " ++ e1.what) w1) := by
              simp [model, hne, hfind, hc, hg, hl]
            rw [hrun] at h
            have he : e1 = e := by simpa using h
            subst he
            refine ⟨g, rfl, rfl, hmem, rfl, by rw [hl], ?_⟩
            rw [hrun, hl, hg]

theorem model_ret_some_inv {σ : Type} (ops : AssetOps σ) (path : Path) (m : EntityModelManager)
    (w : σ) (em : EntityModel) (h : (model ops path m w).1 = Outcome.ret (some em)) :
    path.isEmpty = false ∧
      mapFind (model ops path m w).2.1.m_models path = some (some em) := by
  cases hne : path.isEmpty with
  | true => simp [model, hne] at h
  | false =>
    refine ⟨rfl, ?_⟩
    cases hfind : mapFind m.m_models path with
    | some v =>
      have hrun := model_cached ops path m w v hne hfind
      rw [hrun] at h ⊢
      have hv : v = some em := by simpa using h
      subst hv
      exact hfind
    | none =>
      by_cases hc : setCount m.m_modelMismatches path > 0
      · simp [model, hne, hfind, hc] at h
      · cases hg : m.m_game with
        | none => simp [model, hne, hfind, hc, hg] at h
        | some g =>
          rcases hl : ops.loadModel g path w with ⟨r, w1⟩
          cases r with
          | ok v =>
            cases v with
            | none => simp [model, hne, hfind, hc, hg, hl] at h
            | some em1 =>
              have hrun : model ops path m w =
                  (Outcome.ret (some em1),
                    { m with m_models := mapAssign m.m_models path (some em1) },
                    logDebug ops m ("Loaded entity model " ++ path.asString) w1) := by
                simp [model, hne, hfind, hc, hg, hl]
              rw [hrun] at h ⊢
              have hv : em1 = em := by simpa using h
              subst hv
              exact mapFind_mapAssign_self _ _ _
          | error e1 => simp [model, hne, hfind, hc, hg, hl] at h

theorem model_traced_loadCount_raise {σ : Type} (ops : AssetOps σ) (p : Path)
    (m : EntityModelManager) (s : σ × List AssetCall) (e : GameException)
    (h : (model ops.traced p m s).1 = Outcome.raise e) :
    loadCount p (model ops.traced p m s).2.2.2 = loadCount p s.2 + 1 := by
  obtain ⟨g, _, _, _, _, _, hrun⟩ := model_raise_inv ops.traced p m s e h
  rw [hrun]
  simp only [logDebug_traced_loadCount]
  have hl := loadModel_traced_loadCount ops g p p s _ _ rfl
  simpa using hl

theorem loadCount_snoc_other (p : Path) (l : List AssetCall) (c : AssetCall)
    (h : ∀ g, c ≠ AssetCall.loadModel g p) : loadCount p (l ++ [c]) = loadCount p l := by
  rw [loadCount_append]
  cases c with
  | loadModel g q =>
    have hq : q ≠ p := fun hq => h g (by rw [hq])
    simp [loadCount, hq]
  | _ => rfl

theorem renderer_traced_loadCount {σ : Type} (ops : AssetOps σ) (spec : ModelSpecification)
    (m : EntityModelManager) (s : σ × List AssetCall) (p : Path) :
    loadCount p (renderer ops.traced spec m s).2.2.2 =
      loadCount p (model ops.traced spec.path m s).2.2.2 := by
  unfold renderer
  generalize model ops.traced spec.path m s = r
  obtain ⟨o, m1, w1⟩ := r
  cases o with
  | abort => rfl
  | raise e => rfl
  | ret v =>
    cases v with
    | none => rfl
    | some em =>
      simp only
      split
      · rfl
      · split
        · rfl
        · have hb : (ops.traced.buildRenderer em spec.skinIndex spec.frameIndex w1).2.2 =
              w1.2 ++ [AssetCall.buildRenderer em spec.skinIndex spec.frameIndex] := rfl
          split
          all_goals
            rename_i heq
            rw [heq] at hb
            simp only [logDebug_traced_loadCount]
            simp only at hb
            rw [hb]
            exact loadCount_snoc_other p _ _ (fun g => by simp)

theorem prepareEach_traced_loadCount {σ : Type} (ops : AssetOps σ) (p : Path)
    (l : List (ModelSpecification × Option MeshRenderer)) (s s1 : σ × List AssetCall)
    (h : prepareEach ops.traced l s = some s1) : loadCount p s1.2 = loadCount p s.2 := by
  induction l generalizing s with
  | nil =>
    simp only [prepareEach, Option.some.injEq] at h
    rw [← h]
  | cons a rest ih =>
    obtain ⟨sp, r⟩ := a
    cases r with
    | none => simp [prepareEach] at h
    | some r =>
      simp only [prepareEach] at h
      rw [ih _ h]
      exact loadCount_snoc_other p _ _ (fun g => by simp)

theorem prepareRenderers_traced_loadCount {σ : Type} (ops : AssetOps σ) (p : Path)
    (m : EntityModelManager) (s : σ × List AssetCall) :
    loadCount p (prepareRenderers ops.traced m s).2.2.2 = loadCount p s.2 := by
  unfold prepareRenderers
  split
  · rfl
  · split
    · exact loadCount_snoc_other p _ _ (fun g => by simp)
    · rename_i heq
      show loadCount p (_ ++ [AssetCall.vboRestore]) = _
      rw [loadCount_snoc_other p _ _ (fun g => by simp), prepareEach_traced_loadCount ops p _ _ _ heq]
      exact loadCount_snoc_other p _ _ (fun g => by simp)

theorem call_traced_loadCount {σ : Type} (ops : AssetOps σ) (p : Path) (c : ManagerCall)
    (s : EntityModelManager × σ × List AssetCall)
    (hc : c.keepsCaches s.1.m_game = true)
    (hmis : p ∈ s.1.m_modelMismatches) (hfind : mapFind s.1.m_models p = none) :
    loadCount p (c.run ops.traced s).2.2 = loadCount p s.2.2 := by
  have hmodel : ∀ q, loadCount p (model ops.traced q s.1 s.2).2.2.2 = loadCount p s.2.2 := by
    intro q
    by_cases hq : q = p
    · subst hq
      rw [model_mismatch ops.traced q s.1 s.2 hfind hmis]
    · exact model_traced_loadCount_ne ops q p s.1 s.2 hq
  cases c with
  | clear => simp [ManagerCall.keepsCaches] at hc
  | reset game =>
    have hg : game = s.1.m_game := by simpa [ManagerCall.keepsCaches] using hc
    simp only [ManagerCall.run, reset, hg, if_true]
  | model path => exact hmodel path
  | renderer spec =>
    show loadCount p (renderer ops.traced spec s.1 s.2).2.2.2 = _
    rw [renderer_traced_loadCount, hmodel]
  | activateVbo =>
    show loadCount p (prepareRenderers ops.traced s.1 (ops.traced.vboActivate s.2)).2.2.2 = _
    rw [prepareRenderers_traced_loadCount]
    exact loadCount_snoc_other p _ _ (fun g => by simp)
  | deactivateVbo => exact loadCount_snoc_other p _ _ (fun g => by simp)

theorem runCalls_traced_loadCount {σ : Type} (ops : AssetOps σ) (p : Path)
    (calls : List ManagerCall) (s : EntityModelManager × σ × List AssetCall)
    (hc : ∀ c ∈ calls, c.keepsCaches s.1.m_game = true)
    (hmis : p ∈ s.1.m_modelMismatches) (hfind : mapFind s.1.m_models p = none) :
    loadCount p (runCalls ops.traced calls s).2.2 = loadCount p s.2.2 := by
  induction calls generalizing s with
  | nil => rfl
  | cons c rest ih =>
    have hc0 := hc c (List.mem_cons_self _ _)
    have hk := call_keeps ops.traced c s hc0
    have hinv := hk.2.2.2.1 p hmis hfind
    show loadCount p (runCalls ops.traced rest (c.run ops.traced s)).2.2 = _
    rw [ih _ (fun c1 hc1 => by rw [hk.1]; exact hc c1 (List.mem_cons_of_mem _ hc1))
      hinv.1 hinv.2]
    exact call_traced_loadCount ops p c s hc0 hmis hfind

theorem model_ret_mismatches {σ : Type} (ops : AssetOps σ) (path : Path)
    (m : EntityModelManager) (w : σ) (v : Option EntityModel)
    (h : (model ops path m w).1 = Outcome.ret v) :
    (model ops path m w).2.1.m_modelMismatches = m.m_modelMismatches := by
  unfold model at h ⊢
  repeat' split
  all_goals first
    | rfl
    | simp_all

theorem renderer_cached {σ : Type} (ops : AssetOps σ) (spec : ModelSpecification)
    (m : EntityModelManager) (w : σ) (em : EntityModel) (v : Option MeshRenderer)
    (hne : spec.path.isEmpty = false) (hm : mapFind m.m_models spec.path = some (some em))
    (hr : mapFind m.m_renderers spec = some v) :
    renderer ops spec m w = (Outcome.ret v, m, w) := by
  simp [renderer, model_cached ops spec.path m w (some em) hne hm, hr]

theorem renderer_mismatch {σ : Type} (ops : AssetOps σ) (spec : ModelSpecification)
    (m : EntityModelManager) (w : σ) (em : EntityModel)
    (hne : spec.path.isEmpty = false) (hm : mapFind m.m_models spec.path = some (some em))
    (hr : mapFind m.m_renderers spec = none) (hmis : spec ∈ m.m_rendererMismatches) :
    renderer ops spec m w = (Outcome.ret none, m, w) := by
  have hc : setCount m.m_rendererMismatches spec > 0 := (setCount_pos _ _).2 hmis
  simp [renderer, model_cached ops spec.path m w (some em) hne hm, hr, hc]

theorem renderer_ret_some_inv {σ : Type} (ops : AssetOps σ) (spec : ModelSpecification)
    (m : EntityModelManager) (w : σ) (r : MeshRenderer)
    (h : (renderer ops spec m w).1 = Outcome.ret (some r)) :
    spec.path.isEmpty = false ∧
      (∃ em, mapFind (renderer ops spec m w).2.1.m_models spec.path = some (some em)) ∧
      mapFind (renderer ops spec m w).2.1.m_renderers spec = some (some r) ∧
      (mapFind m.m_renderers spec = none → (renderer ops spec m w).2.1.m_prepared = false) := by
  have hm := model_ret_some_inv ops spec.path m w
  have hfr := (model_frame ops spec.path m w).2.1
  unfold renderer at h ⊢
  generalize model ops spec.path m w = rr at h hm hfr ⊢
  obtain ⟨o, m1, w1⟩ := rr
  cases o with
  | abort => simp at h
  | raise e => simp at h
  | ret v =>
    cases v with
    | none => simp at h
    | some em =>
      obtain ⟨hne, hfm⟩ := hm em rfl
      simp only at hfm hfr
      refine ⟨hne, ?_⟩
      simp only at h ⊢
      cases hf : mapFind m1.m_renderers spec with
      | some v =>
        simp only [hf] at h ⊢
        have hv : v = some r := by simpa using h
        subst hv
        refine ⟨⟨em, hfm⟩, rfl, ?_⟩
        intro h0
        rw [← hfr, hf] at h0
        cases h0
      | none =>
        by_cases hc : setCount m1.m_rendererMismatches spec > 0
        · simp [hf, hc] at h
        · rcases hb : ops.buildRenderer em spec.skinIndex spec.frameIndex w1 with ⟨b, w2⟩
          cases b with
          | none => simp [hf, hc, hb] at h
          | some r1 =>
            simp only [hf, hc, hb, if_false] at h
            have hv : r1 = r := by simpa using h
            subst hv
            simp only [hc, hb, if_false]
            exact ⟨⟨em, hfm⟩, mapFind_mapAssign_self _ _ _, fun _ => trivial⟩

/-- C5: when `model(path)` ends in a raised load failure (so the path is non-empty and the
loader was called and failed), then after any further calls other than `clear` and a
`reset` to another game, `model(path)` returns null and changes neither the manager nor
the world nor the call log, so the loader is not invoked again; the number of `loadModel`
calls for the path is one more than before the first call, and stays so. -/
theorem failed_load_is_not_retried {σ : Type} (ops : AssetOps σ) (path : Path)
    (m : EntityModelManager) (w : σ) (log : List AssetCall) (e : GameException)
    (calls : List ManagerCall)
    (hfail : (model ops.traced path m (w, log)).1 = Outcome.raise e)
    (hkeep : ∀ c ∈ calls, c.keepsCaches m.m_game = true) :
    path.isEmpty = false ∧
    model ops.traced path
        (runCalls ops.traced (ManagerCall.model path :: calls) (m, w, log)).1
        (runCalls ops.traced (ManagerCall.model path :: calls) (m, w, log)).2 =
      (Outcome.ret none, runCalls ops.traced (ManagerCall.model path :: calls) (m, w, log)) ∧
    loadCount path (runCalls ops.traced (ManagerCall.model path :: calls) (m, w, log)).2.2 =
      loadCount path log + 1 := by
  obtain ⟨g, hne, hfind, hmis, hg, hload, hrun⟩ := model_raise_inv ops.traced path m (w, log) e hfail
  have hcount := model_traced_loadCount_raise ops path m (w, log) e hfail
  have hk1 := model_keeps ops.traced path m (w, log)
  have hs1 : path ∈ (model ops.traced path m (w, log)).2.1.m_modelMismatches ∧
      mapFind (model ops.traced path m (w, log)).2.1.m_models path = none := by
    rw [hrun]
    exact ⟨(mem_setInsert _ _ _).2 (Or.inl rfl), hfind⟩
  have hkeep1 : ∀ c ∈ calls,
      c.keepsCaches (model ops.traced path m (w, log)).2.1.m_game = true := by
    intro c hc
    rw [hk1.1]
    exact hkeep c hc
  have hk2 := runCalls_keeps ops.traced calls (model ops.traced path m (w, log)).2 hkeep1
  have hinv := hk2.2.2.2.1 path hs1.1 hs1.2
  have hc2 := runCalls_traced_loadCount ops path calls (model ops.traced path m (w, log)).2
    hkeep1 hs1.1 hs1.2
  refine ⟨hne, ?_, ?_⟩
  · exact model_mismatch ops.traced path _ _ hinv.2 hinv.1
  · show loadCount path (runCalls ops.traced calls (model ops.traced path m (w, log)).2).2.2 = _
    rw [hc2]
    exact hcount

theorem failed_load_is_not_retried_witness :
    (model sampleAssets.traced ⟨"b.mdl"⟩ sampleManager ((), [])).1 = Outcome.raise ⟨"missing"⟩ ∧
    (∀ c ∈ [ManagerCall.model ⟨"a.mdl"⟩, ManagerCall.renderer ⟨⟨"a.mdl"⟩, 0, 0⟩,
        ManagerCall.reset (some 1), ManagerCall.activateVbo],
      c.keepsCaches sampleManager.m_game = true) ∧
    ((⟨"b.mdl"⟩ : Path).isEmpty = false ∧
    model sampleAssets.traced ⟨"b.mdl"⟩
        (runCalls sampleAssets.traced (ManagerCall.model ⟨"b.mdl"⟩ ::
          [ManagerCall.model ⟨"a.mdl"⟩, ManagerCall.renderer ⟨⟨"a.mdl"⟩, 0, 0⟩,
            ManagerCall.reset (some 1), ManagerCall.activateVbo]) (sampleManager, (), [])).1
        (runCalls sampleAssets.traced (ManagerCall.model ⟨"b.mdl"⟩ ::
          [ManagerCall.model ⟨"a.mdl"⟩, ManagerCall.renderer ⟨⟨"a.mdl"⟩, 0, 0⟩,
            ManagerCall.reset (some 1), ManagerCall.activateVbo]) (sampleManager, (), [])).2 =
      (Outcome.ret none, runCalls sampleAssets.traced (ManagerCall.model ⟨"b.mdl"⟩ ::
          [ManagerCall.model ⟨"a.mdl"⟩, ManagerCall.renderer ⟨⟨"a.mdl"⟩, 0, 0⟩,
            ManagerCall.reset (some 1), ManagerCall.activateVbo]) (sampleManager, (), [])) ∧
    loadCount ⟨"b.mdl"⟩ (runCalls sampleAssets.traced (ManagerCall.model ⟨"b.mdl"⟩ ::
          [ManagerCall.model ⟨"a.mdl"⟩, ManagerCall.renderer ⟨⟨"a.mdl"⟩, 0, 0⟩,
            ManagerCall.reset (some 1), ManagerCall.activateVbo]) (sampleManager, (), [])).2.2 =
      loadCount ⟨"b.mdl"⟩ [] + 1) :=
  ⟨by decide, by decide,
    failed_load_is_not_retried sampleAssets ⟨"b.mdl"⟩ sampleManager () [] ⟨"missing"⟩ _
      (by decide) (by decide)⟩

/-- C6: for a non-empty path that is in neither the model cache nor the model negative
cache, when the current game's loader throws, `model(path)` ends by raising that same
failure (not by returning null), the model negative cache afterwards holds the path in
addition to what it held, and the model cache is unchanged. -/
theorem failed_load_is_raised_and_recorded {σ : Type} (ops : AssetOps σ) (path : Path)
    (m : EntityModelManager) (w : σ) (g : Game) (e : GameException)
    (hne : path.isEmpty = false) (hfind : mapFind m.m_models path = none)
    (hmis : path ∉ m.m_modelMismatches) (hg : m.m_game = some g)
    (hload : (ops.loadModel g path w).1 = Except.error e) :
    (model ops path m w).1 = Outcome.raise e ∧
    path ∈ (model ops path m w).2.1.m_modelMismatches ∧
    (∀ q, q ∈ (model ops path m w).2.1.m_modelMismatches ↔ q = path ∨ q ∈ m.m_modelMismatches) ∧
    (model ops path m w).2.1.m_models = m.m_models := by
  have hc : ¬ setCount m.m_modelMismatches path > 0 := fun h => hmis ((setCount_pos _ _).1 h)
  rcases hl : ops.loadModel g path w with ⟨r, w1⟩
  rw [hl] at hload
  simp only at hload
  subst hload
  have hrun : model ops path m w =
      (Outcome.raise e, { m with m_modelMismatches := setInsert m.m_modelMismatches path },
        logDebug ops m ("Failed to load entity model " ++ path.asString ++ ": " ++ e.what) w1) := by
    simp [model, hne, hfind, hc, hg, hl]
  rw [hrun]
  exact ⟨rfl, (mem_setInsert _ _ _).2 (Or.inl rfl), fun q => mem_setInsert _ _ _, rfl⟩

theorem failed_load_is_raised_and_recorded_witness :
    (model sampleAssets ⟨"b.mdl"⟩ sampleManager ()).1 = Outcome.raise ⟨"missing"⟩ ∧
    (⟨"b.mdl"⟩ : Path) ∈ (model sampleAssets ⟨"b.mdl"⟩ sampleManager ()).2.1.m_modelMismatches ∧
    (∀ q, q ∈ (model sampleAssets ⟨"b.mdl"⟩ sampleManager ()).2.1.m_modelMismatches ↔
      q = ⟨"b.mdl"⟩ ∨ q ∈ sampleManager.m_modelMismatches) ∧
    (model sampleAssets ⟨"b.mdl"⟩ sampleManager ()).2.1.m_models = sampleManager.m_models :=
  failed_load_is_raised_and_recorded sampleAssets ⟨"b.mdl"⟩ sampleManager () 1 ⟨"missing"⟩
    (by decide) (by decide) (by decide) rfl rfl

/-- C7: when `model(path)` returns a model, then after any further calls other than
`clear` and a `reset` to another game, `model(path)` returns the same model and changes
neither the manager nor the world nor the call log (the loader is not invoked); likewise
when `renderer(spec)` returns a renderer, a later `renderer(spec)` returns the same
renderer with nothing changed (neither `loadModel` nor `buildRenderer` is called). -/
theorem cached_results_are_reused {σ : Type} (ops : AssetOps σ) (m : EntityModelManager)
    (w : σ) (log : List AssetCall) (calls : List ManagerCall) (path : Path)
    (spec : ModelSpecification) (em : EntityModel) (r : MeshRenderer)
    (hkeep : ∀ c ∈ calls, c.keepsCaches m.m_game = true) :
    ((model ops.traced path m (w, log)).1 = Outcome.ret (some em) →
      model ops.traced path
          (runCalls ops.traced (ManagerCall.model path :: calls) (m, w, log)).1
          (runCalls ops.traced (ManagerCall.model path :: calls) (m, w, log)).2 =
        (Outcome.ret (some em),
          runCalls ops.traced (ManagerCall.model path :: calls) (m, w, log))) ∧
    ((renderer ops.traced spec m (w, log)).1 = Outcome.ret (some r) →
      renderer ops.traced spec
          (runCalls ops.traced (ManagerCall.renderer spec :: calls) (m, w, log)).1
          (runCalls ops.traced (ManagerCall.renderer spec :: calls) (m, w, log)).2 =
        (Outcome.ret (some r),
          runCalls ops.traced (ManagerCall.renderer spec :: calls) (m, w, log))) := by
  constructor
  · intro h
    obtain ⟨hne, hfm⟩ := model_ret_some_inv ops.traced path m (w, log) em h
    have hk1 := model_keeps ops.traced path m (w, log)
    have hk2 := runCalls_keeps ops.traced calls (model ops.traced path m (w, log)).2
      (fun c hc => by rw [hk1.1]; exact hkeep c hc)
    exact model_cached ops.traced path _ _ (some em) hne (hk2.2.1 path _ hfm)
  · intro h
    obtain ⟨hne, ⟨em1, hfm⟩, hfr, _⟩ := renderer_ret_some_inv ops.traced spec m (w, log) r h
    have hk1 := renderer_keeps ops.traced spec m (w, log)
    have hk2 := runCalls_keeps ops.traced calls (renderer ops.traced spec m (w, log)).2
      (fun c hc => by rw [hk1.1]; exact hkeep c hc)
    exact renderer_cached ops.traced spec _ _ em1 (some r) hne (hk2.2.1 _ _ hfm)
      (hk2.2.2.1 spec _ hfr)

theorem cached_results_are_reused_witness :
    (∀ c ∈ [ManagerCall.model ⟨"b.mdl"⟩, ManagerCall.renderer ⟨⟨"a.mdl"⟩, 1, 0⟩,
        ManagerCall.activateVbo],
      c.keepsCaches sampleManager.m_game = true) ∧
    (model sampleAssets.traced ⟨"a.mdl"⟩ sampleManager ((), [])).1 = Outcome.ret (some 7) ∧
    (renderer sampleAssets.traced ⟨⟨"a.mdl"⟩, 0, 0⟩ sampleManager ((), [])).1 =
      Outcome.ret (some 107) ∧
    model sampleAssets.traced ⟨"a.mdl"⟩
        (runCalls sampleAssets.traced (ManagerCall.model ⟨"a.mdl"⟩ ::
          [ManagerCall.model ⟨"b.mdl"⟩, ManagerCall.renderer ⟨⟨"a.mdl"⟩, 1, 0⟩,
            ManagerCall.activateVbo]) (sampleManager, (), [])).1
        (runCalls sampleAssets.traced (ManagerCall.model ⟨"a.mdl"⟩ ::
          [ManagerCall.model ⟨"b.mdl"⟩, ManagerCall.renderer ⟨⟨"a.mdl"⟩, 1, 0⟩,
            ManagerCall.activateVbo]) (sampleManager, (), [])).2 =
      (Outcome.ret (some 7),
        runCalls sampleAssets.traced (ManagerCall.model ⟨"a.mdl"⟩ ::
          [ManagerCall.model ⟨"b.mdl"⟩, ManagerCall.renderer ⟨⟨"a.mdl"⟩, 1, 0⟩,
            ManagerCall.activateVbo]) (sampleManager, (), [])) ∧
    renderer sampleAssets.traced ⟨⟨"a.mdl"⟩, 0, 0⟩
        (runCalls sampleAssets.traced (ManagerCall.renderer ⟨⟨"a.mdl"⟩, 0, 0⟩ ::
          [ManagerCall.model ⟨"b.mdl"⟩, ManagerCall.renderer ⟨⟨"a.mdl"⟩, 1, 0⟩,
            ManagerCall.activateVbo]) (sampleManager, (), [])).1
        (runCalls sampleAssets.traced (ManagerCall.renderer ⟨⟨"a.mdl"⟩, 0, 0⟩ ::
          [ManagerCall.model ⟨"b.mdl"⟩, ManagerCall.renderer ⟨⟨"a.mdl"⟩, 1, 0⟩,
            ManagerCall.activateVbo]) (sampleManager, (), [])).2 =
      (Outcome.ret (some 107),
        runCalls sampleAssets.traced (ManagerCall.renderer ⟨⟨"a.mdl"⟩, 0, 0⟩ ::
          [ManagerCall.model ⟨"b.mdl"⟩, ManagerCall.renderer ⟨⟨"a.mdl"⟩, 1, 0⟩,
            ManagerCall.activateVbo]) (sampleManager, (), [])) :=
  ⟨by decide, by decide, by decide,
    (cached_results_are_reused sampleAssets sampleManager () [] _ ⟨"a.mdl"⟩ ⟨⟨"a.mdl"⟩, 0, 0⟩
      7 107 (by decide)).1 (by decide),
    (cached_results_are_reused sampleAssets sampleManager () [] _ ⟨"a.mdl"⟩ ⟨⟨"a.mdl"⟩, 0, 0⟩
      7 107 (by decide)).2 (by decide)⟩

/-- C9: `reset(g)` returns the manager and the world exactly as they were when `g` is the
current game; otherwise the model cache, the renderer cache and both negative caches are
empty afterwards and the current game is `g`. -/
theorem reset_same_game_or_cleared {σ : Type} (ops : AssetOps σ) (g : Option Game)
    (m : EntityModelManager) (w : σ) :
    (m.m_game = g → reset ops g m w = (m, w)) ∧
    (m.m_game ≠ g →
      (reset ops g m w).1.m_models = [] ∧
      (reset ops g m w).1.m_renderers = [] ∧
      (reset ops g m w).1.m_modelMismatches = [] ∧
      (reset ops g m w).1.m_rendererMismatches = [] ∧
      (reset ops g m w).1.m_game = g) := by
  constructor
  · intro h
    simp [reset, h]
  · intro h
    simp [reset, h, clear]

theorem reset_same_game_or_cleared_witness :
    reset sampleAssets (some 1) (runCalls sampleAssets [ManagerCall.model ⟨"a.mdl"⟩,
        ManagerCall.model ⟨"b.mdl"⟩] (sampleManager, ())).1 () =
      ((runCalls sampleAssets [ManagerCall.model ⟨"a.mdl"⟩,
        ManagerCall.model ⟨"b.mdl"⟩] (sampleManager, ())).1, ()) ∧
    (reset sampleAssets (some 2) (runCalls sampleAssets [ManagerCall.model ⟨"a.mdl"⟩,
        ManagerCall.model ⟨"b.mdl"⟩] (sampleManager, ())).1 ()).1.m_modelMismatches = [] :=
  ⟨(reset_same_game_or_cleared sampleAssets (some 1) _ ()).1 (by decide),
    ((reset_same_game_or_cleared sampleAssets (some 2) _ ()).2 (by decide)).2.2.1⟩

theorem logDebug_traced_log {σ : Type} (ops : AssetOps σ) (m : EntityModelManager)
    (msg : String) (s : σ × List AssetCall) :
    ∃ t, (logDebug ops.traced m msg s).2 = s.2 ++ t := by
  unfold logDebug
  split
  · exact ⟨[], by simp⟩
  · exact ⟨[AssetCall.debug _ msg], rfl⟩

theorem renderer_build_fails {σ : Type} (ops : AssetOps σ) (spec : ModelSpecification)
    (m : EntityModelManager) (w : σ) (em : EntityModel)
    (hmodel : (model ops spec.path m w).1 = Outcome.ret (some em))
    (hfind : mapFind m.m_renderers spec = none) (hmis : spec ∉ m.m_rendererMismatches)
    (hbuild : (ops.buildRenderer em spec.skinIndex spec.frameIndex
      (model ops spec.path m w).2.2).1 = none) :
    renderer ops spec m w =
      (Outcome.ret none,
        { (model ops spec.path m w).2.1 with
          m_rendererMismatches := setInsert m.m_rendererMismatches spec },
        logDebug ops (model ops spec.path m w).2.1
          ("Failed to construct entity model renderer for " ++ spec.asString)
          (ops.buildRenderer em spec.skinIndex spec.frameIndex (model ops spec.path m w).2.2).2) := by
  obtain ⟨_, hren, hrm, _, _⟩ := model_frame ops spec.path m w
  unfold renderer
  generalize model ops spec.path m w = rr at hmodel hbuild hren hrm
  obtain ⟨o, m1, w1⟩ := rr
  simp only at hmodel hbuild hren hrm
  subst hmodel
  have hc : ¬ setCount m1.m_rendererMismatches spec > 0 := by
    rw [hrm]
    exact fun h => hmis ((setCount_pos _ _).1 h)
  rcases hb : ops.buildRenderer em spec.skinIndex spec.frameIndex w1 with ⟨b, w2⟩
  rw [hb] at hbuild
  simp only at hbuild
  subst hbuild
  have hc1 : ¬ 0 < setCount m.m_rendererMismatches spec := by rw [← hrm]; exact hc
  simp [hren, hfind, hc1, hb, hrm]

theorem renderer_build_called {σ : Type} (ops : AssetOps σ) (spec : ModelSpecification)
    (m : EntityModelManager) (w : σ) (em : EntityModel)
    (hne : spec.path.isEmpty = false) (hm : mapFind m.m_models spec.path = some (some em))
    (hfind : mapFind m.m_renderers spec = none) (hmis : spec ∉ m.m_rendererMismatches) :
    ∃ msg, (renderer ops spec m w).2.2 =
      logDebug ops m msg (ops.buildRenderer em spec.skinIndex spec.frameIndex w).2 := by
  have hc : ¬ setCount m.m_rendererMismatches spec > 0 :=
    fun h => hmis ((setCount_pos _ _).1 h)
  rcases hb : ops.buildRenderer em spec.skinIndex spec.frameIndex w with ⟨b, w2⟩
  cases b with
  | none =>
    exact ⟨"Failed to construct entity model renderer for " ++ spec.asString,
      by simp [renderer, model_cached ops spec.path m w (some em) hne hm, hfind, hc, hb]⟩
  | some r =>
    exact ⟨"Constructed entity model renderer for " ++ spec.asString,
      by simp [renderer, model_cached ops spec.path m w (some em) hne hm, hfind, hc, hb]⟩

/-- C8: when the model of `spec.path` resolves (from the cache or by a load), `spec` is in
neither the renderer cache nor the renderer negative cache, and `buildRenderer` returns
null, then `renderer(spec)` returns null; the renderer negative cache afterwards holds
`spec` in addition to what it held; the model negative cache is unchanged and the model
is cached; after any further calls other than `clear` and a `reset` to another game,
`renderer(spec)` returns null with the manager, the world and the call log unchanged (no
`buildRenderer` call); and for a specification `spec1` with the same path but another skin
or frame index that is itself in neither renderer cache, `renderer(spec1)` does call
`buildRenderer` on the model with the indices of `spec1`. -/
theorem failed_build_is_cached_per_spec {σ : Type} (ops : AssetOps σ)
    (spec spec1 : ModelSpecification) (m : EntityModelManager) (w : σ)
    (log : List AssetCall) (em : EntityModel) (calls : List ManagerCall)
    (hmodel : (model ops.traced spec.path m (w, log)).1 = Outcome.ret (some em))
    (hfind : mapFind m.m_renderers spec = none) (hmis : spec ∉ m.m_rendererMismatches)
    (hbuild : (ops.traced.buildRenderer em spec.skinIndex spec.frameIndex
      (model ops.traced spec.path m (w, log)).2.2).1 = none)
    (hkeep : ∀ c ∈ calls, c.keepsCaches m.m_game = true)
    (hpath : spec1.path = spec.path)
    (hdiff : spec1.skinIndex ≠ spec.skinIndex ∨ spec1.frameIndex ≠ spec.frameIndex)
    (hfind1 : mapFind m.m_renderers spec1 = none) (hmis1 : spec1 ∉ m.m_rendererMismatches) :
    (renderer ops.traced spec m (w, log)).1 = Outcome.ret none ∧
    (∀ sp, sp ∈ (renderer ops.traced spec m (w, log)).2.1.m_rendererMismatches ↔
      sp = spec ∨ sp ∈ m.m_rendererMismatches) ∧
    (renderer ops.traced spec m (w, log)).2.1.m_modelMismatches = m.m_modelMismatches ∧
    mapFind (renderer ops.traced spec m (w, log)).2.1.m_models spec.path = some (some em) ∧
    renderer ops.traced spec
        (runCalls ops.traced (ManagerCall.renderer spec :: calls) (m, w, log)).1
        (runCalls ops.traced (ManagerCall.renderer spec :: calls) (m, w, log)).2 =
      (Outcome.ret none, runCalls ops.traced (ManagerCall.renderer spec :: calls) (m, w, log)) ∧
    (∃ tail,
      (renderer ops.traced spec1 (renderer ops.traced spec m (w, log)).2.1
          (renderer ops.traced spec m (w, log)).2.2).2.2.2 =
        (renderer ops.traced spec m (w, log)).2.2.2 ++
          AssetCall.buildRenderer em spec1.skinIndex spec1.frameIndex :: tail) := by
  have hrun := renderer_build_fails ops.traced spec m (w, log) em hmodel hfind hmis hbuild
  obtain ⟨hne, hfm⟩ := model_ret_some_inv ops.traced spec.path m (w, log) em hmodel
  have hmm := model_ret_mismatches ops.traced spec.path m (w, log) _ hmodel
  obtain ⟨hgame, hren, _, _, _⟩ := model_frame ops.traced spec.path m (w, log)
  have hspec : spec1 ≠ spec := by
    rintro rfl
    rcases hdiff with h | h <;> exact h rfl
  have h1 : (renderer ops.traced spec m (w, log)).1 = Outcome.ret none := by rw [hrun]
  have h2 : ∀ sp, sp ∈ (renderer ops.traced spec m (w, log)).2.1.m_rendererMismatches ↔
      sp = spec ∨ sp ∈ m.m_rendererMismatches := by
    intro sp
    rw [hrun]
    exact mem_setInsert _ _ _
  have h3 : (renderer ops.traced spec m (w, log)).2.1.m_modelMismatches =
      m.m_modelMismatches := by
    rw [hrun]
    exact hmm
  have h4 : mapFind (renderer ops.traced spec m (w, log)).2.1.m_models spec.path =
      some (some em) := by
    rw [hrun]
    exact hfm
  have h5 : mapFind (renderer ops.traced spec m (w, log)).2.1.m_renderers spec = none := by
    rw [hrun]
    show mapFind (model ops.traced spec.path m (w, log)).2.1.m_renderers spec = none
    rw [hren]
    exact hfind
  have h6 : mapFind (renderer ops.traced spec m (w, log)).2.1.m_renderers spec1 = none := by
    rw [hrun]
    show mapFind (model ops.traced spec.path m (w, log)).2.1.m_renderers spec1 = none
    rw [hren]
    exact hfind1
  refine ⟨h1, h2, h3, h4, ?_, ?_⟩
  · have hk1 := renderer_keeps ops.traced spec m (w, log)
    have hk2 := runCalls_keeps ops.traced calls (renderer ops.traced spec m (w, log)).2
      (fun c hc => by rw [hk1.1]; exact hkeep c hc)
    have hinv := hk2.2.2.2.2 spec ((h2 spec).2 (Or.inl rfl)) h5
    exact renderer_mismatch ops.traced spec _ _ em hne (hk2.2.1 _ _ h4) hinv.2 hinv.1
  · have hmis2 : spec1 ∉ (renderer ops.traced spec m (w, log)).2.1.m_rendererMismatches := by
      rw [h2 spec1]
      rintro (h | h)
      · exact hspec h
      · exact hmis1 h
    obtain ⟨msg, hcall⟩ := renderer_build_called ops.traced spec1
      (renderer ops.traced spec m (w, log)).2.1 (renderer ops.traced spec m (w, log)).2.2 em
      (by rw [hpath]; exact hne) (by rw [hpath]; exact h4) h6 hmis2
    obtain ⟨t, ht⟩ := logDebug_traced_log ops (renderer ops.traced spec m (w, log)).2.1 msg
      (ops.traced.buildRenderer em spec1.skinIndex spec1.frameIndex
        (renderer ops.traced spec m (w, log)).2.2).2
    refine ⟨t, ?_⟩
    rw [hcall, ht]
    show ((renderer ops.traced spec m (w, log)).2.2.2 ++
      [AssetCall.buildRenderer em spec1.skinIndex spec1.frameIndex]) ++ t = _
    simp

theorem failed_build_is_cached_per_spec_witness :
    (model sampleAssets.traced ⟨"a.mdl"⟩ sampleManager ((), [])).1 = Outcome.ret (some 7) ∧
    (sampleAssets.traced.buildRenderer 7 1 0
      (model sampleAssets.traced ⟨"a.mdl"⟩ sampleManager ((), [])).2.2).1 = none ∧
    (renderer sampleAssets.traced ⟨⟨"a.mdl"⟩, 1, 0⟩ sampleManager ((), [])).1 =
      Outcome.ret none ∧
    renderer sampleAssets.traced ⟨⟨"a.mdl"⟩, 1, 0⟩
        (runCalls sampleAssets.traced (ManagerCall.renderer ⟨⟨"a.mdl"⟩, 1, 0⟩ ::
          [ManagerCall.model ⟨"b.mdl"⟩, ManagerCall.renderer ⟨⟨"a.mdl"⟩, 0, 0⟩,
            ManagerCall.activateVbo]) (sampleManager, (), [])).1
        (runCalls sampleAssets.traced (ManagerCall.renderer ⟨⟨"a.mdl"⟩, 1, 0⟩ ::
          [ManagerCall.model ⟨"b.mdl"⟩, ManagerCall.renderer ⟨⟨"a.mdl"⟩, 0, 0⟩,
            ManagerCall.activateVbo]) (sampleManager, (), [])).2 =
      (Outcome.ret none,
        runCalls sampleAssets.traced (ManagerCall.renderer ⟨⟨"a.mdl"⟩, 1, 0⟩ ::
          [ManagerCall.model ⟨"b.mdl"⟩, ManagerCall.renderer ⟨⟨"a.mdl"⟩, 0, 0⟩,
            ManagerCall.activateVbo]) (sampleManager, (), [])) ∧
    (∃ tail,
      (renderer sampleAssets.traced ⟨⟨"a.mdl"⟩, 0, 0⟩
          (renderer sampleAssets.traced ⟨⟨"a.mdl"⟩, 1, 0⟩ sampleManager ((), [])).2.1
          (renderer sampleAssets.traced ⟨⟨"a.mdl"⟩, 1, 0⟩ sampleManager ((), [])).2.2).2.2.2 =
        (renderer sampleAssets.traced ⟨⟨"a.mdl"⟩, 1, 0⟩ sampleManager ((), [])).2.2.2 ++
          AssetCall.buildRenderer 7 0 0 :: tail) :=
  have h := failed_build_is_cached_per_spec sampleAssets ⟨⟨"a.mdl"⟩, 1, 0⟩ ⟨⟨"a.mdl"⟩, 0, 0⟩
    sampleManager () [] 7
    [ManagerCall.model ⟨"b.mdl"⟩, ManagerCall.renderer ⟨⟨"a.mdl"⟩, 0, 0⟩,
      ManagerCall.activateVbo]
    (by decide) (by decide) (by decide) (by decide) (by decide) rfl (Or.inl (by decide))
    (by decide) (by decide)
  ⟨by decide, by decide, h.1, h.2.2.2.2.1, h.2.2.2.2.2⟩

/-- C10, as the code has it: a `renderer(spec)` call that builds a renderer (it returns a
non-null renderer for a specification that had no cache entry) leaves `m_prepared` false,
and `model(path)` never changes `m_prepared`, however it ends. -/
theorem renderer_build_marks_unprepared {σ : Type} (ops : AssetOps σ)
    (spec : ModelSpecification) (path : Path) (m : EntityModelManager) (w : σ)
    (r : MeshRenderer) :
    ((renderer ops spec m w).1 = Outcome.ret (some r) → mapFind m.m_renderers spec = none →
      (renderer ops spec m w).2.1.m_prepared = false) ∧
    (model ops path m w).2.1.m_prepared = m.m_prepared :=
  ⟨fun h => (renderer_ret_some_inv ops spec m w r h).2.2.2, (model_frame ops path m w).2.2.2.1⟩

theorem renderer_build_marks_unprepared_witness :
    (renderer sampleAssets ⟨⟨"a.mdl"⟩, 0, 0⟩ sampleManager ()).1 = Outcome.ret (some 107) ∧
    mapFind sampleManager.m_renderers ⟨⟨"a.mdl"⟩, 0, 0⟩ = none ∧
    sampleManager.m_prepared = true ∧
    (renderer sampleAssets ⟨⟨"a.mdl"⟩, 0, 0⟩ sampleManager ()).2.1.m_prepared = false :=
  ⟨by decide, by decide, by decide,
    (renderer_build_marks_unprepared sampleAssets ⟨⟨"a.mdl"⟩, 0, 0⟩ ⟨"a.mdl"⟩ sampleManager
      () 107).1 (by decide) (by decide)⟩

/-- C10 as stated fails: on a prepared manager without cache entries, `model("a.mdl")`
calls the loader, which succeeds, and the manager is still prepared afterwards. -/
theorem model_load_leaves_prepared :
    sampleManager.m_prepared = true ∧
    mapFind sampleManager.m_models ⟨"a.mdl"⟩ = none ∧
    (model sampleAssets.traced ⟨"a.mdl"⟩ sampleManager ((), [])).1 = Outcome.ret (some 7) ∧
    (model sampleAssets.traced ⟨"a.mdl"⟩ sampleManager ((), [])).2.2.2 =
      [AssetCall.loadModel 1 ⟨"a.mdl"⟩] ∧
    ¬ (model sampleAssets.traced ⟨"a.mdl"⟩ sampleManager ((), [])).2.1.m_prepared = false := by
  decide

end TrenchBroom.Assets

namespace TrenchBroom.Assets
open EntityModelManager

theorem prepareEach_traced_some {σ : Type} (ops : AssetOps σ)
    (l : List (ModelSpecification × Option MeshRenderer)) (w : σ) (log : List AssetCall)
    (hnn : ∀ e ∈ l, e.2 ≠ none) :
    ∃ w1, prepareEach ops.traced l (w, log) =
      some (w1, log ++ l.filterMap (fun e => e.2.map AssetCall.prepare)) := by
  induction l generalizing w log with
  | nil => exact ⟨w, by simp [prepareEach]⟩
  | cons a rest ih =>
    obtain ⟨sp, r⟩ := a
    cases r with
    | none => exact absurd rfl (hnn (sp, none) (List.mem_cons_self _ _))
    | some r =>
      obtain ⟨w1, h1⟩ := ih (ops.prepare r w) (log ++ [AssetCall.prepare r])
        (fun e he => hnn e (List.mem_cons_of_mem _ he))
      refine ⟨w1, ?_⟩
      show prepareEach ops.traced rest (ops.prepare r w, log ++ [AssetCall.prepare r]) = _
      rw [h1]
      simp

/-- C11: in a manager whose renderer cache holds no null pointer, `prepareRenderers` with
uploads pending (`m_prepared` false) maps the buffer, calls `prepare` once for every
entry of the renderer cache and nothing else, restores the buffer state and sets
`m_prepared`; with nothing pending it changes neither the manager nor the world nor the
call log; so a call that directly follows another one changes nothing. -/
theorem prepareRenderers_uploads_once {σ : Type} (ops : AssetOps σ) (m : EntityModelManager)
    (w : σ) (log : List AssetCall) (hnn : ∀ e ∈ m.m_renderers, e.2 ≠ none) :
    (m.m_prepared = false →
      ∃ w1, prepareRenderers ops.traced m (w, log) =
        (Outcome.ret (), { m with m_prepared := true },
          (w1, log ++ [AssetCall.vboMapped] ++
            m.m_renderers.filterMap (fun e => e.2.map AssetCall.prepare) ++
            [AssetCall.vboRestore]))) ∧
    (m.m_prepared = true →
      prepareRenderers ops.traced m (w, log) = (Outcome.ret (), m, (w, log))) ∧
    prepareRenderers ops.traced (prepareRenderers ops.traced m (w, log)).2.1
        (prepareRenderers ops.traced m (w, log)).2.2 =
      (Outcome.ret (), (prepareRenderers ops.traced m (w, log)).2) := by
  have hfalse : m.m_prepared = false →
      ∃ w1, prepareRenderers ops.traced m (w, log) =
        (Outcome.ret (), { m with m_prepared := true },
          (w1, log ++ [AssetCall.vboMapped] ++
            m.m_renderers.filterMap (fun e => e.2.map AssetCall.prepare) ++
            [AssetCall.vboRestore])) := by
    intro hp
    obtain ⟨w1, h1⟩ := prepareEach_traced_some ops m.m_renderers (ops.vboMapped w)
      (log ++ [AssetCall.vboMapped]) hnn
    refine ⟨ops.vboRestore w1, ?_⟩
    have hm : ops.traced.vboMapped (w, log) = (ops.vboMapped w, log ++ [AssetCall.vboMapped]) :=
      rfl
    simp only [prepareRenderers, hp, hm, h1, Bool.false_eq_true, if_false]
    rfl
  have htrue : ∀ (m1 : EntityModelManager) (s : σ × List AssetCall), m1.m_prepared = true →
      prepareRenderers ops.traced m1 s = (Outcome.ret (), m1, s) := by
    intro m1 s hp
    simp [prepareRenderers, hp]
  refine ⟨hfalse, htrue m (w, log), ?_⟩
  cases hp : m.m_prepared with
  | true =>
    rw [htrue m (w, log) hp]
    exact htrue m (w, log) hp
  | false =>
    obtain ⟨w1, h1⟩ := hfalse hp
    rw [h1]
    exact htrue _ _ rfl

theorem prepareRenderers_uploads_once_witness :
    (∀ e ∈ (runCalls sampleAssets [ManagerCall.renderer ⟨⟨"a.mdl"⟩, 0, 0⟩]
        (sampleManager, ())).1.m_renderers, e.2 ≠ none) ∧
    (runCalls sampleAssets [ManagerCall.renderer ⟨⟨"a.mdl"⟩, 0, 0⟩]
        (sampleManager, ())).1.m_prepared = false ∧
    (∃ w1, prepareRenderers sampleAssets.traced
        (runCalls sampleAssets [ManagerCall.renderer ⟨⟨"a.mdl"⟩, 0, 0⟩] (sampleManager, ())).1
        ((), []) =
      (Outcome.ret (),
        { (runCalls sampleAssets [ManagerCall.renderer ⟨⟨"a.mdl"⟩, 0, 0⟩]
            (sampleManager, ())).1 with m_prepared := true },
        (w1, [] ++ [AssetCall.vboMapped] ++
          (runCalls sampleAssets [ManagerCall.renderer ⟨⟨"a.mdl"⟩, 0, 0⟩]
            (sampleManager, ())).1.m_renderers.filterMap (fun e => e.2.map AssetCall.prepare) ++
          [AssetCall.vboRestore]))) :=
  ⟨by decide, by decide,
    (prepareRenderers_uploads_once sampleAssets
      (runCalls sampleAssets [ManagerCall.renderer ⟨⟨"a.mdl"⟩, 0, 0⟩] (sampleManager, ())).1
      () [] (by decide)).1 (by decide)⟩

end TrenchBroom.Assets

/-! Theorems: Renderer::MapRenderer -/

namespace TrenchBroom.Renderer
open MapRenderer

theorem addEach_flags {σ : Type} (ops : MapOps σ) (mods : List String) (entities : List Entity)
    (m : MapRenderer) (w : σ) (r : MapRenderer × σ)
    (h : addEach ops mods entities m w = some r) : r.1.flags = m.flags := by
  induction entities generalizing m w with
  | nil =>
    simp only [addEach, Option.some.injEq] at h
    rw [← h]
  | cons e rest ih =>
    simp only [addEach] at h
    cases hc : e.classname with
    | none => simp [hc] at h
    | some cn =>
      cases hr : (ops.entityRenderer e mods w).1 with
      | none =>
        simp only [hc, hr] at h
        exact (ih _ _ h).trans rfl
      | some er =>
        simp only [hc, hr] at h
        exact (ih _ _ h).trans rfl

theorem addEach_isSome {σ : Type} (ops : MapOps σ) (mods : List String) (entities : List Entity)
    (m : MapRenderer) (w : σ) :
    (addEach ops mods entities m w).isSome = entities.all (fun e => e.classname.isSome) := by
  induction entities generalizing m w with
  | nil => rfl
  | cons e rest ih =>
    simp only [addEach, List.all_cons]
    cases hc : e.classname with
    | none => simp
    | some cn =>
      cases hr : (ops.entityRenderer e mods w).1 with
      | none => simp [ih]
      | some er => simp [ih]

theorem removeEach_flags (entities : List Entity) (m : MapRenderer) :
    (removeEach entities m).flags = m.flags := by
  induction entities generalizing m with
  | nil => rfl
  | cons e rest ih => exact (ih _).trans rfl

theorem transferToSelected_flags (entities : List Entity) (m : MapRenderer) :
    (transferToSelected entities m).flags = m.flags := by
  induction entities generalizing m with
  | nil => rfl
  | cons e rest ih => exact (ih _).trans rfl

theorem transferFromSelected_flags (entities : List Entity) (m : MapRenderer) :
    (transferFromSelected entities m).flags = m.flags := by
  induction entities generalizing m with
  | nil => rfl
  | cons e rest ih => exact (ih _).trans rfl

theorem transferToLocked_flags (entities : List Entity) (m : MapRenderer) :
    (transferToLocked entities m).flags = m.flags := by
  induction entities generalizing m with
  | nil => rfl
  | cons e rest ih => exact (ih _).trans rfl

theorem transferFromLocked_flags (entities : List Entity) (m : MapRenderer) :
    (transferFromLocked entities m).flags = m.flags := by
  induction entities generalizing m with
  | nil => rfl
  | cons e rest ih => exact (ih _).trans rfl

theorem noFlagRaised_iff (m m1 : MapRenderer) :
    NoFlagRaised m m1 ↔
      (m1.m_geometryDataValid = true → m.m_geometryDataValid = true) ∧
      (m1.m_selectedGeometryDataValid = true → m.m_selectedGeometryDataValid = true) ∧
      (m1.m_lockedGeometryDataValid = true → m.m_lockedGeometryDataValid = true) ∧
      (m1.m_entityDataValid = true → m.m_entityDataValid = true) ∧
      (m1.m_selectedEntityDataValid = true → m.m_selectedEntityDataValid = true) ∧
      (m1.m_lockedEntityDataValid = true → m.m_lockedEntityDataValid = true) ∧
      (m1.m_entityRendererCacheValid = true → m.m_entityRendererCacheValid = true) := by
  simp [NoFlagRaised, MapRenderer.flags]

theorem flags_eq_iff (m m1 : MapRenderer) :
    m1.flags = m.flags ↔
      m1.m_geometryDataValid = m.m_geometryDataValid ∧
      m1.m_selectedGeometryDataValid = m.m_selectedGeometryDataValid ∧
      m1.m_lockedGeometryDataValid = m.m_lockedGeometryDataValid ∧
      m1.m_entityDataValid = m.m_entityDataValid ∧
      m1.m_selectedEntityDataValid = m.m_selectedEntityDataValid ∧
      m1.m_lockedEntityDataValid = m.m_lockedEntityDataValid ∧
      m1.m_entityRendererCacheValid = m.m_entityRendererCacheValid := by
  simp [MapRenderer.flags]

theorem noFlagRaised_refl (m : MapRenderer) : NoFlagRaised m m := by
  simp [noFlagRaised_iff]

theorem noFlagRaised_trans {a b c : MapRenderer} (h1 : NoFlagRaised a b)
    (h2 : NoFlagRaised b c) : NoFlagRaised a c := by
  rw [noFlagRaised_iff] at *
  obtain ⟨a1, a2, a3, a4, a5, a6, a7⟩ := h1
  obtain ⟨b1, b2, b3, b4, b5, b6, b7⟩ := h2
  exact ⟨fun h => a1 (b1 h), fun h => a2 (b2 h), fun h => a3 (b3 h), fun h => a4 (b4 h),
    fun h => a5 (b5 h), fun h => a6 (b6 h), fun h => a7 (b7 h)⟩

theorem noFlagRaised_of_flags_eq {m m1 : MapRenderer} (h : m1.flags = m.flags) :
    NoFlagRaised m m1 := by
  unfold NoFlagRaised
  rw [h]
  simp [MapRenderer.flags]

theorem addEntities_flags {σ : Type} (ops : MapOps σ) (document : MapDocument)
    (entities : List Entity) (m : MapRenderer) (w : σ) (r : MapRenderer × σ)
    (h : addEntities ops document entities m w = some r) :
    r.1.flags = ({ m with m_entityDataValid := false } : MapRenderer).flags := by
  unfold addEntities at h
  cases ha : addEach ops document.mods entities m w with
  | none => simp [ha] at h
  | some r1 =>
    have hf := (flags_eq_iff _ _).1 (addEach_flags ops document.mods entities m w r1 ha)
    simp only [ha, Option.some.injEq] at h
    rw [← h]
    simp [MapRenderer.flags, hf]

theorem removeEntities_flags (entities : List Entity) (m : MapRenderer) :
    (removeEntities entities m).flags =
      ({ m with m_entityDataValid := false } : MapRenderer).flags := by
  have hf := (flags_eq_iff _ _).1 (removeEach_flags entities m)
  simp [removeEntities, MapRenderer.flags, hf]

theorem loadMap_flags {σ : Type} (ops : MapOps σ) (document : MapDocument) (m : MapRenderer)
    (w : σ) (r : MapRenderer × σ) (h : loadMap ops document m w = some r) :
    r.1.flags = [false, false, false, false, false, false, m.m_entityRendererCacheValid] := by
  unfold loadMap at h
  cases ha : addEntities ops document document.entities m w with
  | none => simp [ha] at h
  | some r1 =>
    have hf := (flags_eq_iff _ _).1 (addEntities_flags ops document _ m w r1 ha)
    simp only [ha, Option.some.injEq] at h
    rw [← h]
    simp [MapRenderer.flags, hf]

theorem changeEditState_noFlagRaised (changeSet : EditStateChangeSet) (m : MapRenderer) :
    NoFlagRaised m (changeEditState changeSet m) := by
  have h1 : ∀ m : MapRenderer, NoFlagRaised m (changeEntityDefault changeSet m) := by
    intro m
    unfold changeEntityDefault
    split
    · simp [noFlagRaised_iff]
    · exact noFlagRaised_refl m
  have h2 : ∀ m : MapRenderer, NoFlagRaised m (changeEntitySelected changeSet m) := by
    intro m
    unfold changeEntitySelected
    split
    · have hs : NoFlagRaised m { m with m_selectedEntityDataValid := false } := by
        simp [noFlagRaised_iff]
      exact noFlagRaised_trans hs (noFlagRaised_of_flags_eq
        ((transferFromSelected_flags _ _).trans (transferToSelected_flags _ _)))
    · exact noFlagRaised_refl m
  have h3 : ∀ m : MapRenderer, NoFlagRaised m (changeEntityLocked changeSet m) := by
    intro m
    unfold changeEntityLocked
    split
    · have hs : NoFlagRaised m { m with m_lockedEntityDataValid := false } := by
        simp [noFlagRaised_iff]
      exact noFlagRaised_trans hs (noFlagRaised_of_flags_eq
        ((transferFromLocked_flags _ _).trans (transferToLocked_flags _ _)))
    · exact noFlagRaised_refl m
  have h4 : ∀ m : MapRenderer, NoFlagRaised m (changeBrushDefault changeSet m) := by
    intro m
    unfold changeBrushDefault
    split
    · simp [noFlagRaised_iff]
    · exact noFlagRaised_refl m
  have h5 : ∀ m : MapRenderer, NoFlagRaised m (changeBrushSelected changeSet m) := by
    intro m
    unfold changeBrushSelected
    split
    · simp [noFlagRaised_iff]
    · exact noFlagRaised_refl m
  have h6 : ∀ m : MapRenderer, NoFlagRaised m (changeBrushLocked changeSet m) := by
    intro m
    unfold changeBrushLocked
    split
    · simp [noFlagRaised_iff]
    · exact noFlagRaised_refl m
  unfold changeEditState
  exact noFlagRaised_trans (noFlagRaised_trans (noFlagRaised_trans (noFlagRaised_trans
    (noFlagRaised_trans (h1 m) (h2 _)) (h3 _)) (h4 _)) (h5 _)) (h6 _)

/-- C19: none of `addEntities`, `removeEntities`, `changeEditState`, `loadMap` and
`clearMap` turns a validity flag from false to true: whenever one of the seven flags is
true after the operation (for `addEntities` and `loadMap`: when it completes), it was
true before. -/
theorem mutators_raise_no_flag {σ : Type} (ops : MapOps σ) (document : MapDocument)
    (entities : List Entity) (changeSet : EditStateChangeSet) (m : MapRenderer) (w : σ) :
    (∀ r, addEntities ops document entities m w = some r → NoFlagRaised m r.1) ∧
    NoFlagRaised m (removeEntities entities m) ∧
    NoFlagRaised m (changeEditState changeSet m) ∧
    (∀ r, loadMap ops document m w = some r → NoFlagRaised m r.1) ∧
    NoFlagRaised m (clearMap m) := by
  refine ⟨?_, ?_, changeEditState_noFlagRaised changeSet m, ?_, ?_⟩
  · intro r h
    have hf := (flags_eq_iff _ _).1 (addEntities_flags ops document entities m w r h)
    rw [noFlagRaised_iff]
    simp [hf]
  · have hf := (flags_eq_iff _ _).1 (removeEntities_flags entities m)
    rw [noFlagRaised_iff]
    simp [hf]
  · intro r h
    have hf := loadMap_flags ops document m w r h
    simp only [MapRenderer.flags, List.cons.injEq, and_true] at hf
    rw [noFlagRaised_iff]
    simp [hf]
  · rw [noFlagRaised_iff]
    simp [clearMap]

theorem resetGeometry_flags {σ : Type} (ops : MapOps σ) (m : MapRenderer) (w : σ) :
    (resetGeometry ops m w).1.flags = m.flags := by
  unfold resetGeometry
  simp only []
  split_ifs <;> rfl

theorem allocFaceBlocks_flags {σ : Type} (ops : MapOps σ) (c : GeometryCollection)
    (m : MapRenderer) (w : σ) : (allocFaceBlocks ops c m w).1.flags = m.flags := by
  unfold allocFaceBlocks
  simp only []
  split_ifs <;> rfl

theorem allocEdgeBlocks_flags {σ : Type} (ops : MapOps σ) (c : GeometryCollection)
    (m : MapRenderer) (w : σ) : (allocEdgeBlocks ops c m w).1.flags = m.flags := by
  unfold allocEdgeBlocks
  simp only []
  split_ifs <;> rfl

theorem resetEntityData_flags {σ : Type} (ops : MapOps σ) (m : MapRenderer) (w : σ) :
    (resetEntityData ops m w).1.flags = m.flags := by
  unfold resetEntityData
  simp only []
  split_ifs <;> rfl

theorem allocBoundsBlocks_flags {σ : Type} (ops : MapOps σ) (c : EntityCollection)
    (m : MapRenderer) (w : σ) : (allocBoundsBlocks ops c m w).1.flags = m.flags := by
  unfold allocBoundsBlocks
  simp only []
  split_ifs <;> rfl

theorem writeUnselectedFaces_touches (c : GeometryCollection) (m m1 : MapRenderer)
    (h : writeUnselectedFaces c m = some m1) :
    m1 = { m with m_faceRenderInfos := m1.m_faceRenderInfos, m_faceBlock := m1.m_faceBlock } := by
  unfold writeUnselectedFaces at h
  split at h
  · split at h
    · cases h
    · split at h
      · cases h
      · simp only [Option.some.injEq] at h
        rw [← h]
  · simp only [Option.some.injEq] at h
    rw [← h]

theorem writeSelectedFaces_touches (c : GeometryCollection) (m m1 : MapRenderer)
    (h : writeSelectedFaces c m = some m1) :
    m1 = { m with m_selectedFaceRenderInfos := m1.m_selectedFaceRenderInfos, m_selectedFaceBlock := m1.m_selectedFaceBlock } := by
  unfold writeSelectedFaces at h
  split at h
  · split at h
    · cases h
    · split at h
      · cases h
      · simp only [Option.some.injEq] at h
        rw [← h]
  · simp only [Option.some.injEq] at h
    rw [← h]

theorem writeLockedFaces_touches (c : GeometryCollection) (m m1 : MapRenderer)
    (h : writeLockedFaces c m = some m1) :
    m1 = { m with m_lockedFaceRenderInfos := m1.m_lockedFaceRenderInfos, m_lockedFaceBlock := m1.m_lockedFaceBlock } := by
  unfold writeLockedFaces at h
  split at h
  · split at h
    · cases h
    · split at h
      · cases h
      · simp only [Option.some.injEq] at h
        rw [← h]
  · simp only [Option.some.injEq] at h
    rw [← h]

theorem writeUnselectedEdges_touches (prefs : Preferences) (c : GeometryCollection) (m m1 : MapRenderer)
    (h : writeUnselectedEdges prefs c m = some m1) :
    m1 = { m with m_edgeRenderInfo := m1.m_edgeRenderInfo, m_edgeBlock := m1.m_edgeBlock } := by
  unfold writeUnselectedEdges at h
  split at h
  · split at h
    · cases h
    · simp only [Option.some.injEq] at h
      rw [← h]
  · simp only [Option.some.injEq] at h
    rw [← h]

theorem writeSelectedEdges_touches (prefs : Preferences) (c : GeometryCollection) (m m1 : MapRenderer)
    (h : writeSelectedEdges prefs c m = some m1) :
    m1 = { m with m_selectedEdgeRenderInfo := m1.m_selectedEdgeRenderInfo, m_selectedEdgeBlock := m1.m_selectedEdgeBlock } := by
  unfold writeSelectedEdges at h
  split at h
  · split at h
    · cases h
    · simp only [Option.some.injEq] at h
      rw [← h]
  · simp only [Option.some.injEq] at h
    rw [← h]

theorem writeLockedEdges_touches (prefs : Preferences) (c : GeometryCollection) (m m1 : MapRenderer)
    (h : writeLockedEdges prefs c m = some m1) :
    m1 = { m with m_lockedEdgeRenderInfo := m1.m_lockedEdgeRenderInfo, m_lockedEdgeBlock := m1.m_lockedEdgeBlock } := by
  unfold writeLockedEdges at h
  split at h
  · split at h
    · cases h
    · simp only [Option.some.injEq] at h
      rw [← h]
  · simp only [Option.some.injEq] at h
    rw [← h]

theorem writeNormalBounds_touches (prefs : Preferences) (c : EntityCollection) (m m1 : MapRenderer)
    (h : writeNormalBounds prefs c m = some m1) :
    m1 = { m with m_entityBoundsRenderInfo := m1.m_entityBoundsRenderInfo, m_entityBoundsBlock := m1.m_entityBoundsBlock } := by
  unfold writeNormalBounds at h
  split at h
  · split at h
    · cases h
    · simp only [Option.some.injEq] at h
      rw [← h]
  · simp only [Option.some.injEq] at h
    rw [← h]

theorem writeSelectedBounds_touches (prefs : Preferences) (c : EntityCollection) (m m1 : MapRenderer)
    (h : writeSelectedBounds prefs c m = some m1) :
    m1 = { m with m_selectedEntityBoundsRenderInfo := m1.m_selectedEntityBoundsRenderInfo, m_selectedEntityBoundsBlock := m1.m_selectedEntityBoundsBlock } := by
  unfold writeSelectedBounds at h
  split at h
  · split at h
    · cases h
    · simp only [Option.some.injEq] at h
      rw [← h]
  · simp only [Option.some.injEq] at h
    rw [← h]

theorem writeLockedBounds_touches (prefs : Preferences) (c : EntityCollection) (m m1 : MapRenderer)
    (h : writeLockedBounds prefs c m = some m1) :
    m1 = { m with m_lockedEntityBoundsRenderInfo := m1.m_lockedEntityBoundsRenderInfo, m_lockedEntityBoundsBlock := m1.m_lockedEntityBoundsBlock } := by
  unfold writeLockedBounds at h
  split at h
  · split at h
    · cases h
    · simp only [Option.some.injEq] at h
      rw [← h]
  · simp only [Option.some.injEq] at h
    rw [← h]

theorem resetGeometry_touches {σ : Type} (ops : MapOps σ)  (m : MapRenderer) (w : σ) :
    (resetGeometry ops m w).1 =
      { m with
        m_faceBlock := (resetGeometry ops m w).1.m_faceBlock,
        m_edgeBlock := (resetGeometry ops m w).1.m_edgeBlock,
        m_faceRenderInfos := (resetGeometry ops m w).1.m_faceRenderInfos,
        m_edgeRenderInfo := (resetGeometry ops m w).1.m_edgeRenderInfo,
        m_selectedFaceBlock := (resetGeometry ops m w).1.m_selectedFaceBlock,
        m_selectedEdgeBlock := (resetGeometry ops m w).1.m_selectedEdgeBlock,
        m_selectedFaceRenderInfos := (resetGeometry ops m w).1.m_selectedFaceRenderInfos,
        m_selectedEdgeRenderInfo := (resetGeometry ops m w).1.m_selectedEdgeRenderInfo,
        m_lockedFaceBlock := (resetGeometry ops m w).1.m_lockedFaceBlock,
        m_lockedEdgeBlock := (resetGeometry ops m w).1.m_lockedEdgeBlock,
        m_lockedFaceRenderInfos := (resetGeometry ops m w).1.m_lockedFaceRenderInfos,
        m_lockedEdgeRenderInfo := (resetGeometry ops m w).1.m_lockedEdgeRenderInfo } := by
  unfold resetGeometry
  simp only []
  split_ifs <;> rfl

theorem allocFaceBlocks_touches {σ : Type} (ops : MapOps σ) (c : GeometryCollection) (m : MapRenderer) (w : σ) :
    (allocFaceBlocks ops c m w).1 =
      { m with
        m_faceBlock := (allocFaceBlocks ops c m w).1.m_faceBlock,
        m_selectedFaceBlock := (allocFaceBlocks ops c m w).1.m_selectedFaceBlock,
        m_lockedFaceBlock := (allocFaceBlocks ops c m w).1.m_lockedFaceBlock } := by
  unfold allocFaceBlocks
  simp only []
  split_ifs <;> rfl

theorem allocEdgeBlocks_touches {σ : Type} (ops : MapOps σ) (c : GeometryCollection) (m : MapRenderer) (w : σ) :
    (allocEdgeBlocks ops c m w).1 =
      { m with
        m_edgeBlock := (allocEdgeBlocks ops c m w).1.m_edgeBlock,
        m_selectedEdgeBlock := (allocEdgeBlocks ops c m w).1.m_selectedEdgeBlock,
        m_lockedEdgeBlock := (allocEdgeBlocks ops c m w).1.m_lockedEdgeBlock } := by
  unfold allocEdgeBlocks
  simp only []
  split_ifs <;> rfl

theorem resetEntityData_touches {σ : Type} (ops : MapOps σ)  (m : MapRenderer) (w : σ) :
    (resetEntityData ops m w).1 =
      { m with
        m_entityBoundsBlock := (resetEntityData ops m w).1.m_entityBoundsBlock,
        m_entityBoundsRenderInfo := (resetEntityData ops m w).1.m_entityBoundsRenderInfo,
        m_selectedEntityBoundsBlock := (resetEntityData ops m w).1.m_selectedEntityBoundsBlock,
        m_selectedEntityBoundsRenderInfo := (resetEntityData ops m w).1.m_selectedEntityBoundsRenderInfo,
        m_lockedEntityBoundsBlock := (resetEntityData ops m w).1.m_lockedEntityBoundsBlock,
        m_lockedEntityBoundsRenderInfo := (resetEntityData ops m w).1.m_lockedEntityBoundsRenderInfo } := by
  unfold resetEntityData
  simp only []
  split_ifs <;> rfl

theorem allocBoundsBlocks_touches {σ : Type} (ops : MapOps σ) (c : EntityCollection) (m : MapRenderer) (w : σ) :
    (allocBoundsBlocks ops c m w).1 =
      { m with
        m_entityBoundsBlock := (allocBoundsBlocks ops c m w).1.m_entityBoundsBlock,
        m_selectedEntityBoundsBlock := (allocBoundsBlocks ops c m w).1.m_selectedEntityBoundsBlock,
        m_lockedEntityBoundsBlock := (allocBoundsBlocks ops c m w).1.m_lockedEntityBoundsBlock } := by
  unfold allocBoundsBlocks
  simp only []
  split_ifs <;> rfl

theorem writeFaceBlocks_touches (c : GeometryCollection) (m m1 : MapRenderer)
    (h : writeFaceBlocks c m = some m1) :
    m1 = { m with
      m_faceRenderInfos := m1.m_faceRenderInfos, m_faceBlock := m1.m_faceBlock,
      m_selectedFaceRenderInfos := m1.m_selectedFaceRenderInfos,
      m_selectedFaceBlock := m1.m_selectedFaceBlock,
      m_lockedFaceRenderInfos := m1.m_lockedFaceRenderInfos,
      m_lockedFaceBlock := m1.m_lockedFaceBlock } := by
  unfold writeFaceBlocks at h
  cases h1 : writeUnselectedFaces c m with
  | none => simp [h1] at h
  | some a =>
    cases h2 : writeSelectedFaces c a with
    | none => simp [h1, h2] at h
    | some b =>
      simp only [h1, h2, Option.some_bind] at h
      have t1 := writeUnselectedFaces_touches c m a h1
      have t2 := writeSelectedFaces_touches c a b h2
      have t3 := writeLockedFaces_touches c b m1 h
      rw [t3, t2, t1]

theorem writeEdgeBlocks_touches (prefs : Preferences) (c : GeometryCollection)
    (m m1 : MapRenderer) (h : writeEdgeBlocks prefs c m = some m1) :
    m1 = { m with
      m_edgeRenderInfo := m1.m_edgeRenderInfo, m_edgeBlock := m1.m_edgeBlock,
      m_selectedEdgeRenderInfo := m1.m_selectedEdgeRenderInfo,
      m_selectedEdgeBlock := m1.m_selectedEdgeBlock,
      m_lockedEdgeRenderInfo := m1.m_lockedEdgeRenderInfo,
      m_lockedEdgeBlock := m1.m_lockedEdgeBlock } := by
  unfold writeEdgeBlocks at h
  cases h1 : writeUnselectedEdges prefs c m with
  | none => simp [h1] at h
  | some a =>
    cases h2 : writeSelectedEdges prefs c a with
    | none => simp [h1, h2] at h
    | some b =>
      simp only [h1, h2, Option.some_bind] at h
      have t1 := writeUnselectedEdges_touches prefs c m a h1
      have t2 := writeSelectedEdges_touches prefs c a b h2
      have t3 := writeLockedEdges_touches prefs c b m1 h
      rw [t3, t2, t1]

theorem writeBoundsBlocks_touches (prefs : Preferences) (c : EntityCollection)
    (m m1 : MapRenderer) (h : writeBoundsBlocks prefs c m = some m1) :
    m1 = { m with
      m_entityBoundsRenderInfo := m1.m_entityBoundsRenderInfo,
      m_entityBoundsBlock := m1.m_entityBoundsBlock,
      m_selectedEntityBoundsRenderInfo := m1.m_selectedEntityBoundsRenderInfo,
      m_selectedEntityBoundsBlock := m1.m_selectedEntityBoundsBlock,
      m_lockedEntityBoundsRenderInfo := m1.m_lockedEntityBoundsRenderInfo,
      m_lockedEntityBoundsBlock := m1.m_lockedEntityBoundsBlock } := by
  unfold writeBoundsBlocks at h
  cases h1 : writeNormalBounds prefs c m with
  | none => simp [h1] at h
  | some a =>
    cases h2 : writeSelectedBounds prefs c a with
    | none => simp [h1, h2] at h
    | some b =>
      simp only [h1, h2, Option.some_bind] at h
      have t1 := writeNormalBounds_touches prefs c m a h1
      have t2 := writeSelectedBounds_touches prefs c a b h2
      have t3 := writeLockedBounds_touches prefs c b m1 h
      rw [t3, t2, t1]

theorem rebuildGeometryData_flags {σ : Type} (ops : MapOps σ) (prefs : Preferences)
    (document : MapDocument) (context : RenderContext) (m : MapRenderer) (w : σ)
    (r : MapRenderer × σ) (h : rebuildGeometryData ops prefs document context m w = some r) :
    r.1.flags = [true, true, true, m.m_entityDataValid, m.m_selectedEntityDataValid,
      m.m_lockedEntityDataValid, m.m_entityRendererCacheValid] := by
  unfold rebuildGeometryData at h
  simp only [] at h
  cases hc : collectEntities context.filter m.m_dummyTexture document.entities
      GeometryCollection.empty with
  | none => simp [hc] at h
  | some c =>
    simp only [hc] at h
    have f1 := (flags_eq_iff _ _).1 (resetGeometry_flags ops m w)
    generalize resetGeometry ops m w = s1 at h f1
    have f2 := fun w1 => (flags_eq_iff _ _).1 (allocFaceBlocks_flags ops c s1.1 w1)
    generalize hs2 : allocFaceBlocks ops c s1.1 (ops.vboMap VboKind.face
      (ops.vboActivate VboKind.face s1.2)) = s2 at h
    have f2' := f2 (ops.vboMap VboKind.face (ops.vboActivate VboKind.face s1.2))
    rw [hs2] at f2'
    cases h3 : writeFaceBlocks c s2.1 with
    | none => simp [h3] at h
    | some m3 =>
      simp only [h3] at h
      have t3 := writeFaceBlocks_touches c s2.1 m3 h3
      have f4 := fun w1 => (flags_eq_iff _ _).1 (allocEdgeBlocks_flags ops c m3 w1)
      generalize hs4 : allocEdgeBlocks ops c m3 (ops.vboMap VboKind.edge
        (ops.vboActivate VboKind.edge (ops.vboDeactivate VboKind.face
          (ops.vboUnmap VboKind.face s2.2)))) = s4 at h
      have f4' := f4 (ops.vboMap VboKind.edge (ops.vboActivate VboKind.edge
        (ops.vboDeactivate VboKind.face (ops.vboUnmap VboKind.face s2.2))))
      rw [hs4] at f4'
      cases h5 : writeEdgeBlocks prefs c s4.1 with
      | none => simp [h5] at h
      | some m5 =>
        simp only [h5, Option.some.injEq] at h
        have t5 := writeEdgeBlocks_touches prefs c s4.1 m5 h5
        rw [← h]
        simp only [MapRenderer.flags]
        rw [t5]
        simp only []
        rw [f4'.2.2.2.1, f4'.2.2.2.2.1, f4'.2.2.2.2.2.1, f4'.2.2.2.2.2.2, t3]
        simp only []
        rw [f2'.2.2.2.1, f2'.2.2.2.2.1, f2'.2.2.2.2.2.1, f2'.2.2.2.2.2.2,
          f1.2.2.2.1, f1.2.2.2.2.1, f1.2.2.2.2.2.1, f1.2.2.2.2.2.2]

theorem rebuildEntityData_flags {σ : Type} (ops : MapOps σ) (prefs : Preferences)
    (document : MapDocument) (context : RenderContext) (m : MapRenderer) (w : σ)
    (r : MapRenderer × σ) (h : rebuildEntityData ops prefs document context m w = some r) :
    r.1.flags = [m.m_geometryDataValid, m.m_selectedGeometryDataValid,
      m.m_lockedGeometryDataValid, true, true, true, m.m_entityRendererCacheValid] := by
  unfold rebuildEntityData at h
  simp only [] at h
  have f1 := (flags_eq_iff _ _).1 (resetEntityData_flags ops m w)
  generalize resetEntityData ops m w = s1 at h f1
  generalize collectBoundsEntities context.filter document.entities ⟨[], [], []⟩ = c at h
  have f2 := (flags_eq_iff _ _).1 (allocBoundsBlocks_flags ops c s1.1
    (ops.vboMap VboKind.entityBounds (ops.vboActivate VboKind.entityBounds s1.2)))
  generalize allocBoundsBlocks ops c s1.1 (ops.vboMap VboKind.entityBounds
    (ops.vboActivate VboKind.entityBounds s1.2)) = s2 at h f2
  cases h3 : writeBoundsBlocks prefs c s2.1 with
  | none => simp [h3] at h
  | some m3 =>
    simp only [h3, Option.some.injEq] at h
    have t3 := writeBoundsBlocks_touches prefs c s2.1 m3 h3
    rw [← h]
    simp only [MapRenderer.flags]
    rw [t3]
    simp only []
    rw [f2.1, f2.2.1, f2.2.2.1, f2.2.2.2.2.2.2, f1.1, f1.2.1, f1.2.2.1, f1.2.2.2.2.2.2]

theorem reloadEach_flags {σ : Type} (ops : MapOps σ) (mods : List String)
    (entities : List Entity) (m : MapRenderer) (w : σ) (r : MapRenderer × σ)
    (h : reloadEach ops mods entities m w = some r) : r.1.flags = m.flags := by
  induction entities generalizing m w with
  | nil =>
    simp only [reloadEach, Option.some.injEq] at h
    rw [← h]
  | cons e rest ih =>
    simp only [reloadEach] at h
    rcases hr : ops.entityRenderer e mods w with ⟨er, w1⟩
    rw [hr] at h
    cases er with
    | none => exact ih _ _ h
    | some er =>
      simp only [] at h
      cases hc : e.classname with
      | none => simp [hc] at h
      | some cn =>
        simp only [hc] at h
        split at h
        · exact (ih _ _ h).trans rfl
        · split at h
          · exact (ih _ _ h).trans rfl
          · exact (ih _ _ h).trans rfl

theorem reloadEntityModels_flags {σ : Type} (ops : MapOps σ) (document : MapDocument)
    (m : MapRenderer) (w : σ) (r : MapRenderer × σ)
    (h : reloadEntityModels ops document m w = some r) :
    r.1.flags = [m.m_geometryDataValid, m.m_selectedGeometryDataValid,
      m.m_lockedGeometryDataValid, m.m_entityDataValid, m.m_selectedEntityDataValid,
      m.m_lockedEntityDataValid, true] := by
  unfold reloadEntityModels at h
  cases hr : reloadEach ops document.mods document.entities
      { m with m_entityRenderers := [], m_selectedEntityRenderers := [] } w with
  | none => simp [hr] at h
  | some r1 =>
    have hf := (flags_eq_iff _ _).1 (reloadEach_flags ops _ _ _ _ r1 hr)
    simp only [hr, Option.some.injEq] at h
    rw [← h]
    simp [MapRenderer.flags, hf]

theorem validate_valid {σ : Type} (ops : MapOps σ) (prefs : Preferences)
    (document : MapDocument) (context : RenderContext) (m : MapRenderer) (w : σ)
    (h : m.flags = [true, true, true, true, true, true, true]) :
    validate ops prefs document context m w = some (m, w) := by
  simp only [MapRenderer.flags, List.cons.injEq, and_true] at h
  obtain ⟨h1, h2, h3, h4, h5, h6, h7⟩ := h
  simp [validate, validateEntityRenderers, validateGeometry, validateEntityData,
    h1, h2, h3, h4, h5, h6, h7]

theorem validateEntityRenderers_flags {σ : Type} (ops : MapOps σ) (document : MapDocument)
    (s r : MapRenderer × σ) (h : validateEntityRenderers ops document s = some r) :
    r.1.flags = [s.1.m_geometryDataValid, s.1.m_selectedGeometryDataValid,
      s.1.m_lockedGeometryDataValid, s.1.m_entityDataValid, s.1.m_selectedEntityDataValid,
      s.1.m_lockedEntityDataValid, true] := by
  unfold validateEntityRenderers at h
  split at h
  · exact reloadEntityModels_flags ops document s.1 s.2 r h
  · have hn : ¬(!s.1.m_entityRendererCacheValid) = true := by assumption
    simp only [Option.some.injEq] at h
    rw [← h]
    simp only [Bool.not_eq_true', Bool.not_eq_false] at hn
    simp [MapRenderer.flags, hn]

theorem validateGeometry_flags {σ : Type} (ops : MapOps σ) (prefs : Preferences)
    (document : MapDocument) (context : RenderContext) (s r : MapRenderer × σ)
    (h : validateGeometry ops prefs document context s = some r) :
    r.1.flags = [true, true, true, s.1.m_entityDataValid, s.1.m_selectedEntityDataValid,
      s.1.m_lockedEntityDataValid, s.1.m_entityRendererCacheValid] := by
  unfold validateGeometry at h
  split at h
  · exact rebuildGeometryData_flags ops prefs document context s.1 s.2 r h
  · have hn : ¬(!s.1.m_geometryDataValid || !s.1.m_selectedGeometryDataValid ||
        !s.1.m_lockedGeometryDataValid) = true := by assumption
    simp only [Option.some.injEq] at h
    rw [← h]
    simp only [Bool.or_eq_true, Bool.not_eq_true', not_or, Bool.not_eq_false] at hn
    simp [MapRenderer.flags, hn.1.1, hn.1.2, hn.2]

theorem validateEntityData_flags {σ : Type} (ops : MapOps σ) (prefs : Preferences)
    (document : MapDocument) (context : RenderContext) (s r : MapRenderer × σ)
    (h : validateEntityData ops prefs document context s = some r) :
    r.1.flags = [s.1.m_geometryDataValid, s.1.m_selectedGeometryDataValid,
      s.1.m_lockedGeometryDataValid, true, true, true, s.1.m_entityRendererCacheValid] := by
  unfold validateEntityData at h
  split at h
  · exact rebuildEntityData_flags ops prefs document context s.1 s.2 r h
  · have hn : ¬(!s.1.m_entityDataValid || !s.1.m_selectedEntityDataValid ||
        !s.1.m_lockedEntityDataValid) = true := by assumption
    simp only [Option.some.injEq] at h
    rw [← h]
    simp only [Bool.or_eq_true, Bool.not_eq_true', not_or, Bool.not_eq_false] at hn
    simp [MapRenderer.flags, hn.1.1, hn.1.2, hn.2]

theorem validate_steps {σ : Type} (ops : MapOps σ) (prefs : Preferences)
    (document : MapDocument) (context : RenderContext) (m : MapRenderer) (w : σ)
    (r : MapRenderer × σ) (h : validate ops prefs document context m w = some r) :
    ∃ s1 s2, validateEntityRenderers ops document (m, w) = some s1 ∧
      validateGeometry ops prefs document context s1 = some s2 ∧
      validateEntityData ops prefs document context s2 = some r := by
  unfold validate at h
  cases h1 : validateEntityRenderers ops document (m, w) with
  | none => simp [h1] at h
  | some s1 =>
    cases h2 : validateGeometry ops prefs document context s1 with
    | none => simp [h1, h2] at h
    | some s2 =>
      simp only [h1, h2, Option.some_bind] at h
      exact ⟨s1, s2, rfl, h2, h⟩

theorem validate_flags {σ : Type} (ops : MapOps σ) (prefs : Preferences)
    (document : MapDocument) (context : RenderContext) (m : MapRenderer) (w : σ)
    (r : MapRenderer × σ) (h : validate ops prefs document context m w = some r) :
    r.1.flags = [true, true, true, true, true, true, true] := by
  obtain ⟨s1, s2, h1, h2, h3⟩ := validate_steps ops prefs document context m w r h
  have f1 := validateEntityRenderers_flags ops document _ s1 h1
  have f2 := validateGeometry_flags ops prefs document context s1 s2 h2
  have f3 := validateEntityData_flags ops prefs document context s2 r h3
  simp only [MapRenderer.flags, List.cons.injEq, and_true] at f1 f2
  rw [f3, f2.1, f2.2.1, f2.2.2.1, f2.2.2.2.2.2.2, f1.2.2.2.2.2.2]

theorem u32_add_u32 (a b : Nat) : u32 (u32 a + b) = u32 (a + b) := by
  unfold u32
  omega

theorem u32_u32 (a : Nat) : u32 (u32 a) = u32 a := by
  unfold u32
  omega

theorem u32_of_lt {a : Nat} (h : a < 4294967296) : u32 a = a := by
  unfold u32
  omega

theorem insertFaces_append (dummyTexture : Texture) (l1 l2 : List Face) (m : FacesByTexture) :
    insertFaces dummyTexture (l1 ++ l2) m =
      insertFaces dummyTexture l2 (insertFaces dummyTexture l1 m) := by
  induction l1 generalizing m with
  | nil => rfl
  | cons f rest ih => exact ih _

theorem brushesOf_append (k : Bucket) (l1 l2 : List (Entity × Brush)) :
    brushesOf k (l1 ++ l2) = brushesOf k l1 ++ brushesOf k l2 := by
  simp [brushesOf]

theorem partialFacesOf_append (l1 l2 : List (Entity × Brush)) :
    partialFacesOf (l1 ++ l2) = partialFacesOf l1 ++ partialFacesOf l2 := by
  simp [partialFacesOf]

theorem facesIn_append (k : Bucket) (l1 l2 : List (Entity × Brush × Face)) :
    facesIn k (l1 ++ l2) = facesIn k l1 ++ facesIn k l2 := by
  simp [facesIn]

theorem brushEdgeVertices_append (l1 l2 : List Brush) :
    brushEdgeVertices (l1 ++ l2) = brushEdgeVertices l1 + brushEdgeVertices l2 := by
  simp [brushEdgeVertices]

theorem faceEdgeVertices_append (l1 l2 : List Face) :
    faceEdgeVertices (l1 ++ l2) = faceEdgeVertices l1 + faceEdgeVertices l2 := by
  simp [faceEdgeVertices]

theorem fanVertices_append (l1 l2 : List Face) :
    fanVertices (l1 ++ l2) = fanVertices l1 + fanVertices l2 := by
  simp [fanVertices]

theorem u32_lt (a : Nat) : u32 a < 4294967296 := by
  unfold u32
  omega

theorem collected_inRange (dummyTexture : Texture) (b : List (Entity × Brush))
    (t : List (Entity × Brush × Face)) (c : GeometryCollection) :
    (collected dummyTexture b t c).InRange :=
  ⟨u32_lt _, u32_lt _, u32_lt _, u32_lt _, u32_lt _, u32_lt _⟩

theorem empty_inRange : GeometryCollection.empty.InRange := by
  simp [GeometryCollection.InRange, GeometryCollection.empty]

theorem collected_nil (dummyTexture : Texture) (c : GeometryCollection) (h : c.InRange) :
    collected dummyTexture [] [] c = c := by
  obtain ⟨h1, h2, h3, h4, h5, h6⟩ := h
  cases c
  simp only [collected, facesIn, brushesOf, partialFacesOf, fanVertices, brushEdgeVertices,
    faceEdgeVertices, insertFaces, List.filter_nil, List.map_nil, List.sum_nil,
    List.flatMap_nil, List.append_nil, Nat.add_zero] at *
  simp [u32_of_lt, h1, h2, h3, h4, h5, h6]

theorem collected_append (dummyTexture : Texture) (b1 b2 : List (Entity × Brush))
    (t1 t2 : List (Entity × Brush × Face)) (c : GeometryCollection) :
    collected dummyTexture (b1 ++ b2) (t1 ++ t2) c =
      collected dummyTexture b2 t2 (collected dummyTexture b1 t1 c) := by
  simp only [collected, facesIn_append, insertFaces_append, fanVertices_append,
    brushesOf_append, partialFacesOf_append, brushEdgeVertices_append,
    faceEdgeVertices_append, List.filter_append, List.map_append, List.append_assoc,
    u32_add_u32, GeometryCollection.mk.injEq, true_and, and_true]
  refine ⟨?_, ?_, ?_, ?_, ?_, ?_⟩ <;> exact congrArg u32 (by omega)

theorem collectSelectedFaces_eq (faces : List Face) (c : GeometryCollection)
    (h : c.totalSelectedEdgeVertexCount < 4294967296) :
    collectSelectedFaces faces c =
      { c with
        partiallySelectedBrushFaces :=
          c.partiallySelectedBrushFaces ++ faces.filter (fun f => f.selected),
        totalSelectedEdgeVertexCount :=
          u32 (c.totalSelectedEdgeVertexCount +
            faceEdgeVertices (faces.filter (fun f => f.selected))) } := by
  induction faces generalizing c with
  | nil => simp [collectSelectedFaces, faceEdgeVertices, u32_of_lt h]
  | cons f rest ih =>
    cases hf : f.selected with
    | false => simp [collectSelectedFaces, hf, ih c h]
    | true =>
      simp only [collectSelectedFaces, hf, if_true]
      rw [ih _ (u32_lt _)]
      simp only [List.filter_cons_of_pos, hf, faceEdgeVertices, List.map_cons,
        List.sum_cons, List.append_assoc, List.singleton_append, u32_add_u32]
      congr 1
      exact congrArg u32 (by omega)

theorem collectBrushEdges_eq (dummyTexture : Texture) (entity : Entity) (brush : Brush)
    (c : GeometryCollection) (h : c.InRange) :
    collectBrushEdges entity brush c = collected dummyTexture [(entity, brush)] [] c := by
  obtain ⟨h1, h2, h3, h4, h5, h6⟩ := h
  have e1 := u32_of_lt h1
  have e2 := u32_of_lt h2
  have e3 := u32_of_lt h3
  have e4 := u32_of_lt h4
  have e5 := u32_of_lt h5
  have e6 := u32_of_lt h6
  by_cases hs : (entity.selected || brush.selected) = true
  · have hb : brushBucket (entity, brush) = Bucket.selected := by simp [brushBucket, hs]
    simp [collectBrushEdges, collected, brushesOf, partialFacesOf, facesIn,
      insertFaces, fanVertices, brushEdgeVertices, faceEdgeVertices, hs, hb,
      e1, e2, e3, e4, e5, e6]
  · by_cases hl : (entity.locked || brush.locked) = true
    · have hb : brushBucket (entity, brush) = Bucket.locked := by simp [brushBucket, hs, hl]
      simp [collectBrushEdges, collected, brushesOf, partialFacesOf, facesIn,
        insertFaces, fanVertices, brushEdgeVertices, faceEdgeVertices, hs, hl, hb,
        e1, e2, e3, e4, e5, e6]
    · have hb : brushBucket (entity, brush) = Bucket.normal := by simp [brushBucket, hs, hl]
      cases hw : entity.worldspawn <;> cases hp : brush.partiallySelected <;>
        simp [collectBrushEdges, collected, brushesOf, partialFacesOf, facesIn,
          insertFaces, fanVertices, brushEdgeVertices, faceEdgeVertices, hs, hl, hw, hp, hb,
          collectSelectedFaces_eq, h5, u32_add_u32, e1, e2, e3, e4, e5, e6]

theorem collectFace_eq (dummyTexture : Texture) (entity : Entity) (brush : Brush) (face : Face)
    (c : GeometryCollection) (h : c.InRange) :
    collectFace dummyTexture entity brush face c =
      if faceOk (entity, brush, face) then
        some (collected dummyTexture [] [(entity, brush, face)] c)
      else none := by
  obtain ⟨h1, h2, h3, h4, h5, h6⟩ := h
  have e1 := u32_of_lt h1
  have e2 := u32_of_lt h2
  have e3 := u32_of_lt h3
  have e4 := u32_of_lt h4
  have e5 := u32_of_lt h5
  have e6 := u32_of_lt h6
  by_cases hv : face.vertices.length < 3
  · have hok : faceOk (entity, brush, face) = false := by simp [faceOk, hv]
    simp [collectFace, hv, hok]
  · have hok : faceOk (entity, brush, face) = true := by
      simp only [faceOk, decide_eq_true_eq]
      omega
    by_cases hs : (entity.selected || brush.selected || face.selected) = true
    · have hb : faceBucket (entity, brush, face) = Bucket.selected := by
        simp [faceBucket, hs]
      simp [collectFace, hv, hok, hs, hb, collected, facesIn, brushesOf, partialFacesOf,
        insertFaces, fanVertices, brushEdgeVertices, faceEdgeVertices, faceTexture,
        e1, e2, e3, e4, e5, e6]
    · by_cases hl : (entity.locked || brush.locked) = true
      · have hb : faceBucket (entity, brush, face) = Bucket.locked := by
          simp [faceBucket, hs, hl]
        simp [collectFace, hv, hok, hs, hl, hb, collected, facesIn, brushesOf, partialFacesOf,
          insertFaces, fanVertices, brushEdgeVertices, faceEdgeVertices, faceTexture,
          e1, e2, e3, e4, e5, e6]
      · have hb : faceBucket (entity, brush, face) = Bucket.normal := by
          simp [faceBucket, hs, hl]
        simp [collectFace, hv, hok, hs, hl, hb, collected, facesIn, brushesOf, partialFacesOf,
          insertFaces, fanVertices, brushEdgeVertices, faceEdgeVertices, faceTexture,
          e1, e2, e3, e4, e5, e6]

theorem collectFaces_eq (dummyTexture : Texture) (entity : Entity) (brush : Brush)
    (faces : List Face) (c : GeometryCollection) (h : c.InRange) :
    collectFaces dummyTexture entity brush faces c =
      if (faces.map (fun f => (entity, brush, f))).all faceOk then
        some (collected dummyTexture [] (faces.map (fun f => (entity, brush, f))) c)
      else none := by
  induction faces generalizing c with
  | nil => simp [collectFaces, collected_nil dummyTexture c h]
  | cons f rest ih =>
    simp only [collectFaces, collectFace_eq dummyTexture entity brush f c h, List.map_cons,
      List.all_cons]
    cases hok : faceOk (entity, brush, f) with
    | false => simp
    | true =>
      simp only [if_true, Bool.true_and]
      rw [ih _ (collected_inRange _ _ _ _)]
      have hc := collected_append dummyTexture [] [] [(entity, brush, f)]
        (rest.map (fun f => (entity, brush, f))) c
      simp only [List.append_nil, List.singleton_append] at hc
      rw [hc]

theorem collectBrushes_eq (filter : Filter) (dummyTexture : Texture) (entity : Entity)
    (brushes : List Brush) (c : GeometryCollection) (h : c.InRange) :
    collectBrushes filter dummyTexture entity brushes c =
      if (((brushes.filter filter.brushVisible).map (fun b => (entity, b))).flatMap
          brushFaces).all faceOk then
        some (collected dummyTexture
          ((brushes.filter filter.brushVisible).map (fun b => (entity, b)))
          (((brushes.filter filter.brushVisible).map (fun b => (entity, b))).flatMap
            brushFaces) c)
      else none := by
  induction brushes generalizing c with
  | nil => simp [collectBrushes, collected_nil dummyTexture c h]
  | cons b rest ih =>
    cases hv : filter.brushVisible b with
    | false =>
      have hf : (b :: rest).filter filter.brushVisible = rest.filter filter.brushVisible := by
        simp [hv]
      rw [hf]
      simp only [collectBrushes, hv, Bool.false_eq_true, if_false]
      exact ih c h
    | true =>
      have hf : (b :: rest).filter filter.brushVisible =
          b :: rest.filter filter.brushVisible := by
        simp [hv]
      rw [hf]
      simp only [collectBrushes, hv, if_true, List.map_cons, List.flatMap_cons,
        List.all_append]
      rw [collectBrushEdges_eq dummyTexture entity b c h,
        collectFaces_eq dummyTexture entity b b.faces _ (collected_inRange _ _ _ _)]
      have hbf : brushFaces (entity, b) = b.faces.map (fun f => (entity, b, f)) := rfl
      rw [hbf]
      cases hall : (b.faces.map (fun f => (entity, b, f))).all faceOk with
      | false => simp
      | true =>
        simp only [if_true, Bool.true_and]
        rw [ih _ (collected_inRange _ _ _ _)]
        have hc1 := collected_append dummyTexture [(entity, b)] [] []
          (b.faces.map (fun f => (entity, b, f))) c
        simp only [List.append_nil, List.nil_append] at hc1
        rw [← hc1, ← collected_append]
        rfl

theorem collectEntities_eq (filter : Filter) (dummyTexture : Texture)
    (entities : List Entity) (c : GeometryCollection) (h : c.InRange) :
    collectEntities filter dummyTexture entities c =
      if (visibleFaces filter entities).all faceOk then
        some (collected dummyTexture (visibleBrushes filter entities)
          (visibleFaces filter entities) c)
      else none := by
  induction entities generalizing c with
  | nil => simp [collectEntities, visibleFaces, visibleBrushes, collected_nil dummyTexture c h]
  | cons e rest ih =>
    have hb : visibleBrushes filter (e :: rest) =
        (e.brushes.filter filter.brushVisible).map (fun b => (e, b)) ++
          visibleBrushes filter rest := by
      simp [visibleBrushes]
    have hf : visibleFaces filter (e :: rest) =
        ((e.brushes.filter filter.brushVisible).map (fun b => (e, b))).flatMap brushFaces ++
          visibleFaces filter rest := by
      simp [visibleFaces, hb]
    rw [hb, hf, List.all_append]
    simp only [collectEntities, collectBrushes_eq filter dummyTexture e e.brushes c h]
    cases hall : (((e.brushes.filter filter.brushVisible).map (fun b => (e, b))).flatMap
        brushFaces).all faceOk with
    | false => simp
    | true =>
      simp only [if_true, Bool.true_and]
      rw [ih _ (collected_inRange _ _ _ _), ← collected_append]

theorem wrote_refl (s : VboBlock × Nat) (h : s.2 < 4294967296) : Wrote s s [] := by
  simp [Wrote, u32_of_lt h]

theorem wrote_trans {s s1 s2 : VboBlock × Nat} {a b : List BlockItem} (h1 : Wrote s s1 a)
    (h2 : Wrote s1 s2 b) : Wrote s s2 (a ++ b) := by
  obtain ⟨a1, a2, a3, a4⟩ := h1
  obtain ⟨b1, b2, b3, b4⟩ := h2
  refine ⟨b1.trans a1, b2.trans a2, ?_, ?_⟩
  · rw [b3, a3, List.append_assoc]
  · rw [b4, a4, u32_add_u32, List.map_append, List.sum_append, Nat.add_assoc]

theorem wrote_offset_lt {s s1 : VboBlock × Nat} {a : List BlockItem} (h : Wrote s s1 a) :
    s1.2 < 4294967296 := by
  rw [h.2.2.2]
  exact u32_lt _

theorem put_wrote (item : BlockItem) (s : VboBlock × Nat) : Wrote s (put item s) [item] := by
  simp [Wrote, put, VboBlock.items]

theorem putVertex_wrote (v : FaceVertex) (s : VboBlock × Nat) :
    Wrote s (putVertex v s) (vertexTuple v) := by
  unfold putVertex vertexTuple
  exact wrote_trans (wrote_trans (put_wrote _ s) (put_wrote _ _)) (put_wrote _ _)

theorem writeFan_wrote (vs : List FaceVertex) (v0 : FaceVertex) (hv0 : vs[0]? = some v0)
    (k j : Nat) (s : VboBlock × Nat) (hs : s.2 < 4294967296) (hj : j + k < vs.length) :
    ∃ s1, writeFan vs j k s = some s1 ∧
      Wrote s s1 ((((vs.drop j).zip (vs.drop (j + 1))).take k).flatMap
        (fun p => triangleItems (v0, p.1, p.2))) := by
  induction k generalizing j s with
  | zero => exact ⟨s, rfl, by simpa using wrote_refl s hs⟩
  | succ k ih =>
    have hj1 : j < vs.length := by omega
    have hj2 : j + 1 < vs.length := by omega
    have ha : vs[j]? = some vs[j] := List.getElem?_eq_getElem hj1
    have hb : vs[j + 1]? = some vs[j + 1] := List.getElem?_eq_getElem hj2
    have hw : Wrote s (putVertex vs[j + 1] (putVertex vs[j] (putVertex v0 s)))
        (triangleItems (v0, vs[j], vs[j + 1])) := by
      unfold triangleItems
      exact wrote_trans (wrote_trans (putVertex_wrote _ s) (putVertex_wrote _ _))
        (putVertex_wrote _ _)
    obtain ⟨s1, h1, w1⟩ := ih (j + 1)
      (putVertex vs[j + 1] (putVertex vs[j] (putVertex v0 s))) (wrote_offset_lt hw) (by omega)
    refine ⟨s1, ?_, ?_⟩
    · simp only [writeFan, hv0, ha, hb]
      exact h1
    · have hd1 : vs.drop j = vs[j] :: vs.drop (j + 1) := List.drop_eq_getElem_cons hj1
      have hd2 : vs.drop (j + 1) = vs[j + 1] :: vs.drop (j + 1 + 1) :=
        List.drop_eq_getElem_cons hj2
      have hz : ((vs.drop j).zip (vs.drop (j + 1))).take (k + 1) =
          (vs[j], vs[j + 1]) :: ((vs.drop (j + 1)).zip (vs.drop (j + 1 + 1))).take k := by
        rw [hd1]
        conv_lhs => rw [hd2]
        rw [List.zip_cons_cons, List.take_succ_cons, ← hd2]
      rw [hz, List.flatMap_cons]
      exact wrote_trans hw w1

theorem fanTriangles_length (vs : List FaceVertex) :
    (fanTriangles vs).length = vs.length - 2 := by
  cases vs with
  | nil => rfl
  | cons v0 rest =>
    simp only [fanTriangles, List.length_map, List.length_zip, List.length_tail,
      List.length_cons]
    omega

theorem fanTriangles_eq (v0 : FaceVertex) (rest : List FaceVertex) :
    (((v0 :: rest).drop 1).zip ((v0 :: rest).drop (1 + 1))).take ((v0 :: rest).length - 2) =
      rest.zip rest.tail := by
  have h1 : (v0 :: rest).drop 1 = rest := rfl
  have h2 : (v0 :: rest).drop (1 + 1) = rest.tail := by
    simp [List.drop_one]
  rw [h1, h2]
  apply List.take_of_length_le
  simp only [List.length_zip, List.length_tail, List.length_cons]
  omega

theorem triangleItems_size (t : FaceVertex × FaceVertex × FaceVertex) :
    ((triangleItems t).map BlockItem.size).sum = 3 * FaceVertexSize := by
  rfl

theorem flatMap_size_const {α : Type} (f : α → List BlockItem) (n : Nat) (l : List α)
    (h : ∀ a, ((f a).map BlockItem.size).sum = n) :
    (((l.flatMap f)).map BlockItem.size).sum = l.length * n := by
  induction l with
  | nil => simp
  | cons a l ih =>
    rw [List.flatMap_cons, List.map_append, List.sum_append, ih, h, List.length_cons]
    ring

theorem faceItems_size (face : Face) (h : 2 ≤ face.vertices.length) :
    ((faceItems face).map BlockItem.size).sum =
      fanVertexCount face.vertices.length * FaceVertexSize := by
  unfold faceItems
  rw [flatMap_size_const triangleItems (3 * FaceVertexSize) _ triangleItems_size,
    fanTriangles_length]
  unfold fanVertexCount
  rw [if_pos h]
  have : 3 * face.vertices.length - 6 = (face.vertices.length - 2) * 3 := by omega
  rw [this]
  ring

theorem faceItems_length (face : Face) :
    (faceItems face).length = 3 * (3 * (face.vertices.length - 2)) := by
  unfold faceItems
  have h : ∀ l : List (FaceVertex × FaceVertex × FaceVertex),
      (l.flatMap triangleItems).length = 3 * (3 * l.length) := by
    intro l
    induction l with
    | nil => rfl
    | cons a l ih =>
      rw [List.flatMap_cons, List.length_append, ih, List.length_cons]
      simp only [triangleItems, vertexTuple, List.length_append, List.length_cons,
        List.length_nil]
      omega
  rw [h, fanTriangles_length]

theorem writeFace_some (face : Face) (s : (VboBlock × Nat) × Nat) (hs : s.1.2 < 4294967296)
    (h : 2 ≤ face.vertices.length) :
    ∃ s1, writeFace face s = some (s1, u32 (s.2 + fanVertexCount face.vertices.length)) ∧
      Wrote s.1 s1 (faceItems face) := by
  cases hv : face.vertices with
  | nil => rw [hv] at h; simp at h
  | cons v0 rest =>
    have hlen : 1 + ((v0 :: rest).length - 2) < (v0 :: rest).length := by
      rw [← hv]
      omega
    obtain ⟨s1, h1, w1⟩ := writeFan_wrote (v0 :: rest) v0 (by simp) ((v0 :: rest).length - 2) 1 s.1
      hs hlen
    refine ⟨s1, ?_, ?_⟩
    · unfold writeFace
      rw [hv, if_neg (by simp), h1]
    · rw [fanTriangles_eq] at w1
      unfold faceItems fanTriangles
      rw [hv, List.flatMap_map]
      exact w1

theorem writeFaces_some (faces : List Face) (s : (VboBlock × Nat) × Nat)
    (hs : s.1.2 < 4294967296) (hc : s.2 < 4294967296)
    (h : ∀ f ∈ faces, 2 ≤ f.vertices.length) :
    ∃ s1, writeFaces faces s = some (s1, u32 (s.2 + fanVertices faces)) ∧
      Wrote s.1 s1 (faces.flatMap faceItems) := by
  induction faces generalizing s with
  | nil =>
    refine ⟨s.1, ?_, by simpa using wrote_refl s.1 hs⟩
    simp [writeFaces, fanVertices, u32_of_lt hc]
  | cons f rest ih =>
    obtain ⟨s1, h1, w1⟩ := writeFace_some f s hs (h f (List.mem_cons_self _ _))
    obtain ⟨s2, h2, w2⟩ := ih (s1, u32 (s.2 + fanVertexCount f.vertices.length)) (wrote_offset_lt w1)
      (u32_lt _) (fun g hg => h g (List.mem_cons_of_mem _ hg))
    refine ⟨s2, ?_, ?_⟩
    · simp only [writeFaces, h1, h2]
      rw [u32_add_u32]
      simp [fanVertices, Nat.add_assoc]
    · rw [List.flatMap_cons]
      exact wrote_trans w1 w2

theorem allFaces_cons (g : Texture × List Face) (m : FacesByTexture) :
    allFaces (g :: m) = g.2 ++ allFaces m := by
  simp [allFaces]

theorem writeFaceGroups_some (groups : FacesByTexture) (address : Nat)
    (s : (VboBlock × Nat) × List TexturedTriangleRenderInfo) (hs : s.1.2 < 4294967296)
    (h : ∀ f ∈ allFaces groups, 2 ≤ f.vertices.length) :
    ∃ r, writeFaceGroups groups address s = some r ∧
      Wrote s.1 r.1 ((allFaces groups).flatMap faceItems) ∧
      r.2.map (fun i => i.texture) = s.2.map (fun i => i.texture) ++ groups.map (fun g => g.1) ∧
      r.2.map (fun i => i.vertexCount) =
        s.2.map (fun i => i.vertexCount) ++ groups.map (fun g => u32 (fanVertices g.2)) := by
  induction groups generalizing address s with
  | nil =>
    exact ⟨s, rfl, by simpa [allFaces] using wrote_refl s.1 hs, by simp, by simp⟩
  | cons g rest ih =>
    obtain ⟨texture, faces⟩ := g
    rw [allFaces_cons] at h
    obtain ⟨s1, h1, w1⟩ := writeFaces_some faces (s.1, 0) hs (by simp)
      (fun f hf => h f (List.mem_append_left _ hf))
    obtain ⟨r, h2, w2, t2, c2⟩ := ih (u32 (s1.1.address + s1.2))
      (s1, s.2 ++ [{ texture := texture, offset := address,
                     vertexCount := u32 (0 + fanVertices faces) }]) (wrote_offset_lt w1)
      (fun f hf => h f (List.mem_append_right _ hf))
    refine ⟨r, ?_, ?_, ?_, ?_⟩
    · simp only [writeFaceGroups, h1]
      exact h2
    · rw [allFaces_cons, List.flatMap_append]
      exact wrote_trans w1 w2
    · rw [t2]
      simp
    · rw [c2]
      simp

theorem writeFaceData_some (facesByTexture : FacesByTexture)
    (renderInfos : List TexturedTriangleRenderInfo) (block : VboBlock)
    (h : ∀ f ∈ allFaces facesByTexture, 2 ≤ f.vertices.length) :
    ∃ r, writeFaceData facesByTexture renderInfos block = some r ∧
      r.2.address = block.address ∧ r.2.capacity = block.capacity ∧
      r.2.items = block.items ++ (allFaces facesByTexture).flatMap faceItems ∧
      r.1.map (fun i => i.texture) =
        (if facesByTexture.isEmpty then renderInfos.map (fun i => i.texture)
         else renderInfos.map (fun i => i.texture) ++ facesByTexture.map (fun g => g.1)) ∧
      r.1.map (fun i => i.vertexCount) =
        (if facesByTexture.isEmpty then renderInfos.map (fun i => i.vertexCount)
         else renderInfos.map (fun i => i.vertexCount) ++
           facesByTexture.map (fun g => u32 (fanVertices g.2))) := by
  unfold writeFaceData
  by_cases he : facesByTexture.isEmpty = true
  · rw [if_pos he, if_pos he, if_pos he]
    have : facesByTexture = [] := List.isEmpty_iff.mp he
    subst this
    exact ⟨_, rfl, rfl, rfl, by simp [allFaces], rfl, rfl⟩
  · rw [if_neg he, if_neg he, if_neg he]
    obtain ⟨r, h1, w1, t1, c1⟩ := writeFaceGroups_some facesByTexture block.address
      ((block, 0), renderInfos) (by simp) h
    rw [h1]
    exact ⟨_, rfl, w1.1, w1.2.1, w1.2.2.1, t1, c1⟩

theorem fanVertices_flatMap_size (faces : List Face) (h : ∀ f ∈ faces, 2 ≤ f.vertices.length) :
    (((faces.flatMap faceItems)).map BlockItem.size).sum = fanVertices faces * FaceVertexSize := by
  induction faces with
  | nil => rfl
  | cons f rest ih =>
    rw [List.flatMap_cons, List.map_append, List.sum_append,
      faceItems_size f (h f (List.mem_cons_self _ _)),
      ih (fun g hg => h g (List.mem_cons_of_mem _ hg))]
    simp only [fanVertices, List.map_cons, List.sum_cons]
    ring

theorem resetGeometry_m_faceBlock {σ : Type} (ops : MapOps σ) (m : MapRenderer) (w : σ)
    (h : m.m_geometryDataValid = false) :
    (resetGeometry ops m w).1.m_faceBlock = none ∧ (resetGeometry ops m w).1.m_faceRenderInfos = [] := by
  unfold resetGeometry
  simp only []
  split_ifs <;> simp_all

theorem allocFaceBlocks_m_faceBlock {σ : Type} (ops : MapOps σ) (c : GeometryCollection)
    (m : MapRenderer) (w : σ) (h : m.m_geometryDataValid = false) (hne : c.unselectedFaces.isEmpty = false) :
    ∃ a, (allocFaceBlocks ops c m w).1.m_faceBlock =
      some ⟨a, u32 (c.totalUnselectedFaceVertexCount * FaceVertexSize), []⟩ := by
  unfold allocFaceBlocks allocate
  simp only []
  split_ifs <;> first | exact ⟨_, rfl⟩ | simp_all

theorem writeUnselectedFaces_skip (c : GeometryCollection) (m : MapRenderer)
    (h : m.m_geometryDataValid = true ∨ c.unselectedFaces.isEmpty = true) : writeUnselectedFaces c m = some m := by
  unfold writeUnselectedFaces
  rcases h with h | h <;> simp [h]

theorem writeUnselectedFaces_run (c : GeometryCollection) (m : MapRenderer) (b : VboBlock)
    (r : List TexturedTriangleRenderInfo × VboBlock)
    (h : m.m_geometryDataValid = false) (hne : c.unselectedFaces.isEmpty = false) (hb : m.m_faceBlock = some b)
    (hr : writeFaceData c.unselectedFaces m.m_faceRenderInfos b = some r) :
    writeUnselectedFaces c m = some { m with m_faceRenderInfos := r.1, m_faceBlock := some r.2 } := by
  unfold writeUnselectedFaces
  simp [h, hne, hb, hr]

theorem resetGeometry_m_selectedFaceBlock {σ : Type} (ops : MapOps σ) (m : MapRenderer) (w : σ)
    (h : m.m_selectedGeometryDataValid = false) :
    (resetGeometry ops m w).1.m_selectedFaceBlock = none ∧ (resetGeometry ops m w).1.m_selectedFaceRenderInfos = [] := by
  unfold resetGeometry
  simp only []
  split_ifs <;> simp_all

theorem allocFaceBlocks_m_selectedFaceBlock {σ : Type} (ops : MapOps σ) (c : GeometryCollection)
    (m : MapRenderer) (w : σ) (h : m.m_selectedGeometryDataValid = false) (hne : c.selectedFaces.isEmpty = false) :
    ∃ a, (allocFaceBlocks ops c m w).1.m_selectedFaceBlock =
      some ⟨a, u32 (c.totalSelectedFaceVertexCount * FaceVertexSize), []⟩ := by
  unfold allocFaceBlocks allocate
  simp only []
  split_ifs <;> first | exact ⟨_, rfl⟩ | simp_all

theorem writeSelectedFaces_skip (c : GeometryCollection) (m : MapRenderer)
    (h : m.m_selectedGeometryDataValid = true ∨ c.selectedFaces.isEmpty = true) : writeSelectedFaces c m = some m := by
  unfold writeSelectedFaces
  rcases h with h | h <;> simp [h]

theorem writeSelectedFaces_run (c : GeometryCollection) (m : MapRenderer) (b : VboBlock)
    (r : List TexturedTriangleRenderInfo × VboBlock)
    (h : m.m_selectedGeometryDataValid = false) (hne : c.selectedFaces.isEmpty = false) (hb : m.m_selectedFaceBlock = some b)
    (hr : writeFaceData c.selectedFaces m.m_selectedFaceRenderInfos b = some r) :
    writeSelectedFaces c m = some { m with m_selectedFaceRenderInfos := r.1, m_selectedFaceBlock := some r.2 } := by
  unfold writeSelectedFaces
  simp [h, hne, hb, hr]

theorem resetGeometry_m_lockedFaceBlock {σ : Type} (ops : MapOps σ) (m : MapRenderer) (w : σ)
    (h : m.m_lockedGeometryDataValid = false) :
    (resetGeometry ops m w).1.m_lockedFaceBlock = none ∧ (resetGeometry ops m w).1.m_lockedFaceRenderInfos = [] := by
  unfold resetGeometry
  simp only []
  split_ifs <;> simp_all

theorem allocFaceBlocks_m_lockedFaceBlock {σ : Type} (ops : MapOps σ) (c : GeometryCollection)
    (m : MapRenderer) (w : σ) (h : m.m_lockedGeometryDataValid = false) (hne : c.lockedFaces.isEmpty = false) :
    ∃ a, (allocFaceBlocks ops c m w).1.m_lockedFaceBlock =
      some ⟨a, u32 (c.totalLockedFaceVertexCount * FaceVertexSize), []⟩ := by
  unfold allocFaceBlocks allocate
  simp only []
  split_ifs <;> first | exact ⟨_, rfl⟩ | simp_all

theorem writeLockedFaces_skip (c : GeometryCollection) (m : MapRenderer)
    (h : m.m_lockedGeometryDataValid = true ∨ c.lockedFaces.isEmpty = true) : writeLockedFaces c m = some m := by
  unfold writeLockedFaces
  rcases h with h | h <;> simp [h]

theorem writeLockedFaces_run (c : GeometryCollection) (m : MapRenderer) (b : VboBlock)
    (r : List TexturedTriangleRenderInfo × VboBlock)
    (h : m.m_lockedGeometryDataValid = false) (hne : c.lockedFaces.isEmpty = false) (hb : m.m_lockedFaceBlock = some b)
    (hr : writeFaceData c.lockedFaces m.m_lockedFaceRenderInfos b = some r) :
    writeLockedFaces c m = some { m with m_lockedFaceRenderInfos := r.1, m_lockedFaceBlock := some r.2 } := by
  unfold writeLockedFaces
  simp [h, hne, hb, hr]

theorem resetGeometry_m_edgeBlock {σ : Type} (ops : MapOps σ) (m : MapRenderer) (w : σ)
    (h : m.m_geometryDataValid = false) :
    (resetGeometry ops m w).1.m_edgeBlock = none ∧ (resetGeometry ops m w).1.m_edgeRenderInfo = ⟨0, 0⟩ := by
  unfold resetGeometry
  simp only []
  split_ifs <;> simp_all

theorem allocEdgeBlocks_m_edgeBlock {σ : Type} (ops : MapOps σ) (c : GeometryCollection)
    (m : MapRenderer) (w : σ) (h : m.m_geometryDataValid = false) (hne : (!c.unselectedBrushes.isEmpty) = true) :
    ∃ a, (allocEdgeBlocks ops c m w).1.m_edgeBlock =
      some ⟨a, u32 (c.totalUnselectedEdgeVertexCount * EdgeVertexSize), []⟩ := by
  unfold allocEdgeBlocks allocate
  simp only []
  split_ifs <;> first | exact ⟨_, rfl⟩ | simp_all

theorem writeUnselectedEdges_skip (prefs : Preferences) (c : GeometryCollection) (m : MapRenderer)
    (h : m.m_geometryDataValid = true ∨ (!c.unselectedBrushes.isEmpty) = false) : writeUnselectedEdges prefs c m = some m := by
  unfold writeUnselectedEdges
  rcases h with h | h <;> simp [h]

theorem writeUnselectedEdges_run (prefs : Preferences) (c : GeometryCollection) (m : MapRenderer)
    (b : VboBlock) (h : m.m_geometryDataValid = false) (hne : (!c.unselectedBrushes.isEmpty) = true) (hb : m.m_edgeBlock = some b) :
    writeUnselectedEdges prefs c m = some { m with
      m_edgeRenderInfo := (writeEdgeData prefs c.unselectedBrushes [] m.m_edgeRenderInfo b).1,
      m_edgeBlock := some (writeEdgeData prefs c.unselectedBrushes [] m.m_edgeRenderInfo b).2 } := by
  unfold writeUnselectedEdges
  rw [if_pos (by simp [h, hne]), hb]

theorem resetGeometry_m_selectedEdgeBlock {σ : Type} (ops : MapOps σ) (m : MapRenderer) (w : σ)
    (h : m.m_selectedGeometryDataValid = false) :
    (resetGeometry ops m w).1.m_selectedEdgeBlock = none ∧ (resetGeometry ops m w).1.m_selectedEdgeRenderInfo = ⟨0, 0⟩ := by
  unfold resetGeometry
  simp only []
  split_ifs <;> simp_all

theorem allocEdgeBlocks_m_selectedEdgeBlock {σ : Type} (ops : MapOps σ) (c : GeometryCollection)
    (m : MapRenderer) (w : σ) (h : m.m_selectedGeometryDataValid = false) (hne : ((!c.selectedBrushes.isEmpty || !c.partiallySelectedBrushFaces.isEmpty)) = true) :
    ∃ a, (allocEdgeBlocks ops c m w).1.m_selectedEdgeBlock =
      some ⟨a, u32 (c.totalSelectedEdgeVertexCount * EdgeVertexSize), []⟩ := by
  unfold allocEdgeBlocks allocate
  simp only []
  split_ifs <;> first | exact ⟨_, rfl⟩ | simp_all

theorem writeSelectedEdges_skip (prefs : Preferences) (c : GeometryCollection) (m : MapRenderer)
    (h : m.m_selectedGeometryDataValid = true ∨ ((!c.selectedBrushes.isEmpty || !c.partiallySelectedBrushFaces.isEmpty)) = false) : writeSelectedEdges prefs c m = some m := by
  unfold writeSelectedEdges
  rcases h with h | h <;> simp [h]

theorem writeSelectedEdges_run (prefs : Preferences) (c : GeometryCollection) (m : MapRenderer)
    (b : VboBlock) (h : m.m_selectedGeometryDataValid = false) (hne : ((!c.selectedBrushes.isEmpty || !c.partiallySelectedBrushFaces.isEmpty)) = true) (hb : m.m_selectedEdgeBlock = some b) :
    writeSelectedEdges prefs c m = some { m with
      m_selectedEdgeRenderInfo := (writeEdgeData prefs c.selectedBrushes c.partiallySelectedBrushFaces m.m_selectedEdgeRenderInfo b).1,
      m_selectedEdgeBlock := some (writeEdgeData prefs c.selectedBrushes c.partiallySelectedBrushFaces m.m_selectedEdgeRenderInfo b).2 } := by
  unfold writeSelectedEdges
  rw [if_pos (by simp [h, hne]), hb]

theorem resetGeometry_m_lockedEdgeBlock {σ : Type} (ops : MapOps σ) (m : MapRenderer) (w : σ)
    (h : m.m_lockedGeometryDataValid = false) :
    (resetGeometry ops m w).1.m_lockedEdgeBlock = none ∧ (resetGeometry ops m w).1.m_lockedEdgeRenderInfo = ⟨0, 0⟩ := by
  unfold resetGeometry
  simp only []
  split_ifs <;> simp_all

theorem allocEdgeBlocks_m_lockedEdgeBlock {σ : Type} (ops : MapOps σ) (c : GeometryCollection)
    (m : MapRenderer) (w : σ) (h : m.m_lockedGeometryDataValid = false) (hne : (!c.lockedBrushes.isEmpty) = true) :
    ∃ a, (allocEdgeBlocks ops c m w).1.m_lockedEdgeBlock =
      some ⟨a, u32 (c.totalLockedEdgeVertexCount * EdgeVertexSize), []⟩ := by
  unfold allocEdgeBlocks allocate
  simp only []
  split_ifs <;> first | exact ⟨_, rfl⟩ | simp_all

theorem writeLockedEdges_skip (prefs : Preferences) (c : GeometryCollection) (m : MapRenderer)
    (h : m.m_lockedGeometryDataValid = true ∨ (!c.lockedBrushes.isEmpty) = false) : writeLockedEdges prefs c m = some m := by
  unfold writeLockedEdges
  rcases h with h | h <;> simp [h]

theorem writeLockedEdges_run (prefs : Preferences) (c : GeometryCollection) (m : MapRenderer)
    (b : VboBlock) (h : m.m_lockedGeometryDataValid = false) (hne : (!c.lockedBrushes.isEmpty) = true) (hb : m.m_lockedEdgeBlock = some b) :
    writeLockedEdges prefs c m = some { m with
      m_lockedEdgeRenderInfo := (writeEdgeData prefs c.lockedBrushes [] m.m_lockedEdgeRenderInfo b).1,
      m_lockedEdgeBlock := some (writeEdgeData prefs c.lockedBrushes [] m.m_lockedEdgeRenderInfo b).2 } := by
  unfold writeLockedEdges
  rw [if_pos (by simp [h, hne]), hb]

theorem writeUnselectedFaces_some (c : GeometryCollection) (m : MapRenderer)
    (hb : m.m_geometryDataValid = false → c.unselectedFaces.isEmpty = false → ∃ b, m.m_faceBlock = some b)
    (hf : ∀ f ∈ allFaces c.unselectedFaces, 2 ≤ f.vertices.length) :
    ∃ m1, writeUnselectedFaces c m = some m1 := by
  by_cases h : m.m_geometryDataValid = false
  · by_cases hne : c.unselectedFaces.isEmpty = false
    · obtain ⟨b, hb1⟩ := hb h hne
      obtain ⟨r, hr, _⟩ := writeFaceData_some c.unselectedFaces m.m_faceRenderInfos b hf
      exact ⟨_, writeUnselectedFaces_run c m b r h hne hb1 hr⟩
    · exact ⟨m, writeUnselectedFaces_skip c m (Or.inr (by simpa using hne))⟩
  · exact ⟨m, writeUnselectedFaces_skip c m (Or.inl (by simpa using h))⟩

theorem writeSelectedFaces_some (c : GeometryCollection) (m : MapRenderer)
    (hb : m.m_selectedGeometryDataValid = false → c.selectedFaces.isEmpty = false → ∃ b, m.m_selectedFaceBlock = some b)
    (hf : ∀ f ∈ allFaces c.selectedFaces, 2 ≤ f.vertices.length) :
    ∃ m1, writeSelectedFaces c m = some m1 := by
  by_cases h : m.m_selectedGeometryDataValid = false
  · by_cases hne : c.selectedFaces.isEmpty = false
    · obtain ⟨b, hb1⟩ := hb h hne
      obtain ⟨r, hr, _⟩ := writeFaceData_some c.selectedFaces m.m_selectedFaceRenderInfos b hf
      exact ⟨_, writeSelectedFaces_run c m b r h hne hb1 hr⟩
    · exact ⟨m, writeSelectedFaces_skip c m (Or.inr (by simpa using hne))⟩
  · exact ⟨m, writeSelectedFaces_skip c m (Or.inl (by simpa using h))⟩

theorem writeLockedFaces_some (c : GeometryCollection) (m : MapRenderer)
    (hb : m.m_lockedGeometryDataValid = false → c.lockedFaces.isEmpty = false → ∃ b, m.m_lockedFaceBlock = some b)
    (hf : ∀ f ∈ allFaces c.lockedFaces, 2 ≤ f.vertices.length) :
    ∃ m1, writeLockedFaces c m = some m1 := by
  by_cases h : m.m_lockedGeometryDataValid = false
  · by_cases hne : c.lockedFaces.isEmpty = false
    · obtain ⟨b, hb1⟩ := hb h hne
      obtain ⟨r, hr, _⟩ := writeFaceData_some c.lockedFaces m.m_lockedFaceRenderInfos b hf
      exact ⟨_, writeLockedFaces_run c m b r h hne hb1 hr⟩
    · exact ⟨m, writeLockedFaces_skip c m (Or.inr (by simpa using hne))⟩
  · exact ⟨m, writeLockedFaces_skip c m (Or.inl (by simpa using h))⟩

theorem writeUnselectedEdges_some (prefs : Preferences) (c : GeometryCollection) (m : MapRenderer)
    (hb : m.m_geometryDataValid = false → (!c.unselectedBrushes.isEmpty) = true → ∃ b, m.m_edgeBlock = some b) :
    ∃ m1, writeUnselectedEdges prefs c m = some m1 := by
  by_cases h : m.m_geometryDataValid = false
  · by_cases hne : (!c.unselectedBrushes.isEmpty) = true
    · obtain ⟨b, hb1⟩ := hb h hne
      exact ⟨_, writeUnselectedEdges_run prefs c m b h hne hb1⟩
    · exact ⟨m, writeUnselectedEdges_skip prefs c m (Or.inr (by simpa using hne))⟩
  · exact ⟨m, writeUnselectedEdges_skip prefs c m (Or.inl (by simpa using h))⟩

theorem writeSelectedEdges_some (prefs : Preferences) (c : GeometryCollection) (m : MapRenderer)
    (hb : m.m_selectedGeometryDataValid = false → ((!c.selectedBrushes.isEmpty || !c.partiallySelectedBrushFaces.isEmpty)) = true → ∃ b, m.m_selectedEdgeBlock = some b) :
    ∃ m1, writeSelectedEdges prefs c m = some m1 := by
  by_cases h : m.m_selectedGeometryDataValid = false
  · by_cases hne : ((!c.selectedBrushes.isEmpty || !c.partiallySelectedBrushFaces.isEmpty)) = true
    · obtain ⟨b, hb1⟩ := hb h hne
      exact ⟨_, writeSelectedEdges_run prefs c m b h hne hb1⟩
    · exact ⟨m, writeSelectedEdges_skip prefs c m (Or.inr (by simpa using hne))⟩
  · exact ⟨m, writeSelectedEdges_skip prefs c m (Or.inl (by simpa using h))⟩

theorem writeLockedEdges_some (prefs : Preferences) (c : GeometryCollection) (m : MapRenderer)
    (hb : m.m_lockedGeometryDataValid = false → (!c.lockedBrushes.isEmpty) = true → ∃ b, m.m_lockedEdgeBlock = some b) :
    ∃ m1, writeLockedEdges prefs c m = some m1 := by
  by_cases h : m.m_lockedGeometryDataValid = false
  · by_cases hne : (!c.lockedBrushes.isEmpty) = true
    · obtain ⟨b, hb1⟩ := hb h hne
      exact ⟨_, writeLockedEdges_run prefs c m b h hne hb1⟩
    · exact ⟨m, writeLockedEdges_skip prefs c m (Or.inr (by simpa using hne))⟩
  · exact ⟨m, writeLockedEdges_skip prefs c m (Or.inl (by simpa using h))⟩

theorem rebuildGeometryData_chain {σ : Type} (ops : MapOps σ) (prefs : Preferences)
    (document : MapDocument) (context : RenderContext) (m : MapRenderer) (w : σ)
    (c : GeometryCollection)
    (hc : collectEntities context.filter m.m_dummyTexture document.entities
      GeometryCollection.empty = some c)
    (hok : ∀ k f, f ∈ allFaces (c.faces k) → 2 ≤ f.vertices.length) :
    ∃ a1 a2 m3 b1 b2 m5,
      writeUnselectedFaces c (allocFaceBlocks ops c (resetGeometry ops m w).1
        (ops.vboMap VboKind.face (ops.vboActivate VboKind.face
          (resetGeometry ops m w).2))).1 = some a1 ∧
      writeSelectedFaces c a1 = some a2 ∧ writeLockedFaces c a2 = some m3 ∧
      writeUnselectedEdges prefs c (allocEdgeBlocks ops c m3
        (ops.vboMap VboKind.edge (ops.vboActivate VboKind.edge (ops.vboDeactivate VboKind.face
          (ops.vboUnmap VboKind.face (allocFaceBlocks ops c (resetGeometry ops m w).1
            (ops.vboMap VboKind.face (ops.vboActivate VboKind.face
              (resetGeometry ops m w).2))).2))))).1 = some b1 ∧
      writeSelectedEdges prefs c b1 = some b2 ∧ writeLockedEdges prefs c b2 = some m5 ∧
      rebuildGeometryData ops prefs document context m w =
        some ({ m5 with m_geometryDataValid := true, m_selectedGeometryDataValid := true,
                        m_lockedGeometryDataValid := true },
          ops.vboDeactivate VboKind.edge (ops.vboUnmap VboKind.edge
            (allocEdgeBlocks ops c m3
              (ops.vboMap VboKind.edge (ops.vboActivate VboKind.edge
                (ops.vboDeactivate VboKind.face (ops.vboUnmap VboKind.face
                  (allocFaceBlocks ops c (resetGeometry ops m w).1
                    (ops.vboMap VboKind.face (ops.vboActivate VboKind.face
                      (resetGeometry ops m w).2))).2))))).2)) := by
  generalize hs2 : allocFaceBlocks ops c (resetGeometry ops m w).1
    (ops.vboMap VboKind.face (ops.vboActivate VboKind.face (resetGeometry ops m w).2)) = s2
  have r2a : s2.1.m_geometryDataValid = false → c.unselectedFaces.isEmpty = false →
      ∃ b, s2.1.m_faceBlock = some b := by
    intro hF hne
    rw [← hs2] at hF ⊢
    have e := (flags_eq_iff _ _).1 (allocFaceBlocks_flags ops c (resetGeometry ops m w).1
      (ops.vboMap VboKind.face (ops.vboActivate VboKind.face (resetGeometry ops m w).2)))
    obtain ⟨a, ha⟩ := allocFaceBlocks_m_faceBlock ops c (resetGeometry ops m w).1
      (ops.vboMap VboKind.face (ops.vboActivate VboKind.face (resetGeometry ops m w).2))
      (e.1 ▸ hF) hne
    exact ⟨_, ha⟩
  have r2b : s2.1.m_selectedGeometryDataValid = false → c.selectedFaces.isEmpty = false →
      ∃ b, s2.1.m_selectedFaceBlock = some b := by
    intro hF hne
    rw [← hs2] at hF ⊢
    have e := (flags_eq_iff _ _).1 (allocFaceBlocks_flags ops c (resetGeometry ops m w).1
      (ops.vboMap VboKind.face (ops.vboActivate VboKind.face (resetGeometry ops m w).2)))
    obtain ⟨a, ha⟩ := allocFaceBlocks_m_selectedFaceBlock ops c (resetGeometry ops m w).1
      (ops.vboMap VboKind.face (ops.vboActivate VboKind.face (resetGeometry ops m w).2))
      (e.2.1 ▸ hF) hne
    exact ⟨_, ha⟩
  have r2c : s2.1.m_lockedGeometryDataValid = false → c.lockedFaces.isEmpty = false →
      ∃ b, s2.1.m_lockedFaceBlock = some b := by
    intro hF hne
    rw [← hs2] at hF ⊢
    have e := (flags_eq_iff _ _).1 (allocFaceBlocks_flags ops c (resetGeometry ops m w).1
      (ops.vboMap VboKind.face (ops.vboActivate VboKind.face (resetGeometry ops m w).2)))
    obtain ⟨a, ha⟩ := allocFaceBlocks_m_lockedFaceBlock ops c (resetGeometry ops m w).1
      (ops.vboMap VboKind.face (ops.vboActivate VboKind.face (resetGeometry ops m w).2))
      (e.2.2.1 ▸ hF) hne
    exact ⟨_, ha⟩
  obtain ⟨a1, h1⟩ := writeUnselectedFaces_some c s2.1 r2a (hok Bucket.normal)
  have t1 := writeUnselectedFaces_touches c s2.1 a1 h1
  obtain ⟨a2, h2⟩ := writeSelectedFaces_some c a1
    (by rw [t1]; exact r2b) (hok Bucket.selected)
  have t2 := writeSelectedFaces_touches c a1 a2 h2
  obtain ⟨m3, h3⟩ := writeLockedFaces_some c a2
    (by rw [t2, t1]; exact r2c) (hok Bucket.locked)
  generalize hs4 : allocEdgeBlocks ops c m3
    (ops.vboMap VboKind.edge (ops.vboActivate VboKind.edge (ops.vboDeactivate VboKind.face
      (ops.vboUnmap VboKind.face s2.2)))) = s4
  have e4 := fun w1 => (flags_eq_iff _ _).1 (allocEdgeBlocks_flags ops c m3 w1)
  have r4a : s4.1.m_geometryDataValid = false → (!c.unselectedBrushes.isEmpty) = true →
      ∃ b, s4.1.m_edgeBlock = some b := by
    intro hF hne
    rw [← hs4] at hF ⊢
    obtain ⟨a, ha⟩ := allocEdgeBlocks_m_edgeBlock ops c m3 _ ((e4 _).1 ▸ hF) hne
    exact ⟨_, ha⟩
  have r4b : s4.1.m_selectedGeometryDataValid = false →
      (!c.selectedBrushes.isEmpty || !c.partiallySelectedBrushFaces.isEmpty) = true →
      ∃ b, s4.1.m_selectedEdgeBlock = some b := by
    intro hF hne
    rw [← hs4] at hF ⊢
    obtain ⟨a, ha⟩ := allocEdgeBlocks_m_selectedEdgeBlock ops c m3 _ ((e4 _).2.1 ▸ hF) hne
    exact ⟨_, ha⟩
  have r4c : s4.1.m_lockedGeometryDataValid = false → (!c.lockedBrushes.isEmpty) = true →
      ∃ b, s4.1.m_lockedEdgeBlock = some b := by
    intro hF hne
    rw [← hs4] at hF ⊢
    obtain ⟨a, ha⟩ := allocEdgeBlocks_m_lockedEdgeBlock ops c m3 _ ((e4 _).2.2.1 ▸ hF) hne
    exact ⟨_, ha⟩
  obtain ⟨b1, h4⟩ := writeUnselectedEdges_some prefs c s4.1 r4a
  have t4 := writeUnselectedEdges_touches prefs c s4.1 b1 h4
  obtain ⟨b2, h5⟩ := writeSelectedEdges_some prefs c b1 (by rw [t4]; exact r4b)
  have t5 := writeSelectedEdges_touches prefs c b1 b2 h5
  obtain ⟨m5, h6⟩ := writeLockedEdges_some prefs c b2 (by rw [t5, t4]; exact r4c)
  subst hs4
  refine ⟨a1, a2, m3, b1, b2, m5, h1, h2, h3, h4, h5, h6, ?_⟩
  unfold rebuildGeometryData
  simp only [hc, hs2, writeFaceBlocks, h1, h2, h3, Option.some_bind, writeEdgeBlocks, h4,
    h5, h6]


theorem allFaces_insertFace (m : FacesByTexture) (texture : Texture) (face : Face) :
    (allFaces (insertFace m texture face)).Perm (allFaces m ++ [face]) := by
  induction m with
  | nil => simp [insertFace, allFaces]
  | cons g rest ih =>
    obtain ⟨k, faces⟩ := g
    unfold insertFace
    split_ifs with h1 h2
    · rw [allFaces_cons, allFaces_cons]
      simp only [List.append_assoc]
      exact List.Perm.append_left _ List.perm_append_comm
    · rw [allFaces_cons]
      exact List.perm_append_comm
    · rw [allFaces_cons, allFaces_cons]
      simp only [List.append_assoc]
      exact List.Perm.append_left _ ih

theorem allFaces_insertFaces (dummyTexture : Texture) (l : List Face) (m : FacesByTexture) :
    (allFaces (insertFaces dummyTexture l m)).Perm (allFaces m ++ l) := by
  induction l generalizing m with
  | nil => simp [insertFaces]
  | cons f rest ih =>
    unfold insertFaces
    refine (ih _).trans ?_
    have := (allFaces_insertFace m (faceTexture dummyTexture f) f).append_right rest
    simpa using this

theorem allFaces_insertFaces_nil (dummyTexture : Texture) (l : List Face) :
    (allFaces (insertFaces dummyTexture l [])).Perm l := by
  simpa [allFaces] using allFaces_insertFaces dummyTexture l []

theorem insertFaces_isEmpty (dummyTexture : Texture) (l : List Face) :
    (insertFaces dummyTexture l []).isEmpty = l.isEmpty := by
  have hp := allFaces_insertFaces_nil dummyTexture l
  cases l with
  | nil => rfl
  | cons f rest =>
    cases hm : insertFaces dummyTexture (f :: rest) [] with
    | nil =>
      rw [hm] at hp
      simp [allFaces] at hp
    | cons g gs => rfl

theorem fanVertices_perm {l1 l2 : List Face} (h : l1.Perm l2) :
    fanVertices l1 = fanVertices l2 := by
  unfold fanVertices
  exact (h.map _).sum_eq

theorem collectEntities_some (filter : Filter) (dummyTexture : Texture)
    (entities : List Entity) (c : GeometryCollection)
    (h : collectEntities filter dummyTexture entities GeometryCollection.empty = some c) :
    (visibleFaces filter entities).all faceOk = true ∧
      c = collected dummyTexture (visibleBrushes filter entities)
        (visibleFaces filter entities) GeometryCollection.empty := by
  rw [collectEntities_eq filter dummyTexture entities _ empty_inRange] at h
  split_ifs at h with hok
  exact ⟨hok, (Option.some.inj h).symm⟩

theorem collectEntities_of_ok (filter : Filter) (dummyTexture : Texture)
    (entities : List Entity) (hok : (visibleFaces filter entities).all faceOk = true) :
    collectEntities filter dummyTexture entities GeometryCollection.empty =
      some (collected dummyTexture (visibleBrushes filter entities)
        (visibleFaces filter entities) GeometryCollection.empty) := by
  rw [collectEntities_eq filter dummyTexture entities _ empty_inRange, if_pos hok]

theorem collected_faces (dummyTexture : Texture) (b : List (Entity × Brush))
    (t : List (Entity × Brush × Face)) (k : Bucket) :
    (collected dummyTexture b t GeometryCollection.empty).faces k =
      insertFaces dummyTexture (facesIn k t) [] := by
  cases k <;> rfl

theorem collected_faces_ok (dummyTexture : Texture) (b : List (Entity × Brush))
    (t : List (Entity × Brush × Face)) (hok : t.all faceOk = true) (k : Bucket) (f : Face)
    (hf : f ∈ allFaces ((collected dummyTexture b t GeometryCollection.empty).faces k)) :
    3 ≤ f.vertices.length := by
  rw [collected_faces] at hf
  have h1 := (allFaces_insertFaces_nil dummyTexture (facesIn k t)).mem_iff.1 hf
  unfold facesIn at h1
  obtain ⟨p, hp, rfl⟩ := List.mem_map.1 h1
  have h2 := List.all_eq_true.1 hok p (List.mem_filter.1 hp).1
  simpa [faceOk] using h2

theorem brushesOf_normal_perm (brushes : List (Entity × Brush)) :
    (unselectedOf brushes).Perm (brushesOf Bucket.normal brushes) := by
  unfold unselectedOf brushesOf
  rw [← List.map_append]
  refine List.Perm.map _ ?_
  induction brushes with
  | nil => simp
  | cons p rest ih =>
    by_cases hb : brushBucket p = Bucket.normal
    · by_cases hw : p.1.worldspawn = true
      · simpa [List.filter_cons, hb, hw] using ih
      · have hw1 : p.1.worldspawn = false := by simpa using hw
        simp only [List.filter_cons, hb, hw1, decide_True, Bool.and_false, Bool.false_eq_true,
          if_false, Bool.not_false, Bool.and_true, if_true]
        exact List.perm_middle.trans (List.Perm.cons _ ih)
    · simpa [List.filter_cons, hb] using ih

theorem bucket_lengths (α : Type) (f : α → Bucket) (l : List α) :
    (l.filter (fun p => f p = Bucket.selected)).length +
      (l.filter (fun p => f p = Bucket.locked)).length +
      (l.filter (fun p => f p = Bucket.normal)).length = l.length := by
  induction l with
  | nil => rfl
  | cons p rest ih =>
    cases hp : f p <;> simp [List.filter_cons, hp] <;> omega

theorem writeBrushEdges_count (worldColor : Color) (brushes : List Brush)
    (s : (VboBlock × Nat) × Nat) (h : s.2 < 4294967296) :
    (writeBrushEdges worldColor brushes s).2 = u32 (s.2 + brushEdgeVertices brushes) := by
  induction brushes generalizing s with
  | nil => simp [writeBrushEdges, brushEdgeVertices, u32_of_lt h]
  | cons b rest ih =>
    unfold writeBrushEdges
    rw [ih _ (u32_lt _), u32_add_u32]
    simp [brushEdgeVertices, Nat.add_assoc]

theorem writeFaceEdges_count (worldColor : Color) (faces : List Face)
    (s : (VboBlock × Nat) × Nat) (h : s.2 < 4294967296) :
    (writeFaceEdges worldColor faces s).2 = u32 (s.2 + faceEdgeVertices faces) := by
  induction faces generalizing s with
  | nil => simp [writeFaceEdges, faceEdgeVertices, u32_of_lt h]
  | cons f rest ih =>
    unfold writeFaceEdges
    rw [ih _ (u32_lt _), u32_add_u32]
    simp [faceEdgeVertices, Nat.add_assoc]

theorem writeEdgeData_count (prefs : Preferences) (brushes : List Brush) (faces : List Face)
    (renderInfo : EdgeRenderInfo) (block : VboBlock)
    (h : (brushes.isEmpty && faces.isEmpty) = false) :
    (writeEdgeData prefs brushes faces renderInfo block).1.vertexCount =
      u32 (brushEdgeVertices brushes + faceEdgeVertices faces) := by
  unfold writeEdgeData
  rw [h]
  simp only [Bool.false_eq_true, if_false]
  rw [writeFaceEdges_count _ _ _ (by
    rw [writeBrushEdges_count _ _ _ (by simp)]
    exact u32_lt _), writeBrushEdges_count _ _ _ (by simp), u32_add_u32]
  simp

theorem rebuildGeometryData_selectedEdges {σ : Type} (ops : MapOps σ) (prefs : Preferences)
    (document : MapDocument) (context : RenderContext) (m : MapRenderer) (w : σ)
    (c : GeometryCollection)
    (hc : collectEntities context.filter m.m_dummyTexture document.entities
      GeometryCollection.empty = some c)
    (hok : ∀ k f, f ∈ allFaces (c.faces k) → 2 ≤ f.vertices.length)
    (hinv : m.m_selectedGeometryDataValid = false) :
    ∃ r, rebuildGeometryData ops prefs document context m w = some r ∧
      r.1.m_selectedEdgeRenderInfo.vertexCount =
        u32 (brushEdgeVertices c.selectedBrushes +
          faceEdgeVertices c.partiallySelectedBrushFaces) := by
  obtain ⟨a1, a2, m3, b1, b2, m5, h1, h2, h3, h4, h5, h6, hr⟩ :=
    rebuildGeometryData_chain ops prefs document context m w c hc hok
  refine ⟨_, hr, ?_⟩
  have t1 := writeUnselectedFaces_touches c _ a1 h1
  have t2 := writeSelectedFaces_touches c a1 a2 h2
  have t3 := writeLockedFaces_touches c a2 m3 h3
  have t4 := writeUnselectedEdges_touches prefs c _ b1 h4
  have t6 := writeLockedEdges_touches prefs c b2 m5 h6
  generalize hw2 : (ops.vboMap VboKind.face (ops.vboActivate VboKind.face
    (resetGeometry ops m w).2)) = w2 at h1 h4 t1 t4
  have r0 := resetGeometry_m_selectedEdgeBlock ops m w hinv
  have f0 := (flags_eq_iff _ _).1 (resetGeometry_flags ops m w)
  have f2 := (flags_eq_iff _ _).1 (allocFaceBlocks_flags ops c (resetGeometry ops m w).1 w2)
  have u2 := allocFaceBlocks_touches ops c (resetGeometry ops m w).1 w2
  generalize allocFaceBlocks ops c (resetGeometry ops m w).1 w2 = s2 at h1 h4 t1 t4 f2 u2
  generalize hw4 : (ops.vboMap VboKind.edge (ops.vboActivate VboKind.edge
    (ops.vboDeactivate VboKind.face (ops.vboUnmap VboKind.face s2.2)))) = w4 at h4 t4
  have f4 := (flags_eq_iff _ _).1 (allocEdgeBlocks_flags ops c m3 w4)
  have u4 := allocEdgeBlocks_touches ops c m3 w4
  have a4 := allocEdgeBlocks_m_selectedEdgeBlock ops c m3 w4
  generalize allocEdgeBlocks ops c m3 w4 = s4 at h4 t4 f4 u4 a4
  have g3 : m3.m_selectedGeometryDataValid = false := by
    rw [t3, t2, t1]
    exact f2.2.1.trans (f0.2.1.trans hinv)
  have i3 : m3.m_selectedEdgeRenderInfo = ⟨0, 0⟩ := by
    rw [t3, t2, t1, u2]
    exact r0.2
  have g1 : b1.m_selectedGeometryDataValid = false := by
    rw [t4]
    exact f4.2.1.trans g3
  have i1 : b1.m_selectedEdgeRenderInfo = ⟨0, 0⟩ := by
    rw [t4, u4]
    exact i3
  have e5 : m5.m_selectedEdgeRenderInfo = b2.m_selectedEdgeRenderInfo := by
    rw [t6]
  show m5.m_selectedEdgeRenderInfo.vertexCount = _
  rw [e5]
  by_cases hne : (!c.selectedBrushes.isEmpty || !c.partiallySelectedBrushFaces.isEmpty) = true
  · obtain ⟨a, ha⟩ := a4 g3 hne
    have hb1 : b1.m_selectedEdgeBlock = s4.1.m_selectedEdgeBlock := by
      rw [t4]
    have hrun := writeSelectedEdges_run prefs c b1 _ g1 hne (hb1.trans ha)
    rw [h5] at hrun
    rw [Option.some.inj hrun]
    apply writeEdgeData_count
    revert hne
    generalize c.selectedBrushes.isEmpty = x
    generalize c.partiallySelectedBrushFaces.isEmpty = y
    cases x <;> cases y <;> simp
  · have hskip := writeSelectedEdges_skip prefs c b1 (Or.inr (by simpa using hne))
    rw [h5] at hskip
    rw [Option.some.inj hskip, i1]
    have hs : c.selectedBrushes = [] := by
      cases hl : c.selectedBrushes with
      | nil => rfl
      | cons x xs => simp [hl] at hne
    have hp : c.partiallySelectedBrushFaces = [] := by
      cases hl : c.partiallySelectedBrushFaces with
      | nil => rfl
      | cons x xs => simp [hl] at hne
    rw [hs, hp]
    rfl

theorem rebuildGeometryData_m_faceBlock {σ : Type} (ops : MapOps σ) (prefs : Preferences)
    (document : MapDocument) (context : RenderContext) (m : MapRenderer) (w : σ)
    (c : GeometryCollection)
    (hc : collectEntities context.filter m.m_dummyTexture document.entities
      GeometryCollection.empty = some c)
    (hok : ∀ k f, f ∈ allFaces (c.faces k) → 2 ≤ f.vertices.length)
    (hinv : m.m_geometryDataValid = false) (hne : c.unselectedFaces.isEmpty = false) :
    ∃ r b, rebuildGeometryData ops prefs document context m w = some r ∧
      r.1.m_faceBlock = some b ∧ b.capacity = u32 (c.totalUnselectedFaceVertexCount * FaceVertexSize) ∧
      b.items = (allFaces c.unselectedFaces).flatMap faceItems ∧
      r.1.m_faceRenderInfos.map (fun i => i.texture) = c.unselectedFaces.map (fun g => g.1) ∧
      r.1.m_faceRenderInfos.map (fun i => i.vertexCount) =
        c.unselectedFaces.map (fun g => u32 (fanVertices g.2)) := by
  obtain ⟨a1, a2, m3, b1, b2, m5, h1, h2, h3, h4, h5, h6, hr⟩ :=
    rebuildGeometryData_chain ops prefs document context m w c hc hok
  have t1 := writeUnselectedFaces_touches c _ a1 h1
  have t2 := writeSelectedFaces_touches c a1 a2 h2
  have t3 := writeLockedFaces_touches c a2 m3 h3
  have t4 := writeUnselectedEdges_touches prefs c _ b1 h4
  have t5 := writeSelectedEdges_touches prefs c b1 b2 h5
  have t6 := writeLockedEdges_touches prefs c b2 m5 h6
  generalize hw2 : (ops.vboMap VboKind.face (ops.vboActivate VboKind.face
    (resetGeometry ops m w).2)) = w2 at h1 h4 t1 t4
  have r0 := resetGeometry_m_faceBlock ops m w hinv
  have f0 := (flags_eq_iff _ _).1 (resetGeometry_flags ops m w)
  have f2 := (flags_eq_iff _ _).1 (allocFaceBlocks_flags ops c (resetGeometry ops m w).1 w2)
  have u2 := allocFaceBlocks_touches ops c (resetGeometry ops m w).1 w2
  obtain ⟨a, ha⟩ := allocFaceBlocks_m_faceBlock ops c (resetGeometry ops m w).1 w2
    (f0.1.trans hinv) hne
  generalize allocFaceBlocks ops c (resetGeometry ops m w).1 w2 = s2 at h1 h4 t1 t4 f2 u2 ha
  generalize hw4 : (ops.vboMap VboKind.edge (ops.vboActivate VboKind.edge
    (ops.vboDeactivate VboKind.face (ops.vboUnmap VboKind.face s2.2)))) = w4 at h4 t4
  have u4 := allocEdgeBlocks_touches ops c m3 w4
  generalize allocEdgeBlocks ops c m3 w4 = s4 at h4 t4 u4
  have pF : s2.1.m_geometryDataValid = s2.1.m_geometryDataValid := by
    rfl
  have pB : s2.1.m_faceBlock = s2.1.m_faceBlock := by
    rfl
  have pI : s2.1.m_faceRenderInfos = s2.1.m_faceRenderInfos := by
    rfl
  have sI : s2.1.m_faceRenderInfos = [] := by
    rw [u2]
    exact r0.2
  obtain ⟨r, hr1, hr2, hr3, hr4, hr5, hr6⟩ := writeFaceData_some c.unselectedFaces s2.1.m_faceRenderInfos
    ⟨a, u32 (c.totalUnselectedFaceVertexCount * FaceVertexSize), []⟩ (hok Bucket.normal)
  have hrun := writeUnselectedFaces_run c s2.1 _ r
    (pF.trans (f2.1.trans (f0.1.trans hinv))) hne (pB.trans ha) hr1
  rw [h1] at hrun
  have hpost := Option.some.inj hrun
  have qB : m3.m_faceBlock = a1.m_faceBlock := by
    rw [t3, t2]
  have qI : m3.m_faceRenderInfos = a1.m_faceRenderInfos := by
    rw [t3, t2]
  have eB : m5.m_faceBlock = m3.m_faceBlock := by
    rw [t6, t5, t4, u4]
  have eI : m5.m_faceRenderInfos = m3.m_faceRenderInfos := by
    rw [t6, t5, t4, u4]
  have hE : c.unselectedFaces.isEmpty ≠ true := by simp [hne]
  refine ⟨_, r.2, hr, ?_, hr3, ?_, ?_, ?_⟩
  · show m5.m_faceBlock = _
    rw [eB, qB, hpost]
  · rw [hr4]
    rfl
  · show m5.m_faceRenderInfos.map _ = _
    rw [eI, qI, hpost]
    show r.1.map _ = _
    rw [hr5, if_neg hE, pI, sI]
    rfl
  · show m5.m_faceRenderInfos.map _ = _
    rw [eI, qI, hpost]
    show r.1.map _ = _
    rw [hr6, if_neg hE, pI, sI]
    rfl

theorem rebuildGeometryData_m_selectedFaceBlock {σ : Type} (ops : MapOps σ) (prefs : Preferences)
    (document : MapDocument) (context : RenderContext) (m : MapRenderer) (w : σ)
    (c : GeometryCollection)
    (hc : collectEntities context.filter m.m_dummyTexture document.entities
      GeometryCollection.empty = some c)
    (hok : ∀ k f, f ∈ allFaces (c.faces k) → 2 ≤ f.vertices.length)
    (hinv : m.m_selectedGeometryDataValid = false) (hne : c.selectedFaces.isEmpty = false) :
    ∃ r b, rebuildGeometryData ops prefs document context m w = some r ∧
      r.1.m_selectedFaceBlock = some b ∧ b.capacity = u32 (c.totalSelectedFaceVertexCount * FaceVertexSize) ∧
      b.items = (allFaces c.selectedFaces).flatMap faceItems ∧
      r.1.m_selectedFaceRenderInfos.map (fun i => i.texture) = c.selectedFaces.map (fun g => g.1) ∧
      r.1.m_selectedFaceRenderInfos.map (fun i => i.vertexCount) =
        c.selectedFaces.map (fun g => u32 (fanVertices g.2)) := by
  obtain ⟨a1, a2, m3, b1, b2, m5, h1, h2, h3, h4, h5, h6, hr⟩ :=
    rebuildGeometryData_chain ops prefs document context m w c hc hok
  have t1 := writeUnselectedFaces_touches c _ a1 h1
  have t2 := writeSelectedFaces_touches c a1 a2 h2
  have t3 := writeLockedFaces_touches c a2 m3 h3
  have t4 := writeUnselectedEdges_touches prefs c _ b1 h4
  have t5 := writeSelectedEdges_touches prefs c b1 b2 h5
  have t6 := writeLockedEdges_touches prefs c b2 m5 h6
  generalize hw2 : (ops.vboMap VboKind.face (ops.vboActivate VboKind.face
    (resetGeometry ops m w).2)) = w2 at h1 h4 t1 t4
  have r0 := resetGeometry_m_selectedFaceBlock ops m w hinv
  have f0 := (flags_eq_iff _ _).1 (resetGeometry_flags ops m w)
  have f2 := (flags_eq_iff _ _).1 (allocFaceBlocks_flags ops c (resetGeometry ops m w).1 w2)
  have u2 := allocFaceBlocks_touches ops c (resetGeometry ops m w).1 w2
  obtain ⟨a, ha⟩ := allocFaceBlocks_m_selectedFaceBlock ops c (resetGeometry ops m w).1 w2
    (f0.2.1.trans hinv) hne
  generalize allocFaceBlocks ops c (resetGeometry ops m w).1 w2 = s2 at h1 h4 t1 t4 f2 u2 ha
  generalize hw4 : (ops.vboMap VboKind.edge (ops.vboActivate VboKind.edge
    (ops.vboDeactivate VboKind.face (ops.vboUnmap VboKind.face s2.2)))) = w4 at h4 t4
  have u4 := allocEdgeBlocks_touches ops c m3 w4
  generalize allocEdgeBlocks ops c m3 w4 = s4 at h4 t4 u4
  have pF : a1.m_selectedGeometryDataValid = s2.1.m_selectedGeometryDataValid := by
    rw [t1]
  have pB : a1.m_selectedFaceBlock = s2.1.m_selectedFaceBlock := by
    rw [t1]
  have pI : a1.m_selectedFaceRenderInfos = s2.1.m_selectedFaceRenderInfos := by
    rw [t1]
  have sI : s2.1.m_selectedFaceRenderInfos = [] := by
    rw [u2]
    exact r0.2
  obtain ⟨r, hr1, hr2, hr3, hr4, hr5, hr6⟩ := writeFaceData_some c.selectedFaces a1.m_selectedFaceRenderInfos
    ⟨a, u32 (c.totalSelectedFaceVertexCount * FaceVertexSize), []⟩ (hok Bucket.selected)
  have hrun := writeSelectedFaces_run c a1 _ r
    (pF.trans (f2.2.1.trans (f0.2.1.trans hinv))) hne (pB.trans ha) hr1
  rw [h2] at hrun
  have hpost := Option.some.inj hrun
  have qB : m3.m_selectedFaceBlock = a2.m_selectedFaceBlock := by
    rw [t3]
  have qI : m3.m_selectedFaceRenderInfos = a2.m_selectedFaceRenderInfos := by
    rw [t3]
  have eB : m5.m_selectedFaceBlock = m3.m_selectedFaceBlock := by
    rw [t6, t5, t4, u4]
  have eI : m5.m_selectedFaceRenderInfos = m3.m_selectedFaceRenderInfos := by
    rw [t6, t5, t4, u4]
  have hE : c.selectedFaces.isEmpty ≠ true := by simp [hne]
  refine ⟨_, r.2, hr, ?_, hr3, ?_, ?_, ?_⟩
  · show m5.m_selectedFaceBlock = _
    rw [eB, qB, hpost]
  · rw [hr4]
    rfl
  · show m5.m_selectedFaceRenderInfos.map _ = _
    rw [eI, qI, hpost]
    show r.1.map _ = _
    rw [hr5, if_neg hE, pI, sI]
    rfl
  · show m5.m_selectedFaceRenderInfos.map _ = _
    rw [eI, qI, hpost]
    show r.1.map _ = _
    rw [hr6, if_neg hE, pI, sI]
    rfl

theorem rebuildGeometryData_m_lockedFaceBlock {σ : Type} (ops : MapOps σ) (prefs : Preferences)
    (document : MapDocument) (context : RenderContext) (m : MapRenderer) (w : σ)
    (c : GeometryCollection)
    (hc : collectEntities context.filter m.m_dummyTexture document.entities
      GeometryCollection.empty = some c)
    (hok : ∀ k f, f ∈ allFaces (c.faces k) → 2 ≤ f.vertices.length)
    (hinv : m.m_lockedGeometryDataValid = false) (hne : c.lockedFaces.isEmpty = false) :
    ∃ r b, rebuildGeometryData ops prefs document context m w = some r ∧
      r.1.m_lockedFaceBlock = some b ∧ b.capacity = u32 (c.totalLockedFaceVertexCount * FaceVertexSize) ∧
      b.items = (allFaces c.lockedFaces).flatMap faceItems ∧
      r.1.m_lockedFaceRenderInfos.map (fun i => i.texture) = c.lockedFaces.map (fun g => g.1) ∧
      r.1.m_lockedFaceRenderInfos.map (fun i => i.vertexCount) =
        c.lockedFaces.map (fun g => u32 (fanVertices g.2)) := by
  obtain ⟨a1, a2, m3, b1, b2, m5, h1, h2, h3, h4, h5, h6, hr⟩ :=
    rebuildGeometryData_chain ops prefs document context m w c hc hok
  have t1 := writeUnselectedFaces_touches c _ a1 h1
  have t2 := writeSelectedFaces_touches c a1 a2 h2
  have t3 := writeLockedFaces_touches c a2 m3 h3
  have t4 := writeUnselectedEdges_touches prefs c _ b1 h4
  have t5 := writeSelectedEdges_touches prefs c b1 b2 h5
  have t6 := writeLockedEdges_touches prefs c b2 m5 h6
  generalize hw2 : (ops.vboMap VboKind.face (ops.vboActivate VboKind.face
    (resetGeometry ops m w).2)) = w2 at h1 h4 t1 t4
  have r0 := resetGeometry_m_lockedFaceBlock ops m w hinv
  have f0 := (flags_eq_iff _ _).1 (resetGeometry_flags ops m w)
  have f2 := (flags_eq_iff _ _).1 (allocFaceBlocks_flags ops c (resetGeometry ops m w).1 w2)
  have u2 := allocFaceBlocks_touches ops c (resetGeometry ops m w).1 w2
  obtain ⟨a, ha⟩ := allocFaceBlocks_m_lockedFaceBlock ops c (resetGeometry ops m w).1 w2
    (f0.2.2.1.trans hinv) hne
  generalize allocFaceBlocks ops c (resetGeometry ops m w).1 w2 = s2 at h1 h4 t1 t4 f2 u2 ha
  generalize hw4 : (ops.vboMap VboKind.edge (ops.vboActivate VboKind.edge
    (ops.vboDeactivate VboKind.face (ops.vboUnmap VboKind.face s2.2)))) = w4 at h4 t4
  have u4 := allocEdgeBlocks_touches ops c m3 w4
  generalize allocEdgeBlocks ops c m3 w4 = s4 at h4 t4 u4
  have pF : a2.m_lockedGeometryDataValid = s2.1.m_lockedGeometryDataValid := by
    rw [t2, t1]
  have pB : a2.m_lockedFaceBlock = s2.1.m_lockedFaceBlock := by
    rw [t2, t1]
  have pI : a2.m_lockedFaceRenderInfos = s2.1.m_lockedFaceRenderInfos := by
    rw [t2, t1]
  have sI : s2.1.m_lockedFaceRenderInfos = [] := by
    rw [u2]
    exact r0.2
  obtain ⟨r, hr1, hr2, hr3, hr4, hr5, hr6⟩ := writeFaceData_some c.lockedFaces a2.m_lockedFaceRenderInfos
    ⟨a, u32 (c.totalLockedFaceVertexCount * FaceVertexSize), []⟩ (hok Bucket.locked)
  have hrun := writeLockedFaces_run c a2 _ r
    (pF.trans (f2.2.2.1.trans (f0.2.2.1.trans hinv))) hne (pB.trans ha) hr1
  rw [h3] at hrun
  have hpost := Option.some.inj hrun
  have qB : m3.m_lockedFaceBlock = m3.m_lockedFaceBlock := by
    rfl
  have qI : m3.m_lockedFaceRenderInfos = m3.m_lockedFaceRenderInfos := by
    rfl
  have eB : m5.m_lockedFaceBlock = m3.m_lockedFaceBlock := by
    rw [t6, t5, t4, u4]
  have eI : m5.m_lockedFaceRenderInfos = m3.m_lockedFaceRenderInfos := by
    rw [t6, t5, t4, u4]
  have hE : c.lockedFaces.isEmpty ≠ true := by simp [hne]
  refine ⟨_, r.2, hr, ?_, hr3, ?_, ?_, ?_⟩
  · show m5.m_lockedFaceBlock = _
    rw [eB, qB, hpost]
  · rw [hr4]
    rfl
  · show m5.m_lockedFaceRenderInfos.map _ = _
    rw [eI, qI, hpost]
    show r.1.map _ = _
    rw [hr5, if_neg hE, pI, sI]
    rfl
  · show m5.m_lockedFaceRenderInfos.map _ = _
    rw [eI, qI, hpost]
    show r.1.map _ = _
    rw [hr6, if_neg hE, pI, sI]
    rfl

theorem faceAllocs_append (l1 l2 : List MapCall) :
    faceAllocs (l1 ++ l2) = faceAllocs l1 ++ faceAllocs l2 := by
  simp [faceAllocs]

theorem freeIfAllocated_faceAllocs {σ : Type} (ops : MapOps σ) (vbo : VboKind)
    (block : Option VboBlock) (s : σ × List MapCall) :
    faceAllocs (freeIfAllocated ops.traced vbo block s).2 = faceAllocs s.2 := by
  cases block with
  | none => rfl
  | some b => simp [freeIfAllocated, MapOps.traced, faceAllocs]

theorem resetGeometry_faceAllocs {σ : Type} (ops : MapOps σ) (m : MapRenderer)
    (s : σ × List MapCall) :
    faceAllocs (resetGeometry ops.traced m s).2.2 = faceAllocs s.2 := by
  unfold resetGeometry
  simp only []
  split_ifs <;> simp only [freeIfAllocated_faceAllocs]

theorem allocFaceBlocks_faceAllocs {σ : Type} (ops : MapOps σ) (c : GeometryCollection)
    (m : MapRenderer) (s : σ × List MapCall) :
    faceAllocs (allocFaceBlocks ops.traced c m s).2.2 = faceAllocs s.2 ++
      ((if !m.m_geometryDataValid && !c.unselectedFaces.isEmpty then
          [u32 (c.totalUnselectedFaceVertexCount * FaceVertexSize)] else []) ++
       ((if !m.m_selectedGeometryDataValid && !c.selectedFaces.isEmpty then
          [u32 (c.totalSelectedFaceVertexCount * FaceVertexSize)] else []) ++
        (if !m.m_lockedGeometryDataValid && !c.lockedFaces.isEmpty then
          [u32 (c.totalLockedFaceVertexCount * FaceVertexSize)] else []))) := by
  unfold allocFaceBlocks allocate
  simp only []
  split_ifs <;> simp_all [MapOps.traced, faceAllocs]

theorem allocEdgeBlocks_faceAllocs {σ : Type} (ops : MapOps σ) (c : GeometryCollection)
    (m : MapRenderer) (s : σ × List MapCall) :
    faceAllocs (allocEdgeBlocks ops.traced c m s).2.2 = faceAllocs s.2 := by
  unfold allocEdgeBlocks allocate
  simp only []
  split_ifs <;> simp [MapOps.traced, faceAllocs]

theorem rebuildGeometryData_faceAllocs {σ : Type} (ops : MapOps σ) (prefs : Preferences)
    (document : MapDocument) (context : RenderContext) (m : MapRenderer)
    (s : σ × List MapCall) (c : GeometryCollection)
    (hc : collectEntities context.filter m.m_dummyTexture document.entities
      GeometryCollection.empty = some c)
    (hok : ∀ k f, f ∈ allFaces (c.faces k) → 2 ≤ f.vertices.length) :
    ∃ r, rebuildGeometryData ops.traced prefs document context m s = some r ∧
      faceAllocs r.2.2 = faceAllocs s.2 ++
        ((if !m.m_geometryDataValid && !c.unselectedFaces.isEmpty then
            [u32 (c.totalUnselectedFaceVertexCount * FaceVertexSize)] else []) ++
         ((if !m.m_selectedGeometryDataValid && !c.selectedFaces.isEmpty then
            [u32 (c.totalSelectedFaceVertexCount * FaceVertexSize)] else []) ++
          (if !m.m_lockedGeometryDataValid && !c.lockedFaces.isEmpty then
            [u32 (c.totalLockedFaceVertexCount * FaceVertexSize)] else []))) := by
  obtain ⟨a1, a2, m3, b1, b2, m5, h1, h2, h3, h4, h5, h6, hr⟩ :=
    rebuildGeometryData_chain ops.traced prefs document context m s c hc hok
  refine ⟨_, hr, ?_⟩
  have f0 := (flags_eq_iff _ _).1 (resetGeometry_flags ops.traced m s)
  have v1 : ∀ (k : VboKind) (x : σ × List MapCall),
      faceAllocs (ops.traced.vboActivate k x).2 = faceAllocs x.2 := by
    intro k x
    simp [MapOps.traced, faceAllocs]
  have v2 : ∀ (k : VboKind) (x : σ × List MapCall),
      faceAllocs (ops.traced.vboDeactivate k x).2 = faceAllocs x.2 := by
    intro k x
    simp [MapOps.traced, faceAllocs]
  have v3 : ∀ (k : VboKind) (x : σ × List MapCall),
      faceAllocs (ops.traced.vboMap k x).2 = faceAllocs x.2 := by
    intro k x
    simp [MapOps.traced, faceAllocs]
  have v4 : ∀ (k : VboKind) (x : σ × List MapCall),
      faceAllocs (ops.traced.vboUnmap k x).2 = faceAllocs x.2 := by
    intro k x
    simp [MapOps.traced, faceAllocs]
  simp only [v1, v2, v3, v4, allocEdgeBlocks_faceAllocs, allocFaceBlocks_faceAllocs,
    resetGeometry_faceAllocs, f0.1, f0.2.1, f0.2.2.1]

theorem fanVertices_eq_fanTotal (faces : List Face) (h : ∀ f ∈ faces, 2 ≤ f.vertices.length) :
    fanVertices faces = fanTotal faces := by
  unfold fanVertices fanTotal
  congr 1
  apply List.map_congr_left
  intro f hf
  unfold fanVertexCount
  rw [if_pos (h f hf)]

theorem facesIn_ok (t : List (Entity × Brush × Face)) (hok : t.all faceOk = true) (k : Bucket)
    (f : Face) (hf : f ∈ facesIn k t) : 3 ≤ f.vertices.length := by
  unfold facesIn at hf
  obtain ⟨p, hp, rfl⟩ := List.mem_map.1 hf
  have h2 := List.all_eq_true.1 hok p (List.mem_filter.1 hp).1
  simpa [faceOk] using h2

theorem collected_total (t : List (Entity × Brush × Face)) (hok : t.all faceOk = true) (k : Bucket)
    (hno : fanTotal (facesIn k t) * FaceVertexSize < 4294967296) :
    u32 (u32 (0 + fanVertices (facesIn k t)) * FaceVertexSize) =
      fanTotal (facesIn k t) * FaceVertexSize := by
  rw [fanVertices_eq_fanTotal _ (fun f hf => by
    have := facesIn_ok t hok k f hf
    omega)]
  have h28 : FaceVertexSize = 28 := rfl
  rw [h28] at hno ⊢
  have h1 : fanTotal (facesIn k t) < 4294967296 := by omega
  rw [Nat.zero_add, u32_of_lt h1, u32_of_lt hno]

theorem collected_bytes (dummyTexture : Texture) (b : List (Entity × Brush))
    (t : List (Entity × Brush × Face)) (hok : t.all faceOk = true) (k : Bucket) :
    ((((allFaces ((collected dummyTexture b t GeometryCollection.empty).faces k)).flatMap
      faceItems)).map BlockItem.size).sum = fanTotal (facesIn k t) * FaceVertexSize := by
  rw [fanVertices_flatMap_size _ (fun f hf => by
    have := collected_faces_ok dummyTexture b t hok k f hf
    omega), collected_faces,
    fanVertices_perm (allFaces_insertFaces_nil dummyTexture (facesIn k t)),
    fanVertices_eq_fanTotal _ (fun f hf => by
      have := facesIn_ok t hok k f hf
      omega)]

theorem collected_isEmpty (dummyTexture : Texture) (b : List (Entity × Brush))
    (t : List (Entity × Brush × Face)) (k : Bucket) :
    ((collected dummyTexture b t GeometryCollection.empty).faces k).isEmpty =
      (facesIn k t).isEmpty := by
  rw [collected_faces, insertFaces_isEmpty]

theorem allocBoundsBlocks_m_entityBoundsBlock {σ : Type} (ops : MapOps σ) (c : EntityCollection)
    (m : MapRenderer) (w : σ) (h : m.m_entityDataValid = false) (hne : c.allEntities.isEmpty = false) :
    ∃ a, (allocBoundsBlocks ops c m w).1.m_entityBoundsBlock =
      some ⟨a, entityBoundsBlockSize c.allEntities.length, []⟩ := by
  unfold allocBoundsBlocks allocate
  simp only []
  split_ifs <;> first | exact ⟨_, rfl⟩ | simp_all

theorem writeNormalBounds_skip (prefs : Preferences) (c : EntityCollection) (m : MapRenderer)
    (h : m.m_entityDataValid = true ∨ c.allEntities.isEmpty = true) : writeNormalBounds prefs c m = some m := by
  unfold writeNormalBounds
  rcases h with h | h <;> simp [h]

theorem writeNormalBounds_run (prefs : Preferences) (c : EntityCollection) (m : MapRenderer)
    (b : VboBlock) (h : m.m_entityDataValid = false) (hne : c.allEntities.isEmpty = false) (hb : m.m_entityBoundsBlock = some b) :
    writeNormalBounds prefs c m = some { m with
      m_entityBoundsRenderInfo := (writeEntityBounds prefs c.allEntities m.m_entityBoundsRenderInfo b).1,
      m_entityBoundsBlock := some (writeEntityBounds prefs c.allEntities m.m_entityBoundsRenderInfo b).2 } := by
  unfold writeNormalBounds
  rw [if_pos (by simp [h, hne]), hb]

theorem writeNormalBounds_some (prefs : Preferences) (c : EntityCollection) (m : MapRenderer)
    (hb : m.m_entityDataValid = false → c.allEntities.isEmpty = false → ∃ b, m.m_entityBoundsBlock = some b) :
    ∃ m1, writeNormalBounds prefs c m = some m1 := by
  by_cases h : m.m_entityDataValid = false
  · by_cases hne : c.allEntities.isEmpty = false
    · obtain ⟨b, hb1⟩ := hb h hne
      exact ⟨_, writeNormalBounds_run prefs c m b h hne hb1⟩
    · exact ⟨m, writeNormalBounds_skip prefs c m (Or.inr (by simpa using hne))⟩
  · exact ⟨m, writeNormalBounds_skip prefs c m (Or.inl (by simpa using h))⟩

theorem allocBoundsBlocks_m_selectedEntityBoundsBlock {σ : Type} (ops : MapOps σ) (c : EntityCollection)
    (m : MapRenderer) (w : σ) (h : m.m_selectedEntityDataValid = false) (hne : c.allSelectedEntities.isEmpty = false) :
    ∃ a, (allocBoundsBlocks ops c m w).1.m_selectedEntityBoundsBlock =
      some ⟨a, entityBoundsBlockSize c.allSelectedEntities.length, []⟩ := by
  unfold allocBoundsBlocks allocate
  simp only []
  split_ifs <;> first | exact ⟨_, rfl⟩ | simp_all

theorem writeSelectedBounds_skip (prefs : Preferences) (c : EntityCollection) (m : MapRenderer)
    (h : m.m_selectedEntityDataValid = true ∨ c.allSelectedEntities.isEmpty = true) : writeSelectedBounds prefs c m = some m := by
  unfold writeSelectedBounds
  rcases h with h | h <;> simp [h]

theorem writeSelectedBounds_run (prefs : Preferences) (c : EntityCollection) (m : MapRenderer)
    (b : VboBlock) (h : m.m_selectedEntityDataValid = false) (hne : c.allSelectedEntities.isEmpty = false) (hb : m.m_selectedEntityBoundsBlock = some b) :
    writeSelectedBounds prefs c m = some { m with
      m_selectedEntityBoundsRenderInfo := (writeEntityBounds prefs c.allSelectedEntities m.m_selectedEntityBoundsRenderInfo b).1,
      m_selectedEntityBoundsBlock := some (writeEntityBounds prefs c.allSelectedEntities m.m_selectedEntityBoundsRenderInfo b).2 } := by
  unfold writeSelectedBounds
  rw [if_pos (by simp [h, hne]), hb]

theorem writeSelectedBounds_some (prefs : Preferences) (c : EntityCollection) (m : MapRenderer)
    (hb : m.m_selectedEntityDataValid = false → c.allSelectedEntities.isEmpty = false → ∃ b, m.m_selectedEntityBoundsBlock = some b) :
    ∃ m1, writeSelectedBounds prefs c m = some m1 := by
  by_cases h : m.m_selectedEntityDataValid = false
  · by_cases hne : c.allSelectedEntities.isEmpty = false
    · obtain ⟨b, hb1⟩ := hb h hne
      exact ⟨_, writeSelectedBounds_run prefs c m b h hne hb1⟩
    · exact ⟨m, writeSelectedBounds_skip prefs c m (Or.inr (by simpa using hne))⟩
  · exact ⟨m, writeSelectedBounds_skip prefs c m (Or.inl (by simpa using h))⟩

theorem allocBoundsBlocks_m_lockedEntityBoundsBlock {σ : Type} (ops : MapOps σ) (c : EntityCollection)
    (m : MapRenderer) (w : σ) (h : m.m_lockedEntityDataValid = false) (hne : c.allLockedEntities.isEmpty = false) :
    ∃ a, (allocBoundsBlocks ops c m w).1.m_lockedEntityBoundsBlock =
      some ⟨a, entityBoundsBlockSize c.allLockedEntities.length, []⟩ := by
  unfold allocBoundsBlocks allocate
  simp only []
  split_ifs <;> first | exact ⟨_, rfl⟩ | simp_all

theorem writeLockedBounds_skip (prefs : Preferences) (c : EntityCollection) (m : MapRenderer)
    (h : m.m_lockedEntityDataValid = true ∨ c.allLockedEntities.isEmpty = true) : writeLockedBounds prefs c m = some m := by
  unfold writeLockedBounds
  rcases h with h | h <;> simp [h]

theorem writeLockedBounds_run (prefs : Preferences) (c : EntityCollection) (m : MapRenderer)
    (b : VboBlock) (h : m.m_lockedEntityDataValid = false) (hne : c.allLockedEntities.isEmpty = false) (hb : m.m_lockedEntityBoundsBlock = some b) :
    writeLockedBounds prefs c m = some { m with
      m_lockedEntityBoundsRenderInfo := (writeEntityBounds prefs c.allLockedEntities m.m_lockedEntityBoundsRenderInfo b).1,
      m_lockedEntityBoundsBlock := some (writeEntityBounds prefs c.allLockedEntities m.m_lockedEntityBoundsRenderInfo b).2 } := by
  unfold writeLockedBounds
  rw [if_pos (by simp [h, hne]), hb]

theorem writeLockedBounds_some (prefs : Preferences) (c : EntityCollection) (m : MapRenderer)
    (hb : m.m_lockedEntityDataValid = false → c.allLockedEntities.isEmpty = false → ∃ b, m.m_lockedEntityBoundsBlock = some b) :
    ∃ m1, writeLockedBounds prefs c m = some m1 := by
  by_cases h : m.m_lockedEntityDataValid = false
  · by_cases hne : c.allLockedEntities.isEmpty = false
    · obtain ⟨b, hb1⟩ := hb h hne
      exact ⟨_, writeLockedBounds_run prefs c m b h hne hb1⟩
    · exact ⟨m, writeLockedBounds_skip prefs c m (Or.inr (by simpa using hne))⟩
  · exact ⟨m, writeLockedBounds_skip prefs c m (Or.inl (by simpa using h))⟩

theorem rebuildEntityData_chain {σ : Type} (ops : MapOps σ) (prefs : Preferences)
    (document : MapDocument) (context : RenderContext) (m : MapRenderer) (w : σ) :
    ∃ a1 a2 m3,
      writeNormalBounds prefs
        (collectBoundsEntities context.filter document.entities ⟨[], [], []⟩)
        (allocBoundsBlocks ops
          (collectBoundsEntities context.filter document.entities ⟨[], [], []⟩)
          (resetEntityData ops m w).1 (ops.vboMap VboKind.entityBounds
            (ops.vboActivate VboKind.entityBounds (resetEntityData ops m w).2))).1 = some a1 ∧
      writeSelectedBounds prefs
        (collectBoundsEntities context.filter document.entities ⟨[], [], []⟩) a1 = some a2 ∧
      writeLockedBounds prefs
        (collectBoundsEntities context.filter document.entities ⟨[], [], []⟩) a2 = some m3 ∧
      rebuildEntityData ops prefs document context m w =
        some ({ m3 with m_entityDataValid := true, m_selectedEntityDataValid := true,
                        m_lockedEntityDataValid := true },
          ops.vboDeactivate VboKind.entityBounds (ops.vboUnmap VboKind.entityBounds
            (allocBoundsBlocks ops
              (collectBoundsEntities context.filter document.entities ⟨[], [], []⟩)
              (resetEntityData ops m w).1 (ops.vboMap VboKind.entityBounds
                (ops.vboActivate VboKind.entityBounds (resetEntityData ops m w).2))).2)) := by
  generalize hcc : collectBoundsEntities context.filter document.entities ⟨[], [], []⟩ = c
  generalize hw2 : (ops.vboMap VboKind.entityBounds
    (ops.vboActivate VboKind.entityBounds (resetEntityData ops m w).2)) = w2
  have e2 := (flags_eq_iff _ _).1 (allocBoundsBlocks_flags ops c (resetEntityData ops m w).1 w2)
  have r2a := allocBoundsBlocks_m_entityBoundsBlock ops c (resetEntityData ops m w).1 w2
  have r2b := allocBoundsBlocks_m_selectedEntityBoundsBlock ops c (resetEntityData ops m w).1 w2
  have r2c := allocBoundsBlocks_m_lockedEntityBoundsBlock ops c (resetEntityData ops m w).1 w2
  generalize hs2 : allocBoundsBlocks ops c (resetEntityData ops m w).1 w2 = s2 at e2 r2a r2b r2c
  obtain ⟨a1, h1⟩ := writeNormalBounds_some prefs c s2.1 (fun hF hne => by
    obtain ⟨a, ha⟩ := r2a (e2.2.2.2.1 ▸ hF) hne
    exact ⟨_, ha⟩)
  have t1 := writeNormalBounds_touches prefs c s2.1 a1 h1
  obtain ⟨a2, h2⟩ := writeSelectedBounds_some prefs c a1 (by
    rw [t1]
    exact fun hF hne => by
      obtain ⟨a, ha⟩ := r2b (e2.2.2.2.2.1 ▸ hF) hne
      exact ⟨_, ha⟩)
  have t2 := writeSelectedBounds_touches prefs c a1 a2 h2
  obtain ⟨m3, h3⟩ := writeLockedBounds_some prefs c a2 (by
    rw [t2, t1]
    exact fun hF hne => by
      obtain ⟨a, ha⟩ := r2c (e2.2.2.2.2.2.1 ▸ hF) hne
      exact ⟨_, ha⟩)
  refine ⟨a1, a2, m3, h1, h2, h3, ?_⟩
  unfold rebuildEntityData
  simp only [hcc, hw2, hs2, writeBoundsBlocks, h1, h2, h3, Option.some_bind]

theorem rebuildEntityData_some {σ : Type} (ops : MapOps σ) (prefs : Preferences)
    (document : MapDocument) (context : RenderContext) (m : MapRenderer) (w : σ) :
    ∃ r, rebuildEntityData ops prefs document context m w = some r := by
  obtain ⟨_, _, _, _, _, _, h⟩ := rebuildEntityData_chain ops prefs document context m w
  exact ⟨_, h⟩

theorem rebuildEntityData_touches {σ : Type} (ops : MapOps σ) (prefs : Preferences)
    (document : MapDocument) (context : RenderContext) (m : MapRenderer) (w : σ)
    (r : MapRenderer × σ) (h : rebuildEntityData ops prefs document context m w = some r) :
    r.1 = { m with
      m_entityBoundsBlock := r.1.m_entityBoundsBlock,
      m_selectedEntityBoundsBlock := r.1.m_selectedEntityBoundsBlock,
      m_lockedEntityBoundsBlock := r.1.m_lockedEntityBoundsBlock,
      m_entityBoundsRenderInfo := r.1.m_entityBoundsRenderInfo,
      m_selectedEntityBoundsRenderInfo := r.1.m_selectedEntityBoundsRenderInfo,
      m_lockedEntityBoundsRenderInfo := r.1.m_lockedEntityBoundsRenderInfo,
      m_entityDataValid := true, m_selectedEntityDataValid := true,
      m_lockedEntityDataValid := true } := by
  unfold rebuildEntityData at h
  simp only [] at h
  have t1 := resetEntityData_touches ops m w
  generalize resetEntityData ops m w = s1 at h t1
  generalize collectBoundsEntities context.filter document.entities ⟨[], [], []⟩ = c at h
  have t2 := allocBoundsBlocks_touches ops c s1.1
    (ops.vboMap VboKind.entityBounds (ops.vboActivate VboKind.entityBounds s1.2))
  generalize allocBoundsBlocks ops c s1.1 (ops.vboMap VboKind.entityBounds
    (ops.vboActivate VboKind.entityBounds s1.2)) = s2 at h t2
  cases h3 : writeBoundsBlocks prefs c s2.1 with
  | none => simp [h3] at h
  | some m3 =>
    simp only [h3, Option.some.injEq] at h
    have t3 := writeBoundsBlocks_touches prefs c s2.1 m3 h3
    rw [← h]
    simp only []
    rw [t3, t2, t1]

theorem reloadEach_some {σ : Type} (ops : MapOps σ) (mods : List String)
    (entities : List Entity) (m : MapRenderer) (w : σ)
    (h : ∀ e ∈ entities, e.classname.isSome = true) :
    ∃ r, reloadEach ops mods entities m w = some r := by
  induction entities generalizing m w with
  | nil => exact ⟨_, rfl⟩
  | cons e rest ih =>
    have hr := fun m1 w1 => ih m1 w1 (fun x hx => h x (List.mem_cons_of_mem _ hx))
    obtain ⟨cn, hcn⟩ := Option.isSome_iff_exists.1 (h e (List.mem_cons_self _ _))
    simp only [reloadEach]
    rcases he : ops.entityRenderer e mods w with ⟨er, w1⟩
    cases er with
    | none => exact hr _ _
    | some er =>
      simp only [hcn]
      split_ifs
      · exact hr _ _
      · exact hr _ _
      · exact hr _ _

theorem reloadEntityModels_some {σ : Type} (ops : MapOps σ) (document : MapDocument)
    (m : MapRenderer) (w : σ) (h : ∀ e ∈ document.entities, e.classname.isSome = true) :
    ∃ r, reloadEntityModels ops document m w = some r := by
  obtain ⟨r, hr⟩ := reloadEach_some ops document.mods document.entities
    { m with m_entityRenderers := [], m_selectedEntityRenderers := [] } w h
  exact ⟨({ r.1 with m_entityRendererCacheValid := true }, r.2), by
    simp only [reloadEntityModels, hr]⟩

theorem validateEntityRenderers_some {σ : Type} (ops : MapOps σ) (document : MapDocument)
    (s : MapRenderer × σ)
    (h : s.1.m_entityRendererCacheValid = true ∨
      ∀ e ∈ document.entities, e.classname.isSome = true) :
    ∃ r, validateEntityRenderers ops document s = some r := by
  unfold validateEntityRenderers
  by_cases hv : s.1.m_entityRendererCacheValid = true
  · exact ⟨s, by simp [hv]⟩
  · rcases h with h | h
    · exact absurd h hv
    · have hv1 : s.1.m_entityRendererCacheValid = false := by simpa using hv
      obtain ⟨r, hr⟩ := reloadEntityModels_some ops document s.1 s.2 h
      exact ⟨r, by simp only [hv1, Bool.not_false, if_true, hr]⟩

theorem validate_some {σ : Type} (ops : MapOps σ) (prefs : Preferences)
    (document : MapDocument) (context : RenderContext) (m : MapRenderer) (w : σ)
    (hok : (visibleFaces context.filter document.entities).all faceOk = true)
    (hcls : m.m_entityRendererCacheValid = true ∨
      ∀ e ∈ document.entities, e.classname.isSome = true) :
    ∃ r, validate ops prefs document context m w = some r := by
  obtain ⟨s1, h1⟩ := validateEntityRenderers_some ops document (m, w) hcls
  have h2 : ∃ s2, validateGeometry ops prefs document context s1 = some s2 := by
    unfold validateGeometry
    split_ifs
    · have hc := collectEntities_of_ok context.filter s1.1.m_dummyTexture document.entities hok
      obtain ⟨_, _, _, _, _, _, _, _, _, _, _, _, hr⟩ :=
        rebuildGeometryData_chain ops prefs document context s1.1 s1.2 _ hc
          (fun k f hf => by
            have := collected_faces_ok _ _ _ hok k f hf
            omega)
      exact ⟨_, hr⟩
    · exact ⟨s1, rfl⟩
  obtain ⟨s2, h2⟩ := h2
  have h3 : ∃ r, validateEntityData ops prefs document context s2 = some r := by
    unfold validateEntityData
    split_ifs
    · exact rebuildEntityData_some ops prefs document context s2.1 s2.2
    · exact ⟨s2, rfl⟩
  obtain ⟨r, h3⟩ := h3
  exact ⟨r, by simp only [validate, h1, h2, h3, Option.some_bind]⟩


theorem fanTriangles_getElem (vs : List FaceVertex) (k : Nat) (hk1 : 1 ≤ k)
    (hk : k + 1 < vs.length) :
    (fanTriangles vs)[k - 1]? = some (vs[0], vs[k], vs[k + 1]) := by
  cases vs with
  | nil => simp at hk
  | cons v0 rest =>
    obtain ⟨j, rfl⟩ : ∃ j, k = j + 1 := ⟨k - 1, by omega⟩
    simp only [List.length_cons] at hk
    have h1 : rest[j]? = some rest[j] := List.getElem?_eq_getElem (by omega)
    have h2 : rest.tail[j]? = some rest[j + 1] := by
      rw [List.getElem?_tail]
      exact List.getElem?_eq_getElem (by omega)
    simp [fanTriangles, List.getElem?_map, List.getElem?_zip_eq_some, h1, h2]

theorem faceItems_eq (face : Face) :
    faceItems face = (fanVertexList face.vertices).flatMap vertexTuple := by
  unfold faceItems fanVertexList
  generalize fanTriangles face.vertices = l
  induction l with
  | nil => rfl
  | cons a l ih =>
    simp only [List.flatMap_cons, List.flatMap_append, ih, triangleItems, List.flatMap_nil,
      List.append_nil, List.append_assoc]

theorem fanVertexList_length (vs : List FaceVertex) :
    (fanVertexList vs).length = 3 * (vs.length - 2) := by
  unfold fanVertexList
  rw [← fanTriangles_length]
  generalize fanTriangles vs = l
  induction l with
  | nil => rfl
  | cons a l ih =>
    simp only [List.flatMap_cons, List.length_append, ih, List.length_cons, List.length_nil]
    omega

theorem brushesOf_selected_eq (l : List (Entity × Brush)) :
    brushesOf Bucket.selected l =
      (l.filter (fun p => p.1.selected || p.2.selected)).map (fun p => p.2) := by
  unfold brushesOf
  congr 1
  apply List.filter_congr
  intro p _
  cases h1 : p.1.selected <;> cases h2 : p.2.selected <;> cases h3 : p.1.locked <;>
    cases h4 : p.2.locked <;> simp [brushBucket, h1, h2, h3, h4]

theorem partialFacesOf_eq (l : List (Entity × Brush)) :
    partialFacesOf l =
      (l.filter (fun p => !(p.1.selected || p.2.selected) && !(p.1.locked || p.2.locked) &&
        p.2.partiallySelected)).flatMap (fun p => p.2.faces.filter (fun f => f.selected)) := by
  unfold partialFacesOf
  congr 1
  apply List.filter_congr
  intro p _
  cases h1 : p.1.selected <;> cases h2 : p.2.selected <;> cases h3 : p.1.locked <;>
    cases h4 : p.2.locked <;> simp [brushBucket, h1, h2, h3, h4]

theorem brushEdgeVertices_map (l : List (Entity × Brush)) :
    brushEdgeVertices (l.map (fun p => p.2)) = 2 * (l.map (fun p => p.2.edges.length)).sum := by
  unfold brushEdgeVertices
  induction l with
  | nil => rfl
  | cons p rest ih =>
    simp only [List.map_cons, List.sum_cons, List.map_map] at ih ⊢
    rw [ih]
    ring

theorem faceEdgeVertices_eq (l : List Face) :
    faceEdgeVertices l = 2 * (l.map (fun f => f.edges.length)).sum := by
  unfold faceEdgeVertices
  induction l with
  | nil => rfl
  | cons p rest ih =>
    simp only [List.map_cons, List.sum_cons] at ih ⊢
    rw [ih]
    ring

theorem validate_selectedEdges {σ : Type} (ops : MapOps σ) (prefs : Preferences)
    (document : MapDocument) (context : RenderContext) (m : MapRenderer) (w : σ)
    (r : MapRenderer × σ) (h : validate ops prefs document context m w = some r)
    (hinv : m.m_selectedGeometryDataValid = false) :
    r.1.m_selectedEdgeRenderInfo.vertexCount =
      u32 (brushEdgeVertices (brushesOf Bucket.selected
          (visibleBrushes context.filter document.entities)) +
        faceEdgeVertices (partialFacesOf (visibleBrushes context.filter document.entities))) := by
  obtain ⟨s1, s2, h1, h2, h3⟩ := validate_steps ops prefs document context m w r h
  have f1 := validateEntityRenderers_flags ops document _ s1 h1
  simp only [MapRenderer.flags, List.cons.injEq, and_true] at f1
  have g1 : s1.1.m_selectedGeometryDataValid = false := f1.2.1.trans hinv
  unfold validateGeometry at h2
  rw [if_pos (by simp [g1])] at h2
  cases hc : collectEntities context.filter s1.1.m_dummyTexture document.entities
      GeometryCollection.empty with
  | none =>
    unfold rebuildGeometryData at h2
    simp [hc] at h2
  | some c =>
    obtain ⟨hok, hcc⟩ := collectEntities_some _ _ _ _ hc
    obtain ⟨r1, hr1, hcount⟩ := rebuildGeometryData_selectedEdges ops prefs document context
      s1.1 s1.2 c hc (fun k f hf => by
        rw [hcc] at hf
        have := collected_faces_ok _ _ _ hok k f hf
        omega) g1
    rw [h2] at hr1
    cases Option.some.inj hr1
    have e3 : r.1.m_selectedEdgeRenderInfo = s2.1.m_selectedEdgeRenderInfo := by
      unfold validateEntityData at h3
      split_ifs at h3
      · rw [rebuildEntityData_touches ops prefs document context s2.1 s2.2 r h3]
      · rw [← Option.some.inj h3]
    rw [e3, hcount, hcc]
    simp [collected, GeometryCollection.empty]

end TrenchBroom.Renderer

namespace TrenchBroom.Renderer

open MapRenderer

/-- C12: the collecting loop of `rebuildGeometryData` puts every brush that passes the
visibility filter into exactly one of the three brush lists that are handed to
`writeEdgeData`. The selected list holds, in map order, the visible brushes that are
selected themselves or through their entity; the locked list those of the others that are
locked themselves or through their entity; the unselected list the remaining ones (world
brushes first); and the three lists together have as many members as there are visible
brushes. -/
theorem brushes_routed_by_state (filter : Filter) (dummyTexture : Texture)
    (entities : List Entity) (hok : (visibleFaces filter entities).all faceOk = true) :
    ∃ c, collectEntities filter dummyTexture entities GeometryCollection.empty = some c ∧
      c.selectedBrushes = brushesOf Bucket.selected (visibleBrushes filter entities) ∧
      c.lockedBrushes = brushesOf Bucket.locked (visibleBrushes filter entities) ∧
      c.unselectedBrushes = unselectedOf (visibleBrushes filter entities) ∧
      c.unselectedBrushes.Perm (brushesOf Bucket.normal (visibleBrushes filter entities)) ∧
      c.selectedBrushes.length + c.lockedBrushes.length + c.unselectedBrushes.length =
        (visibleBrushes filter entities).length ∧
      ∀ p : Entity × Brush, brushBucket p =
        if p.1.selected || p.2.selected then Bucket.selected
        else if p.1.locked || p.2.locked then Bucket.locked
        else Bucket.normal := by
  refine ⟨_, collectEntities_of_ok filter dummyTexture entities hok, ?_, ?_, ?_, ?_, ?_, ?_⟩
  · simp [collected, GeometryCollection.empty]
  · simp [collected, GeometryCollection.empty]
  · simp [collected, GeometryCollection.empty, GeometryCollection.unselectedBrushes,
      unselectedOf]
  · have h : (collected dummyTexture (visibleBrushes filter entities)
        (visibleFaces filter entities) GeometryCollection.empty).unselectedBrushes =
        unselectedOf (visibleBrushes filter entities) := by
      simp [collected, GeometryCollection.empty, GeometryCollection.unselectedBrushes,
        unselectedOf]
    rw [h]
    exact brushesOf_normal_perm _
  · have h : (collected dummyTexture (visibleBrushes filter entities)
        (visibleFaces filter entities) GeometryCollection.empty).unselectedBrushes =
        unselectedOf (visibleBrushes filter entities) := by
      simp [collected, GeometryCollection.empty, GeometryCollection.unselectedBrushes,
        unselectedOf]
    rw [h, (brushesOf_normal_perm _).length_eq]
    have hl := bucket_lengths _ brushBucket (visibleBrushes filter entities)
    simpa [collected, GeometryCollection.empty, brushesOf] using hl
  · intro p
    rfl

theorem brushes_routed_by_state_witness :
    ∃ c, collectEntities sampleContext.filter 0 sampleDocument.entities
        GeometryCollection.empty = some c ∧
      c.selectedBrushes =
        brushesOf Bucket.selected (visibleBrushes sampleContext.filter sampleDocument.entities) ∧
      c.lockedBrushes =
        brushesOf Bucket.locked (visibleBrushes sampleContext.filter sampleDocument.entities) ∧
      c.unselectedBrushes =
        unselectedOf (visibleBrushes sampleContext.filter sampleDocument.entities) ∧
      c.unselectedBrushes.Perm
        (brushesOf Bucket.normal (visibleBrushes sampleContext.filter sampleDocument.entities)) ∧
      c.selectedBrushes.length + c.lockedBrushes.length + c.unselectedBrushes.length =
        (visibleBrushes sampleContext.filter sampleDocument.entities).length ∧
      ∀ p : Entity × Brush, brushBucket p =
        if p.1.selected || p.2.selected then Bucket.selected
        else if p.1.locked || p.2.locked then Bucket.locked
        else Bucket.normal :=
  brushes_routed_by_state sampleContext.filter 0 sampleDocument.entities (by decide)

/-- C13, the claim as stated fails: in a map whose only brush is locked and partially
selected, with one selected face, the loop of `rebuildGeometryData` succeeds, yet the
selected face is not in the list of faces written to the selected-edge partition and the
brush is not in the unselected list. -/
theorem partially_selected_locked_brush_skipped :
    ∃ c, collectEntities sampleContext.filter 0 lockedPartialDocument.entities
        GeometryCollection.empty = some c ∧
      ∃ p ∈ visibleBrushes sampleContext.filter lockedPartialDocument.entities,
        p.2.partiallySelected = true ∧
        ∃ f ∈ p.2.faces, f.selected = true ∧
          f ∉ c.partiallySelectedBrushFaces ∧ p.2 ∉ c.unselectedBrushes := by
  refine ⟨collected 0 (visibleBrushes sampleContext.filter lockedPartialDocument.entities)
    (visibleFaces sampleContext.filter lockedPartialDocument.entities)
    GeometryCollection.empty, collectEntities_of_ok _ _ _ (by decide), ?_⟩
  decide

/-- C13 (amended): for every visible partially selected brush that is routed to the
unselected list, that is, with neither the brush nor its entity selected or locked, the
brush is in the unselected list and each of its selected faces is in the list of faces
whose edges are written to the selected-edge partition; that list holds exactly the
selected faces of these brushes, so a partially selected brush that is selected or locked
contributes none. -/
theorem partially_selected_faces_of_normal_brushes (filter : Filter) (dummyTexture : Texture)
    (entities : List Entity) (hok : (visibleFaces filter entities).all faceOk = true) :
    ∃ c, collectEntities filter dummyTexture entities GeometryCollection.empty = some c ∧
      c.partiallySelectedBrushFaces =
        ((visibleBrushes filter entities).filter (fun p =>
          !(p.1.selected || p.2.selected) && !(p.1.locked || p.2.locked) &&
            p.2.partiallySelected)).flatMap (fun p => p.2.faces.filter (fun f => f.selected)) ∧
      ∀ p ∈ visibleBrushes filter entities, p.2.partiallySelected = true →
        (p.1.selected || p.2.selected) = false → (p.1.locked || p.2.locked) = false →
        p.2 ∈ c.unselectedBrushes ∧
          ∀ f ∈ p.2.faces, f.selected = true → f ∈ c.partiallySelectedBrushFaces := by
  have hnormal : ∀ p : Entity × Brush, (brushBucket p = Bucket.normal) ↔
      ((p.1.selected || p.2.selected) = false ∧ (p.1.locked || p.2.locked) = false) := by
    intro p
    cases h1 : p.1.selected <;> cases h2 : p.2.selected <;> cases h3 : p.1.locked <;>
      cases h4 : p.2.locked <;> simp [brushBucket, h1, h2, h3, h4]
  have hfilter : ∀ l : List (Entity × Brush),
      l.filter (fun p => decide (brushBucket p = Bucket.normal) && p.2.partiallySelected) =
      l.filter (fun p => !(p.1.selected || p.2.selected) && !(p.1.locked || p.2.locked) &&
        p.2.partiallySelected) := by
    intro l
    apply List.filter_congr
    intro p _
    cases h1 : p.1.selected <;> cases h2 : p.2.selected <;> cases h3 : p.1.locked <;>
      cases h4 : p.2.locked <;> simp [brushBucket, h1, h2, h3, h4]
  have hfaces : (collected dummyTexture (visibleBrushes filter entities)
      (visibleFaces filter entities) GeometryCollection.empty).partiallySelectedBrushFaces =
      partialFacesOf (visibleBrushes filter entities) := by
    simp [collected, GeometryCollection.empty]
  have hbrushes : (collected dummyTexture (visibleBrushes filter entities)
      (visibleFaces filter entities) GeometryCollection.empty).unselectedBrushes =
      unselectedOf (visibleBrushes filter entities) := by
    simp [collected, GeometryCollection.empty, GeometryCollection.unselectedBrushes,
      unselectedOf]
  refine ⟨_, collectEntities_of_ok filter dummyTexture entities hok, ?_, ?_⟩
  · rw [hfaces]
    unfold partialFacesOf
    rw [hfilter]
  · intro p hp hpart hs hl
    have hb : brushBucket p = Bucket.normal := (hnormal p).2 ⟨hs, hl⟩
    constructor
    · rw [hbrushes]
      apply (brushesOf_normal_perm _).mem_iff.2
      unfold brushesOf
      exact List.mem_map.2 ⟨p, List.mem_filter.2 ⟨hp, by simp [hb]⟩, rfl⟩
    · intro f hf hsel
      rw [hfaces]
      unfold partialFacesOf
      refine List.mem_flatMap.2 ⟨p, List.mem_filter.2 ⟨hp, by simp [hb, hpart]⟩, ?_⟩
      exact List.mem_filter.2 ⟨hf, hsel⟩

theorem partially_selected_faces_of_normal_brushes_witness :
    ∃ c, collectEntities sampleContext.filter 0 sampleDocument.entities
        GeometryCollection.empty = some c ∧
      c.partiallySelectedBrushFaces =
        ((visibleBrushes sampleContext.filter sampleDocument.entities).filter (fun p =>
          !(p.1.selected || p.2.selected) && !(p.1.locked || p.2.locked) &&
            p.2.partiallySelected)).flatMap (fun p => p.2.faces.filter (fun f => f.selected)) ∧
      ∀ p ∈ visibleBrushes sampleContext.filter sampleDocument.entities,
        p.2.partiallySelected = true →
        (p.1.selected || p.2.selected) = false → (p.1.locked || p.2.locked) = false →
        p.2 ∈ c.unselectedBrushes ∧
          ∀ f ∈ p.2.faces, f.selected = true → f ∈ c.partiallySelectedBrushFaces :=
  partially_selected_faces_of_normal_brushes sampleContext.filter 0 sampleDocument.entities
    (by decide)

/-- C17: when every face of a visible brush has at least three vertices and the sizes stay
below 2^32, `rebuildGeometryData` returns, and for each face partition that is rebuilt (its
flag is false and its bucket holds a face) the block it leaves has the size
`(sum over the bucket's faces of 3 * N - 6) * FaceVertexSize`, with `FaceVertexSize = 28`,
and `writeFaceData` has written exactly that many bytes into it; the face buffer is asked
for exactly one block of that size per rebuilt partition, in the order normal, selected,
locked. -/
theorem face_blocks_sized_and_filled {σ : Type} (ops : MapOps σ) (prefs : Preferences)
    (document : MapDocument) (context : RenderContext) (m : MapRenderer) (w : σ)
    (log : List MapCall)
    (hok : (visibleFaces context.filter document.entities).all faceOk = true)
    (hno : ∀ k, fanTotal (facesIn k (visibleFaces context.filter document.entities)) *
      FaceVertexSize < 4294967296) :
    FaceVertexSize = 28 ∧
    ∃ r, rebuildGeometryData ops.traced prefs document context m (w, log) = some r ∧
      (∀ k, m.geometryDataValid k = false →
        facesIn k (visibleFaces context.filter document.entities) ≠ [] →
        ∃ b, r.1.faceBlock k = some b ∧
          b.capacity = fanTotal (facesIn k (visibleFaces context.filter document.entities)) *
            FaceVertexSize ∧
          b.bytesWritten =
            fanTotal (facesIn k (visibleFaces context.filter document.entities)) *
              FaceVertexSize) ∧
      faceAllocs r.2.2 = faceAllocs log ++
        [Bucket.normal, Bucket.selected, Bucket.locked].flatMap (fun k =>
          if !m.geometryDataValid k &&
              !(facesIn k (visibleFaces context.filter document.entities)).isEmpty then
            [fanTotal (facesIn k (visibleFaces context.filter document.entities)) *
              FaceVertexSize]
          else []) := by
  refine ⟨rfl, ?_⟩
  have hc := collectEntities_of_ok context.filter m.m_dummyTexture document.entities hok
  have hok2 : ∀ k f, f ∈ allFaces ((collected m.m_dummyTexture
      (visibleBrushes context.filter document.entities)
      (visibleFaces context.filter document.entities) GeometryCollection.empty).faces k) →
      2 ≤ f.vertices.length := by
    intro k f hf
    have := collected_faces_ok _ _ _ hok k f hf
    omega
  have hsize := fun k => collected_total
    (visibleFaces context.filter document.entities) hok k (hno k)
  have hbytes := collected_bytes m.m_dummyTexture
    (visibleBrushes context.filter document.entities)
    (visibleFaces context.filter document.entities) hok
  have hempty := collected_isEmpty m.m_dummyTexture
    (visibleBrushes context.filter document.entities)
    (visibleFaces context.filter document.entities)
  obtain ⟨r, hr, hlog⟩ := rebuildGeometryData_faceAllocs ops prefs document context m (w, log)
    _ hc hok2
  refine ⟨r, hr, ?_, ?_⟩
  · intro k hinv hne
    have hne2 : ((collected m.m_dummyTexture (visibleBrushes context.filter document.entities)
        (visibleFaces context.filter document.entities) GeometryCollection.empty).faces
        k).isEmpty = false := by
      rw [hempty]
      cases hl : facesIn k (visibleFaces context.filter document.entities) with
      | nil => exact absurd hl hne
      | cons x xs => rfl
    cases k with
    | normal =>
      obtain ⟨r1, b, h1, h2, h3, h4, _⟩ := rebuildGeometryData_m_faceBlock ops.traced prefs
        document context m (w, log) _ hc hok2 hinv hne2
      rw [hr] at h1
      cases Option.some.inj h1
      refine ⟨b, h2, ?_, ?_⟩
      · rw [h3]
        exact hsize Bucket.normal
      · unfold VboBlock.bytesWritten
        rw [h4]
        exact hbytes Bucket.normal
    | selected =>
      obtain ⟨r1, b, h1, h2, h3, h4, _⟩ := rebuildGeometryData_m_selectedFaceBlock ops.traced
        prefs document context m (w, log) _ hc hok2 hinv hne2
      rw [hr] at h1
      cases Option.some.inj h1
      refine ⟨b, h2, ?_, ?_⟩
      · rw [h3]
        exact hsize Bucket.selected
      · unfold VboBlock.bytesWritten
        rw [h4]
        exact hbytes Bucket.selected
    | locked =>
      obtain ⟨r1, b, h1, h2, h3, h4, _⟩ := rebuildGeometryData_m_lockedFaceBlock ops.traced
        prefs document context m (w, log) _ hc hok2 hinv hne2
      rw [hr] at h1
      cases Option.some.inj h1
      refine ⟨b, h2, ?_, ?_⟩
      · rw [h3]
        exact hsize Bucket.locked
      · unfold VboBlock.bytesWritten
        rw [h4]
        exact hbytes Bucket.locked
  · rw [hlog]
    have e1 := hempty Bucket.normal
    have e2 := hempty Bucket.selected
    have e3 := hempty Bucket.locked
    have s1 := hsize Bucket.normal
    have s2 := hsize Bucket.selected
    have s3 := hsize Bucket.locked
    simp only [GeometryCollection.faces] at e1 e2 e3
    simp only [List.flatMap_cons, List.flatMap_nil, List.append_nil, MapRenderer.geometryDataValid]
    rw [e1, e2, e3]
    congr 1
    show (if _ then [u32 (u32 (0 + fanVertices _) * FaceVertexSize)] else []) ++
      ((if _ then [u32 (u32 (0 + fanVertices _) * FaceVertexSize)] else []) ++
        (if _ then [u32 (u32 (0 + fanVertices _) * FaceVertexSize)] else [])) = _
    rw [s1, s2, s3]

theorem face_blocks_sized_and_filled_witness :
    FaceVertexSize = 28 ∧
    ∃ r, rebuildGeometryData sampleMapOps.traced samplePreferences sampleDocument sampleContext
        (MapRenderer.new 0) (0, []) = some r ∧
      (∀ k, (MapRenderer.new 0).geometryDataValid k = false →
        facesIn k (visibleFaces sampleContext.filter sampleDocument.entities) ≠ [] →
        ∃ b, r.1.faceBlock k = some b ∧
          b.capacity =
            fanTotal (facesIn k (visibleFaces sampleContext.filter sampleDocument.entities)) *
              FaceVertexSize ∧
          b.bytesWritten =
            fanTotal (facesIn k (visibleFaces sampleContext.filter sampleDocument.entities)) *
              FaceVertexSize) ∧
      faceAllocs r.2.2 = faceAllocs [] ++
        [Bucket.normal, Bucket.selected, Bucket.locked].flatMap (fun k =>
          if !(MapRenderer.new 0).geometryDataValid k &&
              !(facesIn k (visibleFaces sampleContext.filter sampleDocument.entities)).isEmpty then
            [fanTotal (facesIn k (visibleFaces sampleContext.filter sampleDocument.entities)) *
              FaceVertexSize]
          else []) :=
  face_blocks_sized_and_filled sampleMapOps samplePreferences sampleDocument sampleContext
    (MapRenderer.new 0) 0 [] (by decide) (fun k => by cases k <;> decide)

/-- C14, the claim as stated fails: on a new renderer (selected geometry invalid) and a
map whose only brush is locked and partially selected with one selected face of three
edges, `validate` returns with a selected-edge vertex count of 0, while the stated count
is 6. -/
theorem selected_edge_count_differs :
    (MapRenderer.new 0).m_selectedGeometryDataValid = false ∧
    statedSelectedEdgeVertexCount sampleContext.filter lockedPartialDocument.entities = 6 ∧
    ∃ r, validate sampleMapOps samplePreferences lockedPartialDocument sampleContext
        (MapRenderer.new 0) 0 = some r ∧
      r.1.m_selectedEdgeRenderInfo.vertexCount = 0 := by
  refine ⟨rfl, by decide, ?_⟩
  obtain ⟨r, hr⟩ := validate_some sampleMapOps samplePreferences lockedPartialDocument
    sampleContext (MapRenderer.new 0) 0 (by decide) (Or.inl rfl)
  refine ⟨r, hr, ?_⟩
  rw [validate_selectedEdges _ _ _ _ _ _ r hr rfl]
  decide

/-- C14 (amended): when the faces of the visible brushes have at least three vertices (and
the entity renderers need no reload, or every entity has a classname), `validate` run with
the selected-geometry aspect invalid returns, and the vertex count of the selected-edge
partition is then, in `unsigned int` arithmetic, twice the number of edges of the visible
brushes that are selected themselves or through their entity, plus twice the number of
edges of the selected faces of those visible partially selected brushes that are neither
selected nor locked, themselves or through their entity. -/
theorem selected_edge_vertex_count {σ : Type} (ops : MapOps σ) (prefs : Preferences)
    (document : MapDocument) (context : RenderContext) (m : MapRenderer) (w : σ)
    (hok : (visibleFaces context.filter document.entities).all faceOk = true)
    (hcls : m.m_entityRendererCacheValid = true ∨
      ∀ e ∈ document.entities, e.classname.isSome = true)
    (hinv : m.m_selectedGeometryDataValid = false) :
    ∃ r, validate ops prefs document context m w = some r ∧
      r.1.m_selectedEdgeRenderInfo.vertexCount =
        u32 (2 * (((visibleBrushes context.filter document.entities).filter
              (fun p => p.1.selected || p.2.selected)).map (fun p => p.2.edges.length)).sum +
          2 * ((((visibleBrushes context.filter document.entities).filter
              (fun p => !(p.1.selected || p.2.selected) && !(p.1.locked || p.2.locked) &&
                p.2.partiallySelected)).flatMap
              (fun p => p.2.faces.filter (fun f => f.selected))).map
                (fun f => f.edges.length)).sum) := by
  obtain ⟨r, hr⟩ := validate_some ops prefs document context m w hok hcls
  refine ⟨r, hr, ?_⟩
  rw [validate_selectedEdges ops prefs document context m w r hr hinv, brushesOf_selected_eq,
    brushEdgeVertices_map, partialFacesOf_eq, faceEdgeVertices_eq]

theorem selected_edge_vertex_count_witness :
    ∃ r, validate sampleMapOps samplePreferences sampleDocument sampleContext
        (MapRenderer.new 0) 0 = some r ∧
      r.1.m_selectedEdgeRenderInfo.vertexCount =
        u32 (2 * (((visibleBrushes sampleContext.filter sampleDocument.entities).filter
              (fun p => p.1.selected || p.2.selected)).map (fun p => p.2.edges.length)).sum +
          2 * ((((visibleBrushes sampleContext.filter sampleDocument.entities).filter
              (fun p => !(p.1.selected || p.2.selected) && !(p.1.locked || p.2.locked) &&
                p.2.partiallySelected)).flatMap
              (fun p => p.2.faces.filter (fun f => f.selected))).map
                (fun f => f.edges.length)).sum) :=
  selected_edge_vertex_count sampleMapOps samplePreferences sampleDocument sampleContext
    (MapRenderer.new 0) 0 (by decide) (Or.inl rfl) rfl

/-- C15, the claim as stated fails in its last part: in a map whose only brush is locked
and partially selected, the face of that brush that is not selected is in the locked face
bucket and not in the normal one. -/
theorem unselected_face_of_locked_brush_is_locked :
    ∃ c, collectEntities sampleContext.filter 0 lockedPartialDocument.entities
        GeometryCollection.empty = some c ∧
      ∃ p ∈ visibleFaces sampleContext.filter lockedPartialDocument.entities,
        p.2.1.partiallySelected = true ∧ p.2.2.selected = false ∧
          p.2.2 ∉ allFaces c.unselectedFaces ∧ p.2.2 ∈ allFaces c.lockedFaces := by
  refine ⟨collected 0 (visibleBrushes sampleContext.filter lockedPartialDocument.entities)
    (visibleFaces sampleContext.filter lockedPartialDocument.entities)
    GeometryCollection.empty, collectEntities_of_ok _ _ _ (by decide), ?_⟩
  decide

/-- C15 (amended): the collecting loop of `rebuildGeometryData` puts every face of a
visible brush into exactly one of the three face buckets, under its texture: the selected
bucket holds the faces that are selected themselves or through their brush or entity, the
locked bucket those of the others whose brush or entity is locked, the normal bucket the
remaining ones, and the three buckets together hold as many faces as the visible brushes
have. In particular the faces that are not selected of a partially selected brush are in
the normal bucket when neither the brush nor its entity is selected or locked. -/
theorem faces_routed_by_state (filter : Filter) (dummyTexture : Texture)
    (entities : List Entity) (hok : (visibleFaces filter entities).all faceOk = true) :
    ∃ c, collectEntities filter dummyTexture entities GeometryCollection.empty = some c ∧
      (∀ k, c.faces k = insertFaces dummyTexture (facesIn k (visibleFaces filter entities)) []) ∧
      (∀ k, (allFaces (c.faces k)).Perm (facesIn k (visibleFaces filter entities))) ∧
      (allFaces c.selectedFaces).length + (allFaces c.lockedFaces).length +
        (allFaces c.unselectedFaces).length = (visibleFaces filter entities).length ∧
      (∀ p : Entity × Brush × Face, faceBucket p =
        if p.1.selected || p.2.1.selected || p.2.2.selected then Bucket.selected
        else if p.1.locked || p.2.1.locked then Bucket.locked
        else Bucket.normal) ∧
      ∀ p ∈ visibleFaces filter entities, p.2.1.partiallySelected = true →
        (p.1.selected || p.2.1.selected) = false → (p.1.locked || p.2.1.locked) = false →
        p.2.2.selected = false → p.2.2 ∈ allFaces c.unselectedFaces := by
  have hperm : ∀ k, (allFaces ((collected dummyTexture (visibleBrushes filter entities)
      (visibleFaces filter entities) GeometryCollection.empty).faces k)).Perm
      (facesIn k (visibleFaces filter entities)) := by
    intro k
    rw [collected_faces]
    exact allFaces_insertFaces_nil _ _
  refine ⟨_, collectEntities_of_ok filter dummyTexture entities hok,
    collected_faces _ _ _, hperm, ?_, fun p => rfl, ?_⟩
  · have h1 := (hperm Bucket.selected).length_eq
    have h2 := (hperm Bucket.locked).length_eq
    have h3 := (hperm Bucket.normal).length_eq
    simp only [GeometryCollection.faces] at h1 h2 h3
    rw [h1, h2, h3]
    simpa [facesIn] using bucket_lengths _ faceBucket (visibleFaces filter entities)
  · intro p hp _ hs hl hf
    have hb : faceBucket p = Bucket.normal := by
      simp only [Bool.or_eq_false_iff] at hs hl
      simp [faceBucket, hs.1, hs.2, hl.1, hl.2, hf]
    apply (hperm Bucket.normal).mem_iff.2
    unfold facesIn
    exact List.mem_map.2 ⟨p, List.mem_filter.2 ⟨hp, by simp [hb]⟩, rfl⟩

theorem faces_routed_by_state_witness :
    ∃ c, collectEntities sampleContext.filter 0 sampleDocument.entities
        GeometryCollection.empty = some c ∧
      (∀ k, c.faces k = insertFaces 0
        (facesIn k (visibleFaces sampleContext.filter sampleDocument.entities)) []) ∧
      (∀ k, (allFaces (c.faces k)).Perm
        (facesIn k (visibleFaces sampleContext.filter sampleDocument.entities))) ∧
      (allFaces c.selectedFaces).length + (allFaces c.lockedFaces).length +
        (allFaces c.unselectedFaces).length =
          (visibleFaces sampleContext.filter sampleDocument.entities).length ∧
      (∀ p : Entity × Brush × Face, faceBucket p =
        if p.1.selected || p.2.1.selected || p.2.2.selected then Bucket.selected
        else if p.1.locked || p.2.1.locked then Bucket.locked
        else Bucket.normal) ∧
      ∀ p ∈ visibleFaces sampleContext.filter sampleDocument.entities,
        p.2.1.partiallySelected = true →
        (p.1.selected || p.2.1.selected) = false → (p.1.locked || p.2.1.locked) = false →
        p.2.2.selected = false → p.2.2 ∈ allFaces c.unselectedFaces :=
  faces_routed_by_state sampleContext.filter 0 sampleDocument.entities (by decide)

/-- C16: when every face has at least three vertices, `writeFaceData` returns and appends
to the block, face by face, the vertex tuples of the fan of the face and nothing else. For
a face with `N` vertices the fan has `N - 2` triangles, the `k`-th of them (`k` from 1 to
`N - 2`) being vertex 0, vertex `k`, vertex `k + 1` in that order, which makes `3 * N - 6`
vertex tuples; and the face adds `3 * N - 6` (in `unsigned int` arithmetic) to the vertex
count of its texture group, whose render info ends up with the sum over its faces. -/
theorem face_fan_triangulation (facesByTexture : FacesByTexture)
    (renderInfos : List TexturedTriangleRenderInfo) (block : VboBlock)
    (hN : ∀ f ∈ allFaces facesByTexture, 3 ≤ f.vertices.length) :
    (∃ r, writeFaceData facesByTexture renderInfos block = some r ∧
      r.2.items = block.items ++
        (allFaces facesByTexture).flatMap (fun f => (fanVertexList f.vertices).flatMap
          vertexTuple) ∧
      (facesByTexture.isEmpty = false →
        r.1.map (fun i => i.vertexCount) = renderInfos.map (fun i => i.vertexCount) ++
          facesByTexture.map (fun g => u32 (fanTotal g.2)))) ∧
    ∀ f ∈ allFaces facesByTexture,
      (fanTriangles f.vertices).length = f.vertices.length - 2 ∧
      (fanVertexList f.vertices).length = 3 * f.vertices.length - 6 ∧
      (∀ k (_ : 1 ≤ k) (hk : k + 1 < f.vertices.length),
        (fanTriangles f.vertices)[k - 1]? =
          some (f.vertices[0], f.vertices[k], f.vertices[k + 1])) ∧
      ∀ s : (VboBlock × Nat) × Nat, s.1.2 < 4294967296 →
        ∃ s1, writeFace f s = some (s1, u32 (s.2 + (3 * f.vertices.length - 6))) ∧
          s1.1.items = s.1.1.items ++ (fanVertexList f.vertices).flatMap vertexTuple := by
  have h2 : ∀ f ∈ allFaces facesByTexture, 2 ≤ f.vertices.length := fun f hf => by
    have := hN f hf
    omega
  constructor
  · obtain ⟨r, hr, _, _, hitems, _, hcount⟩ :=
      writeFaceData_some facesByTexture renderInfos block h2
    refine ⟨r, hr, ?_, ?_⟩
    · rw [hitems]
      congr 1
      apply List.flatMap_congr
      intro f _
      exact faceItems_eq f
    · intro hne
      rw [hcount, if_neg (by simp [hne])]
      congr 1
      apply List.map_congr_left
      intro g hg
      rw [fanVertices_eq_fanTotal]
      intro f hf
      apply h2
      unfold allFaces
      exact List.mem_flatMap.2 ⟨g, hg, hf⟩
  · intro f hf
    refine ⟨fanTriangles_length _, ?_, ?_, ?_⟩
    · rw [fanVertexList_length]
      omega
    · intro k hk1 hk
      exact fanTriangles_getElem f.vertices k hk1 hk
    · intro s hs
      obtain ⟨s1, h1, w1⟩ := writeFace_some f s hs (h2 f hf)
      refine ⟨s1, ?_, ?_⟩
      · rw [h1]
        unfold fanVertexCount
        rw [if_pos (h2 f hf)]
      · rw [w1.2.2.1, faceItems_eq]

theorem face_fan_triangulation_witness :
    (∃ r, writeFaceData [(9, [sampleFace false 4 (some 9)])] [] ⟨0, 168, []⟩ = some r ∧
      r.2.items = (⟨0, 168, []⟩ : VboBlock).items ++
        (allFaces [(9, [sampleFace false 4 (some 9)])]).flatMap
          (fun f => (fanVertexList f.vertices).flatMap vertexTuple) ∧
      (([(9, [sampleFace false 4 (some 9)])] : FacesByTexture).isEmpty = false →
        r.1.map (fun i => i.vertexCount) =
          ([] : List TexturedTriangleRenderInfo).map (fun i => i.vertexCount) ++
            ([(9, [sampleFace false 4 (some 9)])] : FacesByTexture).map
              (fun g => u32 (fanTotal g.2)))) ∧
    ∀ f ∈ allFaces [(9, [sampleFace false 4 (some 9)])],
      (fanTriangles f.vertices).length = f.vertices.length - 2 ∧
      (fanVertexList f.vertices).length = 3 * f.vertices.length - 6 ∧
      (∀ k (_ : 1 ≤ k) (hk : k + 1 < f.vertices.length),
        (fanTriangles f.vertices)[k - 1]? =
          some (f.vertices[0], f.vertices[k], f.vertices[k + 1])) ∧
      ∀ s : (VboBlock × Nat) × Nat, s.1.2 < 4294967296 →
        ∃ s1, writeFace f s = some (s1, u32 (s.2 + (3 * f.vertices.length - 6))) ∧
          s1.1.items = s.1.1.items ++ (fanVertexList f.vertices).flatMap vertexTuple :=
  face_fan_triangulation [(9, [sampleFace false 4 (some 9)])] [] ⟨0, 168, []⟩ (by decide)

/-- C18: after a `validate` that has returned, all seven validity flags are true, so the
conditions under which `validate` calls `reloadEntityModels`, `rebuildGeometryData` and
`rebuildEntityData` are all false, and a second `validate` (whatever the document, the
context and the preferences) returns the very same renderer state, with no call to a
collaborator added to the log. -/
theorem validate_twice {σ : Type} (ops : MapOps σ) (prefs : Preferences)
    (document : MapDocument) (context : RenderContext) (m : MapRenderer) (w : σ)
    (log : List MapCall) (r : MapRenderer × σ × List MapCall)
    (h : validate ops.traced prefs document context m (w, log) = some r) :
    r.1.flags = [true, true, true, true, true, true, true] ∧
    (!r.1.m_entityRendererCacheValid) = false ∧
    (!r.1.m_geometryDataValid || !r.1.m_selectedGeometryDataValid ||
      !r.1.m_lockedGeometryDataValid) = false ∧
    (!r.1.m_entityDataValid || !r.1.m_selectedEntityDataValid ||
      !r.1.m_lockedEntityDataValid) = false ∧
    ∀ (prefs2 : Preferences) (document2 : MapDocument) (context2 : RenderContext),
      validate ops.traced prefs2 document2 context2 r.1 r.2 = some r := by
  have hf := validate_flags ops.traced prefs document context m (w, log) r h
  have hf2 := hf
  simp only [MapRenderer.flags, List.cons.injEq, and_true] at hf2
  obtain ⟨h1, h2, h3, h4, h5, h6, h7⟩ := hf2
  refine ⟨hf, by simp [h7], by simp [h1, h2, h3], by simp [h4, h5, h6], ?_⟩
  intro prefs2 document2 context2
  exact validate_valid ops.traced prefs2 document2 context2 r.1 r.2 hf

theorem validate_twice_witness :
    ∃ r, validate sampleMapOps.traced samplePreferences sampleDocument sampleContext
        (MapRenderer.new 0) (0, []) = some r ∧
      r.1.flags = [true, true, true, true, true, true, true] ∧
      ∀ (prefs2 : Preferences) (document2 : MapDocument) (context2 : RenderContext),
        validate sampleMapOps.traced prefs2 document2 context2 r.1 r.2 = some r := by
  obtain ⟨r, hr⟩ := validate_some sampleMapOps.traced samplePreferences sampleDocument
    sampleContext (MapRenderer.new 0) (0, []) (by decide) (Or.inl rfl)
  have h := validate_twice sampleMapOps samplePreferences sampleDocument sampleContext
    (MapRenderer.new 0) 0 [] r hr
  exact ⟨r, hr, h.1, h.2.2.2.2⟩

/-- C20, the claim as stated fails: on a new renderer, whose entity renderer cache flag is
true, the flag is still true after `removeEntities` and after `addEntities` (here with an
empty list). -/
theorem entity_renderer_cache_stays_valid :
    (removeEntities [] (MapRenderer.new 0)).m_entityRendererCacheValid = true ∧
    ∃ r, addEntities sampleMapOps sampleDocument [] (MapRenderer.new 0) 0 = some r ∧
      r.1.m_entityRendererCacheValid = true :=
  ⟨rfl, _, rfl, rfl⟩

/-- C20 (amended): `addEntities` (which completes exactly when every entity of the list
has a classname) and `removeEntities` leave the entity-bounds flag false and every other
validity flag, the entity renderer cache flag included, as it was. -/
theorem add_remove_invalidate_entity_bounds {σ : Type} (ops : MapOps σ)
    (document : MapDocument) (entities : List Entity) (m : MapRenderer) (w : σ) :
    (addEntities ops document entities m w).isSome =
      entities.all (fun e => e.classname.isSome) ∧
    (∀ r, addEntities ops document entities m w = some r →
      r.1.flags = [m.m_geometryDataValid, m.m_selectedGeometryDataValid,
        m.m_lockedGeometryDataValid, false, m.m_selectedEntityDataValid,
        m.m_lockedEntityDataValid, m.m_entityRendererCacheValid]) ∧
    (removeEntities entities m).flags = [m.m_geometryDataValid, m.m_selectedGeometryDataValid,
      m.m_lockedGeometryDataValid, false, m.m_selectedEntityDataValid,
      m.m_lockedEntityDataValid, m.m_entityRendererCacheValid] := by
  refine ⟨?_, ?_, ?_⟩
  · have h := addEach_isSome ops document.mods entities m w
    unfold addEntities
    cases ha : addEach ops document.mods entities m w with
    | none =>
      rw [ha] at h
      rw [← h]
    | some r1 =>
      rw [ha] at h
      rw [← h]
      rfl
  · intro r h
    exact addEntities_flags ops document entities m w r h
  · exact removeEntities_flags entities m

end TrenchBroom.Renderer

/-! Theorems: View::ToolChain, the chain as a sequence -/

namespace TrenchBroom.View.ToolChain

theorem tools_ofList (ts : List ToolAdapter) : (ofList ts).tools = ts := by
  induction ts with
  | nil => rfl
  | cons t rest ih =>
    show t :: (ofList rest).tools = t :: rest
    rw [ih]

theorem forEach_eq_foldl {σ : Type} (handler : ToolAdapter → σ → σ) (ts : List ToolAdapter)
    (w : σ) : ToolList.forEach handler ts w = ts.foldl (fun s t => handler t s) w := by
  induction ts generalizing w with
  | nil => rfl
  | cons t rest ih => exact ih _

theorem mouseClick_ofList_firstMatch {ι σ : Type} (ops : ToolOps ι σ) (i : ι)
    (ts : List ToolAdapter) (w : σ) :
    mouseClick ops (ofList ts) i w =
      some ((ToolList.firstMatch (fun t s => ops.mouseClick t i s) ts w).1.isSome,
        (ToolList.firstMatch (fun t s => ops.mouseClick t i s) ts w).2) := by
  induction ts generalizing w with
  | nil => rfl
  | cons t rest ih =>
    rw [mouseClick_ofList_cons]
    simp only [ToolList.firstMatch]
    split_ifs
    · rfl
    · exact ih _

theorem mouseDoubleClick_ofList_firstMatch {ι σ : Type} (ops : ToolOps ι σ) (i : ι)
    (ts : List ToolAdapter) (w : σ) :
    mouseDoubleClick ops (ofList ts) i w =
      some ((ToolList.firstMatch (fun t s => ops.mouseDoubleClick t i s) ts w).1.isSome,
        (ToolList.firstMatch (fun t s => ops.mouseDoubleClick t i s) ts w).2) := by
  induction ts generalizing w with
  | nil => rfl
  | cons t rest ih =>
    rw [mouseDoubleClick_ofList_cons]
    simp only [ToolList.firstMatch]
    split_ifs
    · rfl
    · exact ih _

theorem cancel_ofList_firstMatch {ι σ : Type} (ops : ToolOps ι σ)
    (ts : List ToolAdapter) (w : σ) :
    cancel ops (ofList ts) w =
      some ((ToolList.firstMatch (fun t s => ops.cancel t s) ts w).1.isSome,
        (ToolList.firstMatch (fun t s => ops.cancel t s) ts w).2) := by
  induction ts generalizing w with
  | nil => rfl
  | cons t rest ih =>
    rw [cancel_ofList_cons]
    simp only [ToolList.firstMatch]
    split_ifs
    · rfl
    · exact ih _

theorem startMouseDrag_ofList_firstMatch {ι σ : Type} (ops : ToolOps ι σ) (i : ι)
    (ts : List ToolAdapter) (w : σ) :
    startMouseDrag ops (ofList ts) i w =
      some (ToolList.firstMatch (fun t s => ops.startMouseDrag t i s) ts w) := by
  induction ts generalizing w with
  | nil => rfl
  | cons t rest ih =>
    rw [startMouseDrag_ofList_cons]
    simp only [ToolList.firstMatch]
    split_ifs
    · rfl
    · exact ih _

theorem dragEnter_ofList_firstMatch {ι σ : Type} (ops : ToolOps ι σ) (i : ι) (p : String)
    (ts : List ToolAdapter) (w : σ) :
    dragEnter ops (ofList ts) i p w =
      some (ToolList.firstMatch (fun t s => ops.dragEnter t i p s) ts w) := by
  induction ts generalizing w with
  | nil => rfl
  | cons t rest ih =>
    rw [dragEnter_ofList_cons]
    simp only [ToolList.firstMatch]
    split_ifs
    · rfl
    · exact ih _

/-- C29: a chain built by appending the tools `ts` to a new chain corresponds to the plain
sequence `ts`: the list of its tools from head to terminal node is `ts`, appending one
more tool gives the chain whose list is the old list with the tool added at the end, each
of the eight fan-out operations gives the result of the for-each over the list with the
handler of the same name, and each of the five decision operations gives the result of the
first-match search over the list (the matching tool for `startMouseDrag` and `dragEnter`,
whether there is one for `mouseClick`, `mouseDoubleClick` and `cancel`), whatever the
handlers do to the world. -/
theorem chain_is_ordered_list {ι σ : Type} (ops : ToolOps ι σ) (ts : List ToolAdapter)
    (i : ι) (payload : String) (w : σ) :
    ∃ c : ToolChain,
      appendAll new (ts.map some) = some c ∧ c.tools = ts ∧
      (∀ t : ToolAdapter, ∃ c1, append c (some t) = some c1 ∧
        c1.tools = ToolList.append c.tools t) ∧
      pick ops c i w = some (ToolList.forEach (fun t s => ops.pick t i s) c.tools w) ∧
      modifierKeyChange ops c i w =
        some (ToolList.forEach (fun t s => ops.modifierKeyChange t i s) c.tools w) ∧
      mouseDown ops c i w =
        some (ToolList.forEach (fun t s => ops.mouseDown t i s) c.tools w) ∧
      mouseUp ops c i w = some (ToolList.forEach (fun t s => ops.mouseUp t i s) c.tools w) ∧
      mouseScroll ops c i w =
        some (ToolList.forEach (fun t s => ops.mouseScroll t i s) c.tools w) ∧
      mouseMove ops c i w =
        some (ToolList.forEach (fun t s => ops.mouseMove t i s) c.tools w) ∧
      setRenderOptions ops c i w =
        some (ToolList.forEach (fun t s => ops.setRenderOptions t i s) c.tools w) ∧
      render ops c i w = some (ToolList.forEach (fun t s => ops.render t i s) c.tools w) ∧
      mouseClick ops c i w =
        some ((ToolList.firstMatch (fun t s => ops.mouseClick t i s) c.tools w).1.isSome,
          (ToolList.firstMatch (fun t s => ops.mouseClick t i s) c.tools w).2) ∧
      mouseDoubleClick ops c i w =
        some ((ToolList.firstMatch (fun t s => ops.mouseDoubleClick t i s) c.tools w).1.isSome,
          (ToolList.firstMatch (fun t s => ops.mouseDoubleClick t i s) c.tools w).2) ∧
      cancel ops c w =
        some ((ToolList.firstMatch (fun t s => ops.cancel t s) c.tools w).1.isSome,
          (ToolList.firstMatch (fun t s => ops.cancel t s) c.tools w).2) ∧
      startMouseDrag ops c i w =
        some (ToolList.firstMatch (fun t s => ops.startMouseDrag t i s) c.tools w) ∧
      dragEnter ops c i payload w =
        some (ToolList.firstMatch (fun t s => ops.dragEnter t i payload s) c.tools w) := by
  refine ⟨ofList ts, appendAll_new ts, tools_ofList ts, ?_, ?_, ?_, ?_, ?_, ?_, ?_, ?_, ?_,
    ?_, ?_, ?_, ?_, ?_⟩
  · intro t
    exact ⟨ofList (ts ++ [t]), append_ofList ts t, by
      rw [tools_ofList, tools_ofList]
      rfl⟩
  · rw [tools_ofList, forEach_eq_foldl, pick_ofList]
  · rw [tools_ofList, forEach_eq_foldl, modifierKeyChange_ofList]
  · rw [tools_ofList, forEach_eq_foldl, mouseDown_ofList]
  · rw [tools_ofList, forEach_eq_foldl, mouseUp_ofList]
  · rw [tools_ofList, forEach_eq_foldl, mouseScroll_ofList]
  · rw [tools_ofList, forEach_eq_foldl, mouseMove_ofList]
  · rw [tools_ofList, forEach_eq_foldl, setRenderOptions_ofList]
  · rw [tools_ofList, forEach_eq_foldl, render_ofList]
  · rw [tools_ofList, mouseClick_ofList_firstMatch]
  · rw [tools_ofList, mouseDoubleClick_ofList_firstMatch]
  · rw [tools_ofList, cancel_ofList_firstMatch]
  · rw [tools_ofList, startMouseDrag_ofList_firstMatch]
  · rw [tools_ofList, dragEnter_ofList_firstMatch]

theorem cancel_ofList_traced {ι σ : Type} (ops : ToolOps ι σ)
    (ts : List ToolAdapter) (w : σ) (l0 : List ToolCall) :
    ∃ (b : Bool) (w1 : σ) (k : Nat),
      cancel ops.traced (ofList ts) (w, l0) =
        some (b, (w1, l0 ++ ((ts.take k).map (fun t => ToolCall.cancel t false) ++
          ((ts.drop k).take (if b then 1 else 0)).map (fun t => ToolCall.cancel t true)))) ∧
      (if b then k < ts.length else k = ts.length) := by
  induction ts generalizing w l0 with
  | nil => exact ⟨false, w, 0, by simp [cancel_ofList_nil], rfl⟩
  | cons t rest ih =>
    rw [cancel_ofList_cons]
    have htr : ops.traced.cancel t (w, l0) =
        ((ops.cancel t w).1, ((ops.cancel t w).2,
          l0 ++ [ToolCall.cancel t (ops.cancel t w).1])) := rfl
    rw [htr]
    cases hb : (ops.cancel t w).1 with
    | true => exact ⟨true, (ops.cancel t w).2, 0, by simp, by simp⟩
    | false =>
      obtain ⟨b, w1, k, hrun, hk⟩ := ih (ops.cancel t w).2 (l0 ++ [ToolCall.cancel t false])
      refine ⟨b, w1, k + 1, ?_, ?_⟩
      · simp only [Bool.false_eq_true, if_false]
        rw [hrun]
        simp
      · cases b <;> simpa using hk

theorem cancel_traced_erase {ι σ : Type} (ops : ToolOps ι σ)
    (ts : List ToolAdapter) (w : σ) (l0 : List ToolCall) :
    (cancel ops.traced (ofList ts) (w, l0)).map (fun r => (r.1, r.2.1)) =
      cancel ops (ofList ts) w := by
  induction ts generalizing w l0 with
  | nil => rfl
  | cons t rest ih =>
    rw [cancel_ofList_cons, cancel_ofList_cons]
    have htr : ops.traced.cancel t (w, l0) =
        ((ops.cancel t w).1, ((ops.cancel t w).2,
          l0 ++ [ToolCall.cancel t (ops.cancel t w).1])) := rfl
    rw [htr]
    cases hb : (ops.cancel t w).1 with
    | true => simp
    | false => simpa using ih _ _

/-- C30: for the chain built by appending the tools `ts` to a new chain, `cancel` calls the
`cancel` of the first `k` tools in append order, each of which returns false; it then
either returns true, tool `k` having been called next and having returned true, with no
later tool called, or returns false with `k` the number of tools (every tool was called
and returned false; on the empty chain nothing is called). -/
theorem cancel_stops_at_first_true {ι σ : Type} (ops : ToolOps ι σ)
    (ts : List ToolAdapter) (w : σ) :
    ∃ (c : ToolChain) (b : Bool) (w1 : σ) (k : Nat),
      appendAll new (ts.map some) = some c ∧
      cancel ops.traced c (w, []) =
        some (b, (w1, (ts.take k).map (fun t => ToolCall.cancel t false) ++
          ((ts.drop k).take (if b then 1 else 0)).map (fun t => ToolCall.cancel t true))) ∧
      cancel ops c w = some (b, w1) ∧
      (if b then k < ts.length else k = ts.length) := by
  obtain ⟨b, w1, k, hrun, hk⟩ := cancel_ofList_traced ops ts w []
  refine ⟨ofList ts, b, w1, k, appendAll_new ts, by simpa using hrun, ?_, hk⟩
  rw [← cancel_traced_erase ops ts w [], hrun]
  rfl

end TrenchBroom.View.ToolChain

/-! Theorems: Renderer::MapRenderer, edit state changes, frames and reachable states -/

namespace TrenchBroom.Renderer

open MapRenderer

theorem changeEntityDefault_flags (cs : EditStateChangeSet) (m : MapRenderer) :
    (changeEntityDefault cs m).flags =
      [m.m_geometryDataValid, m.m_selectedGeometryDataValid, m.m_lockedGeometryDataValid,
        m.m_entityDataValid && !(cs.entityStateChangedFrom EditState.Default ||
          cs.entityStateChangedTo EditState.Default),
        m.m_selectedEntityDataValid, m.m_lockedEntityDataValid,
        m.m_entityRendererCacheValid] := by
  unfold changeEntityDefault
  split_ifs with h
  · simp [MapRenderer.flags, h]
  · simp [MapRenderer.flags, h]

theorem changeEntitySelected_flags (cs : EditStateChangeSet) (m : MapRenderer) :
    (changeEntitySelected cs m).flags =
      [m.m_geometryDataValid, m.m_selectedGeometryDataValid, m.m_lockedGeometryDataValid,
        m.m_entityDataValid,
        m.m_selectedEntityDataValid && !(cs.entityStateChangedFrom EditState.Selected ||
          cs.entityStateChangedTo EditState.Selected),
        m.m_lockedEntityDataValid, m.m_entityRendererCacheValid] := by
  unfold changeEntitySelected
  split_ifs with h
  · rw [transferFromSelected_flags, transferToSelected_flags]
    simp [MapRenderer.flags, h]
  · simp [MapRenderer.flags, h]

theorem changeEntityLocked_flags (cs : EditStateChangeSet) (m : MapRenderer) :
    (changeEntityLocked cs m).flags =
      [m.m_geometryDataValid, m.m_selectedGeometryDataValid, m.m_lockedGeometryDataValid,
        m.m_entityDataValid, m.m_selectedEntityDataValid,
        m.m_lockedEntityDataValid && !(cs.entityStateChangedFrom EditState.Locked ||
          cs.entityStateChangedTo EditState.Locked),
        m.m_entityRendererCacheValid] := by
  unfold changeEntityLocked
  split_ifs with h
  · rw [transferFromLocked_flags, transferToLocked_flags]
    simp [MapRenderer.flags, h]
  · simp [MapRenderer.flags, h]

theorem changeBrushDefault_flags (cs : EditStateChangeSet) (m : MapRenderer) :
    (changeBrushDefault cs m).flags =
      [m.m_geometryDataValid && !(cs.brushStateChangedFrom EditState.Default ||
          cs.brushStateChangedTo EditState.Default || cs.faceSelectionChanged),
        m.m_selectedGeometryDataValid, m.m_lockedGeometryDataValid,
        m.m_entityDataValid, m.m_selectedEntityDataValid, m.m_lockedEntityDataValid,
        m.m_entityRendererCacheValid] := by
  unfold changeBrushDefault
  split_ifs with h
  · simp [MapRenderer.flags, h]
  · simp [MapRenderer.flags, h]

theorem changeBrushSelected_flags (cs : EditStateChangeSet) (m : MapRenderer) :
    (changeBrushSelected cs m).flags =
      [m.m_geometryDataValid,
        m.m_selectedGeometryDataValid && !(cs.brushStateChangedFrom EditState.Selected ||
          cs.brushStateChangedTo EditState.Selected || cs.faceSelectionChanged),
        m.m_lockedGeometryDataValid,
        m.m_entityDataValid, m.m_selectedEntityDataValid, m.m_lockedEntityDataValid,
        m.m_entityRendererCacheValid] := by
  unfold changeBrushSelected
  split_ifs with h
  · simp [MapRenderer.flags, h]
  · simp [MapRenderer.flags, h]

theorem changeBrushLocked_flags (cs : EditStateChangeSet) (m : MapRenderer) :
    (changeBrushLocked cs m).flags =
      [m.m_geometryDataValid, m.m_selectedGeometryDataValid,
        m.m_lockedGeometryDataValid && !(cs.brushStateChangedFrom EditState.Locked ||
          cs.brushStateChangedTo EditState.Locked || cs.faceSelectionChanged),
        m.m_entityDataValid, m.m_selectedEntityDataValid, m.m_lockedEntityDataValid,
        m.m_entityRendererCacheValid] := by
  unfold changeBrushLocked
  split_ifs with h
  · simp [MapRenderer.flags, h]
  · simp [MapRenderer.flags, h]

theorem flags_list_iff (m : MapRenderer) (a b c d e f g : Bool) :
    m.flags = [a, b, c, d, e, f, g] ↔
      m.m_geometryDataValid = a ∧ m.m_selectedGeometryDataValid = b ∧
      m.m_lockedGeometryDataValid = c ∧ m.m_entityDataValid = d ∧
      m.m_selectedEntityDataValid = e ∧ m.m_lockedEntityDataValid = f ∧
      m.m_entityRendererCacheValid = g := by
  simp [MapRenderer.flags]

theorem changeEditState_flags (cs : EditStateChangeSet) (m : MapRenderer) :
    (changeEditState cs m).flags =
      [m.m_geometryDataValid && !(cs.brushStateChangedFrom EditState.Default ||
          cs.brushStateChangedTo EditState.Default || cs.faceSelectionChanged),
        m.m_selectedGeometryDataValid && !(cs.brushStateChangedFrom EditState.Selected ||
          cs.brushStateChangedTo EditState.Selected || cs.faceSelectionChanged),
        m.m_lockedGeometryDataValid && !(cs.brushStateChangedFrom EditState.Locked ||
          cs.brushStateChangedTo EditState.Locked || cs.faceSelectionChanged),
        m.m_entityDataValid && !(cs.entityStateChangedFrom EditState.Default ||
          cs.entityStateChangedTo EditState.Default),
        m.m_selectedEntityDataValid && !(cs.entityStateChangedFrom EditState.Selected ||
          cs.entityStateChangedTo EditState.Selected),
        m.m_lockedEntityDataValid && !(cs.entityStateChangedFrom EditState.Locked ||
          cs.entityStateChangedTo EditState.Locked),
        m.m_entityRendererCacheValid] := by
  unfold changeEditState
  have h1 := (flags_list_iff _ _ _ _ _ _ _ _).1 (changeEntityDefault_flags cs m)
  generalize changeEntityDefault cs m = m1 at h1 ⊢
  have h2 := (flags_list_iff _ _ _ _ _ _ _ _).1 (changeEntitySelected_flags cs m1)
  generalize changeEntitySelected cs m1 = m2 at h2 ⊢
  have h3 := (flags_list_iff _ _ _ _ _ _ _ _).1 (changeEntityLocked_flags cs m2)
  generalize changeEntityLocked cs m2 = m3 at h3 ⊢
  have h4 := (flags_list_iff _ _ _ _ _ _ _ _).1 (changeBrushDefault_flags cs m3)
  generalize changeBrushDefault cs m3 = m4 at h4 ⊢
  have h5 := (flags_list_iff _ _ _ _ _ _ _ _).1 (changeBrushSelected_flags cs m4)
  generalize changeBrushSelected cs m4 = m5 at h5 ⊢
  rw [changeBrushLocked_flags]
  obtain ⟨a1, a2, a3, a4, a5, a6, a7⟩ := h1
  obtain ⟨b1, b2, b3, b4, b5, b6, b7⟩ := h2
  obtain ⟨c1, c2, c3, c4, c5, c6, c7⟩ := h3
  obtain ⟨d1, d2, d3, d4, d5, d6, d7⟩ := h4
  obtain ⟨e1, e2, e3, e4, e5, e6, e7⟩ := h5
  rw [e1, e2, e3, e4, e5, e6, e7, d1, d2, d3, d4, d5, d6, d7, c1, c2, c3, c4, c5, c6, c7,
    b1, b2, b3, b4, b5, b6, b7, a1, a2, a3, a4, a5, a6, a7]

theorem addEach_touches {σ : Type} (ops : MapOps σ) (mods : List String)
    (entities : List Entity) (m : MapRenderer) (w : σ) (r : MapRenderer × σ)
    (h : addEach ops mods entities m w = some r) :
    r.1 = { m with m_entityRenderers := r.1.m_entityRenderers,
                   m_classnameRenderer := r.1.m_classnameRenderer } := by
  induction entities generalizing m w with
  | nil =>
    simp only [addEach, Option.some.injEq] at h
    rw [← h]
  | cons e rest ih =>
    simp only [addEach] at h
    cases hc : e.classname with
    | none => simp [hc] at h
    | some cn =>
      cases hr : (ops.entityRenderer e mods w).1 with
      | none =>
        simp only [hc, hr] at h
        exact (ih _ _ h).trans rfl
      | some er =>
        simp only [hc, hr] at h
        exact (ih _ _ h).trans rfl

theorem addEntities_touches {σ : Type} (ops : MapOps σ) (document : MapDocument)
    (entities : List Entity) (m : MapRenderer) (w : σ) (r : MapRenderer × σ)
    (h : addEntities ops document entities m w = some r) :
    r.1 = { m with m_entityRenderers := r.1.m_entityRenderers,
                   m_classnameRenderer := r.1.m_classnameRenderer,
                   m_entityDataValid := false } := by
  unfold addEntities at h
  cases ha : addEach ops document.mods entities m w with
  | none => simp [ha] at h
  | some r1 =>
    have t := addEach_touches ops document.mods entities m w r1 ha
    simp only [ha, Option.some.injEq] at h
    rw [← h]
    simp only []
    rw [t]

theorem loadMap_touches {σ : Type} (ops : MapOps σ) (document : MapDocument)
    (m : MapRenderer) (w : σ) (r : MapRenderer × σ)
    (h : loadMap ops document m w = some r) :
    r.1 = { m with m_entityRenderers := r.1.m_entityRenderers,
                   m_classnameRenderer := r.1.m_classnameRenderer,
                   m_geometryDataValid := false, m_selectedGeometryDataValid := false,
                   m_lockedGeometryDataValid := false, m_entityDataValid := false,
                   m_selectedEntityDataValid := false, m_lockedEntityDataValid := false } := by
  unfold loadMap at h
  cases ha : addEntities ops document document.entities m w with
  | none => simp [ha] at h
  | some r1 =>
    have t := addEntities_touches ops document document.entities m w r1 ha
    simp only [ha, Option.some.injEq] at h
    rw [← h]
    simp only []
    rw [t]

theorem loadMap_isSome {σ : Type} (ops : MapOps σ) (document : MapDocument)
    (m : MapRenderer) (w : σ) :
    (loadMap ops document m w).isSome =
      document.entities.all (fun e => e.classname.isSome) := by
  rw [← addEach_isSome ops document.mods document.entities m w]
  unfold loadMap addEntities
  cases addEach ops document.mods document.entities m w <;> rfl

theorem removeEach_touches (entities : List Entity) (m : MapRenderer) :
    removeEach entities m =
      { m with m_entityRenderers := (removeEach entities m).m_entityRenderers,
               m_classnameRenderer := (removeEach entities m).m_classnameRenderer } := by
  induction entities generalizing m with
  | nil => rfl
  | cons e rest ih => exact (ih _).trans rfl

theorem removeEntities_touches (entities : List Entity) (m : MapRenderer) :
    removeEntities entities m =
      { m with m_entityRenderers := (removeEntities entities m).m_entityRenderers,
               m_classnameRenderer := (removeEntities entities m).m_classnameRenderer,
               m_entityDataValid := false } := by
  unfold removeEntities
  simp only []
  rw [removeEach_touches]

theorem transferToSelected_touches (entities : List Entity) (m : MapRenderer) :
    transferToSelected entities m =
      { m with
        m_classnameRenderer := (transferToSelected entities m).m_classnameRenderer,
        m_selectedClassnameRenderer :=
          (transferToSelected entities m).m_selectedClassnameRenderer } := by
  induction entities generalizing m with
  | nil => rfl
  | cons e rest ih => exact (ih _).trans rfl

theorem transferFromSelected_touches (entities : List Entity) (m : MapRenderer) :
    transferFromSelected entities m =
      { m with
        m_classnameRenderer := (transferFromSelected entities m).m_classnameRenderer,
        m_selectedClassnameRenderer :=
          (transferFromSelected entities m).m_selectedClassnameRenderer } := by
  induction entities generalizing m with
  | nil => rfl
  | cons e rest ih => exact (ih _).trans rfl

theorem transferToLocked_touches (entities : List Entity) (m : MapRenderer) :
    transferToLocked entities m =
      { m with
        m_classnameRenderer := (transferToLocked entities m).m_classnameRenderer,
        m_lockedClassnameRenderer :=
          (transferToLocked entities m).m_lockedClassnameRenderer } := by
  induction entities generalizing m with
  | nil => rfl
  | cons e rest ih => exact (ih _).trans rfl

theorem transferFromLocked_touches (entities : List Entity) (m : MapRenderer) :
    transferFromLocked entities m =
      { m with
        m_classnameRenderer := (transferFromLocked entities m).m_classnameRenderer,
        m_lockedClassnameRenderer :=
          (transferFromLocked entities m).m_lockedClassnameRenderer } := by
  induction entities generalizing m with
  | nil => rfl
  | cons e rest ih => exact (ih _).trans rfl

theorem changeEditState_touches (cs : EditStateChangeSet) (m : MapRenderer) :
    changeEditState cs m =
      { m with
        m_classnameRenderer := (changeEditState cs m).m_classnameRenderer,
        m_selectedClassnameRenderer := (changeEditState cs m).m_selectedClassnameRenderer,
        m_lockedClassnameRenderer := (changeEditState cs m).m_lockedClassnameRenderer,
        m_geometryDataValid := (changeEditState cs m).m_geometryDataValid,
        m_selectedGeometryDataValid := (changeEditState cs m).m_selectedGeometryDataValid,
        m_lockedGeometryDataValid := (changeEditState cs m).m_lockedGeometryDataValid,
        m_entityDataValid := (changeEditState cs m).m_entityDataValid,
        m_selectedEntityDataValid := (changeEditState cs m).m_selectedEntityDataValid,
        m_lockedEntityDataValid := (changeEditState cs m).m_lockedEntityDataValid } := by
  have h1 : changeEntityDefault cs m =
      { m with m_entityDataValid := (changeEntityDefault cs m).m_entityDataValid } := by
    unfold changeEntityDefault
    split_ifs <;> rfl
  have h2 : ∀ x : MapRenderer, changeEntitySelected cs x =
      { x with
        m_classnameRenderer := (changeEntitySelected cs x).m_classnameRenderer,
        m_selectedClassnameRenderer := (changeEntitySelected cs x).m_selectedClassnameRenderer,
        m_selectedEntityDataValid := (changeEntitySelected cs x).m_selectedEntityDataValid } := by
    intro x
    unfold changeEntitySelected
    split_ifs
    · rw [transferFromSelected_touches, transferToSelected_touches]
    · rfl
  have h3 : ∀ x : MapRenderer, changeEntityLocked cs x =
      { x with
        m_classnameRenderer := (changeEntityLocked cs x).m_classnameRenderer,
        m_lockedClassnameRenderer := (changeEntityLocked cs x).m_lockedClassnameRenderer,
        m_lockedEntityDataValid := (changeEntityLocked cs x).m_lockedEntityDataValid } := by
    intro x
    unfold changeEntityLocked
    split_ifs
    · rw [transferFromLocked_touches, transferToLocked_touches]
    · rfl
  have h4 : ∀ x : MapRenderer, changeBrushDefault cs x =
      { x with m_geometryDataValid := (changeBrushDefault cs x).m_geometryDataValid } := by
    intro x
    unfold changeBrushDefault
    split_ifs <;> rfl
  have h5 : ∀ x : MapRenderer, changeBrushSelected cs x =
      { x with
        m_selectedGeometryDataValid :=
          (changeBrushSelected cs x).m_selectedGeometryDataValid } := by
    intro x
    unfold changeBrushSelected
    split_ifs <;> rfl
  have h6 : ∀ x : MapRenderer, changeBrushLocked cs x =
      { x with
        m_lockedGeometryDataValid := (changeBrushLocked cs x).m_lockedGeometryDataValid } := by
    intro x
    unfold changeBrushLocked
    split_ifs <;> rfl
  unfold changeEditState
  generalize changeEntityDefault cs m = m1 at h1 ⊢
  have k2 := h2 m1
  generalize changeEntitySelected cs m1 = m2 at k2 ⊢
  have k3 := h3 m2
  generalize changeEntityLocked cs m2 = m3 at k3 ⊢
  have k4 := h4 m3
  generalize changeBrushDefault cs m3 = m4 at k4 ⊢
  have k5 := h5 m4
  generalize changeBrushSelected cs m4 = m5 at k5 ⊢
  have k6 := h6 m5
  generalize changeBrushLocked cs m5 = m6 at k6 ⊢
  rw [k6, k5, k4, k3, k2, h1]

theorem find_erase {ν : Type} (m : List (Nat × ν)) (key k : Nat) :
    find (erase m key) k = if k = key then none else find m k := by
  induction m with
  | nil => simp [erase, find]
  | cons x rest ih =>
    obtain ⟨a, v⟩ := x
    unfold erase at ih ⊢
    by_cases ha : a = key
    · subst ha
      simp only [List.filter_cons, ne_eq, not_true_eq_false, decide_False, Bool.false_eq_true,
        if_false, ih, find]
      by_cases hk : k = a
      · simp [hk]
      · have hk2 : ¬ a = k := fun h => hk h.symm
        simp [hk, hk2]
    · simp only [List.filter_cons, ne_eq, ha, not_false_eq_true, decide_True, if_true, find, ih]
      by_cases hk : k = key
      · subst hk
        simp [ha]
      · simp [hk]

theorem removeEach_find (entities : List Entity) (m : MapRenderer) (k : Nat) :
    find (removeEach entities m).m_entityRenderers k =
      (if ∃ e ∈ entities, e.id = k then none else find m.m_entityRenderers k) ∧
    find (removeEach entities m).m_classnameRenderer k =
      (if ∃ e ∈ entities, e.id = k then none else find m.m_classnameRenderer k) := by
  induction entities generalizing m with
  | nil => simp [removeEach]
  | cons e rest ih =>
    unfold removeEach
    have h := ih { m with m_entityRenderers := erase m.m_entityRenderers e.id,
                          m_classnameRenderer := erase m.m_classnameRenderer e.id }
    rw [h.1, h.2]
    simp only [find_erase, List.mem_cons, exists_eq_or_imp]
    by_cases hr : ∃ a ∈ rest, a.id = k
    · simp [hr]
    · by_cases hk : k = e.id
      · simp [hk]
      · have hk2 : ¬ e.id = k := fun h => hk h.symm
        simp [hr, hk, hk2]

theorem collectBoundsEntities_mem (filter : Filter) (entities : List Entity)
    (c : EntityCollection) (P : Entity → Prop)
    (hc : ∀ e, e ∈ c.allEntities ∨ e ∈ c.allSelectedEntities ∨ e ∈ c.allLockedEntities → P e)
    (hp : ∀ e ∈ entities, filter.entityVisible e = true → P e) :
    ∀ e, e ∈ (collectBoundsEntities filter entities c).allEntities ∨
      e ∈ (collectBoundsEntities filter entities c).allSelectedEntities ∨
      e ∈ (collectBoundsEntities filter entities c).allLockedEntities → P e := by
  induction entities generalizing c with
  | nil => exact hc
  | cons x rest ih =>
    have hrest : ∀ e ∈ rest, filter.entityVisible e = true → P e :=
      fun e he => hp e (List.mem_cons_of_mem _ he)
    unfold collectBoundsEntities
    split_ifs with hv h1 h2
    · apply ih _ _ hrest
      intro e he
      simp only [List.mem_append, List.mem_singleton] at he
      rcases he with he | (he | he) | he
      · exact hc e (Or.inl he)
      · exact hc e (Or.inr (Or.inl he))
      · rw [he]
        exact hp x (List.mem_cons_self _ _) hv
      · exact hc e (Or.inr (Or.inr he))
    · apply ih _ _ hrest
      intro e he
      simp only [List.mem_append, List.mem_singleton] at he
      rcases he with he | he | he | he
      · exact hc e (Or.inl he)
      · exact hc e (Or.inr (Or.inl he))
      · exact hc e (Or.inr (Or.inr he))
      · rw [he]
        exact hp x (List.mem_cons_self _ _) hv
    · apply ih _ _ hrest
      intro e he
      simp only [List.mem_append, List.mem_singleton] at he
      rcases he with (he | he) | he | he
      · exact hc e (Or.inl he)
      · rw [he]
        exact hp x (List.mem_cons_self _ _) hv
      · exact hc e (Or.inr (Or.inl he))
      · exact hc e (Or.inr (Or.inr he))
    · exact ih c hc hrest

theorem mem_visibleBrushes (filter : Filter) (entities : List Entity) (p : Entity × Brush) :
    p ∈ visibleBrushes filter entities ↔
      p.1 ∈ entities ∧ p.2 ∈ p.1.brushes ∧ filter.brushVisible p.2 = true := by
  unfold visibleBrushes
  simp only [List.mem_flatMap, List.mem_map, List.mem_filter]
  constructor
  · rintro ⟨e, he, b, ⟨hb, hv⟩, rfl⟩
    exact ⟨he, hb, hv⟩
  · rintro ⟨he, hb, hv⟩
    exact ⟨p.1, he, p.2, ⟨hb, hv⟩, rfl⟩

theorem mem_visibleFaces (filter : Filter) (entities : List Entity)
    (p : Entity × Brush × Face) :
    p ∈ visibleFaces filter entities ↔
      p.1 ∈ entities ∧ p.2.1 ∈ p.1.brushes ∧ filter.brushVisible p.2.1 = true ∧
        p.2.2 ∈ p.2.1.faces := by
  unfold visibleFaces brushFaces
  simp only [List.mem_flatMap, List.mem_map, mem_visibleBrushes]
  constructor
  · rintro ⟨q, ⟨he, hb, hv⟩, f, hf, rfl⟩
    exact ⟨he, hb, hv, hf⟩
  · rintro ⟨he, hb, hv, hf⟩
    exact ⟨(p.1, p.2.1), ⟨he, hb, hv⟩, p.2.2, hf, rfl⟩

theorem rebuildGeometryData_none {σ : Type} (ops : MapOps σ) (prefs : Preferences)
    (document : MapDocument) (context : RenderContext) (m : MapRenderer) (w : σ)
    (h : (visibleFaces context.filter document.entities).all faceOk = false) :
    rebuildGeometryData ops prefs document context m w = none := by
  have hc : collectEntities context.filter m.m_dummyTexture document.entities
      GeometryCollection.empty = none := by
    rw [collectEntities_eq _ _ _ _ empty_inRange, if_neg (by simp [h])]
  unfold rebuildGeometryData
  simp only [hc]

theorem rebuildGeometryData_some {σ : Type} (ops : MapOps σ) (prefs : Preferences)
    (document : MapDocument) (context : RenderContext) (m : MapRenderer) (w : σ)
    (hok : (visibleFaces context.filter document.entities).all faceOk = true) :
    ∃ r, rebuildGeometryData ops prefs document context m w = some r := by
  have hc := collectEntities_of_ok context.filter m.m_dummyTexture document.entities hok
  obtain ⟨_, _, _, _, _, _, _, _, _, _, _, _, hr⟩ :=
    rebuildGeometryData_chain ops prefs document context m w _ hc
      (fun k f hf => by
        have := collected_faces_ok _ _ _ hok k f hf
        omega)
  exact ⟨_, hr⟩

theorem resetGeometry_m_faceBlock_valid {σ : Type} (ops : MapOps σ) (m : MapRenderer) (w : σ)
    (h : m.m_geometryDataValid = true) :
    (resetGeometry ops m w).1.m_faceBlock = m.m_faceBlock ∧ (resetGeometry ops m w).1.m_faceRenderInfos = m.m_faceRenderInfos := by
  unfold resetGeometry
  simp only []
  split_ifs <;> simp_all

theorem resetGeometry_m_selectedFaceBlock_valid {σ : Type} (ops : MapOps σ) (m : MapRenderer) (w : σ)
    (h : m.m_selectedGeometryDataValid = true) :
    (resetGeometry ops m w).1.m_selectedFaceBlock = m.m_selectedFaceBlock ∧ (resetGeometry ops m w).1.m_selectedFaceRenderInfos = m.m_selectedFaceRenderInfos := by
  unfold resetGeometry
  simp only []
  split_ifs <;> simp_all

theorem resetGeometry_m_lockedFaceBlock_valid {σ : Type} (ops : MapOps σ) (m : MapRenderer) (w : σ)
    (h : m.m_lockedGeometryDataValid = true) :
    (resetGeometry ops m w).1.m_lockedFaceBlock = m.m_lockedFaceBlock ∧ (resetGeometry ops m w).1.m_lockedFaceRenderInfos = m.m_lockedFaceRenderInfos := by
  unfold resetGeometry
  simp only []
  split_ifs <;> simp_all

theorem resetGeometry_m_edgeBlock_valid {σ : Type} (ops : MapOps σ) (m : MapRenderer) (w : σ)
    (h : m.m_geometryDataValid = true) :
    (resetGeometry ops m w).1.m_edgeBlock = m.m_edgeBlock ∧ (resetGeometry ops m w).1.m_edgeRenderInfo = m.m_edgeRenderInfo := by
  unfold resetGeometry
  simp only []
  split_ifs <;> simp_all

theorem resetGeometry_m_selectedEdgeBlock_valid {σ : Type} (ops : MapOps σ) (m : MapRenderer) (w : σ)
    (h : m.m_selectedGeometryDataValid = true) :
    (resetGeometry ops m w).1.m_selectedEdgeBlock = m.m_selectedEdgeBlock ∧ (resetGeometry ops m w).1.m_selectedEdgeRenderInfo = m.m_selectedEdgeRenderInfo := by
  unfold resetGeometry
  simp only []
  split_ifs <;> simp_all

theorem resetGeometry_m_lockedEdgeBlock_valid {σ : Type} (ops : MapOps σ) (m : MapRenderer) (w : σ)
    (h : m.m_lockedGeometryDataValid = true) :
    (resetGeometry ops m w).1.m_lockedEdgeBlock = m.m_lockedEdgeBlock ∧ (resetGeometry ops m w).1.m_lockedEdgeRenderInfo = m.m_lockedEdgeRenderInfo := by
  unfold resetGeometry
  simp only []
  split_ifs <;> simp_all

theorem allocFaceBlocks_m_faceBlock_skip {σ : Type} (ops : MapOps σ) (c : GeometryCollection)
    (m : MapRenderer) (w : σ) (h : m.m_geometryDataValid = true ∨ c.unselectedFaces.isEmpty = true) :
    (allocFaceBlocks ops c m w).1.m_faceBlock = m.m_faceBlock := by
  unfold allocFaceBlocks
  simp only []
  rcases h with h | h <;> split_ifs <;> simp_all

theorem allocFaceBlocks_m_selectedFaceBlock_skip {σ : Type} (ops : MapOps σ) (c : GeometryCollection)
    (m : MapRenderer) (w : σ) (h : m.m_selectedGeometryDataValid = true ∨ c.selectedFaces.isEmpty = true) :
    (allocFaceBlocks ops c m w).1.m_selectedFaceBlock = m.m_selectedFaceBlock := by
  unfold allocFaceBlocks
  simp only []
  rcases h with h | h <;> split_ifs <;> simp_all

theorem allocFaceBlocks_m_lockedFaceBlock_skip {σ : Type} (ops : MapOps σ) (c : GeometryCollection)
    (m : MapRenderer) (w : σ) (h : m.m_lockedGeometryDataValid = true ∨ c.lockedFaces.isEmpty = true) :
    (allocFaceBlocks ops c m w).1.m_lockedFaceBlock = m.m_lockedFaceBlock := by
  unfold allocFaceBlocks
  simp only []
  rcases h with h | h <;> split_ifs <;> simp_all

theorem allocEdgeBlocks_m_edgeBlock_skip {σ : Type} (ops : MapOps σ) (c : GeometryCollection)
    (m : MapRenderer) (w : σ) (h : m.m_geometryDataValid = true ∨ (!c.unselectedBrushes.isEmpty) = false) :
    (allocEdgeBlocks ops c m w).1.m_edgeBlock = m.m_edgeBlock := by
  unfold allocEdgeBlocks
  simp only []
  rcases h with h | h <;> split_ifs <;> simp_all

theorem allocEdgeBlocks_m_selectedEdgeBlock_skip {σ : Type} (ops : MapOps σ) (c : GeometryCollection)
    (m : MapRenderer) (w : σ) (h : m.m_selectedGeometryDataValid = true ∨ ((!c.selectedBrushes.isEmpty || !c.partiallySelectedBrushFaces.isEmpty)) = false) :
    (allocEdgeBlocks ops c m w).1.m_selectedEdgeBlock = m.m_selectedEdgeBlock := by
  unfold allocEdgeBlocks
  simp only []
  rcases h with h | h <;> split_ifs <;> simp_all

theorem allocEdgeBlocks_m_lockedEdgeBlock_skip {σ : Type} (ops : MapOps σ) (c : GeometryCollection)
    (m : MapRenderer) (w : σ) (h : m.m_lockedGeometryDataValid = true ∨ (!c.lockedBrushes.isEmpty) = false) :
    (allocEdgeBlocks ops c m w).1.m_lockedEdgeBlock = m.m_lockedEdgeBlock := by
  unfold allocEdgeBlocks
  simp only []
  rcases h with h | h <;> split_ifs <;> simp_all

theorem resetEntityData_m_entityBoundsBlock {σ : Type} (ops : MapOps σ) (m : MapRenderer) (w : σ)
    (h : m.m_entityDataValid = false) :
    (resetEntityData ops m w).1.m_entityBoundsBlock = none ∧ (resetEntityData ops m w).1.m_entityBoundsRenderInfo = ⟨0, 0⟩ := by
  unfold resetEntityData
  simp only []
  split_ifs <;> simp_all

theorem resetEntityData_m_entityBoundsBlock_valid {σ : Type} (ops : MapOps σ) (m : MapRenderer) (w : σ)
    (h : m.m_entityDataValid = true) :
    (resetEntityData ops m w).1.m_entityBoundsBlock = m.m_entityBoundsBlock ∧ (resetEntityData ops m w).1.m_entityBoundsRenderInfo = m.m_entityBoundsRenderInfo := by
  unfold resetEntityData
  simp only []
  split_ifs <;> simp_all

theorem allocBoundsBlocks_m_entityBoundsBlock_skip {σ : Type} (ops : MapOps σ) (c : EntityCollection)
    (m : MapRenderer) (w : σ) (h : m.m_entityDataValid = true ∨ c.allEntities.isEmpty = true) :
    (allocBoundsBlocks ops c m w).1.m_entityBoundsBlock = m.m_entityBoundsBlock := by
  unfold allocBoundsBlocks
  simp only []
  rcases h with h | h <;> split_ifs <;> simp_all

theorem resetEntityData_m_selectedEntityBoundsBlock {σ : Type} (ops : MapOps σ) (m : MapRenderer) (w : σ)
    (h : m.m_selectedEntityDataValid = false) :
    (resetEntityData ops m w).1.m_selectedEntityBoundsBlock = none ∧ (resetEntityData ops m w).1.m_selectedEntityBoundsRenderInfo = ⟨0, 0⟩ := by
  unfold resetEntityData
  simp only []
  split_ifs <;> simp_all

theorem resetEntityData_m_selectedEntityBoundsBlock_valid {σ : Type} (ops : MapOps σ) (m : MapRenderer) (w : σ)
    (h : m.m_selectedEntityDataValid = true) :
    (resetEntityData ops m w).1.m_selectedEntityBoundsBlock = m.m_selectedEntityBoundsBlock ∧ (resetEntityData ops m w).1.m_selectedEntityBoundsRenderInfo = m.m_selectedEntityBoundsRenderInfo := by
  unfold resetEntityData
  simp only []
  split_ifs <;> simp_all

theorem allocBoundsBlocks_m_selectedEntityBoundsBlock_skip {σ : Type} (ops : MapOps σ) (c : EntityCollection)
    (m : MapRenderer) (w : σ) (h : m.m_selectedEntityDataValid = true ∨ c.allSelectedEntities.isEmpty = true) :
    (allocBoundsBlocks ops c m w).1.m_selectedEntityBoundsBlock = m.m_selectedEntityBoundsBlock := by
  unfold allocBoundsBlocks
  simp only []
  rcases h with h | h <;> split_ifs <;> simp_all

theorem resetEntityData_m_lockedEntityBoundsBlock {σ : Type} (ops : MapOps σ) (m : MapRenderer) (w : σ)
    (h : m.m_lockedEntityDataValid = false) :
    (resetEntityData ops m w).1.m_lockedEntityBoundsBlock = none ∧ (resetEntityData ops m w).1.m_lockedEntityBoundsRenderInfo = ⟨0, 0⟩ := by
  unfold resetEntityData
  simp only []
  split_ifs <;> simp_all

theorem resetEntityData_m_lockedEntityBoundsBlock_valid {σ : Type} (ops : MapOps σ) (m : MapRenderer) (w : σ)
    (h : m.m_lockedEntityDataValid = true) :
    (resetEntityData ops m w).1.m_lockedEntityBoundsBlock = m.m_lockedEntityBoundsBlock ∧ (resetEntityData ops m w).1.m_lockedEntityBoundsRenderInfo = m.m_lockedEntityBoundsRenderInfo := by
  unfold resetEntityData
  simp only []
  split_ifs <;> simp_all

theorem allocBoundsBlocks_m_lockedEntityBoundsBlock_skip {σ : Type} (ops : MapOps σ) (c : EntityCollection)
    (m : MapRenderer) (w : σ) (h : m.m_lockedEntityDataValid = true ∨ c.allLockedEntities.isEmpty = true) :
    (allocBoundsBlocks ops c m w).1.m_lockedEntityBoundsBlock = m.m_lockedEntityBoundsBlock := by
  unfold allocBoundsBlocks
  simp only []
  rcases h with h | h <;> split_ifs <;> simp_all

theorem rebuildGeometryData_collected {σ : Type} (ops : MapOps σ) (prefs : Preferences)
    (document : MapDocument) (context : RenderContext) (m : MapRenderer) (w : σ)
    (r : MapRenderer × σ) (h : rebuildGeometryData ops prefs document context m w = some r) :
    (visibleFaces context.filter document.entities).all faceOk = true ∧
    collectEntities context.filter m.m_dummyTexture document.entities
      GeometryCollection.empty =
        some (collected m.m_dummyTexture (visibleBrushes context.filter document.entities)
          (visibleFaces context.filter document.entities) GeometryCollection.empty) := by
  cases hall : (visibleFaces context.filter document.entities).all faceOk with
  | false =>
    rw [rebuildGeometryData_none ops prefs document context m w hall] at h
    cases h
  | true => exact ⟨rfl, collectEntities_of_ok _ _ _ hall⟩

theorem collected_ok2 (dummyTexture : Texture) (b : List (Entity × Brush))
    (t : List (Entity × Brush × Face)) (hok : t.all faceOk = true) (k : Bucket) (f : Face)
    (hf : f ∈ allFaces ((collected dummyTexture b t GeometryCollection.empty).faces k)) :
    2 ≤ f.vertices.length := by
  have := collected_faces_ok dummyTexture b t hok k f hf
  omega

theorem rebuildGeometryData_m_faceBlock_skip {σ : Type} (ops : MapOps σ) (prefs : Preferences)
    (document : MapDocument) (context : RenderContext) (m : MapRenderer) (w : σ)
    (r : MapRenderer × σ) (c : GeometryCollection)
    (h : rebuildGeometryData ops prefs document context m w = some r)
    (hc : collectEntities context.filter m.m_dummyTexture document.entities
      GeometryCollection.empty = some c)
    (hs : m.m_geometryDataValid = true ∨ c.unselectedFaces.isEmpty = true) :
    r.1.m_faceBlock = (resetGeometry ops m w).1.m_faceBlock ∧ r.1.m_faceRenderInfos = (resetGeometry ops m w).1.m_faceRenderInfos := by
  have hok : ∀ k f, f ∈ allFaces (c.faces k) → 2 ≤ f.vertices.length := by
    obtain ⟨hall, hcc⟩ := collectEntities_some _ _ _ _ hc
    intro k f hf
    rw [hcc] at hf
    exact collected_ok2 _ _ _ hall k f hf
  obtain ⟨a1, a2, m3, b1, b2, m5, h1, h2, h3, h4, h5, h6, hr⟩ :=
    rebuildGeometryData_chain ops prefs document context m w c hc hok
  rw [hr] at h
  have hr2 := Option.some.inj h
  have t1 := writeUnselectedFaces_touches c _ a1 h1
  have t2 := writeSelectedFaces_touches c a1 a2 h2
  have t3 := writeLockedFaces_touches c a2 m3 h3
  have t4 := writeUnselectedEdges_touches prefs c _ b1 h4
  have t5 := writeSelectedEdges_touches prefs c b1 b2 h5
  have t6 := writeLockedEdges_touches prefs c b2 m5 h6
  generalize hw2 : (ops.vboMap VboKind.face (ops.vboActivate VboKind.face
    (resetGeometry ops m w).2)) = w2 at h1 h4 t1 t4 hr2
  have f0 := (flags_eq_iff _ _).1 (resetGeometry_flags ops m w)
  have f2 := (flags_eq_iff _ _).1 (allocFaceBlocks_flags ops c (resetGeometry ops m w).1 w2)
  have u2 := allocFaceBlocks_touches ops c (resetGeometry ops m w).1 w2
  have k2 := allocFaceBlocks_m_faceBlock_skip ops c (resetGeometry ops m w).1 w2
    (hs.imp (fun x => f0.1.trans x) id)
  generalize allocFaceBlocks ops c (resetGeometry ops m w).1 w2 = s2 at h1 h4 t1 t4 f2 u2 k2 hr2
  generalize hw4 : (ops.vboMap VboKind.edge (ops.vboActivate VboKind.edge
    (ops.vboDeactivate VboKind.face (ops.vboUnmap VboKind.face s2.2)))) = w4 at h4 t4 hr2
  have u4 := allocEdgeBlocks_touches ops c m3 w4
  generalize allocEdgeBlocks ops c m3 w4 = s4 at h4 t4 u4 hr2
  have pF : s2.1.m_geometryDataValid = s2.1.m_geometryDataValid := by
    rfl
  have pB : s2.1.m_faceBlock = s2.1.m_faceBlock := by
    rfl
  have pI : s2.1.m_faceRenderInfos = s2.1.m_faceRenderInfos := by
    rfl
  have sI : s2.1.m_faceRenderInfos = (resetGeometry ops m w).1.m_faceRenderInfos := by
    rw [u2]
  have hskip := writeUnselectedFaces_skip c s2.1
    (hs.imp (fun x => pF.trans (f2.1.trans (f0.1.trans x))) id)
  rw [h1] at hskip
  have hpost := Option.some.inj hskip
  have qB : m3.m_faceBlock = a1.m_faceBlock := by
    rw [t3, t2]
  have qI : m3.m_faceRenderInfos = a1.m_faceRenderInfos := by
    rw [t3, t2]
  have eB : m5.m_faceBlock = m3.m_faceBlock := by
    rw [t6, t5, t4, u4]
  have eI : m5.m_faceRenderInfos = m3.m_faceRenderInfos := by
    rw [t6, t5, t4, u4]
  rw [← hr2]
  constructor
  · show m5.m_faceBlock = _
    rw [eB, qB, hpost, pB, k2]
  · show m5.m_faceRenderInfos = _
    rw [eI, qI, hpost, pI, sI]

theorem rebuildGeometryData_m_faceBlock_cases {σ : Type} (ops : MapOps σ) (prefs : Preferences)
    (document : MapDocument) (context : RenderContext) (m : MapRenderer) (w : σ)
    (r : MapRenderer × σ) (c : GeometryCollection)
    (h : rebuildGeometryData ops prefs document context m w = some r)
    (hc : collectEntities context.filter m.m_dummyTexture document.entities
      GeometryCollection.empty = some c) :
    (m.m_geometryDataValid = true → r.1.m_faceBlock = m.m_faceBlock ∧ r.1.m_faceRenderInfos = m.m_faceRenderInfos) ∧
    (m.m_geometryDataValid = false → c.unselectedFaces.isEmpty = true → r.1.m_faceBlock = none ∧ r.1.m_faceRenderInfos = []) ∧
    (m.m_geometryDataValid = false → c.unselectedFaces.isEmpty = false → r.1.m_faceBlock.isSome = true) := by
  refine ⟨?_, ?_, ?_⟩
  · intro hv
    have hk := rebuildGeometryData_m_faceBlock_skip ops prefs document context m w r c h hc (Or.inl hv)
    have hv2 := resetGeometry_m_faceBlock_valid ops m w hv
    exact ⟨hk.1.trans hv2.1, hk.2.trans hv2.2⟩
  · intro hinv he
    have hk := rebuildGeometryData_m_faceBlock_skip ops prefs document context m w r c h hc (Or.inr he)
    have hv2 := resetGeometry_m_faceBlock ops m w hinv
    exact ⟨hk.1.trans hv2.1, hk.2.trans hv2.2⟩
  · intro hinv hne
    have hok : ∀ k f, f ∈ allFaces (c.faces k) → 2 ≤ f.vertices.length := by
      obtain ⟨hall, hcc⟩ := collectEntities_some _ _ _ _ hc
      intro k f hf
      rw [hcc] at hf
      exact collected_ok2 _ _ _ hall k f hf
    obtain ⟨r1, b, h1, h2, _⟩ := rebuildGeometryData_m_faceBlock ops prefs document context m w c hc
      hok hinv hne
    rw [h] at h1
    cases Option.some.inj h1
    rw [h2]
    rfl

theorem rebuildGeometryData_m_selectedFaceBlock_skip {σ : Type} (ops : MapOps σ) (prefs : Preferences)
    (document : MapDocument) (context : RenderContext) (m : MapRenderer) (w : σ)
    (r : MapRenderer × σ) (c : GeometryCollection)
    (h : rebuildGeometryData ops prefs document context m w = some r)
    (hc : collectEntities context.filter m.m_dummyTexture document.entities
      GeometryCollection.empty = some c)
    (hs : m.m_selectedGeometryDataValid = true ∨ c.selectedFaces.isEmpty = true) :
    r.1.m_selectedFaceBlock = (resetGeometry ops m w).1.m_selectedFaceBlock ∧ r.1.m_selectedFaceRenderInfos = (resetGeometry ops m w).1.m_selectedFaceRenderInfos := by
  have hok : ∀ k f, f ∈ allFaces (c.faces k) → 2 ≤ f.vertices.length := by
    obtain ⟨hall, hcc⟩ := collectEntities_some _ _ _ _ hc
    intro k f hf
    rw [hcc] at hf
    exact collected_ok2 _ _ _ hall k f hf
  obtain ⟨a1, a2, m3, b1, b2, m5, h1, h2, h3, h4, h5, h6, hr⟩ :=
    rebuildGeometryData_chain ops prefs document context m w c hc hok
  rw [hr] at h
  have hr2 := Option.some.inj h
  have t1 := writeUnselectedFaces_touches c _ a1 h1
  have t2 := writeSelectedFaces_touches c a1 a2 h2
  have t3 := writeLockedFaces_touches c a2 m3 h3
  have t4 := writeUnselectedEdges_touches prefs c _ b1 h4
  have t5 := writeSelectedEdges_touches prefs c b1 b2 h5
  have t6 := writeLockedEdges_touches prefs c b2 m5 h6
  generalize hw2 : (ops.vboMap VboKind.face (ops.vboActivate VboKind.face
    (resetGeometry ops m w).2)) = w2 at h1 h4 t1 t4 hr2
  have f0 := (flags_eq_iff _ _).1 (resetGeometry_flags ops m w)
  have f2 := (flags_eq_iff _ _).1 (allocFaceBlocks_flags ops c (resetGeometry ops m w).1 w2)
  have u2 := allocFaceBlocks_touches ops c (resetGeometry ops m w).1 w2
  have k2 := allocFaceBlocks_m_selectedFaceBlock_skip ops c (resetGeometry ops m w).1 w2
    (hs.imp (fun x => f0.2.1.trans x) id)
  generalize allocFaceBlocks ops c (resetGeometry ops m w).1 w2 = s2 at h1 h4 t1 t4 f2 u2 k2 hr2
  generalize hw4 : (ops.vboMap VboKind.edge (ops.vboActivate VboKind.edge
    (ops.vboDeactivate VboKind.face (ops.vboUnmap VboKind.face s2.2)))) = w4 at h4 t4 hr2
  have u4 := allocEdgeBlocks_touches ops c m3 w4
  generalize allocEdgeBlocks ops c m3 w4 = s4 at h4 t4 u4 hr2
  have pF : a1.m_selectedGeometryDataValid = s2.1.m_selectedGeometryDataValid := by
    rw [t1]
  have pB : a1.m_selectedFaceBlock = s2.1.m_selectedFaceBlock := by
    rw [t1]
  have pI : a1.m_selectedFaceRenderInfos = s2.1.m_selectedFaceRenderInfos := by
    rw [t1]
  have sI : s2.1.m_selectedFaceRenderInfos = (resetGeometry ops m w).1.m_selectedFaceRenderInfos := by
    rw [u2]
  have hskip := writeSelectedFaces_skip c a1
    (hs.imp (fun x => pF.trans (f2.2.1.trans (f0.2.1.trans x))) id)
  rw [h2] at hskip
  have hpost := Option.some.inj hskip
  have qB : m3.m_selectedFaceBlock = a2.m_selectedFaceBlock := by
    rw [t3]
  have qI : m3.m_selectedFaceRenderInfos = a2.m_selectedFaceRenderInfos := by
    rw [t3]
  have eB : m5.m_selectedFaceBlock = m3.m_selectedFaceBlock := by
    rw [t6, t5, t4, u4]
  have eI : m5.m_selectedFaceRenderInfos = m3.m_selectedFaceRenderInfos := by
    rw [t6, t5, t4, u4]
  rw [← hr2]
  constructor
  · show m5.m_selectedFaceBlock = _
    rw [eB, qB, hpost, pB, k2]
  · show m5.m_selectedFaceRenderInfos = _
    rw [eI, qI, hpost, pI, sI]

theorem rebuildGeometryData_m_selectedFaceBlock_cases {σ : Type} (ops : MapOps σ) (prefs : Preferences)
    (document : MapDocument) (context : RenderContext) (m : MapRenderer) (w : σ)
    (r : MapRenderer × σ) (c : GeometryCollection)
    (h : rebuildGeometryData ops prefs document context m w = some r)
    (hc : collectEntities context.filter m.m_dummyTexture document.entities
      GeometryCollection.empty = some c) :
    (m.m_selectedGeometryDataValid = true → r.1.m_selectedFaceBlock = m.m_selectedFaceBlock ∧ r.1.m_selectedFaceRenderInfos = m.m_selectedFaceRenderInfos) ∧
    (m.m_selectedGeometryDataValid = false → c.selectedFaces.isEmpty = true → r.1.m_selectedFaceBlock = none ∧ r.1.m_selectedFaceRenderInfos = []) ∧
    (m.m_selectedGeometryDataValid = false → c.selectedFaces.isEmpty = false → r.1.m_selectedFaceBlock.isSome = true) := by
  refine ⟨?_, ?_, ?_⟩
  · intro hv
    have hk := rebuildGeometryData_m_selectedFaceBlock_skip ops prefs document context m w r c h hc (Or.inl hv)
    have hv2 := resetGeometry_m_selectedFaceBlock_valid ops m w hv
    exact ⟨hk.1.trans hv2.1, hk.2.trans hv2.2⟩
  · intro hinv he
    have hk := rebuildGeometryData_m_selectedFaceBlock_skip ops prefs document context m w r c h hc (Or.inr he)
    have hv2 := resetGeometry_m_selectedFaceBlock ops m w hinv
    exact ⟨hk.1.trans hv2.1, hk.2.trans hv2.2⟩
  · intro hinv hne
    have hok : ∀ k f, f ∈ allFaces (c.faces k) → 2 ≤ f.vertices.length := by
      obtain ⟨hall, hcc⟩ := collectEntities_some _ _ _ _ hc
      intro k f hf
      rw [hcc] at hf
      exact collected_ok2 _ _ _ hall k f hf
    obtain ⟨r1, b, h1, h2, _⟩ := rebuildGeometryData_m_selectedFaceBlock ops prefs document context m w c hc
      hok hinv hne
    rw [h] at h1
    cases Option.some.inj h1
    rw [h2]
    rfl

theorem rebuildGeometryData_m_lockedFaceBlock_skip {σ : Type} (ops : MapOps σ) (prefs : Preferences)
    (document : MapDocument) (context : RenderContext) (m : MapRenderer) (w : σ)
    (r : MapRenderer × σ) (c : GeometryCollection)
    (h : rebuildGeometryData ops prefs document context m w = some r)
    (hc : collectEntities context.filter m.m_dummyTexture document.entities
      GeometryCollection.empty = some c)
    (hs : m.m_lockedGeometryDataValid = true ∨ c.lockedFaces.isEmpty = true) :
    r.1.m_lockedFaceBlock = (resetGeometry ops m w).1.m_lockedFaceBlock ∧ r.1.m_lockedFaceRenderInfos = (resetGeometry ops m w).1.m_lockedFaceRenderInfos := by
  have hok : ∀ k f, f ∈ allFaces (c.faces k) → 2 ≤ f.vertices.length := by
    obtain ⟨hall, hcc⟩ := collectEntities_some _ _ _ _ hc
    intro k f hf
    rw [hcc] at hf
    exact collected_ok2 _ _ _ hall k f hf
  obtain ⟨a1, a2, m3, b1, b2, m5, h1, h2, h3, h4, h5, h6, hr⟩ :=
    rebuildGeometryData_chain ops prefs document context m w c hc hok
  rw [hr] at h
  have hr2 := Option.some.inj h
  have t1 := writeUnselectedFaces_touches c _ a1 h1
  have t2 := writeSelectedFaces_touches c a1 a2 h2
  have t3 := writeLockedFaces_touches c a2 m3 h3
  have t4 := writeUnselectedEdges_touches prefs c _ b1 h4
  have t5 := writeSelectedEdges_touches prefs c b1 b2 h5
  have t6 := writeLockedEdges_touches prefs c b2 m5 h6
  generalize hw2 : (ops.vboMap VboKind.face (ops.vboActivate VboKind.face
    (resetGeometry ops m w).2)) = w2 at h1 h4 t1 t4 hr2
  have f0 := (flags_eq_iff _ _).1 (resetGeometry_flags ops m w)
  have f2 := (flags_eq_iff _ _).1 (allocFaceBlocks_flags ops c (resetGeometry ops m w).1 w2)
  have u2 := allocFaceBlocks_touches ops c (resetGeometry ops m w).1 w2
  have k2 := allocFaceBlocks_m_lockedFaceBlock_skip ops c (resetGeometry ops m w).1 w2
    (hs.imp (fun x => f0.2.2.1.trans x) id)
  generalize allocFaceBlocks ops c (resetGeometry ops m w).1 w2 = s2 at h1 h4 t1 t4 f2 u2 k2 hr2
  generalize hw4 : (ops.vboMap VboKind.edge (ops.vboActivate VboKind.edge
    (ops.vboDeactivate VboKind.face (ops.vboUnmap VboKind.face s2.2)))) = w4 at h4 t4 hr2
  have u4 := allocEdgeBlocks_touches ops c m3 w4
  generalize allocEdgeBlocks ops c m3 w4 = s4 at h4 t4 u4 hr2
  have pF : a2.m_lockedGeometryDataValid = s2.1.m_lockedGeometryDataValid := by
    rw [t2, t1]
  have pB : a2.m_lockedFaceBlock = s2.1.m_lockedFaceBlock := by
    rw [t2, t1]
  have pI : a2.m_lockedFaceRenderInfos = s2.1.m_lockedFaceRenderInfos := by
    rw [t2, t1]
  have sI : s2.1.m_lockedFaceRenderInfos = (resetGeometry ops m w).1.m_lockedFaceRenderInfos := by
    rw [u2]
  have hskip := writeLockedFaces_skip c a2
    (hs.imp (fun x => pF.trans (f2.2.2.1.trans (f0.2.2.1.trans x))) id)
  rw [h3] at hskip
  have hpost := Option.some.inj hskip
  have qB : m3.m_lockedFaceBlock = m3.m_lockedFaceBlock := by
    rfl
  have qI : m3.m_lockedFaceRenderInfos = m3.m_lockedFaceRenderInfos := by
    rfl
  have eB : m5.m_lockedFaceBlock = m3.m_lockedFaceBlock := by
    rw [t6, t5, t4, u4]
  have eI : m5.m_lockedFaceRenderInfos = m3.m_lockedFaceRenderInfos := by
    rw [t6, t5, t4, u4]
  rw [← hr2]
  constructor
  · show m5.m_lockedFaceBlock = _
    rw [eB, qB, hpost, pB, k2]
  · show m5.m_lockedFaceRenderInfos = _
    rw [eI, qI, hpost, pI, sI]

theorem rebuildGeometryData_m_lockedFaceBlock_cases {σ : Type} (ops : MapOps σ) (prefs : Preferences)
    (document : MapDocument) (context : RenderContext) (m : MapRenderer) (w : σ)
    (r : MapRenderer × σ) (c : GeometryCollection)
    (h : rebuildGeometryData ops prefs document context m w = some r)
    (hc : collectEntities context.filter m.m_dummyTexture document.entities
      GeometryCollection.empty = some c) :
    (m.m_lockedGeometryDataValid = true → r.1.m_lockedFaceBlock = m.m_lockedFaceBlock ∧ r.1.m_lockedFaceRenderInfos = m.m_lockedFaceRenderInfos) ∧
    (m.m_lockedGeometryDataValid = false → c.lockedFaces.isEmpty = true → r.1.m_lockedFaceBlock = none ∧ r.1.m_lockedFaceRenderInfos = []) ∧
    (m.m_lockedGeometryDataValid = false → c.lockedFaces.isEmpty = false → r.1.m_lockedFaceBlock.isSome = true) := by
  refine ⟨?_, ?_, ?_⟩
  · intro hv
    have hk := rebuildGeometryData_m_lockedFaceBlock_skip ops prefs document context m w r c h hc (Or.inl hv)
    have hv2 := resetGeometry_m_lockedFaceBlock_valid ops m w hv
    exact ⟨hk.1.trans hv2.1, hk.2.trans hv2.2⟩
  · intro hinv he
    have hk := rebuildGeometryData_m_lockedFaceBlock_skip ops prefs document context m w r c h hc (Or.inr he)
    have hv2 := resetGeometry_m_lockedFaceBlock ops m w hinv
    exact ⟨hk.1.trans hv2.1, hk.2.trans hv2.2⟩
  · intro hinv hne
    have hok : ∀ k f, f ∈ allFaces (c.faces k) → 2 ≤ f.vertices.length := by
      obtain ⟨hall, hcc⟩ := collectEntities_some _ _ _ _ hc
      intro k f hf
      rw [hcc] at hf
      exact collected_ok2 _ _ _ hall k f hf
    obtain ⟨r1, b, h1, h2, _⟩ := rebuildGeometryData_m_lockedFaceBlock ops prefs document context m w c hc
      hok hinv hne
    rw [h] at h1
    cases Option.some.inj h1
    rw [h2]
    rfl

theorem rebuildGeometryData_m_edgeBlock_skip {σ : Type} (ops : MapOps σ) (prefs : Preferences)
    (document : MapDocument) (context : RenderContext) (m : MapRenderer) (w : σ)
    (r : MapRenderer × σ) (c : GeometryCollection)
    (h : rebuildGeometryData ops prefs document context m w = some r)
    (hc : collectEntities context.filter m.m_dummyTexture document.entities
      GeometryCollection.empty = some c)
    (hs : m.m_geometryDataValid = true ∨ (!c.unselectedBrushes.isEmpty) = false) :
    r.1.m_edgeBlock = (resetGeometry ops m w).1.m_edgeBlock ∧ r.1.m_edgeRenderInfo = (resetGeometry ops m w).1.m_edgeRenderInfo := by
  have hok : ∀ k f, f ∈ allFaces (c.faces k) → 2 ≤ f.vertices.length := by
    obtain ⟨hall, hcc⟩ := collectEntities_some _ _ _ _ hc
    intro k f hf
    rw [hcc] at hf
    exact collected_ok2 _ _ _ hall k f hf
  obtain ⟨a1, a2, m3, b1, b2, m5, h1, h2, h3, h4, h5, h6, hr⟩ :=
    rebuildGeometryData_chain ops prefs document context m w c hc hok
  rw [hr] at h
  have hr2 := Option.some.inj h
  have t1 := writeUnselectedFaces_touches c _ a1 h1
  have t2 := writeSelectedFaces_touches c a1 a2 h2
  have t3 := writeLockedFaces_touches c a2 m3 h3
  have t4 := writeUnselectedEdges_touches prefs c _ b1 h4
  have t5 := writeSelectedEdges_touches prefs c b1 b2 h5
  have t6 := writeLockedEdges_touches prefs c b2 m5 h6
  generalize hw2 : (ops.vboMap VboKind.face (ops.vboActivate VboKind.face
    (resetGeometry ops m w).2)) = w2 at h1 h4 t1 t4 hr2
  have f0 := (flags_eq_iff _ _).1 (resetGeometry_flags ops m w)
  have f2 := (flags_eq_iff _ _).1 (allocFaceBlocks_flags ops c (resetGeometry ops m w).1 w2)
  have u2 := allocFaceBlocks_touches ops c (resetGeometry ops m w).1 w2
  generalize allocFaceBlocks ops c (resetGeometry ops m w).1 w2 = s2 at h1 h4 t1 t4 f2 u2 hr2
  generalize hw4 : (ops.vboMap VboKind.edge (ops.vboActivate VboKind.edge
    (ops.vboDeactivate VboKind.face (ops.vboUnmap VboKind.face s2.2)))) = w4 at h4 t4 hr2
  have f4 := (flags_eq_iff _ _).1 (allocEdgeBlocks_flags ops c m3 w4)
  have u4 := allocEdgeBlocks_touches ops c m3 w4
  have g3 : m3.m_geometryDataValid = m.m_geometryDataValid := by
    rw [t3, t2, t1]
    exact f2.1.trans f0.1
  have b3 : m3.m_edgeBlock = (resetGeometry ops m w).1.m_edgeBlock := by
    rw [t3, t2, t1, u2]
  have i3 : m3.m_edgeRenderInfo = (resetGeometry ops m w).1.m_edgeRenderInfo := by
    rw [t3, t2, t1, u2]
  have k4 := allocEdgeBlocks_m_edgeBlock_skip ops c m3 w4 (hs.imp (fun x => g3.trans x) id)
  generalize allocEdgeBlocks ops c m3 w4 = s4 at h4 t4 f4 u4 k4 hr2
  have pF : s4.1.m_geometryDataValid = s4.1.m_geometryDataValid := by
    rfl
  have pB : s4.1.m_edgeBlock = s4.1.m_edgeBlock := by
    rfl
  have pI : s4.1.m_edgeRenderInfo = s4.1.m_edgeRenderInfo := by
    rfl
  have sI : s4.1.m_edgeRenderInfo = m3.m_edgeRenderInfo := by
    rw [u4]
  have hskip := writeUnselectedEdges_skip prefs c s4.1
    (hs.imp (fun x => pF.trans (f4.1.trans (g3.trans x))) id)
  rw [h4] at hskip
  have hpost := Option.some.inj hskip
  have qB : m5.m_edgeBlock = b1.m_edgeBlock := by
    rw [t6, t5]
  have qI : m5.m_edgeRenderInfo = b1.m_edgeRenderInfo := by
    rw [t6, t5]
  rw [← hr2]
  constructor
  · show m5.m_edgeBlock = _
    rw [qB, hpost, pB, k4, b3]
  · show m5.m_edgeRenderInfo = _
    rw [qI, hpost, pI, sI, i3]

theorem rebuildGeometryData_m_edgeBlock_run {σ : Type} (ops : MapOps σ) (prefs : Preferences)
    (document : MapDocument) (context : RenderContext) (m : MapRenderer) (w : σ)
    (r : MapRenderer × σ) (c : GeometryCollection)
    (h : rebuildGeometryData ops prefs document context m w = some r)
    (hc : collectEntities context.filter m.m_dummyTexture document.entities
      GeometryCollection.empty = some c)
    (hinv : m.m_geometryDataValid = false) (hne : (!c.unselectedBrushes.isEmpty) = true) :
    ∃ b, r.1.m_edgeBlock = some (writeEdgeData prefs c.unselectedBrushes [] ⟨0, 0⟩ b).2 ∧
      b.capacity = u32 (c.totalUnselectedEdgeVertexCount * EdgeVertexSize) ∧ b.writes = [] ∧
      r.1.m_edgeRenderInfo = (writeEdgeData prefs c.unselectedBrushes [] ⟨0, 0⟩ b).1 := by
  have hok : ∀ k f, f ∈ allFaces (c.faces k) → 2 ≤ f.vertices.length := by
    obtain ⟨hall, hcc⟩ := collectEntities_some _ _ _ _ hc
    intro k f hf
    rw [hcc] at hf
    exact collected_ok2 _ _ _ hall k f hf
  obtain ⟨a1, a2, m3, b1, b2, m5, h1, h2, h3, h4, h5, h6, hr⟩ :=
    rebuildGeometryData_chain ops prefs document context m w c hc hok
  rw [hr] at h
  have hr2 := Option.some.inj h
  have t1 := writeUnselectedFaces_touches c _ a1 h1
  have t2 := writeSelectedFaces_touches c a1 a2 h2
  have t3 := writeLockedFaces_touches c a2 m3 h3
  have t4 := writeUnselectedEdges_touches prefs c _ b1 h4
  have t5 := writeSelectedEdges_touches prefs c b1 b2 h5
  have t6 := writeLockedEdges_touches prefs c b2 m5 h6
  generalize hw2 : (ops.vboMap VboKind.face (ops.vboActivate VboKind.face
    (resetGeometry ops m w).2)) = w2 at h1 h4 t1 t4 hr2
  have f0 := (flags_eq_iff _ _).1 (resetGeometry_flags ops m w)
  have f2 := (flags_eq_iff _ _).1 (allocFaceBlocks_flags ops c (resetGeometry ops m w).1 w2)
  have u2 := allocFaceBlocks_touches ops c (resetGeometry ops m w).1 w2
  generalize allocFaceBlocks ops c (resetGeometry ops m w).1 w2 = s2 at h1 h4 t1 t4 f2 u2 hr2
  generalize hw4 : (ops.vboMap VboKind.edge (ops.vboActivate VboKind.edge
    (ops.vboDeactivate VboKind.face (ops.vboUnmap VboKind.face s2.2)))) = w4 at h4 t4 hr2
  have f4 := (flags_eq_iff _ _).1 (allocEdgeBlocks_flags ops c m3 w4)
  have u4 := allocEdgeBlocks_touches ops c m3 w4
  have g3 : m3.m_geometryDataValid = m.m_geometryDataValid := by
    rw [t3, t2, t1]
    exact f2.1.trans f0.1
  have b3 : m3.m_edgeBlock = (resetGeometry ops m w).1.m_edgeBlock := by
    rw [t3, t2, t1, u2]
  have i3 : m3.m_edgeRenderInfo = (resetGeometry ops m w).1.m_edgeRenderInfo := by
    rw [t3, t2, t1, u2]
  obtain ⟨a, ha⟩ := allocEdgeBlocks_m_edgeBlock ops c m3 w4 (g3.trans hinv) hne
  generalize allocEdgeBlocks ops c m3 w4 = s4 at h4 t4 f4 u4 ha hr2
  have pF : s4.1.m_geometryDataValid = s4.1.m_geometryDataValid := by
    rfl
  have pB : s4.1.m_edgeBlock = s4.1.m_edgeBlock := by
    rfl
  have pI : s4.1.m_edgeRenderInfo = s4.1.m_edgeRenderInfo := by
    rfl
  have sI : s4.1.m_edgeRenderInfo = m3.m_edgeRenderInfo := by
    rw [u4]
  have r0 := resetGeometry_m_edgeBlock ops m w hinv
  have hrun := writeUnselectedEdges_run prefs c s4.1 _
    (pF.trans (f4.1.trans (g3.trans hinv))) hne (pB.trans ha)
  rw [h4] at hrun
  have hpost := Option.some.inj hrun
  have qB : m5.m_edgeBlock = b1.m_edgeBlock := by
    rw [t6, t5]
  have qI : m5.m_edgeRenderInfo = b1.m_edgeRenderInfo := by
    rw [t6, t5]
  have hI : s4.1.m_edgeRenderInfo = ⟨0, 0⟩ := by
    rw [pI, sI, i3]
    exact r0.2
  rw [← hr2]
  refine ⟨⟨a, u32 (c.totalUnselectedEdgeVertexCount * EdgeVertexSize), []⟩, ?_, rfl, rfl, ?_⟩
  · show m5.m_edgeBlock = _
    rw [qB, hpost]
    show some (writeEdgeData prefs c.unselectedBrushes [] s4.1.m_edgeRenderInfo _).2 = _
    rw [hI]
  · show m5.m_edgeRenderInfo = _
    rw [qI, hpost]
    show (writeEdgeData prefs c.unselectedBrushes [] s4.1.m_edgeRenderInfo _).1 = _
    rw [hI]

theorem rebuildGeometryData_m_edgeBlock_cases {σ : Type} (ops : MapOps σ) (prefs : Preferences)
    (document : MapDocument) (context : RenderContext) (m : MapRenderer) (w : σ)
    (r : MapRenderer × σ) (c : GeometryCollection)
    (h : rebuildGeometryData ops prefs document context m w = some r)
    (hc : collectEntities context.filter m.m_dummyTexture document.entities
      GeometryCollection.empty = some c) :
    (m.m_geometryDataValid = true → r.1.m_edgeBlock = m.m_edgeBlock ∧ r.1.m_edgeRenderInfo = m.m_edgeRenderInfo) ∧
    (m.m_geometryDataValid = false → (!c.unselectedBrushes.isEmpty) = false → r.1.m_edgeBlock = none ∧ r.1.m_edgeRenderInfo = ⟨0, 0⟩) ∧
    (m.m_geometryDataValid = false → (!c.unselectedBrushes.isEmpty) = true → r.1.m_edgeBlock.isSome = true) := by
  refine ⟨?_, ?_, ?_⟩
  · intro hv
    have hk := rebuildGeometryData_m_edgeBlock_skip ops prefs document context m w r c h hc (Or.inl hv)
    have hv2 := resetGeometry_m_edgeBlock_valid ops m w hv
    exact ⟨hk.1.trans hv2.1, hk.2.trans hv2.2⟩
  · intro hinv he
    have hk := rebuildGeometryData_m_edgeBlock_skip ops prefs document context m w r c h hc (Or.inr he)
    have hv2 := resetGeometry_m_edgeBlock ops m w hinv
    exact ⟨hk.1.trans hv2.1, hk.2.trans hv2.2⟩
  · intro hinv hne
    obtain ⟨b, hb, _⟩ := rebuildGeometryData_m_edgeBlock_run ops prefs document context m w r c h hc
      hinv hne
    rw [hb]
    rfl

theorem rebuildGeometryData_m_selectedEdgeBlock_skip {σ : Type} (ops : MapOps σ) (prefs : Preferences)
    (document : MapDocument) (context : RenderContext) (m : MapRenderer) (w : σ)
    (r : MapRenderer × σ) (c : GeometryCollection)
    (h : rebuildGeometryData ops prefs document context m w = some r)
    (hc : collectEntities context.filter m.m_dummyTexture document.entities
      GeometryCollection.empty = some c)
    (hs : m.m_selectedGeometryDataValid = true ∨ ((!c.selectedBrushes.isEmpty || !c.partiallySelectedBrushFaces.isEmpty)) = false) :
    r.1.m_selectedEdgeBlock = (resetGeometry ops m w).1.m_selectedEdgeBlock ∧ r.1.m_selectedEdgeRenderInfo = (resetGeometry ops m w).1.m_selectedEdgeRenderInfo := by
  have hok : ∀ k f, f ∈ allFaces (c.faces k) → 2 ≤ f.vertices.length := by
    obtain ⟨hall, hcc⟩ := collectEntities_some _ _ _ _ hc
    intro k f hf
    rw [hcc] at hf
    exact collected_ok2 _ _ _ hall k f hf
  obtain ⟨a1, a2, m3, b1, b2, m5, h1, h2, h3, h4, h5, h6, hr⟩ :=
    rebuildGeometryData_chain ops prefs document context m w c hc hok
  rw [hr] at h
  have hr2 := Option.some.inj h
  have t1 := writeUnselectedFaces_touches c _ a1 h1
  have t2 := writeSelectedFaces_touches c a1 a2 h2
  have t3 := writeLockedFaces_touches c a2 m3 h3
  have t4 := writeUnselectedEdges_touches prefs c _ b1 h4
  have t5 := writeSelectedEdges_touches prefs c b1 b2 h5
  have t6 := writeLockedEdges_touches prefs c b2 m5 h6
  generalize hw2 : (ops.vboMap VboKind.face (ops.vboActivate VboKind.face
    (resetGeometry ops m w).2)) = w2 at h1 h4 t1 t4 hr2
  have f0 := (flags_eq_iff _ _).1 (resetGeometry_flags ops m w)
  have f2 := (flags_eq_iff _ _).1 (allocFaceBlocks_flags ops c (resetGeometry ops m w).1 w2)
  have u2 := allocFaceBlocks_touches ops c (resetGeometry ops m w).1 w2
  generalize allocFaceBlocks ops c (resetGeometry ops m w).1 w2 = s2 at h1 h4 t1 t4 f2 u2 hr2
  generalize hw4 : (ops.vboMap VboKind.edge (ops.vboActivate VboKind.edge
    (ops.vboDeactivate VboKind.face (ops.vboUnmap VboKind.face s2.2)))) = w4 at h4 t4 hr2
  have f4 := (flags_eq_iff _ _).1 (allocEdgeBlocks_flags ops c m3 w4)
  have u4 := allocEdgeBlocks_touches ops c m3 w4
  have g3 : m3.m_selectedGeometryDataValid = m.m_selectedGeometryDataValid := by
    rw [t3, t2, t1]
    exact f2.2.1.trans f0.2.1
  have b3 : m3.m_selectedEdgeBlock = (resetGeometry ops m w).1.m_selectedEdgeBlock := by
    rw [t3, t2, t1, u2]
  have i3 : m3.m_selectedEdgeRenderInfo = (resetGeometry ops m w).1.m_selectedEdgeRenderInfo := by
    rw [t3, t2, t1, u2]
  have k4 := allocEdgeBlocks_m_selectedEdgeBlock_skip ops c m3 w4 (hs.imp (fun x => g3.trans x) id)
  generalize allocEdgeBlocks ops c m3 w4 = s4 at h4 t4 f4 u4 k4 hr2
  have pF : b1.m_selectedGeometryDataValid = s4.1.m_selectedGeometryDataValid := by
    rw [t4]
  have pB : b1.m_selectedEdgeBlock = s4.1.m_selectedEdgeBlock := by
    rw [t4]
  have pI : b1.m_selectedEdgeRenderInfo = s4.1.m_selectedEdgeRenderInfo := by
    rw [t4]
  have sI : s4.1.m_selectedEdgeRenderInfo = m3.m_selectedEdgeRenderInfo := by
    rw [u4]
  have hskip := writeSelectedEdges_skip prefs c b1
    (hs.imp (fun x => pF.trans (f4.2.1.trans (g3.trans x))) id)
  rw [h5] at hskip
  have hpost := Option.some.inj hskip
  have qB : m5.m_selectedEdgeBlock = b2.m_selectedEdgeBlock := by
    rw [t6]
  have qI : m5.m_selectedEdgeRenderInfo = b2.m_selectedEdgeRenderInfo := by
    rw [t6]
  rw [← hr2]
  constructor
  · show m5.m_selectedEdgeBlock = _
    rw [qB, hpost, pB, k4, b3]
  · show m5.m_selectedEdgeRenderInfo = _
    rw [qI, hpost, pI, sI, i3]

theorem rebuildGeometryData_m_selectedEdgeBlock_run {σ : Type} (ops : MapOps σ) (prefs : Preferences)
    (document : MapDocument) (context : RenderContext) (m : MapRenderer) (w : σ)
    (r : MapRenderer × σ) (c : GeometryCollection)
    (h : rebuildGeometryData ops prefs document context m w = some r)
    (hc : collectEntities context.filter m.m_dummyTexture document.entities
      GeometryCollection.empty = some c)
    (hinv : m.m_selectedGeometryDataValid = false) (hne : ((!c.selectedBrushes.isEmpty || !c.partiallySelectedBrushFaces.isEmpty)) = true) :
    ∃ b, r.1.m_selectedEdgeBlock = some (writeEdgeData prefs c.selectedBrushes c.partiallySelectedBrushFaces ⟨0, 0⟩ b).2 ∧
      b.capacity = u32 (c.totalSelectedEdgeVertexCount * EdgeVertexSize) ∧ b.writes = [] ∧
      r.1.m_selectedEdgeRenderInfo = (writeEdgeData prefs c.selectedBrushes c.partiallySelectedBrushFaces ⟨0, 0⟩ b).1 := by
  have hok : ∀ k f, f ∈ allFaces (c.faces k) → 2 ≤ f.vertices.length := by
    obtain ⟨hall, hcc⟩ := collectEntities_some _ _ _ _ hc
    intro k f hf
    rw [hcc] at hf
    exact collected_ok2 _ _ _ hall k f hf
  obtain ⟨a1, a2, m3, b1, b2, m5, h1, h2, h3, h4, h5, h6, hr⟩ :=
    rebuildGeometryData_chain ops prefs document context m w c hc hok
  rw [hr] at h
  have hr2 := Option.some.inj h
  have t1 := writeUnselectedFaces_touches c _ a1 h1
  have t2 := writeSelectedFaces_touches c a1 a2 h2
  have t3 := writeLockedFaces_touches c a2 m3 h3
  have t4 := writeUnselectedEdges_touches prefs c _ b1 h4
  have t5 := writeSelectedEdges_touches prefs c b1 b2 h5
  have t6 := writeLockedEdges_touches prefs c b2 m5 h6
  generalize hw2 : (ops.vboMap VboKind.face (ops.vboActivate VboKind.face
    (resetGeometry ops m w).2)) = w2 at h1 h4 t1 t4 hr2
  have f0 := (flags_eq_iff _ _).1 (resetGeometry_flags ops m w)
  have f2 := (flags_eq_iff _ _).1 (allocFaceBlocks_flags ops c (resetGeometry ops m w).1 w2)
  have u2 := allocFaceBlocks_touches ops c (resetGeometry ops m w).1 w2
  generalize allocFaceBlocks ops c (resetGeometry ops m w).1 w2 = s2 at h1 h4 t1 t4 f2 u2 hr2
  generalize hw4 : (ops.vboMap VboKind.edge (ops.vboActivate VboKind.edge
    (ops.vboDeactivate VboKind.face (ops.vboUnmap VboKind.face s2.2)))) = w4 at h4 t4 hr2
  have f4 := (flags_eq_iff _ _).1 (allocEdgeBlocks_flags ops c m3 w4)
  have u4 := allocEdgeBlocks_touches ops c m3 w4
  have g3 : m3.m_selectedGeometryDataValid = m.m_selectedGeometryDataValid := by
    rw [t3, t2, t1]
    exact f2.2.1.trans f0.2.1
  have b3 : m3.m_selectedEdgeBlock = (resetGeometry ops m w).1.m_selectedEdgeBlock := by
    rw [t3, t2, t1, u2]
  have i3 : m3.m_selectedEdgeRenderInfo = (resetGeometry ops m w).1.m_selectedEdgeRenderInfo := by
    rw [t3, t2, t1, u2]
  obtain ⟨a, ha⟩ := allocEdgeBlocks_m_selectedEdgeBlock ops c m3 w4 (g3.trans hinv) hne
  generalize allocEdgeBlocks ops c m3 w4 = s4 at h4 t4 f4 u4 ha hr2
  have pF : b1.m_selectedGeometryDataValid = s4.1.m_selectedGeometryDataValid := by
    rw [t4]
  have pB : b1.m_selectedEdgeBlock = s4.1.m_selectedEdgeBlock := by
    rw [t4]
  have pI : b1.m_selectedEdgeRenderInfo = s4.1.m_selectedEdgeRenderInfo := by
    rw [t4]
  have sI : s4.1.m_selectedEdgeRenderInfo = m3.m_selectedEdgeRenderInfo := by
    rw [u4]
  have r0 := resetGeometry_m_selectedEdgeBlock ops m w hinv
  have hrun := writeSelectedEdges_run prefs c b1 _
    (pF.trans (f4.2.1.trans (g3.trans hinv))) hne (pB.trans ha)
  rw [h5] at hrun
  have hpost := Option.some.inj hrun
  have qB : m5.m_selectedEdgeBlock = b2.m_selectedEdgeBlock := by
    rw [t6]
  have qI : m5.m_selectedEdgeRenderInfo = b2.m_selectedEdgeRenderInfo := by
    rw [t6]
  have hI : b1.m_selectedEdgeRenderInfo = ⟨0, 0⟩ := by
    rw [pI, sI, i3]
    exact r0.2
  rw [← hr2]
  refine ⟨⟨a, u32 (c.totalSelectedEdgeVertexCount * EdgeVertexSize), []⟩, ?_, rfl, rfl, ?_⟩
  · show m5.m_selectedEdgeBlock = _
    rw [qB, hpost]
    show some (writeEdgeData prefs c.selectedBrushes c.partiallySelectedBrushFaces b1.m_selectedEdgeRenderInfo _).2 = _
    rw [hI]
  · show m5.m_selectedEdgeRenderInfo = _
    rw [qI, hpost]
    show (writeEdgeData prefs c.selectedBrushes c.partiallySelectedBrushFaces b1.m_selectedEdgeRenderInfo _).1 = _
    rw [hI]

theorem rebuildGeometryData_m_selectedEdgeBlock_cases {σ : Type} (ops : MapOps σ) (prefs : Preferences)
    (document : MapDocument) (context : RenderContext) (m : MapRenderer) (w : σ)
    (r : MapRenderer × σ) (c : GeometryCollection)
    (h : rebuildGeometryData ops prefs document context m w = some r)
    (hc : collectEntities context.filter m.m_dummyTexture document.entities
      GeometryCollection.empty = some c) :
    (m.m_selectedGeometryDataValid = true → r.1.m_selectedEdgeBlock = m.m_selectedEdgeBlock ∧ r.1.m_selectedEdgeRenderInfo = m.m_selectedEdgeRenderInfo) ∧
    (m.m_selectedGeometryDataValid = false → ((!c.selectedBrushes.isEmpty || !c.partiallySelectedBrushFaces.isEmpty)) = false → r.1.m_selectedEdgeBlock = none ∧ r.1.m_selectedEdgeRenderInfo = ⟨0, 0⟩) ∧
    (m.m_selectedGeometryDataValid = false → ((!c.selectedBrushes.isEmpty || !c.partiallySelectedBrushFaces.isEmpty)) = true → r.1.m_selectedEdgeBlock.isSome = true) := by
  refine ⟨?_, ?_, ?_⟩
  · intro hv
    have hk := rebuildGeometryData_m_selectedEdgeBlock_skip ops prefs document context m w r c h hc (Or.inl hv)
    have hv2 := resetGeometry_m_selectedEdgeBlock_valid ops m w hv
    exact ⟨hk.1.trans hv2.1, hk.2.trans hv2.2⟩
  · intro hinv he
    have hk := rebuildGeometryData_m_selectedEdgeBlock_skip ops prefs document context m w r c h hc (Or.inr he)
    have hv2 := resetGeometry_m_selectedEdgeBlock ops m w hinv
    exact ⟨hk.1.trans hv2.1, hk.2.trans hv2.2⟩
  · intro hinv hne
    obtain ⟨b, hb, _⟩ := rebuildGeometryData_m_selectedEdgeBlock_run ops prefs document context m w r c h hc
      hinv hne
    rw [hb]
    rfl

theorem rebuildGeometryData_m_lockedEdgeBlock_skip {σ : Type} (ops : MapOps σ) (prefs : Preferences)
    (document : MapDocument) (context : RenderContext) (m : MapRenderer) (w : σ)
    (r : MapRenderer × σ) (c : GeometryCollection)
    (h : rebuildGeometryData ops prefs document context m w = some r)
    (hc : collectEntities context.filter m.m_dummyTexture document.entities
      GeometryCollection.empty = some c)
    (hs : m.m_lockedGeometryDataValid = true ∨ (!c.lockedBrushes.isEmpty) = false) :
    r.1.m_lockedEdgeBlock = (resetGeometry ops m w).1.m_lockedEdgeBlock ∧ r.1.m_lockedEdgeRenderInfo = (resetGeometry ops m w).1.m_lockedEdgeRenderInfo := by
  have hok : ∀ k f, f ∈ allFaces (c.faces k) → 2 ≤ f.vertices.length := by
    obtain ⟨hall, hcc⟩ := collectEntities_some _ _ _ _ hc
    intro k f hf
    rw [hcc] at hf
    exact collected_ok2 _ _ _ hall k f hf
  obtain ⟨a1, a2, m3, b1, b2, m5, h1, h2, h3, h4, h5, h6, hr⟩ :=
    rebuildGeometryData_chain ops prefs document context m w c hc hok
  rw [hr] at h
  have hr2 := Option.some.inj h
  have t1 := writeUnselectedFaces_touches c _ a1 h1
  have t2 := writeSelectedFaces_touches c a1 a2 h2
  have t3 := writeLockedFaces_touches c a2 m3 h3
  have t4 := writeUnselectedEdges_touches prefs c _ b1 h4
  have t5 := writeSelectedEdges_touches prefs c b1 b2 h5
  have t6 := writeLockedEdges_touches prefs c b2 m5 h6
  generalize hw2 : (ops.vboMap VboKind.face (ops.vboActivate VboKind.face
    (resetGeometry ops m w).2)) = w2 at h1 h4 t1 t4 hr2
  have f0 := (flags_eq_iff _ _).1 (resetGeometry_flags ops m w)
  have f2 := (flags_eq_iff _ _).1 (allocFaceBlocks_flags ops c (resetGeometry ops m w).1 w2)
  have u2 := allocFaceBlocks_touches ops c (resetGeometry ops m w).1 w2
  generalize allocFaceBlocks ops c (resetGeometry ops m w).1 w2 = s2 at h1 h4 t1 t4 f2 u2 hr2
  generalize hw4 : (ops.vboMap VboKind.edge (ops.vboActivate VboKind.edge
    (ops.vboDeactivate VboKind.face (ops.vboUnmap VboKind.face s2.2)))) = w4 at h4 t4 hr2
  have f4 := (flags_eq_iff _ _).1 (allocEdgeBlocks_flags ops c m3 w4)
  have u4 := allocEdgeBlocks_touches ops c m3 w4
  have g3 : m3.m_lockedGeometryDataValid = m.m_lockedGeometryDataValid := by
    rw [t3, t2, t1]
    exact f2.2.2.1.trans f0.2.2.1
  have b3 : m3.m_lockedEdgeBlock = (resetGeometry ops m w).1.m_lockedEdgeBlock := by
    rw [t3, t2, t1, u2]
  have i3 : m3.m_lockedEdgeRenderInfo = (resetGeometry ops m w).1.m_lockedEdgeRenderInfo := by
    rw [t3, t2, t1, u2]
  have k4 := allocEdgeBlocks_m_lockedEdgeBlock_skip ops c m3 w4 (hs.imp (fun x => g3.trans x) id)
  generalize allocEdgeBlocks ops c m3 w4 = s4 at h4 t4 f4 u4 k4 hr2
  have pF : b2.m_lockedGeometryDataValid = s4.1.m_lockedGeometryDataValid := by
    rw [t5, t4]
  have pB : b2.m_lockedEdgeBlock = s4.1.m_lockedEdgeBlock := by
    rw [t5, t4]
  have pI : b2.m_lockedEdgeRenderInfo = s4.1.m_lockedEdgeRenderInfo := by
    rw [t5, t4]
  have sI : s4.1.m_lockedEdgeRenderInfo = m3.m_lockedEdgeRenderInfo := by
    rw [u4]
  have hskip := writeLockedEdges_skip prefs c b2
    (hs.imp (fun x => pF.trans (f4.2.2.1.trans (g3.trans x))) id)
  rw [h6] at hskip
  have hpost := Option.some.inj hskip
  have qB : m5.m_lockedEdgeBlock = m5.m_lockedEdgeBlock := by
    rfl
  have qI : m5.m_lockedEdgeRenderInfo = m5.m_lockedEdgeRenderInfo := by
    rfl
  rw [← hr2]
  constructor
  · show m5.m_lockedEdgeBlock = _
    rw [qB, hpost, pB, k4, b3]
  · show m5.m_lockedEdgeRenderInfo = _
    rw [qI, hpost, pI, sI, i3]

theorem rebuildGeometryData_m_lockedEdgeBlock_run {σ : Type} (ops : MapOps σ) (prefs : Preferences)
    (document : MapDocument) (context : RenderContext) (m : MapRenderer) (w : σ)
    (r : MapRenderer × σ) (c : GeometryCollection)
    (h : rebuildGeometryData ops prefs document context m w = some r)
    (hc : collectEntities context.filter m.m_dummyTexture document.entities
      GeometryCollection.empty = some c)
    (hinv : m.m_lockedGeometryDataValid = false) (hne : (!c.lockedBrushes.isEmpty) = true) :
    ∃ b, r.1.m_lockedEdgeBlock = some (writeEdgeData prefs c.lockedBrushes [] ⟨0, 0⟩ b).2 ∧
      b.capacity = u32 (c.totalLockedEdgeVertexCount * EdgeVertexSize) ∧ b.writes = [] ∧
      r.1.m_lockedEdgeRenderInfo = (writeEdgeData prefs c.lockedBrushes [] ⟨0, 0⟩ b).1 := by
  have hok : ∀ k f, f ∈ allFaces (c.faces k) → 2 ≤ f.vertices.length := by
    obtain ⟨hall, hcc⟩ := collectEntities_some _ _ _ _ hc
    intro k f hf
    rw [hcc] at hf
    exact collected_ok2 _ _ _ hall k f hf
  obtain ⟨a1, a2, m3, b1, b2, m5, h1, h2, h3, h4, h5, h6, hr⟩ :=
    rebuildGeometryData_chain ops prefs document context m w c hc hok
  rw [hr] at h
  have hr2 := Option.some.inj h
  have t1 := writeUnselectedFaces_touches c _ a1 h1
  have t2 := writeSelectedFaces_touches c a1 a2 h2
  have t3 := writeLockedFaces_touches c a2 m3 h3
  have t4 := writeUnselectedEdges_touches prefs c _ b1 h4
  have t5 := writeSelectedEdges_touches prefs c b1 b2 h5
  have t6 := writeLockedEdges_touches prefs c b2 m5 h6
  generalize hw2 : (ops.vboMap VboKind.face (ops.vboActivate VboKind.face
    (resetGeometry ops m w).2)) = w2 at h1 h4 t1 t4 hr2
  have f0 := (flags_eq_iff _ _).1 (resetGeometry_flags ops m w)
  have f2 := (flags_eq_iff _ _).1 (allocFaceBlocks_flags ops c (resetGeometry ops m w).1 w2)
  have u2 := allocFaceBlocks_touches ops c (resetGeometry ops m w).1 w2
  generalize allocFaceBlocks ops c (resetGeometry ops m w).1 w2 = s2 at h1 h4 t1 t4 f2 u2 hr2
  generalize hw4 : (ops.vboMap VboKind.edge (ops.vboActivate VboKind.edge
    (ops.vboDeactivate VboKind.face (ops.vboUnmap VboKind.face s2.2)))) = w4 at h4 t4 hr2
  have f4 := (flags_eq_iff _ _).1 (allocEdgeBlocks_flags ops c m3 w4)
  have u4 := allocEdgeBlocks_touches ops c m3 w4
  have g3 : m3.m_lockedGeometryDataValid = m.m_lockedGeometryDataValid := by
    rw [t3, t2, t1]
    exact f2.2.2.1.trans f0.2.2.1
  have b3 : m3.m_lockedEdgeBlock = (resetGeometry ops m w).1.m_lockedEdgeBlock := by
    rw [t3, t2, t1, u2]
  have i3 : m3.m_lockedEdgeRenderInfo = (resetGeometry ops m w).1.m_lockedEdgeRenderInfo := by
    rw [t3, t2, t1, u2]
  obtain ⟨a, ha⟩ := allocEdgeBlocks_m_lockedEdgeBlock ops c m3 w4 (g3.trans hinv) hne
  generalize allocEdgeBlocks ops c m3 w4 = s4 at h4 t4 f4 u4 ha hr2
  have pF : b2.m_lockedGeometryDataValid = s4.1.m_lockedGeometryDataValid := by
    rw [t5, t4]
  have pB : b2.m_lockedEdgeBlock = s4.1.m_lockedEdgeBlock := by
    rw [t5, t4]
  have pI : b2.m_lockedEdgeRenderInfo = s4.1.m_lockedEdgeRenderInfo := by
    rw [t5, t4]
  have sI : s4.1.m_lockedEdgeRenderInfo = m3.m_lockedEdgeRenderInfo := by
    rw [u4]
  have r0 := resetGeometry_m_lockedEdgeBlock ops m w hinv
  have hrun := writeLockedEdges_run prefs c b2 _
    (pF.trans (f4.2.2.1.trans (g3.trans hinv))) hne (pB.trans ha)
  rw [h6] at hrun
  have hpost := Option.some.inj hrun
  have qB : m5.m_lockedEdgeBlock = m5.m_lockedEdgeBlock := by
    rfl
  have qI : m5.m_lockedEdgeRenderInfo = m5.m_lockedEdgeRenderInfo := by
    rfl
  have hI : b2.m_lockedEdgeRenderInfo = ⟨0, 0⟩ := by
    rw [pI, sI, i3]
    exact r0.2
  rw [← hr2]
  refine ⟨⟨a, u32 (c.totalLockedEdgeVertexCount * EdgeVertexSize), []⟩, ?_, rfl, rfl, ?_⟩
  · show m5.m_lockedEdgeBlock = _
    rw [qB, hpost]
    show some (writeEdgeData prefs c.lockedBrushes [] b2.m_lockedEdgeRenderInfo _).2 = _
    rw [hI]
  · show m5.m_lockedEdgeRenderInfo = _
    rw [qI, hpost]
    show (writeEdgeData prefs c.lockedBrushes [] b2.m_lockedEdgeRenderInfo _).1 = _
    rw [hI]

theorem rebuildGeometryData_m_lockedEdgeBlock_cases {σ : Type} (ops : MapOps σ) (prefs : Preferences)
    (document : MapDocument) (context : RenderContext) (m : MapRenderer) (w : σ)
    (r : MapRenderer × σ) (c : GeometryCollection)
    (h : rebuildGeometryData ops prefs document context m w = some r)
    (hc : collectEntities context.filter m.m_dummyTexture document.entities
      GeometryCollection.empty = some c) :
    (m.m_lockedGeometryDataValid = true → r.1.m_lockedEdgeBlock = m.m_lockedEdgeBlock ∧ r.1.m_lockedEdgeRenderInfo = m.m_lockedEdgeRenderInfo) ∧
    (m.m_lockedGeometryDataValid = false → (!c.lockedBrushes.isEmpty) = false → r.1.m_lockedEdgeBlock = none ∧ r.1.m_lockedEdgeRenderInfo = ⟨0, 0⟩) ∧
    (m.m_lockedGeometryDataValid = false → (!c.lockedBrushes.isEmpty) = true → r.1.m_lockedEdgeBlock.isSome = true) := by
  refine ⟨?_, ?_, ?_⟩
  · intro hv
    have hk := rebuildGeometryData_m_lockedEdgeBlock_skip ops prefs document context m w r c h hc (Or.inl hv)
    have hv2 := resetGeometry_m_lockedEdgeBlock_valid ops m w hv
    exact ⟨hk.1.trans hv2.1, hk.2.trans hv2.2⟩
  · intro hinv he
    have hk := rebuildGeometryData_m_lockedEdgeBlock_skip ops prefs document context m w r c h hc (Or.inr he)
    have hv2 := resetGeometry_m_lockedEdgeBlock ops m w hinv
    exact ⟨hk.1.trans hv2.1, hk.2.trans hv2.2⟩
  · intro hinv hne
    obtain ⟨b, hb, _⟩ := rebuildGeometryData_m_lockedEdgeBlock_run ops prefs document context m w r c h hc
      hinv hne
    rw [hb]
    rfl

theorem rebuildEntityData_m_entityBoundsBlock_skip {σ : Type} (ops : MapOps σ) (prefs : Preferences)
    (document : MapDocument) (context : RenderContext) (m : MapRenderer) (w : σ)
    (r : MapRenderer × σ)
    (h : rebuildEntityData ops prefs document context m w = some r)
    (hs : m.m_entityDataValid = true ∨ (collectBoundsEntities context.filter document.entities ⟨[], [], []⟩).allEntities.isEmpty = true) :
    r.1.m_entityBoundsBlock = (resetEntityData ops m w).1.m_entityBoundsBlock ∧ r.1.m_entityBoundsRenderInfo = (resetEntityData ops m w).1.m_entityBoundsRenderInfo := by
  obtain ⟨a1, a2, m3, h1, h2, h3, hr⟩ :=
    rebuildEntityData_chain ops prefs document context m w
  rw [hr] at h
  have hr2 := Option.some.inj h
  generalize hcc : collectBoundsEntities context.filter document.entities ⟨[], [], []⟩ = c
    at h1 h2 h3 hr2 hs ⊢
  have t1 := writeNormalBounds_touches prefs c _ a1 h1
  have t2 := writeSelectedBounds_touches prefs c a1 a2 h2
  have t3 := writeLockedBounds_touches prefs c a2 m3 h3
  generalize hw2 : (ops.vboMap VboKind.entityBounds (ops.vboActivate VboKind.entityBounds
    (resetEntityData ops m w).2)) = w2 at h1 t1 hr2
  have f0 := (flags_eq_iff _ _).1 (resetEntityData_flags ops m w)
  have f2 := (flags_eq_iff _ _).1 (allocBoundsBlocks_flags ops c (resetEntityData ops m w).1 w2)
  have u2 := allocBoundsBlocks_touches ops c (resetEntityData ops m w).1 w2
  have k2 := allocBoundsBlocks_m_entityBoundsBlock_skip ops c (resetEntityData ops m w).1 w2
    (hs.imp (fun x => f0.2.2.2.1.trans x) id)
  generalize allocBoundsBlocks ops c (resetEntityData ops m w).1 w2 = s2 at h1 t1 f2 u2 k2 hr2
  have pF : s2.1.m_entityDataValid = s2.1.m_entityDataValid := by
    rfl
  have pB : s2.1.m_entityBoundsBlock = s2.1.m_entityBoundsBlock := by
    rfl
  have pI : s2.1.m_entityBoundsRenderInfo = s2.1.m_entityBoundsRenderInfo := by
    rfl
  have sI : s2.1.m_entityBoundsRenderInfo = (resetEntityData ops m w).1.m_entityBoundsRenderInfo := by
    rw [u2]
  have hskip := writeNormalBounds_skip prefs c s2.1
    (hs.imp (fun x => pF.trans (f2.2.2.2.1.trans (f0.2.2.2.1.trans x))) id)
  rw [h1] at hskip
  have hpost := Option.some.inj hskip
  have qB : m3.m_entityBoundsBlock = a1.m_entityBoundsBlock := by
    rw [t3, t2]
  have qI : m3.m_entityBoundsRenderInfo = a1.m_entityBoundsRenderInfo := by
    rw [t3, t2]
  rw [← hr2]
  constructor
  · show m3.m_entityBoundsBlock = _
    rw [qB, hpost, pB, k2]
  · show m3.m_entityBoundsRenderInfo = _
    rw [qI, hpost, pI, sI]

theorem rebuildEntityData_m_entityBoundsBlock_run {σ : Type} (ops : MapOps σ) (prefs : Preferences)
    (document : MapDocument) (context : RenderContext) (m : MapRenderer) (w : σ)
    (r : MapRenderer × σ)
    (h : rebuildEntityData ops prefs document context m w = some r)
    (hinv : m.m_entityDataValid = false) (hne : (collectBoundsEntities context.filter document.entities ⟨[], [], []⟩).allEntities.isEmpty = false) :
    ∃ b, r.1.m_entityBoundsBlock = some (writeEntityBounds prefs (collectBoundsEntities context.filter document.entities ⟨[], [], []⟩).allEntities ⟨0, 0⟩ b).2 ∧
      b.capacity = entityBoundsBlockSize (collectBoundsEntities context.filter document.entities ⟨[], [], []⟩).allEntities.length ∧ b.writes = [] ∧
      r.1.m_entityBoundsRenderInfo = (writeEntityBounds prefs (collectBoundsEntities context.filter document.entities ⟨[], [], []⟩).allEntities ⟨0, 0⟩ b).1 := by
  obtain ⟨a1, a2, m3, h1, h2, h3, hr⟩ :=
    rebuildEntityData_chain ops prefs document context m w
  rw [hr] at h
  have hr2 := Option.some.inj h
  generalize hcc : collectBoundsEntities context.filter document.entities ⟨[], [], []⟩ = c
    at h1 h2 h3 hr2 hne ⊢
  have t1 := writeNormalBounds_touches prefs c _ a1 h1
  have t2 := writeSelectedBounds_touches prefs c a1 a2 h2
  have t3 := writeLockedBounds_touches prefs c a2 m3 h3
  generalize hw2 : (ops.vboMap VboKind.entityBounds (ops.vboActivate VboKind.entityBounds
    (resetEntityData ops m w).2)) = w2 at h1 t1 hr2
  have f0 := (flags_eq_iff _ _).1 (resetEntityData_flags ops m w)
  have f2 := (flags_eq_iff _ _).1 (allocBoundsBlocks_flags ops c (resetEntityData ops m w).1 w2)
  have u2 := allocBoundsBlocks_touches ops c (resetEntityData ops m w).1 w2
  obtain ⟨a, ha⟩ := allocBoundsBlocks_m_entityBoundsBlock ops c (resetEntityData ops m w).1 w2
    (f0.2.2.2.1.trans hinv) hne
  have r0 := resetEntityData_m_entityBoundsBlock ops m w hinv
  generalize allocBoundsBlocks ops c (resetEntityData ops m w).1 w2 = s2 at h1 t1 f2 u2 ha hr2
  have pF : s2.1.m_entityDataValid = s2.1.m_entityDataValid := by
    rfl
  have pB : s2.1.m_entityBoundsBlock = s2.1.m_entityBoundsBlock := by
    rfl
  have pI : s2.1.m_entityBoundsRenderInfo = s2.1.m_entityBoundsRenderInfo := by
    rfl
  have sI : s2.1.m_entityBoundsRenderInfo = (resetEntityData ops m w).1.m_entityBoundsRenderInfo := by
    rw [u2]
  have hrun := writeNormalBounds_run prefs c s2.1 _
    (pF.trans (f2.2.2.2.1.trans (f0.2.2.2.1.trans hinv))) hne (pB.trans ha)
  rw [h1] at hrun
  have hpost := Option.some.inj hrun
  have qB : m3.m_entityBoundsBlock = a1.m_entityBoundsBlock := by
    rw [t3, t2]
  have qI : m3.m_entityBoundsRenderInfo = a1.m_entityBoundsRenderInfo := by
    rw [t3, t2]
  have hI : s2.1.m_entityBoundsRenderInfo = ⟨0, 0⟩ := by
    rw [pI, sI]
    exact r0.2
  rw [← hr2]
  refine ⟨⟨a, entityBoundsBlockSize c.allEntities.length, []⟩, ?_, rfl, rfl, ?_⟩
  · show m3.m_entityBoundsBlock = _
    rw [qB, hpost]
    show some (writeEntityBounds prefs c.allEntities s2.1.m_entityBoundsRenderInfo _).2 = _
    rw [hI]
  · show m3.m_entityBoundsRenderInfo = _
    rw [qI, hpost]
    show (writeEntityBounds prefs c.allEntities s2.1.m_entityBoundsRenderInfo _).1 = _
    rw [hI]

theorem rebuildEntityData_m_entityBoundsBlock_cases {σ : Type} (ops : MapOps σ) (prefs : Preferences)
    (document : MapDocument) (context : RenderContext) (m : MapRenderer) (w : σ)
    (r : MapRenderer × σ)
    (h : rebuildEntityData ops prefs document context m w = some r) :
    (m.m_entityDataValid = true → r.1.m_entityBoundsBlock = m.m_entityBoundsBlock ∧ r.1.m_entityBoundsRenderInfo = m.m_entityBoundsRenderInfo) ∧
    (m.m_entityDataValid = false → (collectBoundsEntities context.filter document.entities ⟨[], [], []⟩).allEntities.isEmpty = true → r.1.m_entityBoundsBlock = none ∧ r.1.m_entityBoundsRenderInfo = ⟨0, 0⟩) ∧
    (m.m_entityDataValid = false → (collectBoundsEntities context.filter document.entities ⟨[], [], []⟩).allEntities.isEmpty = false → r.1.m_entityBoundsBlock.isSome = true) := by
  refine ⟨?_, ?_, ?_⟩
  · intro hv
    have hk := rebuildEntityData_m_entityBoundsBlock_skip ops prefs document context m w r h (Or.inl hv)
    have hv2 := resetEntityData_m_entityBoundsBlock_valid ops m w hv
    exact ⟨hk.1.trans hv2.1, hk.2.trans hv2.2⟩
  · intro hinv he
    have hk := rebuildEntityData_m_entityBoundsBlock_skip ops prefs document context m w r h (Or.inr he)
    have hv2 := resetEntityData_m_entityBoundsBlock ops m w hinv
    exact ⟨hk.1.trans hv2.1, hk.2.trans hv2.2⟩
  · intro hinv hne
    obtain ⟨b, hb, _⟩ := rebuildEntityData_m_entityBoundsBlock_run ops prefs document context m w r h hinv hne
    rw [hb]
    rfl

theorem rebuildEntityData_m_selectedEntityBoundsBlock_skip {σ : Type} (ops : MapOps σ) (prefs : Preferences)
    (document : MapDocument) (context : RenderContext) (m : MapRenderer) (w : σ)
    (r : MapRenderer × σ)
    (h : rebuildEntityData ops prefs document context m w = some r)
    (hs : m.m_selectedEntityDataValid = true ∨ (collectBoundsEntities context.filter document.entities ⟨[], [], []⟩).allSelectedEntities.isEmpty = true) :
    r.1.m_selectedEntityBoundsBlock = (resetEntityData ops m w).1.m_selectedEntityBoundsBlock ∧ r.1.m_selectedEntityBoundsRenderInfo = (resetEntityData ops m w).1.m_selectedEntityBoundsRenderInfo := by
  obtain ⟨a1, a2, m3, h1, h2, h3, hr⟩ :=
    rebuildEntityData_chain ops prefs document context m w
  rw [hr] at h
  have hr2 := Option.some.inj h
  generalize hcc : collectBoundsEntities context.filter document.entities ⟨[], [], []⟩ = c
    at h1 h2 h3 hr2 hs ⊢
  have t1 := writeNormalBounds_touches prefs c _ a1 h1
  have t2 := writeSelectedBounds_touches prefs c a1 a2 h2
  have t3 := writeLockedBounds_touches prefs c a2 m3 h3
  generalize hw2 : (ops.vboMap VboKind.entityBounds (ops.vboActivate VboKind.entityBounds
    (resetEntityData ops m w).2)) = w2 at h1 t1 hr2
  have f0 := (flags_eq_iff _ _).1 (resetEntityData_flags ops m w)
  have f2 := (flags_eq_iff _ _).1 (allocBoundsBlocks_flags ops c (resetEntityData ops m w).1 w2)
  have u2 := allocBoundsBlocks_touches ops c (resetEntityData ops m w).1 w2
  have k2 := allocBoundsBlocks_m_selectedEntityBoundsBlock_skip ops c (resetEntityData ops m w).1 w2
    (hs.imp (fun x => f0.2.2.2.2.1.trans x) id)
  generalize allocBoundsBlocks ops c (resetEntityData ops m w).1 w2 = s2 at h1 t1 f2 u2 k2 hr2
  have pF : a1.m_selectedEntityDataValid = s2.1.m_selectedEntityDataValid := by
    rw [t1]
  have pB : a1.m_selectedEntityBoundsBlock = s2.1.m_selectedEntityBoundsBlock := by
    rw [t1]
  have pI : a1.m_selectedEntityBoundsRenderInfo = s2.1.m_selectedEntityBoundsRenderInfo := by
    rw [t1]
  have sI : s2.1.m_selectedEntityBoundsRenderInfo = (resetEntityData ops m w).1.m_selectedEntityBoundsRenderInfo := by
    rw [u2]
  have hskip := writeSelectedBounds_skip prefs c a1
    (hs.imp (fun x => pF.trans (f2.2.2.2.2.1.trans (f0.2.2.2.2.1.trans x))) id)
  rw [h2] at hskip
  have hpost := Option.some.inj hskip
  have qB : m3.m_selectedEntityBoundsBlock = a2.m_selectedEntityBoundsBlock := by
    rw [t3]
  have qI : m3.m_selectedEntityBoundsRenderInfo = a2.m_selectedEntityBoundsRenderInfo := by
    rw [t3]
  rw [← hr2]
  constructor
  · show m3.m_selectedEntityBoundsBlock = _
    rw [qB, hpost, pB, k2]
  · show m3.m_selectedEntityBoundsRenderInfo = _
    rw [qI, hpost, pI, sI]

theorem rebuildEntityData_m_selectedEntityBoundsBlock_run {σ : Type} (ops : MapOps σ) (prefs : Preferences)
    (document : MapDocument) (context : RenderContext) (m : MapRenderer) (w : σ)
    (r : MapRenderer × σ)
    (h : rebuildEntityData ops prefs document context m w = some r)
    (hinv : m.m_selectedEntityDataValid = false) (hne : (collectBoundsEntities context.filter document.entities ⟨[], [], []⟩).allSelectedEntities.isEmpty = false) :
    ∃ b, r.1.m_selectedEntityBoundsBlock = some (writeEntityBounds prefs (collectBoundsEntities context.filter document.entities ⟨[], [], []⟩).allSelectedEntities ⟨0, 0⟩ b).2 ∧
      b.capacity = entityBoundsBlockSize (collectBoundsEntities context.filter document.entities ⟨[], [], []⟩).allSelectedEntities.length ∧ b.writes = [] ∧
      r.1.m_selectedEntityBoundsRenderInfo = (writeEntityBounds prefs (collectBoundsEntities context.filter document.entities ⟨[], [], []⟩).allSelectedEntities ⟨0, 0⟩ b).1 := by
  obtain ⟨a1, a2, m3, h1, h2, h3, hr⟩ :=
    rebuildEntityData_chain ops prefs document context m w
  rw [hr] at h
  have hr2 := Option.some.inj h
  generalize hcc : collectBoundsEntities context.filter document.entities ⟨[], [], []⟩ = c
    at h1 h2 h3 hr2 hne ⊢
  have t1 := writeNormalBounds_touches prefs c _ a1 h1
  have t2 := writeSelectedBounds_touches prefs c a1 a2 h2
  have t3 := writeLockedBounds_touches prefs c a2 m3 h3
  generalize hw2 : (ops.vboMap VboKind.entityBounds (ops.vboActivate VboKind.entityBounds
    (resetEntityData ops m w).2)) = w2 at h1 t1 hr2
  have f0 := (flags_eq_iff _ _).1 (resetEntityData_flags ops m w)
  have f2 := (flags_eq_iff _ _).1 (allocBoundsBlocks_flags ops c (resetEntityData ops m w).1 w2)
  have u2 := allocBoundsBlocks_touches ops c (resetEntityData ops m w).1 w2
  obtain ⟨a, ha⟩ := allocBoundsBlocks_m_selectedEntityBoundsBlock ops c (resetEntityData ops m w).1 w2
    (f0.2.2.2.2.1.trans hinv) hne
  have r0 := resetEntityData_m_selectedEntityBoundsBlock ops m w hinv
  generalize allocBoundsBlocks ops c (resetEntityData ops m w).1 w2 = s2 at h1 t1 f2 u2 ha hr2
  have pF : a1.m_selectedEntityDataValid = s2.1.m_selectedEntityDataValid := by
    rw [t1]
  have pB : a1.m_selectedEntityBoundsBlock = s2.1.m_selectedEntityBoundsBlock := by
    rw [t1]
  have pI : a1.m_selectedEntityBoundsRenderInfo = s2.1.m_selectedEntityBoundsRenderInfo := by
    rw [t1]
  have sI : s2.1.m_selectedEntityBoundsRenderInfo = (resetEntityData ops m w).1.m_selectedEntityBoundsRenderInfo := by
    rw [u2]
  have hrun := writeSelectedBounds_run prefs c a1 _
    (pF.trans (f2.2.2.2.2.1.trans (f0.2.2.2.2.1.trans hinv))) hne (pB.trans ha)
  rw [h2] at hrun
  have hpost := Option.some.inj hrun
  have qB : m3.m_selectedEntityBoundsBlock = a2.m_selectedEntityBoundsBlock := by
    rw [t3]
  have qI : m3.m_selectedEntityBoundsRenderInfo = a2.m_selectedEntityBoundsRenderInfo := by
    rw [t3]
  have hI : a1.m_selectedEntityBoundsRenderInfo = ⟨0, 0⟩ := by
    rw [pI, sI]
    exact r0.2
  rw [← hr2]
  refine ⟨⟨a, entityBoundsBlockSize c.allSelectedEntities.length, []⟩, ?_, rfl, rfl, ?_⟩
  · show m3.m_selectedEntityBoundsBlock = _
    rw [qB, hpost]
    show some (writeEntityBounds prefs c.allSelectedEntities a1.m_selectedEntityBoundsRenderInfo _).2 = _
    rw [hI]
  · show m3.m_selectedEntityBoundsRenderInfo = _
    rw [qI, hpost]
    show (writeEntityBounds prefs c.allSelectedEntities a1.m_selectedEntityBoundsRenderInfo _).1 = _
    rw [hI]

theorem rebuildEntityData_m_selectedEntityBoundsBlock_cases {σ : Type} (ops : MapOps σ) (prefs : Preferences)
    (document : MapDocument) (context : RenderContext) (m : MapRenderer) (w : σ)
    (r : MapRenderer × σ)
    (h : rebuildEntityData ops prefs document context m w = some r) :
    (m.m_selectedEntityDataValid = true → r.1.m_selectedEntityBoundsBlock = m.m_selectedEntityBoundsBlock ∧ r.1.m_selectedEntityBoundsRenderInfo = m.m_selectedEntityBoundsRenderInfo) ∧
    (m.m_selectedEntityDataValid = false → (collectBoundsEntities context.filter document.entities ⟨[], [], []⟩).allSelectedEntities.isEmpty = true → r.1.m_selectedEntityBoundsBlock = none ∧ r.1.m_selectedEntityBoundsRenderInfo = ⟨0, 0⟩) ∧
    (m.m_selectedEntityDataValid = false → (collectBoundsEntities context.filter document.entities ⟨[], [], []⟩).allSelectedEntities.isEmpty = false → r.1.m_selectedEntityBoundsBlock.isSome = true) := by
  refine ⟨?_, ?_, ?_⟩
  · intro hv
    have hk := rebuildEntityData_m_selectedEntityBoundsBlock_skip ops prefs document context m w r h (Or.inl hv)
    have hv2 := resetEntityData_m_selectedEntityBoundsBlock_valid ops m w hv
    exact ⟨hk.1.trans hv2.1, hk.2.trans hv2.2⟩
  · intro hinv he
    have hk := rebuildEntityData_m_selectedEntityBoundsBlock_skip ops prefs document context m w r h (Or.inr he)
    have hv2 := resetEntityData_m_selectedEntityBoundsBlock ops m w hinv
    exact ⟨hk.1.trans hv2.1, hk.2.trans hv2.2⟩
  · intro hinv hne
    obtain ⟨b, hb, _⟩ := rebuildEntityData_m_selectedEntityBoundsBlock_run ops prefs document context m w r h hinv hne
    rw [hb]
    rfl

theorem rebuildEntityData_m_lockedEntityBoundsBlock_skip {σ : Type} (ops : MapOps σ) (prefs : Preferences)
    (document : MapDocument) (context : RenderContext) (m : MapRenderer) (w : σ)
    (r : MapRenderer × σ)
    (h : rebuildEntityData ops prefs document context m w = some r)
    (hs : m.m_lockedEntityDataValid = true ∨ (collectBoundsEntities context.filter document.entities ⟨[], [], []⟩).allLockedEntities.isEmpty = true) :
    r.1.m_lockedEntityBoundsBlock = (resetEntityData ops m w).1.m_lockedEntityBoundsBlock ∧ r.1.m_lockedEntityBoundsRenderInfo = (resetEntityData ops m w).1.m_lockedEntityBoundsRenderInfo := by
  obtain ⟨a1, a2, m3, h1, h2, h3, hr⟩ :=
    rebuildEntityData_chain ops prefs document context m w
  rw [hr] at h
  have hr2 := Option.some.inj h
  generalize hcc : collectBoundsEntities context.filter document.entities ⟨[], [], []⟩ = c
    at h1 h2 h3 hr2 hs ⊢
  have t1 := writeNormalBounds_touches prefs c _ a1 h1
  have t2 := writeSelectedBounds_touches prefs c a1 a2 h2
  have t3 := writeLockedBounds_touches prefs c a2 m3 h3
  generalize hw2 : (ops.vboMap VboKind.entityBounds (ops.vboActivate VboKind.entityBounds
    (resetEntityData ops m w).2)) = w2 at h1 t1 hr2
  have f0 := (flags_eq_iff _ _).1 (resetEntityData_flags ops m w)
  have f2 := (flags_eq_iff _ _).1 (allocBoundsBlocks_flags ops c (resetEntityData ops m w).1 w2)
  have u2 := allocBoundsBlocks_touches ops c (resetEntityData ops m w).1 w2
  have k2 := allocBoundsBlocks_m_lockedEntityBoundsBlock_skip ops c (resetEntityData ops m w).1 w2
    (hs.imp (fun x => f0.2.2.2.2.2.1.trans x) id)
  generalize allocBoundsBlocks ops c (resetEntityData ops m w).1 w2 = s2 at h1 t1 f2 u2 k2 hr2
  have pF : a2.m_lockedEntityDataValid = s2.1.m_lockedEntityDataValid := by
    rw [t2, t1]
  have pB : a2.m_lockedEntityBoundsBlock = s2.1.m_lockedEntityBoundsBlock := by
    rw [t2, t1]
  have pI : a2.m_lockedEntityBoundsRenderInfo = s2.1.m_lockedEntityBoundsRenderInfo := by
    rw [t2, t1]
  have sI : s2.1.m_lockedEntityBoundsRenderInfo = (resetEntityData ops m w).1.m_lockedEntityBoundsRenderInfo := by
    rw [u2]
  have hskip := writeLockedBounds_skip prefs c a2
    (hs.imp (fun x => pF.trans (f2.2.2.2.2.2.1.trans (f0.2.2.2.2.2.1.trans x))) id)
  rw [h3] at hskip
  have hpost := Option.some.inj hskip
  have qB : m3.m_lockedEntityBoundsBlock = m3.m_lockedEntityBoundsBlock := by
    rfl
  have qI : m3.m_lockedEntityBoundsRenderInfo = m3.m_lockedEntityBoundsRenderInfo := by
    rfl
  rw [← hr2]
  constructor
  · show m3.m_lockedEntityBoundsBlock = _
    rw [qB, hpost, pB, k2]
  · show m3.m_lockedEntityBoundsRenderInfo = _
    rw [qI, hpost, pI, sI]

theorem rebuildEntityData_m_lockedEntityBoundsBlock_run {σ : Type} (ops : MapOps σ) (prefs : Preferences)
    (document : MapDocument) (context : RenderContext) (m : MapRenderer) (w : σ)
    (r : MapRenderer × σ)
    (h : rebuildEntityData ops prefs document context m w = some r)
    (hinv : m.m_lockedEntityDataValid = false) (hne : (collectBoundsEntities context.filter document.entities ⟨[], [], []⟩).allLockedEntities.isEmpty = false) :
    ∃ b, r.1.m_lockedEntityBoundsBlock = some (writeEntityBounds prefs (collectBoundsEntities context.filter document.entities ⟨[], [], []⟩).allLockedEntities ⟨0, 0⟩ b).2 ∧
      b.capacity = entityBoundsBlockSize (collectBoundsEntities context.filter document.entities ⟨[], [], []⟩).allLockedEntities.length ∧ b.writes = [] ∧
      r.1.m_lockedEntityBoundsRenderInfo = (writeEntityBounds prefs (collectBoundsEntities context.filter document.entities ⟨[], [], []⟩).allLockedEntities ⟨0, 0⟩ b).1 := by
  obtain ⟨a1, a2, m3, h1, h2, h3, hr⟩ :=
    rebuildEntityData_chain ops prefs document context m w
  rw [hr] at h
  have hr2 := Option.some.inj h
  generalize hcc : collectBoundsEntities context.filter document.entities ⟨[], [], []⟩ = c
    at h1 h2 h3 hr2 hne ⊢
  have t1 := writeNormalBounds_touches prefs c _ a1 h1
  have t2 := writeSelectedBounds_touches prefs c a1 a2 h2
  have t3 := writeLockedBounds_touches prefs c a2 m3 h3
  generalize hw2 : (ops.vboMap VboKind.entityBounds (ops.vboActivate VboKind.entityBounds
    (resetEntityData ops m w).2)) = w2 at h1 t1 hr2
  have f0 := (flags_eq_iff _ _).1 (resetEntityData_flags ops m w)
  have f2 := (flags_eq_iff _ _).1 (allocBoundsBlocks_flags ops c (resetEntityData ops m w).1 w2)
  have u2 := allocBoundsBlocks_touches ops c (resetEntityData ops m w).1 w2
  obtain ⟨a, ha⟩ := allocBoundsBlocks_m_lockedEntityBoundsBlock ops c (resetEntityData ops m w).1 w2
    (f0.2.2.2.2.2.1.trans hinv) hne
  have r0 := resetEntityData_m_lockedEntityBoundsBlock ops m w hinv
  generalize allocBoundsBlocks ops c (resetEntityData ops m w).1 w2 = s2 at h1 t1 f2 u2 ha hr2
  have pF : a2.m_lockedEntityDataValid = s2.1.m_lockedEntityDataValid := by
    rw [t2, t1]
  have pB : a2.m_lockedEntityBoundsBlock = s2.1.m_lockedEntityBoundsBlock := by
    rw [t2, t1]
  have pI : a2.m_lockedEntityBoundsRenderInfo = s2.1.m_lockedEntityBoundsRenderInfo := by
    rw [t2, t1]
  have sI : s2.1.m_lockedEntityBoundsRenderInfo = (resetEntityData ops m w).1.m_lockedEntityBoundsRenderInfo := by
    rw [u2]
  have hrun := writeLockedBounds_run prefs c a2 _
    (pF.trans (f2.2.2.2.2.2.1.trans (f0.2.2.2.2.2.1.trans hinv))) hne (pB.trans ha)
  rw [h3] at hrun
  have hpost := Option.some.inj hrun
  have qB : m3.m_lockedEntityBoundsBlock = m3.m_lockedEntityBoundsBlock := by
    rfl
  have qI : m3.m_lockedEntityBoundsRenderInfo = m3.m_lockedEntityBoundsRenderInfo := by
    rfl
  have hI : a2.m_lockedEntityBoundsRenderInfo = ⟨0, 0⟩ := by
    rw [pI, sI]
    exact r0.2
  rw [← hr2]
  refine ⟨⟨a, entityBoundsBlockSize c.allLockedEntities.length, []⟩, ?_, rfl, rfl, ?_⟩
  · show m3.m_lockedEntityBoundsBlock = _
    rw [qB, hpost]
    show some (writeEntityBounds prefs c.allLockedEntities a2.m_lockedEntityBoundsRenderInfo _).2 = _
    rw [hI]
  · show m3.m_lockedEntityBoundsRenderInfo = _
    rw [qI, hpost]
    show (writeEntityBounds prefs c.allLockedEntities a2.m_lockedEntityBoundsRenderInfo _).1 = _
    rw [hI]

theorem rebuildEntityData_m_lockedEntityBoundsBlock_cases {σ : Type} (ops : MapOps σ) (prefs : Preferences)
    (document : MapDocument) (context : RenderContext) (m : MapRenderer) (w : σ)
    (r : MapRenderer × σ)
    (h : rebuildEntityData ops prefs document context m w = some r) :
    (m.m_lockedEntityDataValid = true → r.1.m_lockedEntityBoundsBlock = m.m_lockedEntityBoundsBlock ∧ r.1.m_lockedEntityBoundsRenderInfo = m.m_lockedEntityBoundsRenderInfo) ∧
    (m.m_lockedEntityDataValid = false → (collectBoundsEntities context.filter document.entities ⟨[], [], []⟩).allLockedEntities.isEmpty = true → r.1.m_lockedEntityBoundsBlock = none ∧ r.1.m_lockedEntityBoundsRenderInfo = ⟨0, 0⟩) ∧
    (m.m_lockedEntityDataValid = false → (collectBoundsEntities context.filter document.entities ⟨[], [], []⟩).allLockedEntities.isEmpty = false → r.1.m_lockedEntityBoundsBlock.isSome = true) := by
  refine ⟨?_, ?_, ?_⟩
  · intro hv
    have hk := rebuildEntityData_m_lockedEntityBoundsBlock_skip ops prefs document context m w r h (Or.inl hv)
    have hv2 := resetEntityData_m_lockedEntityBoundsBlock_valid ops m w hv
    exact ⟨hk.1.trans hv2.1, hk.2.trans hv2.2⟩
  · intro hinv he
    have hk := rebuildEntityData_m_lockedEntityBoundsBlock_skip ops prefs document context m w r h (Or.inr he)
    have hv2 := resetEntityData_m_lockedEntityBoundsBlock ops m w hinv
    exact ⟨hk.1.trans hv2.1, hk.2.trans hv2.2⟩
  · intro hinv hne
    obtain ⟨b, hb, _⟩ := rebuildEntityData_m_lockedEntityBoundsBlock_run ops prefs document context m w r h hinv hne
    rw [hb]
    rfl

end TrenchBroom.Renderer

namespace TrenchBroom.Renderer

open MapRenderer

/-- C21: after `changeEditState` each of the six data flags is false when its condition
holds (for a geometry flag: some brush changed from or to the state of the aspect, or the
face selection changed; for an entity-bounds flag: some entity changed from or to the
state of the aspect) and is exactly what it was when its condition does not hold; the
entity renderer cache flag is never changed. So a change set without transitions changes
no flag. -/
theorem changeEditState_invalidates_by_transition (cs : EditStateChangeSet)
    (m : MapRenderer) :
    (changeEditState cs m).flags =
      [m.m_geometryDataValid && !(cs.brushStateChangedFrom EditState.Default ||
          cs.brushStateChangedTo EditState.Default || cs.faceSelectionChanged),
        m.m_selectedGeometryDataValid && !(cs.brushStateChangedFrom EditState.Selected ||
          cs.brushStateChangedTo EditState.Selected || cs.faceSelectionChanged),
        m.m_lockedGeometryDataValid && !(cs.brushStateChangedFrom EditState.Locked ||
          cs.brushStateChangedTo EditState.Locked || cs.faceSelectionChanged),
        m.m_entityDataValid && !(cs.entityStateChangedFrom EditState.Default ||
          cs.entityStateChangedTo EditState.Default),
        m.m_selectedEntityDataValid && !(cs.entityStateChangedFrom EditState.Selected ||
          cs.entityStateChangedTo EditState.Selected),
        m.m_lockedEntityDataValid && !(cs.entityStateChangedFrom EditState.Locked ||
          cs.entityStateChangedTo EditState.Locked),
        m.m_entityRendererCacheValid] ∧
    ((∀ s, cs.brushStateChangedFrom s = false ∧ cs.brushStateChangedTo s = false ∧
        cs.entityStateChangedFrom s = false ∧ cs.entityStateChangedTo s = false) →
      cs.faceSelectionChanged = false → (changeEditState cs m).flags = m.flags) := by
  refine ⟨changeEditState_flags cs m, ?_⟩
  intro h hf
  rw [changeEditState_flags]
  simp [MapRenderer.flags, h, hf]

/-- C22, the claim as stated fails: on a new renderer, after `loadMap` and `clearMap` the
entity renderer cache flag is true, not false. -/
theorem cache_valid_after_load_and_clear :
    ∃ r, loadMap sampleMapOps sampleDocument (MapRenderer.new 0) 0 = some r ∧
      (clearMap r.1).m_entityRendererCacheValid = true :=
  ⟨_, rfl, rfl⟩

/-- C22 (amended): on a new renderer `loadMap` completes exactly when every entity of the
document has a classname, and `clearMap` after it gives the state right after
construction: the six geometry and entity-bounds flags are false, the entity renderer
cache flag is true as the constructor leaves it, and the three entity renderer maps and
the three classname registries are empty. -/
theorem load_then_clear_is_new {σ : Type} (ops : MapOps σ) (document : MapDocument)
    (dummyTexture : Texture) (w : σ) :
    (loadMap ops document (MapRenderer.new dummyTexture) w).isSome =
      document.entities.all (fun e => e.classname.isSome) ∧
    ∀ r, loadMap ops document (MapRenderer.new dummyTexture) w = some r →
      clearMap r.1 = MapRenderer.new dummyTexture ∧
      (clearMap r.1).flags = [false, false, false, false, false, false, true] ∧
      (clearMap r.1).m_entityRenderers = [] ∧ (clearMap r.1).m_selectedEntityRenderers = [] ∧
      (clearMap r.1).m_lockedEntityRenderers = [] ∧ (clearMap r.1).m_classnameRenderer = [] ∧
      (clearMap r.1).m_selectedClassnameRenderer = [] ∧
      (clearMap r.1).m_lockedClassnameRenderer = [] := by
  refine ⟨loadMap_isSome ops document _ w, ?_⟩
  intro r h
  have t := loadMap_touches ops document _ w r h
  have e : clearMap r.1 = MapRenderer.new dummyTexture := by
    rw [t]
    rfl
  rw [e]
  exact ⟨rfl, rfl, rfl, rfl, rfl, rfl, rfl, rfl⟩

/-- C25: when the collecting loop of `rebuildGeometryData` completes, what it has collected
is determined by the brushes that pass `brushVisible`: every brush in a brush list, every
face in a face bucket and every face in the list of selected faces of partially selected
brushes belongs to a brush of the map for which `brushVisible` is true, so a brush for
which it is false is in no brush list. Likewise every entity in one of the three lists of
`rebuildEntityData` is an entity of the map for which `entityVisible` is true. -/
theorem only_visible_objects_collected (filter : Filter) (dummyTexture : Texture)
    (entities : List Entity) (hok : (visibleFaces filter entities).all faceOk = true) :
    (∃ c, collectEntities filter dummyTexture entities GeometryCollection.empty = some c ∧
      c = collected dummyTexture (visibleBrushes filter entities)
        (visibleFaces filter entities) GeometryCollection.empty ∧
      (∀ k, ∀ b ∈ c.brushes k, ∃ e ∈ entities, b ∈ e.brushes ∧ filter.brushVisible b = true) ∧
      (∀ b, filter.brushVisible b = false → ∀ k, b ∉ c.brushes k) ∧
      (∀ k, ∀ f ∈ allFaces (c.faces k), ∃ e ∈ entities, ∃ b ∈ e.brushes,
        filter.brushVisible b = true ∧ f ∈ b.faces) ∧
      (∀ f ∈ c.partiallySelectedBrushFaces, ∃ e ∈ entities, ∃ b ∈ e.brushes,
        filter.brushVisible b = true ∧ f ∈ b.faces)) ∧
    ∀ e, e ∈ (collectBoundsEntities filter entities ⟨[], [], []⟩).allEntities ∨
        e ∈ (collectBoundsEntities filter entities ⟨[], [], []⟩).allSelectedEntities ∨
        e ∈ (collectBoundsEntities filter entities ⟨[], [], []⟩).allLockedEntities →
      e ∈ entities ∧ filter.entityVisible e = true := by
  have hbrushes : ∀ k, ∀ b ∈ (collected dummyTexture (visibleBrushes filter entities)
      (visibleFaces filter entities) GeometryCollection.empty).brushes k,
      ∃ e ∈ entities, b ∈ e.brushes ∧ filter.brushVisible b = true := by
    intro k b hb
    have hb2 : b ∈ brushesOf k (visibleBrushes filter entities) := by
      cases k with
      | selected => simpa [collected, GeometryCollection.empty, GeometryCollection.brushes]
          using hb
      | locked => simpa [collected, GeometryCollection.empty, GeometryCollection.brushes]
          using hb
      | normal =>
        apply (brushesOf_normal_perm _).mem_iff.1
        simpa [collected, GeometryCollection.empty, GeometryCollection.brushes,
          GeometryCollection.unselectedBrushes, unselectedOf] using hb
    unfold brushesOf at hb2
    obtain ⟨p, hp, rfl⟩ := List.mem_map.1 hb2
    have := (mem_visibleBrushes filter entities p).1 (List.mem_filter.1 hp).1
    exact ⟨p.1, this.1, this.2.1, this.2.2⟩
  refine ⟨⟨_, collectEntities_of_ok filter dummyTexture entities hok, rfl, hbrushes, ?_, ?_,
    ?_⟩, ?_⟩
  · intro b hv k hb
    obtain ⟨e, _, _, hv2⟩ := hbrushes k b hb
    rw [hv] at hv2
    exact Bool.noConfusion hv2
  · intro k f hf
    rw [collected_faces] at hf
    have h1 := (allFaces_insertFaces_nil dummyTexture _).mem_iff.1 hf
    unfold facesIn at h1
    obtain ⟨p, hp, rfl⟩ := List.mem_map.1 h1
    have := (mem_visibleFaces filter entities p).1 (List.mem_filter.1 hp).1
    exact ⟨p.1, this.1, p.2.1, this.2.1, this.2.2.1, this.2.2.2⟩
  · intro f hf
    have h1 : f ∈ partialFacesOf (visibleBrushes filter entities) := by
      simpa [collected, GeometryCollection.empty] using hf
    unfold partialFacesOf at h1
    obtain ⟨p, hp, hfp⟩ := List.mem_flatMap.1 h1
    have := (mem_visibleBrushes filter entities p).1 (List.mem_filter.1 hp).1
    exact ⟨p.1, this.1, p.2, this.2.1, this.2.2, (List.mem_filter.1 hfp).1⟩
  · apply collectBoundsEntities_mem filter entities ⟨[], [], []⟩
      (fun e => e ∈ entities ∧ filter.entityVisible e = true)
    · intro e he
      simp at he
    · intro e he hv
      exact ⟨he, hv⟩

theorem only_visible_objects_collected_witness :
    (∃ c, collectEntities sampleHidingContext.filter 0 lockedPartialDocument.entities
        GeometryCollection.empty = some c ∧
      c = collected 0 (visibleBrushes sampleHidingContext.filter lockedPartialDocument.entities)
        (visibleFaces sampleHidingContext.filter lockedPartialDocument.entities)
        GeometryCollection.empty ∧
      (∀ k, ∀ b ∈ c.brushes k, ∃ e ∈ lockedPartialDocument.entities,
        b ∈ e.brushes ∧ sampleHidingContext.filter.brushVisible b = true) ∧
      (∀ b, sampleHidingContext.filter.brushVisible b = false → ∀ k, b ∉ c.brushes k) ∧
      (∀ k, ∀ f ∈ allFaces (c.faces k), ∃ e ∈ lockedPartialDocument.entities, ∃ b ∈ e.brushes,
        sampleHidingContext.filter.brushVisible b = true ∧ f ∈ b.faces) ∧
      (∀ f ∈ c.partiallySelectedBrushFaces, ∃ e ∈ lockedPartialDocument.entities,
        ∃ b ∈ e.brushes, sampleHidingContext.filter.brushVisible b = true ∧ f ∈ b.faces)) ∧
    ∀ e, e ∈ (collectBoundsEntities sampleHidingContext.filter lockedPartialDocument.entities
          ⟨[], [], []⟩).allEntities ∨
        e ∈ (collectBoundsEntities sampleHidingContext.filter lockedPartialDocument.entities
          ⟨[], [], []⟩).allSelectedEntities ∨
        e ∈ (collectBoundsEntities sampleHidingContext.filter lockedPartialDocument.entities
          ⟨[], [], []⟩).allLockedEntities →
      e ∈ lockedPartialDocument.entities ∧ sampleHidingContext.filter.entityVisible e = true :=
  only_visible_objects_collected sampleHidingContext.filter 0 lockedPartialDocument.entities
    (by decide)

/-- C27: `rebuildGeometryData` ends in the failed assertion, returning no state, whenever
some face of a visible brush has fewer than three vertices; when every face of every
visible brush has at least three vertices it returns, and for each of these faces
`3 * N - 6` is computed without wrapping below zero. -/
theorem short_face_is_fatal {σ : Type} (ops : MapOps σ) (prefs : Preferences)
    (document : MapDocument) (context : RenderContext) (m : MapRenderer) (w : σ) :
    ((∃ p ∈ visibleFaces context.filter document.entities, p.2.2.vertices.length < 3) →
      rebuildGeometryData ops prefs document context m w = none) ∧
    ((∀ p ∈ visibleFaces context.filter document.entities, 3 ≤ p.2.2.vertices.length) →
      (∃ r, rebuildGeometryData ops prefs document context m w = some r) ∧
      ∀ p ∈ visibleFaces context.filter document.entities,
        6 ≤ 3 * p.2.2.vertices.length ∧
        fanVertexCount p.2.2.vertices.length = 3 * p.2.2.vertices.length - 6) := by
  constructor
  · rintro ⟨p, hp, hlt⟩
    apply rebuildGeometryData_none
    cases hall : (visibleFaces context.filter document.entities).all faceOk with
    | false => rfl
    | true =>
      have := List.all_eq_true.1 hall p hp
      simp only [faceOk, decide_eq_true_eq] at this
      omega
  · intro hall
    have hok : (visibleFaces context.filter document.entities).all faceOk = true := by
      apply List.all_eq_true.2
      intro p hp
      simpa [faceOk] using hall p hp
    refine ⟨rebuildGeometryData_some ops prefs document context m w hok, ?_⟩
    intro p hp
    have h3 := hall p hp
    refine ⟨by omega, ?_⟩
    unfold fanVertexCount
    rw [if_pos (by omega)]

end TrenchBroom.Renderer

/-! Theorems: Renderer::MapRenderer, what `validate` does to each partition -/

namespace TrenchBroom.Renderer

open MapRenderer

theorem rebuildGeometryData_keeps {σ : Type} (ops : MapOps σ) (prefs : Preferences)
    (document : MapDocument) (context : RenderContext) (m : MapRenderer) (w : σ)
    (r : MapRenderer × σ) (h : rebuildGeometryData ops prefs document context m w = some r) :
    r.1.m_entityBoundsBlock = m.m_entityBoundsBlock ∧
    r.1.m_selectedEntityBoundsBlock = m.m_selectedEntityBoundsBlock ∧
    r.1.m_lockedEntityBoundsBlock = m.m_lockedEntityBoundsBlock ∧
    r.1.m_entityBoundsRenderInfo = m.m_entityBoundsRenderInfo ∧
    r.1.m_selectedEntityBoundsRenderInfo = m.m_selectedEntityBoundsRenderInfo ∧
    r.1.m_lockedEntityBoundsRenderInfo = m.m_lockedEntityBoundsRenderInfo ∧
    r.1.m_entityDataValid = m.m_entityDataValid ∧
    r.1.m_selectedEntityDataValid = m.m_selectedEntityDataValid ∧
    r.1.m_lockedEntityDataValid = m.m_lockedEntityDataValid ∧
    r.1.m_entityRendererCacheValid = m.m_entityRendererCacheValid ∧
    r.1.m_entityRenderers = m.m_entityRenderers ∧
    r.1.m_selectedEntityRenderers = m.m_selectedEntityRenderers ∧
    r.1.m_lockedEntityRenderers = m.m_lockedEntityRenderers ∧
    r.1.m_classnameRenderer = m.m_classnameRenderer ∧
    r.1.m_selectedClassnameRenderer = m.m_selectedClassnameRenderer ∧
    r.1.m_lockedClassnameRenderer = m.m_lockedClassnameRenderer ∧
    r.1.m_dummyTexture = m.m_dummyTexture := by
  unfold rebuildGeometryData at h
  simp only [] at h
  cases hc : collectEntities context.filter m.m_dummyTexture document.entities
      GeometryCollection.empty with
  | none => simp [hc] at h
  | some c =>
    simp only [hc] at h
    have t1 := resetGeometry_touches ops m w
    generalize resetGeometry ops m w = s1 at h t1
    have t2 := allocFaceBlocks_touches ops c s1.1 (ops.vboMap VboKind.face
      (ops.vboActivate VboKind.face s1.2))
    generalize allocFaceBlocks ops c s1.1 (ops.vboMap VboKind.face
      (ops.vboActivate VboKind.face s1.2)) = s2 at h t2
    cases h3 : writeFaceBlocks c s2.1 with
    | none => simp [h3] at h
    | some m3 =>
      simp only [h3] at h
      have t3 := writeFaceBlocks_touches c s2.1 m3 h3
      have t4 := allocEdgeBlocks_touches ops c m3 (ops.vboMap VboKind.edge
        (ops.vboActivate VboKind.edge (ops.vboDeactivate VboKind.face
          (ops.vboUnmap VboKind.face s2.2))))
      generalize allocEdgeBlocks ops c m3 (ops.vboMap VboKind.edge
        (ops.vboActivate VboKind.edge (ops.vboDeactivate VboKind.face
          (ops.vboUnmap VboKind.face s2.2)))) = s4 at h t4
      cases h5 : writeEdgeBlocks prefs c s4.1 with
      | none => simp [h5] at h
      | some m5 =>
        simp only [h5, Option.some.injEq] at h
        have t5 := writeEdgeBlocks_touches prefs c s4.1 m5 h5
        rw [← h]
        exact ⟨(congrArg (fun s => s.m_entityBoundsBlock) t5).trans
            ((congrArg (fun s => s.m_entityBoundsBlock) t4).trans
            ((congrArg (fun s => s.m_entityBoundsBlock) t3).trans
            ((congrArg (fun s => s.m_entityBoundsBlock) t2).trans
            (congrArg (fun s => s.m_entityBoundsBlock) t1)))),
          (congrArg (fun s => s.m_selectedEntityBoundsBlock) t5).trans
            ((congrArg (fun s => s.m_selectedEntityBoundsBlock) t4).trans
            ((congrArg (fun s => s.m_selectedEntityBoundsBlock) t3).trans
            ((congrArg (fun s => s.m_selectedEntityBoundsBlock) t2).trans
            (congrArg (fun s => s.m_selectedEntityBoundsBlock) t1)))),
          (congrArg (fun s => s.m_lockedEntityBoundsBlock) t5).trans
            ((congrArg (fun s => s.m_lockedEntityBoundsBlock) t4).trans
            ((congrArg (fun s => s.m_lockedEntityBoundsBlock) t3).trans
            ((congrArg (fun s => s.m_lockedEntityBoundsBlock) t2).trans
            (congrArg (fun s => s.m_lockedEntityBoundsBlock) t1)))),
          (congrArg (fun s => s.m_entityBoundsRenderInfo) t5).trans
            ((congrArg (fun s => s.m_entityBoundsRenderInfo) t4).trans
            ((congrArg (fun s => s.m_entityBoundsRenderInfo) t3).trans
            ((congrArg (fun s => s.m_entityBoundsRenderInfo) t2).trans
            (congrArg (fun s => s.m_entityBoundsRenderInfo) t1)))),
          (congrArg (fun s => s.m_selectedEntityBoundsRenderInfo) t5).trans
            ((congrArg (fun s => s.m_selectedEntityBoundsRenderInfo) t4).trans
            ((congrArg (fun s => s.m_selectedEntityBoundsRenderInfo) t3).trans
            ((congrArg (fun s => s.m_selectedEntityBoundsRenderInfo) t2).trans
            (congrArg (fun s => s.m_selectedEntityBoundsRenderInfo) t1)))),
          (congrArg (fun s => s.m_lockedEntityBoundsRenderInfo) t5).trans
            ((congrArg (fun s => s.m_lockedEntityBoundsRenderInfo) t4).trans
            ((congrArg (fun s => s.m_lockedEntityBoundsRenderInfo) t3).trans
            ((congrArg (fun s => s.m_lockedEntityBoundsRenderInfo) t2).trans
            (congrArg (fun s => s.m_lockedEntityBoundsRenderInfo) t1)))),
          (congrArg (fun s => s.m_entityDataValid) t5).trans
            ((congrArg (fun s => s.m_entityDataValid) t4).trans
            ((congrArg (fun s => s.m_entityDataValid) t3).trans
            ((congrArg (fun s => s.m_entityDataValid) t2).trans
            (congrArg (fun s => s.m_entityDataValid) t1)))),
          (congrArg (fun s => s.m_selectedEntityDataValid) t5).trans
            ((congrArg (fun s => s.m_selectedEntityDataValid) t4).trans
            ((congrArg (fun s => s.m_selectedEntityDataValid) t3).trans
            ((congrArg (fun s => s.m_selectedEntityDataValid) t2).trans
            (congrArg (fun s => s.m_selectedEntityDataValid) t1)))),
          (congrArg (fun s => s.m_lockedEntityDataValid) t5).trans
            ((congrArg (fun s => s.m_lockedEntityDataValid) t4).trans
            ((congrArg (fun s => s.m_lockedEntityDataValid) t3).trans
            ((congrArg (fun s => s.m_lockedEntityDataValid) t2).trans
            (congrArg (fun s => s.m_lockedEntityDataValid) t1)))),
          (congrArg (fun s => s.m_entityRendererCacheValid) t5).trans
            ((congrArg (fun s => s.m_entityRendererCacheValid) t4).trans
            ((congrArg (fun s => s.m_entityRendererCacheValid) t3).trans
            ((congrArg (fun s => s.m_entityRendererCacheValid) t2).trans
            (congrArg (fun s => s.m_entityRendererCacheValid) t1)))),
          (congrArg (fun s => s.m_entityRenderers) t5).trans
            ((congrArg (fun s => s.m_entityRenderers) t4).trans
            ((congrArg (fun s => s.m_entityRenderers) t3).trans
            ((congrArg (fun s => s.m_entityRenderers) t2).trans
            (congrArg (fun s => s.m_entityRenderers) t1)))),
          (congrArg (fun s => s.m_selectedEntityRenderers) t5).trans
            ((congrArg (fun s => s.m_selectedEntityRenderers) t4).trans
            ((congrArg (fun s => s.m_selectedEntityRenderers) t3).trans
            ((congrArg (fun s => s.m_selectedEntityRenderers) t2).trans
            (congrArg (fun s => s.m_selectedEntityRenderers) t1)))),
          (congrArg (fun s => s.m_lockedEntityRenderers) t5).trans
            ((congrArg (fun s => s.m_lockedEntityRenderers) t4).trans
            ((congrArg (fun s => s.m_lockedEntityRenderers) t3).trans
            ((congrArg (fun s => s.m_lockedEntityRenderers) t2).trans
            (congrArg (fun s => s.m_lockedEntityRenderers) t1)))),
          (congrArg (fun s => s.m_classnameRenderer) t5).trans
            ((congrArg (fun s => s.m_classnameRenderer) t4).trans
            ((congrArg (fun s => s.m_classnameRenderer) t3).trans
            ((congrArg (fun s => s.m_classnameRenderer) t2).trans
            (congrArg (fun s => s.m_classnameRenderer) t1)))),
          (congrArg (fun s => s.m_selectedClassnameRenderer) t5).trans
            ((congrArg (fun s => s.m_selectedClassnameRenderer) t4).trans
            ((congrArg (fun s => s.m_selectedClassnameRenderer) t3).trans
            ((congrArg (fun s => s.m_selectedClassnameRenderer) t2).trans
            (congrArg (fun s => s.m_selectedClassnameRenderer) t1)))),
          (congrArg (fun s => s.m_lockedClassnameRenderer) t5).trans
            ((congrArg (fun s => s.m_lockedClassnameRenderer) t4).trans
            ((congrArg (fun s => s.m_lockedClassnameRenderer) t3).trans
            ((congrArg (fun s => s.m_lockedClassnameRenderer) t2).trans
            (congrArg (fun s => s.m_lockedClassnameRenderer) t1)))),
          (congrArg (fun s => s.m_dummyTexture) t5).trans
            ((congrArg (fun s => s.m_dummyTexture) t4).trans
            ((congrArg (fun s => s.m_dummyTexture) t3).trans
            ((congrArg (fun s => s.m_dummyTexture) t2).trans
            (congrArg (fun s => s.m_dummyTexture) t1))))⟩

theorem reloadEach_touches {σ : Type} (ops : MapOps σ) (mods : List String)
    (entities : List Entity) (m : MapRenderer) (w : σ) (r : MapRenderer × σ)
    (h : reloadEach ops mods entities m w = some r) :
    r.1 = { m with m_entityRenderers := r.1.m_entityRenderers,
                   m_selectedEntityRenderers := r.1.m_selectedEntityRenderers,
                   m_lockedEntityRenderers := r.1.m_lockedEntityRenderers } := by
  induction entities generalizing m w with
  | nil =>
    simp only [reloadEach, Option.some.injEq] at h
    rw [← h]
  | cons e rest ih =>
    simp only [reloadEach] at h
    rcases hr : ops.entityRenderer e mods w with ⟨er, w1⟩
    rw [hr] at h
    cases er with
    | none => exact ih _ _ h
    | some er =>
      simp only [] at h
      cases hc : e.classname with
      | none => simp [hc] at h
      | some cn =>
        simp only [hc] at h
        split at h
        · exact (ih _ _ h).trans rfl
        · split at h
          · exact (ih _ _ h).trans rfl
          · exact (ih _ _ h).trans rfl

theorem validateEntityRenderers_touches {σ : Type} (ops : MapOps σ) (document : MapDocument)
    (s r : MapRenderer × σ) (h : validateEntityRenderers ops document s = some r) :
    r.1 = { s.1 with m_entityRenderers := r.1.m_entityRenderers,
                     m_selectedEntityRenderers := r.1.m_selectedEntityRenderers,
                     m_lockedEntityRenderers := r.1.m_lockedEntityRenderers,
                     m_entityRendererCacheValid := r.1.m_entityRendererCacheValid } := by
  unfold validateEntityRenderers at h
  split at h
  · unfold reloadEntityModels at h
    cases hr : reloadEach ops document.mods document.entities
        { s.1 with m_entityRenderers := [], m_selectedEntityRenderers := [] } s.2 with
    | none => simp [hr] at h
    | some r1 =>
      have t := reloadEach_touches ops document.mods document.entities _ s.2 r1 hr
      simp only [hr, Option.some.injEq] at h
      rw [← h]
      simp only []
      rw [t]
  · rw [← Option.some.inj h]

theorem validateGeometry_keeps {σ : Type} (ops : MapOps σ) (prefs : Preferences)
    (document : MapDocument) (context : RenderContext) (s r : MapRenderer × σ)
    (h : validateGeometry ops prefs document context s = some r) :
    r.1.m_entityBoundsBlock = s.1.m_entityBoundsBlock ∧
    r.1.m_selectedEntityBoundsBlock = s.1.m_selectedEntityBoundsBlock ∧
    r.1.m_lockedEntityBoundsBlock = s.1.m_lockedEntityBoundsBlock ∧
    r.1.m_entityBoundsRenderInfo = s.1.m_entityBoundsRenderInfo ∧
    r.1.m_selectedEntityBoundsRenderInfo = s.1.m_selectedEntityBoundsRenderInfo ∧
    r.1.m_lockedEntityBoundsRenderInfo = s.1.m_lockedEntityBoundsRenderInfo ∧
    r.1.m_entityDataValid = s.1.m_entityDataValid ∧
    r.1.m_selectedEntityDataValid = s.1.m_selectedEntityDataValid ∧
    r.1.m_lockedEntityDataValid = s.1.m_lockedEntityDataValid ∧
    r.1.m_entityRendererCacheValid = s.1.m_entityRendererCacheValid ∧
    r.1.m_entityRenderers = s.1.m_entityRenderers ∧
    r.1.m_selectedEntityRenderers = s.1.m_selectedEntityRenderers ∧
    r.1.m_lockedEntityRenderers = s.1.m_lockedEntityRenderers ∧
    r.1.m_classnameRenderer = s.1.m_classnameRenderer ∧
    r.1.m_selectedClassnameRenderer = s.1.m_selectedClassnameRenderer ∧
    r.1.m_lockedClassnameRenderer = s.1.m_lockedClassnameRenderer ∧
    r.1.m_dummyTexture = s.1.m_dummyTexture := by
  unfold validateGeometry at h
  split at h
  · exact rebuildGeometryData_keeps ops prefs document context s.1 s.2 r h
  · rw [← Option.some.inj h]
    exact ⟨rfl, rfl, rfl, rfl, rfl, rfl, rfl, rfl, rfl, rfl, rfl, rfl, rfl, rfl, rfl, rfl, rfl⟩

theorem validateEntityData_touches {σ : Type} (ops : MapOps σ) (prefs : Preferences)
    (document : MapDocument) (context : RenderContext) (s r : MapRenderer × σ)
    (h : validateEntityData ops prefs document context s = some r) :
    r.1 = { s.1 with
      m_entityBoundsBlock := r.1.m_entityBoundsBlock,
      m_selectedEntityBoundsBlock := r.1.m_selectedEntityBoundsBlock,
      m_lockedEntityBoundsBlock := r.1.m_lockedEntityBoundsBlock,
      m_entityBoundsRenderInfo := r.1.m_entityBoundsRenderInfo,
      m_selectedEntityBoundsRenderInfo := r.1.m_selectedEntityBoundsRenderInfo,
      m_lockedEntityBoundsRenderInfo := r.1.m_lockedEntityBoundsRenderInfo,
      m_entityDataValid := r.1.m_entityDataValid,
      m_selectedEntityDataValid := r.1.m_selectedEntityDataValid,
      m_lockedEntityDataValid := r.1.m_lockedEntityDataValid } := by
  unfold validateEntityData at h
  split at h
  · have t := rebuildEntityData_touches ops prefs document context s.1 s.2 r h
    rw [t]
  · rw [← Option.some.inj h]

theorem collected_selectedBrushes (dummyTexture : Texture) (b : List (Entity × Brush))
    (t : List (Entity × Brush × Face)) :
    (collected dummyTexture b t GeometryCollection.empty).selectedBrushes =
      brushesOf Bucket.selected b := by
  simp [collected, GeometryCollection.empty]

theorem collected_lockedBrushes (dummyTexture : Texture) (b : List (Entity × Brush))
    (t : List (Entity × Brush × Face)) :
    (collected dummyTexture b t GeometryCollection.empty).lockedBrushes =
      brushesOf Bucket.locked b := by
  simp [collected, GeometryCollection.empty]

theorem collected_unselectedBrushes (dummyTexture : Texture) (b : List (Entity × Brush))
    (t : List (Entity × Brush × Face)) :
    (collected dummyTexture b t GeometryCollection.empty).unselectedBrushes =
      unselectedOf b := by
  simp [collected, GeometryCollection.empty, GeometryCollection.unselectedBrushes, unselectedOf]

theorem collected_partialFaces (dummyTexture : Texture) (b : List (Entity × Brush))
    (t : List (Entity × Brush × Face)) :
    (collected dummyTexture b t GeometryCollection.empty).partiallySelectedBrushFaces =
      partialFacesOf b := by
  simp [collected, GeometryCollection.empty]


theorem rebuildGeometryData_faces {σ : Type} (ops : MapOps σ) (prefs : Preferences)
    (document : MapDocument) (context : RenderContext) (m : MapRenderer) (w : σ)
    (r : MapRenderer × σ) (h : rebuildGeometryData ops prefs document context m w = some r)
    (k : Bucket) :
    (m.geometryDataValid k = true →
      r.1.faceBlock k = m.faceBlock k ∧ r.1.faceRenderInfos k = m.faceRenderInfos k) ∧
    (m.geometryDataValid k = false → sourceNonEmpty document context VboKind.face k = false →
      r.1.faceBlock k = none ∧ r.1.faceRenderInfos k = []) ∧
    (m.geometryDataValid k = false → sourceNonEmpty document context VboKind.face k = true →
      (r.1.faceBlock k).isSome = true) := by
  obtain ⟨_, hc⟩ := rebuildGeometryData_collected ops prefs document context m w r h
  have e := collected_isEmpty m.m_dummyTexture (visibleBrushes context.filter document.entities)
    (visibleFaces context.filter document.entities) k
  cases k
  · have hh := rebuildGeometryData_m_selectedFaceBlock_cases ops prefs document context m w r _ h hc
    simp only [GeometryCollection.faces] at e
    rw [e] at hh
    simpa [sourceNonEmpty, MapRenderer.geometryDataValid, MapRenderer.faceBlock,
      MapRenderer.faceRenderInfos] using hh
  · have hh := rebuildGeometryData_m_lockedFaceBlock_cases ops prefs document context m w r _ h hc
    simp only [GeometryCollection.faces] at e
    rw [e] at hh
    simpa [sourceNonEmpty, MapRenderer.geometryDataValid, MapRenderer.faceBlock,
      MapRenderer.faceRenderInfos] using hh
  · have hh := rebuildGeometryData_m_faceBlock_cases ops prefs document context m w r _ h hc
    simp only [GeometryCollection.faces] at e
    rw [e] at hh
    simpa [sourceNonEmpty, MapRenderer.geometryDataValid, MapRenderer.faceBlock,
      MapRenderer.faceRenderInfos] using hh

theorem rebuildGeometryData_edges {σ : Type} (ops : MapOps σ) (prefs : Preferences)
    (document : MapDocument) (context : RenderContext) (m : MapRenderer) (w : σ)
    (r : MapRenderer × σ) (h : rebuildGeometryData ops prefs document context m w = some r)
    (k : Bucket) :
    (m.geometryDataValid k = true →
      r.1.edgeBlock k = m.edgeBlock k ∧ r.1.edgeRenderInfo k = m.edgeRenderInfo k) ∧
    (m.geometryDataValid k = false → sourceNonEmpty document context VboKind.edge k = false →
      r.1.edgeBlock k = none ∧ r.1.edgeRenderInfo k = ⟨0, 0⟩) ∧
    (m.geometryDataValid k = false → sourceNonEmpty document context VboKind.edge k = true →
      (r.1.edgeBlock k).isSome = true) := by
  obtain ⟨_, hc⟩ := rebuildGeometryData_collected ops prefs document context m w r h
  cases k
  · have hh := rebuildGeometryData_m_selectedEdgeBlock_cases ops prefs document context m w r _ h hc
    rw [collected_selectedBrushes, collected_partialFaces] at hh
    simpa [sourceNonEmpty, edgeBrushes, edgeFaces, MapRenderer.geometryDataValid,
      MapRenderer.edgeBlock, MapRenderer.edgeRenderInfo] using hh
  · have hh := rebuildGeometryData_m_lockedEdgeBlock_cases ops prefs document context m w r _ h hc
    rw [collected_lockedBrushes] at hh
    simpa [sourceNonEmpty, edgeBrushes, edgeFaces, MapRenderer.geometryDataValid,
      MapRenderer.edgeBlock, MapRenderer.edgeRenderInfo] using hh
  · have hh := rebuildGeometryData_m_edgeBlock_cases ops prefs document context m w r _ h hc
    rw [collected_unselectedBrushes] at hh
    simpa [sourceNonEmpty, edgeBrushes, edgeFaces, MapRenderer.geometryDataValid,
      MapRenderer.edgeBlock, MapRenderer.edgeRenderInfo] using hh

theorem rebuildEntityData_bounds {σ : Type} (ops : MapOps σ) (prefs : Preferences)
    (document : MapDocument) (context : RenderContext) (m : MapRenderer) (w : σ)
    (r : MapRenderer × σ) (h : rebuildEntityData ops prefs document context m w = some r)
    (k : Bucket) :
    (m.entityDataValid k = true →
      r.1.boundsBlock k = m.boundsBlock k ∧ r.1.boundsRenderInfo k = m.boundsRenderInfo k) ∧
    (m.entityDataValid k = false →
      sourceNonEmpty document context VboKind.entityBounds k = false →
      r.1.boundsBlock k = none ∧ r.1.boundsRenderInfo k = ⟨0, 0⟩) ∧
    (m.entityDataValid k = false →
      sourceNonEmpty document context VboKind.entityBounds k = true →
      (r.1.boundsBlock k).isSome = true) := by
  cases k
  · have hh := rebuildEntityData_m_selectedEntityBoundsBlock_cases ops prefs document context m w r h
    simpa [sourceNonEmpty, EntityCollection.entities, MapRenderer.entityDataValid,
      MapRenderer.boundsBlock, MapRenderer.boundsRenderInfo] using hh
  · have hh := rebuildEntityData_m_lockedEntityBoundsBlock_cases ops prefs document context m w r h
    simpa [sourceNonEmpty, EntityCollection.entities, MapRenderer.entityDataValid,
      MapRenderer.boundsBlock, MapRenderer.boundsRenderInfo] using hh
  · have hh := rebuildEntityData_m_entityBoundsBlock_cases ops prefs document context m w r h
    simpa [sourceNonEmpty, EntityCollection.entities, MapRenderer.entityDataValid,
      MapRenderer.boundsBlock, MapRenderer.boundsRenderInfo] using hh


theorem validateEntityRenderers_frame {σ : Type} (ops : MapOps σ) (document : MapDocument)
    (s r : MapRenderer × σ) (h : validateEntityRenderers ops document s = some r) (k : Bucket) :
    r.1.faceBlock k = s.1.faceBlock k ∧ r.1.faceRenderInfos k = s.1.faceRenderInfos k ∧
    r.1.edgeBlock k = s.1.edgeBlock k ∧ r.1.edgeRenderInfo k = s.1.edgeRenderInfo k ∧
    r.1.geometryDataValid k = s.1.geometryDataValid k ∧
    r.1.boundsBlock k = s.1.boundsBlock k ∧ r.1.boundsRenderInfo k = s.1.boundsRenderInfo k ∧
    r.1.entityDataValid k = s.1.entityDataValid k := by
  have t := validateEntityRenderers_touches ops document s r h
  rw [t]
  cases k <;> exact ⟨rfl, rfl, rfl, rfl, rfl, rfl, rfl, rfl⟩

theorem validateGeometry_frame {σ : Type} (ops : MapOps σ) (prefs : Preferences)
    (document : MapDocument) (context : RenderContext) (s r : MapRenderer × σ)
    (h : validateGeometry ops prefs document context s = some r) (k : Bucket) :
    r.1.boundsBlock k = s.1.boundsBlock k ∧ r.1.boundsRenderInfo k = s.1.boundsRenderInfo k ∧
    r.1.entityDataValid k = s.1.entityDataValid k := by
  obtain ⟨h1, h2, h3, h4, h5, h6, h7, h8, h9, _⟩ :=
    validateGeometry_keeps ops prefs document context s r h
  cases k <;> simp only [MapRenderer.boundsBlock, MapRenderer.boundsRenderInfo,
    MapRenderer.entityDataValid, h1, h2, h3, h4, h5, h6, h7, h8, h9, and_self]

theorem validateEntityData_frame {σ : Type} (ops : MapOps σ) (prefs : Preferences)
    (document : MapDocument) (context : RenderContext) (s r : MapRenderer × σ)
    (h : validateEntityData ops prefs document context s = some r) (k : Bucket) :
    r.1.faceBlock k = s.1.faceBlock k ∧ r.1.faceRenderInfos k = s.1.faceRenderInfos k ∧
    r.1.edgeBlock k = s.1.edgeBlock k ∧ r.1.edgeRenderInfo k = s.1.edgeRenderInfo k ∧
    r.1.geometryDataValid k = s.1.geometryDataValid k := by
  have t := validateEntityData_touches ops prefs document context s r h
  rw [t]
  cases k <;> exact ⟨rfl, rfl, rfl, rfl, rfl⟩

theorem validateGeometry_faces {σ : Type} (ops : MapOps σ) (prefs : Preferences)
    (document : MapDocument) (context : RenderContext) (s r : MapRenderer × σ)
    (h : validateGeometry ops prefs document context s = some r) (k : Bucket) :
    (s.1.geometryDataValid k = true →
      r.1.faceBlock k = s.1.faceBlock k ∧ r.1.faceRenderInfos k = s.1.faceRenderInfos k) ∧
    (s.1.geometryDataValid k = false → sourceNonEmpty document context VboKind.face k = false →
      r.1.faceBlock k = none ∧ r.1.faceRenderInfos k = []) ∧
    (s.1.geometryDataValid k = false → sourceNonEmpty document context VboKind.face k = true →
      (r.1.faceBlock k).isSome = true) := by
  unfold validateGeometry at h
  split at h
  · exact rebuildGeometryData_faces ops prefs document context s.1 s.2 r h k
  · have hn : ¬(!s.1.m_geometryDataValid || !s.1.m_selectedGeometryDataValid || !s.1.m_lockedGeometryDataValid) = true := by assumption
    simp only [Bool.or_eq_true, Bool.not_eq_true', not_or, Bool.not_eq_false] at hn
    rw [← Option.some.inj h]
    refine ⟨fun _ => ⟨rfl, rfl⟩, fun hf => ?_, fun hf => ?_⟩ <;>
      (cases k <;> simp [MapRenderer.geometryDataValid, hn.1.1, hn.1.2, hn.2] at hf)

theorem validateGeometry_edges {σ : Type} (ops : MapOps σ) (prefs : Preferences)
    (document : MapDocument) (context : RenderContext) (s r : MapRenderer × σ)
    (h : validateGeometry ops prefs document context s = some r) (k : Bucket) :
    (s.1.geometryDataValid k = true →
      r.1.edgeBlock k = s.1.edgeBlock k ∧ r.1.edgeRenderInfo k = s.1.edgeRenderInfo k) ∧
    (s.1.geometryDataValid k = false → sourceNonEmpty document context VboKind.edge k = false →
      r.1.edgeBlock k = none ∧ r.1.edgeRenderInfo k = ⟨0, 0⟩) ∧
    (s.1.geometryDataValid k = false → sourceNonEmpty document context VboKind.edge k = true →
      (r.1.edgeBlock k).isSome = true) := by
  unfold validateGeometry at h
  split at h
  · exact rebuildGeometryData_edges ops prefs document context s.1 s.2 r h k
  · have hn : ¬(!s.1.m_geometryDataValid || !s.1.m_selectedGeometryDataValid || !s.1.m_lockedGeometryDataValid) = true := by assumption
    simp only [Bool.or_eq_true, Bool.not_eq_true', not_or, Bool.not_eq_false] at hn
    rw [← Option.some.inj h]
    refine ⟨fun _ => ⟨rfl, rfl⟩, fun hf => ?_, fun hf => ?_⟩ <;>
      (cases k <;> simp [MapRenderer.geometryDataValid, hn.1.1, hn.1.2, hn.2] at hf)

theorem validateEntityData_bounds {σ : Type} (ops : MapOps σ) (prefs : Preferences)
    (document : MapDocument) (context : RenderContext) (s r : MapRenderer × σ)
    (h : validateEntityData ops prefs document context s = some r) (k : Bucket) :
    (s.1.entityDataValid k = true →
      r.1.boundsBlock k = s.1.boundsBlock k ∧ r.1.boundsRenderInfo k = s.1.boundsRenderInfo k) ∧
    (s.1.entityDataValid k = false → sourceNonEmpty document context VboKind.entityBounds k = false →
      r.1.boundsBlock k = none ∧ r.1.boundsRenderInfo k = ⟨0, 0⟩) ∧
    (s.1.entityDataValid k = false → sourceNonEmpty document context VboKind.entityBounds k = true →
      (r.1.boundsBlock k).isSome = true) := by
  unfold validateEntityData at h
  split at h
  · exact rebuildEntityData_bounds ops prefs document context s.1 s.2 r h k
  · have hn : ¬(!s.1.m_entityDataValid || !s.1.m_selectedEntityDataValid || !s.1.m_lockedEntityDataValid) = true := by assumption
    simp only [Bool.or_eq_true, Bool.not_eq_true', not_or, Bool.not_eq_false] at hn
    rw [← Option.some.inj h]
    refine ⟨fun _ => ⟨rfl, rfl⟩, fun hf => ?_, fun hf => ?_⟩ <;>
      (cases k <;> simp [MapRenderer.entityDataValid, hn.1.1, hn.1.2, hn.2] at hf)

theorem validate_faces {σ : Type} (ops : MapOps σ) (prefs : Preferences)
    (document : MapDocument) (context : RenderContext) (m : MapRenderer) (w : σ)
    (r : MapRenderer × σ) (h : validate ops prefs document context m w = some r) (k : Bucket) :
    (m.geometryDataValid k = true →
      r.1.faceBlock k = m.faceBlock k ∧ r.1.faceRenderInfos k = m.faceRenderInfos k) ∧
    (m.geometryDataValid k = false → sourceNonEmpty document context VboKind.face k = false →
      r.1.faceBlock k = none ∧ r.1.faceRenderInfos k = []) ∧
    (m.geometryDataValid k = false → sourceNonEmpty document context VboKind.face k = true →
      (r.1.faceBlock k).isSome = true) := by
  obtain ⟨s1, s2, h1, h2, h3⟩ := validate_steps ops prefs document context m w r h
  have f1 := validateEntityRenderers_frame ops document (m, w) s1 h1 k
  have f3 := validateEntityData_frame ops prefs document context s2 r h3 k
  have p := validateGeometry_faces ops prefs document context s1 s2 h2 k
  simp only [] at f1
  rw [f1.2.2.2.2.1] at p
  refine ⟨fun hv => ?_, fun hv hs => ?_, fun hv hs => ?_⟩
  · have q := p.1 hv
    exact ⟨f3.1.trans (q.1.trans f1.1), f3.2.1.trans (q.2.trans f1.2.1)⟩
  · have q := p.2.1 hv hs
    exact ⟨f3.1.trans q.1, f3.2.1.trans q.2⟩
  · rw [f3.1]
    exact p.2.2 hv hs

theorem validate_edges {σ : Type} (ops : MapOps σ) (prefs : Preferences)
    (document : MapDocument) (context : RenderContext) (m : MapRenderer) (w : σ)
    (r : MapRenderer × σ) (h : validate ops prefs document context m w = some r) (k : Bucket) :
    (m.geometryDataValid k = true →
      r.1.edgeBlock k = m.edgeBlock k ∧ r.1.edgeRenderInfo k = m.edgeRenderInfo k) ∧
    (m.geometryDataValid k = false → sourceNonEmpty document context VboKind.edge k = false →
      r.1.edgeBlock k = none ∧ r.1.edgeRenderInfo k = ⟨0, 0⟩) ∧
    (m.geometryDataValid k = false → sourceNonEmpty document context VboKind.edge k = true →
      (r.1.edgeBlock k).isSome = true) := by
  obtain ⟨s1, s2, h1, h2, h3⟩ := validate_steps ops prefs document context m w r h
  have f1 := validateEntityRenderers_frame ops document (m, w) s1 h1 k
  have f3 := validateEntityData_frame ops prefs document context s2 r h3 k
  have p := validateGeometry_edges ops prefs document context s1 s2 h2 k
  simp only [] at f1
  rw [f1.2.2.2.2.1] at p
  refine ⟨fun hv => ?_, fun hv hs => ?_, fun hv hs => ?_⟩
  · have q := p.1 hv
    exact ⟨f3.2.2.1.trans (q.1.trans f1.2.2.1), f3.2.2.2.1.trans (q.2.trans f1.2.2.2.1)⟩
  · have q := p.2.1 hv hs
    exact ⟨f3.2.2.1.trans q.1, f3.2.2.2.1.trans q.2⟩
  · rw [f3.2.2.1]
    exact p.2.2 hv hs

theorem validate_bounds {σ : Type} (ops : MapOps σ) (prefs : Preferences)
    (document : MapDocument) (context : RenderContext) (m : MapRenderer) (w : σ)
    (r : MapRenderer × σ) (h : validate ops prefs document context m w = some r) (k : Bucket) :
    (m.entityDataValid k = true →
      r.1.boundsBlock k = m.boundsBlock k ∧ r.1.boundsRenderInfo k = m.boundsRenderInfo k) ∧
    (m.entityDataValid k = false → sourceNonEmpty document context VboKind.entityBounds k = false →
      r.1.boundsBlock k = none ∧ r.1.boundsRenderInfo k = ⟨0, 0⟩) ∧
    (m.entityDataValid k = false → sourceNonEmpty document context VboKind.entityBounds k = true →
      (r.1.boundsBlock k).isSome = true) := by
  obtain ⟨s1, s2, h1, h2, h3⟩ := validate_steps ops prefs document context m w r h
  have f1 := validateEntityRenderers_frame ops document (m, w) s1 h1 k
  have f2 := validateGeometry_frame ops prefs document context s1 s2 h2 k
  have p := validateEntityData_bounds ops prefs document context s2 r h3 k
  simp only [] at f1
  rw [f2.2.2, f1.2.2.2.2.2.2.2] at p
  refine ⟨fun hv => ?_, fun hv hs => p.2.1 hv hs, fun hv hs => p.2.2 hv hs⟩
  have q := p.1 hv
  exact ⟨q.1.trans (f2.1.trans f1.2.2.2.2.2.1), q.2.trans (f2.2.1.trans f1.2.2.2.2.2.2.1)⟩

theorem validate_block {σ : Type} (ops : MapOps σ) (prefs : Preferences)
    (document : MapDocument) (context : RenderContext) (m : MapRenderer) (w : σ)
    (r : MapRenderer × σ) (h : validate ops prefs document context m w = some r)
    (g : VboKind) (k : Bucket) :
    (m.aspectValid g k = true → r.1.block g k = m.block g k) ∧
    (m.aspectValid g k = false →
      (r.1.block g k).isSome = sourceNonEmpty document context g k) := by
  have key : ∀ (b b0 : Option VboBlock) (v src : Bool) (P Q : Prop),
      ((v = true → b = b0 ∧ P) ∧ (v = false → src = false → b = none ∧ Q) ∧
        (v = false → src = true → b.isSome = true)) →
      (v = true → b = b0) ∧ (v = false → b.isSome = src) := by
    intro b b0 v src P Q hh
    refine ⟨fun hv => (hh.1 hv).1, fun hv => ?_⟩
    cases hs : src with
    | false => rw [(hh.2.1 hv hs).1]; rfl
    | true => exact hh.2.2 hv hs
  cases g with
  | face => exact key _ _ _ _ _ _ (validate_faces ops prefs document context m w r h k)
  | edge => exact key _ _ _ _ _ _ (validate_edges ops prefs document context m w r h k)
  | entityBounds => exact key _ _ _ _ _ _ (validate_bounds ops prefs document context m w r h k)

theorem validate_aspectValid {σ : Type} (ops : MapOps σ) (prefs : Preferences)
    (document : MapDocument) (context : RenderContext) (m : MapRenderer) (w : σ)
    (r : MapRenderer × σ) (h : validate ops prefs document context m w = some r)
    (g : VboKind) (k : Bucket) : r.1.aspectValid g k = true := by
  have f := validate_flags ops prefs document context m w r h
  simp only [MapRenderer.flags, List.cons.injEq, and_true] at f
  cases g <;> cases k <;>
    simp [MapRenderer.aspectValid, MapRenderer.geometryDataValid, MapRenderer.entityDataValid, f]


theorem addEntities_frame {σ : Type} (ops : MapOps σ) (document : MapDocument)
    (entities : List Entity) (m : MapRenderer) (w : σ) (r : MapRenderer × σ)
    (h : addEntities ops document entities m w = some r) (g : VboKind) (k : Bucket) :
    r.1.block g k = m.block g k ∧ (r.1.aspectValid g k = true → m.aspectValid g k = true) := by
  have t := addEntities_touches ops document entities m w r h
  rw [t]
  cases g <;> cases k <;> first | exact ⟨rfl, id⟩ | exact ⟨rfl, fun hf => by cases hf⟩

theorem removeEntities_frame (entities : List Entity) (m : MapRenderer) (g : VboKind)
    (k : Bucket) :
    (removeEntities entities m).block g k = m.block g k ∧
      ((removeEntities entities m).aspectValid g k = true → m.aspectValid g k = true) := by
  rw [removeEntities_touches]
  cases g <;> cases k <;> first | exact ⟨rfl, id⟩ | exact ⟨rfl, fun hf => by cases hf⟩

theorem loadMap_frame {σ : Type} (ops : MapOps σ) (document : MapDocument)
    (m : MapRenderer) (w : σ) (r : MapRenderer × σ)
    (h : loadMap ops document m w = some r) (g : VboKind) (k : Bucket) :
    r.1.block g k = m.block g k ∧ (r.1.aspectValid g k = true → m.aspectValid g k = true) := by
  have t := loadMap_touches ops document m w r h
  rw [t]
  cases g <;> cases k <;> exact ⟨rfl, fun hf => by cases hf⟩

theorem clearMap_frame (m : MapRenderer) (g : VboKind) (k : Bucket) :
    (clearMap m).block g k = m.block g k ∧
      ((clearMap m).aspectValid g k = true → m.aspectValid g k = true) := by
  cases g <;> cases k <;> exact ⟨rfl, fun hf => by cases hf⟩

theorem changeEditState_frame (cs : EditStateChangeSet) (m : MapRenderer) (g : VboKind)
    (k : Bucket) :
    (changeEditState cs m).block g k = m.block g k ∧
      ((changeEditState cs m).aspectValid g k = true → m.aspectValid g k = true) := by
  have f := (flags_list_iff _ _ _ _ _ _ _ _).1 (changeEditState_flags cs m)
  obtain ⟨f1, f2, f3, f4, f5, f6, _⟩ := f
  constructor
  · rw [changeEditState_touches]
    cases g <;> cases k <;> rfl
  · cases g <;> cases k <;>
      simp only [MapRenderer.aspectValid, MapRenderer.geometryDataValid,
        MapRenderer.entityDataValid, f1, f2, f3, f4, f5, f6, Bool.and_eq_true] <;>
      exact fun hf => hf.1

theorem call_frame {σ : Type} (ops : MapOps σ) (c : RendererCall) (s r : MapRenderer × σ)
    (h : MapRenderer.call ops c s = some r) (g : VboKind) (k : Bucket) :
    (∀ prefs document context, c = RendererCall.validate prefs document context →
      r.1.aspectValid g k = true ∧
      (s.1.aspectValid g k = true → r.1.block g k = s.1.block g k) ∧
      (s.1.aspectValid g k = false →
        (r.1.block g k).isSome = sourceNonEmpty document context g k)) ∧
    ((∀ prefs document context, c ≠ RendererCall.validate prefs document context) →
      r.1.block g k = s.1.block g k ∧
      (r.1.aspectValid g k = true → s.1.aspectValid g k = true)) := by
  cases c with
  | addEntities document entities =>
    exact ⟨fun _ _ _ hc => (by cases hc),
      fun _ => addEntities_frame ops document entities s.1 s.2 r h g k⟩
  | removeEntities entities =>
    simp only [MapRenderer.call, Option.some.injEq] at h
    rw [← h]
    exact ⟨fun _ _ _ hc => (by cases hc), fun _ => removeEntities_frame entities s.1 g k⟩
  | changeEditState changeSet =>
    simp only [MapRenderer.call, Option.some.injEq] at h
    rw [← h]
    exact ⟨fun _ _ _ hc => (by cases hc), fun _ => changeEditState_frame changeSet s.1 g k⟩
  | loadMap document =>
    exact ⟨fun _ _ _ hc => (by cases hc), fun _ => loadMap_frame ops document s.1 s.2 r h g k⟩
  | clearMap =>
    simp only [MapRenderer.call, Option.some.injEq] at h
    rw [← h]
    exact ⟨fun _ _ _ hc => (by cases hc), fun _ => clearMap_frame s.1 g k⟩
  | validate prefs document context =>
    refine ⟨fun p d c hc => ?_, fun hn => absurd rfl (hn prefs document context)⟩
    cases hc
    have hb := validate_block ops prefs document context s.1 s.2 r h g k
    exact ⟨validate_aspectValid ops prefs document context s.1 s.2 r h g k, hb.1, hb.2⟩

theorem call_invariant {σ : Type} (ops : MapOps σ) (c : RendererCall) (s r : MapRenderer × σ)
    (last : LastRebuild) (h : MapRenderer.call ops c s = some r)
    (hi : ∀ g k, ((s.1.block g k).isSome = true → last g k = true) ∧
      (s.1.aspectValid g k = true → (s.1.block g k).isSome = last g k)) (g : VboKind)
    (k : Bucket) :
    ((r.1.block g k).isSome = true → trackCall c s.1 last g k = true) ∧
    (r.1.aspectValid g k = true → (r.1.block g k).isSome = trackCall c s.1 last g k) := by
  have hf := call_frame ops c s r h g k
  have hgk := hi g k
  cases c with
  | validate prefs document context =>
    obtain ⟨_, hv, hn⟩ := hf.1 prefs document context rfl
    simp only [trackCall]
    cases hflag : s.1.aspectValid g k with
    | true =>
      rw [hv hflag]
      simp only [if_true]
      exact ⟨hgk.1, fun _ => hgk.2 hflag⟩
    | false =>
      rw [hn hflag]
      simp only [Bool.false_eq_true, if_false]
      exact ⟨id, fun _ => (by first | rfl | trivial)⟩
  | addEntities document entities =>
    obtain ⟨hb, hv⟩ := hf.2 (fun _ _ _ hc => by cases hc)
    rw [hb]
    exact ⟨hgk.1, fun hr => hgk.2 (hv hr)⟩
  | removeEntities entities =>
    obtain ⟨hb, hv⟩ := hf.2 (fun _ _ _ hc => by cases hc)
    rw [hb]
    exact ⟨hgk.1, fun hr => hgk.2 (hv hr)⟩
  | changeEditState changeSet =>
    obtain ⟨hb, hv⟩ := hf.2 (fun _ _ _ hc => by cases hc)
    rw [hb]
    exact ⟨hgk.1, fun hr => hgk.2 (hv hr)⟩
  | loadMap document =>
    obtain ⟨hb, hv⟩ := hf.2 (fun _ _ _ hc => by cases hc)
    rw [hb]
    exact ⟨hgk.1, fun hr => hgk.2 (hv hr)⟩
  | clearMap =>
    obtain ⟨hb, hv⟩ := hf.2 (fun _ _ _ hc => by cases hc)
    rw [hb]
    exact ⟨hgk.1, fun hr => hgk.2 (hv hr)⟩

theorem calls_invariant {σ : Type} (ops : MapOps σ) (cs : List RendererCall)
    (s r : (MapRenderer × σ) × LastRebuild) (h : MapRenderer.calls ops cs s = some r)
    (hi : ∀ g k, ((s.1.1.block g k).isSome = true → s.2 g k = true) ∧
      (s.1.1.aspectValid g k = true → (s.1.1.block g k).isSome = s.2 g k)) :
    ∀ g k, ((r.1.1.block g k).isSome = true → r.2 g k = true) ∧
      (r.1.1.aspectValid g k = true → (r.1.1.block g k).isSome = r.2 g k) := by
  induction cs generalizing s with
  | nil =>
    simp only [MapRenderer.calls, Option.some.injEq] at h
    rw [← h]
    exact hi
  | cons c rest ih =>
    simp only [MapRenderer.calls] at h
    cases hc : MapRenderer.call ops c s.1 with
    | none => simp [hc] at h
    | some s1 =>
      simp only [hc] at h
      exact ih _ h (fun g k => call_invariant ops c s.1 s1 s.2 hc hi g k)


theorem call_cache_invariant {σ : Type} (ops : MapOps σ) (c : RendererCall)
    (s r : MapRenderer × σ) (h : MapRenderer.call ops c s = some r)
    (hi : s.1.m_selectedEntityRenderers = [] ∧ s.1.m_lockedEntityRenderers = [] ∧
      s.1.m_entityRendererCacheValid = true) :
    r.1.m_selectedEntityRenderers = [] ∧ r.1.m_lockedEntityRenderers = [] ∧
      r.1.m_entityRendererCacheValid = true := by
  cases c with
  | addEntities document entities =>
    have t := addEntities_touches ops document entities s.1 s.2 r h
    rw [t]
    exact hi
  | removeEntities entities =>
    simp only [MapRenderer.call, Option.some.injEq] at h
    rw [← h]
    simp only []
    rw [removeEntities_touches]
    exact hi
  | changeEditState changeSet =>
    simp only [MapRenderer.call, Option.some.injEq] at h
    rw [← h]
    simp only []
    rw [changeEditState_touches]
    exact hi
  | loadMap document =>
    have t := loadMap_touches ops document s.1 s.2 r h
    rw [t]
    exact hi
  | clearMap =>
    simp only [MapRenderer.call, Option.some.injEq] at h
    rw [← h]
    exact ⟨rfl, hi.2.1, hi.2.2⟩
  | validate prefs document context =>
    obtain ⟨s1, s2, h1, h2, h3⟩ := validate_steps ops prefs document context s.1 s.2 r h
    have e1 : s1 = s := by
      unfold validateEntityRenderers at h1
      simp only [hi.2.2, Bool.not_true, Bool.false_eq_true, if_false, Option.some.injEq] at h1
      exact h1.symm
    subst e1
    obtain ⟨_, _, _, _, _, _, _, _, _, k10, _, k12, k13, _⟩ :=
      validateGeometry_keeps ops prefs document context s1 s2 h2
    have t := validateEntityData_touches ops prefs document context s2 r h3
    rw [t]
    exact ⟨k12.trans hi.1, k13.trans hi.2.1, k10.trans hi.2.2⟩

theorem calls_cache_invariant {σ : Type} (ops : MapOps σ) (cs : List RendererCall)
    (s r : (MapRenderer × σ) × LastRebuild) (h : MapRenderer.calls ops cs s = some r)
    (hi : s.1.1.m_selectedEntityRenderers = [] ∧ s.1.1.m_lockedEntityRenderers = [] ∧
      s.1.1.m_entityRendererCacheValid = true) :
    r.1.1.m_selectedEntityRenderers = [] ∧ r.1.1.m_lockedEntityRenderers = [] ∧
      r.1.1.m_entityRendererCacheValid = true := by
  induction cs generalizing s with
  | nil =>
    simp only [MapRenderer.calls, Option.some.injEq] at h
    rw [← h]
    exact hi
  | cons c rest ih =>
    simp only [MapRenderer.calls] at h
    cases hc : MapRenderer.call ops c s.1 with
    | none => simp [hc] at h
    | some s1 =>
      simp only [hc] at h
      exact ih _ h (call_cache_invariant ops c s.1 s1 hc hi)

theorem brushEdgeVertices_eq_zero (brushes : List Brush)
    (hne : ∀ b ∈ brushes, b.edges ≠ []) (h : brushEdgeVertices brushes = 0) :
    brushes = [] := by
  cases brushes with
  | nil => rfl
  | cons b rest =>
    exfalso
    have hb := hne b (List.mem_cons_self _ _)
    have hl : 0 < b.edges.length := List.length_pos.2 hb
    simp only [brushEdgeVertices, List.map_cons, List.sum_cons] at h
    omega

theorem faceEdgeVertices_eq_zero (faces : List Face)
    (hne : ∀ f ∈ faces, f.edges ≠ []) (h : faceEdgeVertices faces = 0) :
    faces = [] := by
  cases faces with
  | nil => rfl
  | cons f rest =>
    exfalso
    have hf := hne f (List.mem_cons_self _ _)
    have hl : 0 < f.edges.length := List.length_pos.2 hf
    simp only [faceEdgeVertices, List.map_cons, List.sum_cons] at h
    omega

end TrenchBroom.Renderer

namespace TrenchBroom.Renderer

open MapRenderer

/-- C23 (counterexample): after a `validate` on the sample map and a change of the face
selection, the block of the normal face partition is non-null although the geometry flag is
false, so "non-null if and only if the flag is true and the source set was non-empty at the
last rebuild" fails in a reachable state. -/
theorem stale_block_after_invalidation :
    ∃ r, MapRenderer.calls sampleMapOps
        [RendererCall.validate samplePreferences sampleDocument sampleContext,
         RendererCall.changeEditState sampleFaceChange]
        ((MapRenderer.new 0, 0), LastRebuild.never) = some r ∧
      (r.1.1.block VboKind.face Bucket.normal).isSome = true ∧
      r.1.1.aspectValid VboKind.face Bucket.normal = false ∧
      ¬((r.1.1.block VboKind.face Bucket.normal).isSome = true ↔
        (r.1.1.aspectValid VboKind.face Bucket.normal = true ∧
          r.2 VboKind.face Bucket.normal = true)) :=
  ⟨_, rfl, rfl, rfl, by decide⟩

/-- C23 (amended): in every state reached from construction by a run of `addEntities`,
`removeEntities`, `changeEditState`, `loadMap`, `clearMap` and `validate` calls, the block of
a partition is non-null only if its source set was non-empty at the last rebuild of the
partition, and while the validity flag of its aspect is true the block is non-null if and
only if the source set was non-empty at the last rebuild. -/
theorem block_reflects_last_rebuild {σ : Type} (ops : MapOps σ) (dummyTexture : Texture)
    (w : σ) (cs : List RendererCall) (r : (MapRenderer × σ) × LastRebuild)
    (h : MapRenderer.calls ops cs ((MapRenderer.new dummyTexture, w), LastRebuild.never) =
      some r) (g : VboKind) (k : Bucket) :
    ((r.1.1.block g k).isSome = true → r.2 g k = true) ∧
    (r.1.1.aspectValid g k = true →
      ((r.1.1.block g k).isSome = true ↔ r.2 g k = true)) := by
  have hi := calls_invariant ops cs _ r h (fun g k => by
    cases g <;> cases k <;> exact ⟨fun hf => (by cases hf), fun hf => (by cases hf)⟩) g k
  exact ⟨hi.1, fun hv => by rw [hi.2 hv]⟩

theorem block_reflects_last_rebuild_witness :
    ∃ r, MapRenderer.calls sampleMapOps
        [RendererCall.loadMap sampleDocument,
         RendererCall.validate samplePreferences sampleDocument sampleContext,
         RendererCall.changeEditState sampleFaceChange,
         RendererCall.validate samplePreferences lockedPartialDocument sampleContext]
        ((MapRenderer.new 0, 0), LastRebuild.never) = some r ∧
      ∀ g k, ((r.1.1.block g k).isSome = true → r.2 g k = true) ∧
        (r.1.1.aspectValid g k = true →
          ((r.1.1.block g k).isSome = true ↔ r.2 g k = true)) := by
  obtain ⟨r, hr⟩ : ∃ r, MapRenderer.calls sampleMapOps
      [RendererCall.loadMap sampleDocument,
       RendererCall.validate samplePreferences sampleDocument sampleContext,
       RendererCall.changeEditState sampleFaceChange,
       RendererCall.validate samplePreferences lockedPartialDocument sampleContext]
      ((MapRenderer.new 0, 0), LastRebuild.never) = some r := ⟨_, rfl⟩
  exact ⟨r, hr, fun g k => block_reflects_last_rebuild sampleMapOps 0 0 _ r hr g k⟩

/-- C24 (counterexample): on a map whose only brush has no edges, the rebuild of the invalid
normal geometry finds zero edges in the input group of the normal edge partition and still
allocates a block for it, of length zero. -/
theorem edgeless_brush_gets_zero_length_block :
    (MapRenderer.new 0).m_geometryDataValid = false ∧
    brushEdgeVertices (edgeBrushes sampleContext.filter edgelessDocument.entities
      Bucket.normal) = 0 ∧
    faceEdgeVertices (edgeFaces sampleContext.filter edgelessDocument.entities
      Bucket.normal) = 0 ∧
    ∃ r, rebuildGeometryData sampleMapOps samplePreferences edgelessDocument sampleContext
        (MapRenderer.new 0) 0 = some r ∧
      r.1.m_edgeBlock = some ⟨0, 0, []⟩ ∧ r.1.m_edgeBlock ≠ none :=
  ⟨rfl, rfl, rfl, _, rfl, rfl, by decide⟩

/-- C24 (amended): when an invalid aspect is rebuilt and the input group of a partition is
empty (no face for a face partition; no brush and no selected face of a partially selected
brush for an edge partition), no block is allocated for the partition: the block stays null
and the render info reports zero vertices. With zero edges this is so when every brush and
face of the group has an edge; a non-empty group gets a block whatever its edge count. The
rebuild completes when every visible face has three vertices. -/
theorem empty_group_allocates_nothing {σ : Type} (ops : MapOps σ) (prefs : Preferences)
    (document : MapDocument) (context : RenderContext) (m : MapRenderer) (w : σ)
    (hok : (visibleFaces context.filter document.entities).all faceOk = true) :
    ∃ r, rebuildGeometryData ops prefs document context m w = some r ∧
      ∀ k, m.geometryDataValid k = false →
        (facesIn k (visibleFaces context.filter document.entities) = [] →
          r.1.faceBlock k = none ∧ r.1.faceRenderInfos k = []) ∧
        (edgeBrushes context.filter document.entities k = [] →
          edgeFaces context.filter document.entities k = [] →
          r.1.edgeBlock k = none ∧ r.1.edgeRenderInfo k = ⟨0, 0⟩) ∧
        ((∀ b ∈ edgeBrushes context.filter document.entities k, b.edges ≠ []) →
          (∀ f ∈ edgeFaces context.filter document.entities k, f.edges ≠ []) →
          brushEdgeVertices (edgeBrushes context.filter document.entities k) +
            faceEdgeVertices (edgeFaces context.filter document.entities k) = 0 →
          r.1.edgeBlock k = none ∧ r.1.edgeRenderInfo k = ⟨0, 0⟩) ∧
        ((edgeBrushes context.filter document.entities k ≠ [] ∨
            edgeFaces context.filter document.entities k ≠ []) →
          (r.1.edgeBlock k).isSome = true) := by
  obtain ⟨r, hr⟩ := rebuildGeometryData_some ops prefs document context m w hok
  refine ⟨r, hr, fun k hv => ?_⟩
  have hf := rebuildGeometryData_faces ops prefs document context m w r hr k
  have he := rebuildGeometryData_edges ops prefs document context m w r hr k
  have hempty : edgeBrushes context.filter document.entities k = [] →
      edgeFaces context.filter document.entities k = [] →
      r.1.edgeBlock k = none ∧ r.1.edgeRenderInfo k = ⟨0, 0⟩ := fun h1 h2 =>
    he.2.1 hv (by simp [sourceNonEmpty, h1, h2])
  refine ⟨fun h0 => hf.2.1 hv (by simp [sourceNonEmpty, h0]), hempty, fun n1 n2 hz => ?_,
    fun hne => he.2.2 hv ?_⟩
  · exact hempty (brushEdgeVertices_eq_zero _ n1 (by omega))
      (faceEdgeVertices_eq_zero _ n2 (by omega))
  · rcases hne with hne | hne
    · simp [sourceNonEmpty, List.isEmpty_iff, hne]
    · simp [sourceNonEmpty, List.isEmpty_iff, hne]

theorem empty_group_allocates_nothing_witness :
    (visibleFaces sampleContext.filter lockedPartialDocument.entities).all faceOk = true ∧
    ∃ r, rebuildGeometryData sampleMapOps samplePreferences lockedPartialDocument sampleContext
        (MapRenderer.new 0) 0 = some r ∧
      ∀ k, (MapRenderer.new 0).geometryDataValid k = false →
        (facesIn k (visibleFaces sampleContext.filter lockedPartialDocument.entities) = [] →
          r.1.faceBlock k = none ∧ r.1.faceRenderInfos k = []) ∧
        (edgeBrushes sampleContext.filter lockedPartialDocument.entities k = [] →
          edgeFaces sampleContext.filter lockedPartialDocument.entities k = [] →
          r.1.edgeBlock k = none ∧ r.1.edgeRenderInfo k = ⟨0, 0⟩) ∧
        ((∀ b ∈ edgeBrushes sampleContext.filter lockedPartialDocument.entities k,
            b.edges ≠ []) →
          (∀ f ∈ edgeFaces sampleContext.filter lockedPartialDocument.entities k,
            f.edges ≠ []) →
          brushEdgeVertices (edgeBrushes sampleContext.filter lockedPartialDocument.entities k) +
            faceEdgeVertices (edgeFaces sampleContext.filter lockedPartialDocument.entities k) =
              0 →
          r.1.edgeBlock k = none ∧ r.1.edgeRenderInfo k = ⟨0, 0⟩) ∧
        ((edgeBrushes sampleContext.filter lockedPartialDocument.entities k ≠ [] ∨
            edgeFaces sampleContext.filter lockedPartialDocument.entities k ≠ []) →
          (r.1.edgeBlock k).isSome = true) :=
  ⟨by decide, empty_group_allocates_nothing sampleMapOps samplePreferences
    lockedPartialDocument sampleContext (MapRenderer.new 0) 0 (by decide)⟩

/-- C26 (counterexample): the sample entity is added, then selected, then removed while it
is selected; its classname label is still registered in the selected label registry after
`removeEntities`. -/
theorem selected_label_survives_removal :
    ∃ r, MapRenderer.calls sampleMapOps
        [RendererCall.addEntities sampleDocument [sampleEntity],
         RendererCall.changeEditState sampleSelectChange,
         RendererCall.removeEntities [sampleSelectedEntity]]
        ((MapRenderer.new 0, 0), LastRebuild.never) = some r ∧
      sampleSelectedEntity ∈ [sampleSelectedEntity] ∧
      find r.1.1.m_selectedClassnameRenderer sampleSelectedEntity.id = some "light" :=
  ⟨_, rfl, List.mem_singleton.2 rfl, rfl⟩

/-- C26 (amended): in every state reached from construction by a run of `addEntities`,
`removeEntities`, `changeEditState`, `loadMap`, `clearMap` and `validate` calls, after
`removeEntities(list)` no entity of the list has a cached renderer entry in any of the three
renderer maps nor a classname label registered in the normal label registry; the selected and
the locked label registries are left as they were, so a label that `changeEditState` moved
there stays registered. -/
theorem removal_clears_normal_registrations {σ : Type} (ops : MapOps σ)
    (dummyTexture : Texture) (w : σ) (cs : List RendererCall)
    (s : (MapRenderer × σ) × LastRebuild)
    (h : MapRenderer.calls ops cs ((MapRenderer.new dummyTexture, w), LastRebuild.never) =
      some s) (entities : List Entity) :
    (∀ e ∈ entities,
      find (removeEntities entities s.1.1).m_entityRenderers e.id = none ∧
      find (removeEntities entities s.1.1).m_selectedEntityRenderers e.id = none ∧
      find (removeEntities entities s.1.1).m_lockedEntityRenderers e.id = none ∧
      find (removeEntities entities s.1.1).m_classnameRenderer e.id = none) ∧
    (removeEntities entities s.1.1).m_selectedClassnameRenderer =
      s.1.1.m_selectedClassnameRenderer ∧
    (removeEntities entities s.1.1).m_lockedClassnameRenderer =
      s.1.1.m_lockedClassnameRenderer := by
  have hi := calls_cache_invariant ops cs _ s h ⟨rfl, rfl, rfl⟩
  have t := removeEntities_touches entities s.1.1
  have e2 : (removeEntities entities s.1.1).m_selectedEntityRenderers =
      s.1.1.m_selectedEntityRenderers := congrArg (fun x => x.m_selectedEntityRenderers) t
  have e3 : (removeEntities entities s.1.1).m_lockedEntityRenderers =
      s.1.1.m_lockedEntityRenderers := congrArg (fun x => x.m_lockedEntityRenderers) t
  refine ⟨fun e he => ?_, congrArg (fun x => x.m_selectedClassnameRenderer) t,
    congrArg (fun x => x.m_lockedClassnameRenderer) t⟩
  have hf := removeEach_find entities s.1.1 e.id
  have hex : ∃ e1 ∈ entities, e1.id = e.id := ⟨e, he, rfl⟩
  rw [if_pos hex, if_pos hex] at hf
  refine ⟨hf.1, ?_, ?_, hf.2⟩
  · rw [e2, hi.1]
    rfl
  · rw [e3, hi.2.1]
    rfl

theorem removal_clears_normal_registrations_witness :
    ∃ s, MapRenderer.calls sampleMapOps
        [RendererCall.addEntities sampleDocument [sampleEntity],
         RendererCall.changeEditState sampleSelectChange]
        ((MapRenderer.new 0, 0), LastRebuild.never) = some s ∧
      (∀ e ∈ [sampleSelectedEntity],
        find (removeEntities [sampleSelectedEntity] s.1.1).m_entityRenderers e.id = none ∧
        find (removeEntities [sampleSelectedEntity] s.1.1).m_selectedEntityRenderers e.id =
          none ∧
        find (removeEntities [sampleSelectedEntity] s.1.1).m_lockedEntityRenderers e.id =
          none ∧
        find (removeEntities [sampleSelectedEntity] s.1.1).m_classnameRenderer e.id = none) ∧
      (removeEntities [sampleSelectedEntity] s.1.1).m_selectedClassnameRenderer =
        s.1.1.m_selectedClassnameRenderer ∧
      (removeEntities [sampleSelectedEntity] s.1.1).m_lockedClassnameRenderer =
        s.1.1.m_lockedClassnameRenderer := by
  obtain ⟨s, hs⟩ : ∃ s, MapRenderer.calls sampleMapOps
      [RendererCall.addEntities sampleDocument [sampleEntity],
       RendererCall.changeEditState sampleSelectChange]
      ((MapRenderer.new 0, 0), LastRebuild.never) = some s := ⟨_, rfl⟩
  exact ⟨s, hs, removal_clears_normal_registrations sampleMapOps 0 0 _ s hs
    [sampleSelectedEntity]⟩

/-- C28: `validate` rebuilds only the invalid aspects. When every visible face has three
vertices (and the renderer cache is valid or every entity has a classname) the call
completes, and for every state class whose geometry flag is true on entry the face and edge
blocks and render infos are the same on exit, and for every state class whose entity data
flag is true on entry the bounds block and render info are the same on exit, whatever is
rebuilt for the other aspects in the same call. -/
theorem validate_keeps_valid_aspects {σ : Type} (ops : MapOps σ) (prefs : Preferences)
    (document : MapDocument) (context : RenderContext) (m : MapRenderer) (w : σ)
    (hok : (visibleFaces context.filter document.entities).all faceOk = true)
    (hcls : m.m_entityRendererCacheValid = true ∨
      ∀ e ∈ document.entities, e.classname.isSome = true) :
    ∃ r, validate ops prefs document context m w = some r ∧
      ∀ k, (m.geometryDataValid k = true →
          r.1.faceBlock k = m.faceBlock k ∧ r.1.faceRenderInfos k = m.faceRenderInfos k ∧
          r.1.edgeBlock k = m.edgeBlock k ∧ r.1.edgeRenderInfo k = m.edgeRenderInfo k) ∧
        (m.entityDataValid k = true →
          r.1.boundsBlock k = m.boundsBlock k ∧
          r.1.boundsRenderInfo k = m.boundsRenderInfo k) := by
  obtain ⟨r, hr⟩ := validate_some ops prefs document context m w hok hcls
  refine ⟨r, hr, fun k => ⟨fun hv => ?_, fun hv => ?_⟩⟩
  · have hf := (validate_faces ops prefs document context m w r hr k).1 hv
    have he := (validate_edges ops prefs document context m w r hr k).1 hv
    exact ⟨hf.1, hf.2, he.1, he.2⟩
  · exact (validate_bounds ops prefs document context m w r hr k).1 hv

theorem validate_keeps_valid_aspects_witness :
    (visibleFaces sampleContext.filter sampleDocument.entities).all faceOk = true ∧
    sampleStaleState.1.m_entityRendererCacheValid = true ∧
    sampleStaleState.1.entityDataValid Bucket.normal = true ∧
    sampleStaleState.1.entityDataValid Bucket.selected = false ∧
    ∃ r, validate sampleMapOps samplePreferences sampleDocument sampleContext
        sampleStaleState.1 sampleStaleState.2 = some r ∧
      ∀ k, (sampleStaleState.1.geometryDataValid k = true →
          r.1.faceBlock k = sampleStaleState.1.faceBlock k ∧
          r.1.faceRenderInfos k = sampleStaleState.1.faceRenderInfos k ∧
          r.1.edgeBlock k = sampleStaleState.1.edgeBlock k ∧
          r.1.edgeRenderInfo k = sampleStaleState.1.edgeRenderInfo k) ∧
        (sampleStaleState.1.entityDataValid k = true →
          r.1.boundsBlock k = sampleStaleState.1.boundsBlock k ∧
          r.1.boundsRenderInfo k = sampleStaleState.1.boundsRenderInfo k) :=
  ⟨by decide, rfl, rfl, rfl, validate_keeps_valid_aspects sampleMapOps samplePreferences
    sampleDocument sampleContext sampleStaleState.1 sampleStaleState.2 (by decide)
    (Or.inl rfl)⟩

end TrenchBroom.Renderer

namespace TrenchBroom.Assets
open EntityModelManager

theorem mapFind_mapAssign_isSome {κ ν : Type} [DecidableEq κ] (l : List (κ × ν)) (k k1 : κ)
    (v : ν) :
    (mapFind (mapAssign l k v) k1).isSome = (decide (k1 = k) || (mapFind l k1).isSome) := by
  by_cases h : k = k1
  · subst h
    simp [mapFind_mapAssign_self]
  · have h1 : ¬ k1 = k := fun e => h e.symm
    simp [mapFind_mapAssign_ne l k k1 v h, h1]

theorem consistent_new (logger : Option Logger) : (EntityModelManager.new logger).Consistent := by
  refine ⟨fun p h => ?_, fun sp h => ?_, fun sp h => ?_⟩ <;>
    simp [EntityModelManager.new, mapFind] at h

theorem consistent_clear {σ : Type} (ops : AssetOps σ) (m : EntityModelManager) (w : σ) :
    (clear ops m w).1.Consistent := by
  refine ⟨fun p h => ?_, fun sp h => ?_, fun sp h => ?_⟩ <;>
    simp [clear, mapFind] at h

theorem consistent_reset {σ : Type} (ops : AssetOps σ) (game : Option Game)
    (m : EntityModelManager) (w : σ) (h : m.Consistent) : (reset ops game m w).1.Consistent := by
  unfold reset
  split
  · exact h
  · refine ⟨fun p h => ?_, fun sp h => ?_, fun sp h => ?_⟩ <;>
      simp [clear, mapFind] at h

theorem consistent_model {σ : Type} (ops : AssetOps σ) (path : Path)
    (m : EntityModelManager) (w : σ) (h : m.Consistent) :
    (model ops path m w).2.1.Consistent := by
  unfold model
  split
  · exact h
  · split
    · exact h
    · have hfind : mapFind m.m_models path = none := by assumption
      split
      · exact h
      · have hc : ¬ setCount m.m_modelMismatches path > 0 := by assumption
        have hnm : path ∉ m.m_modelMismatches := fun hm => hc ((setCount_pos _ _).2 hm)
        split
        · exact h
        · split
          · exact h
          · refine ⟨fun p hp => ?_, h.2.1, fun sp hs => ?_⟩
            · simp only [mapFind_mapAssign_isSome, Bool.or_eq_true, decide_eq_true_eq] at hp
              rcases hp with hp | hp
              · rw [hp]
                exact hnm
              · exact h.1 p hp
            · simp only [mapFind_mapAssign_isSome, Bool.or_eq_true, decide_eq_true_eq]
              exact Or.inr (h.2.2 sp hs)
          · refine ⟨fun p hp hm => ?_, h.2.1, h.2.2⟩
            rcases (mem_setInsert _ _ _).1 hm with hm | hm
            · subst hm
              simp only [hfind] at hp
              cases hp
            · exact h.1 p hp hm

theorem consistent_renderer {σ : Type} (ops : AssetOps σ) (spec : ModelSpecification)
    (m : EntityModelManager) (w : σ) (h : m.Consistent) :
    (renderer ops spec m w).2.1.Consistent := by
  have hk := consistent_model ops spec.path m w h
  have hm := model_ret_some_inv ops spec.path m w
  unfold renderer
  generalize model ops spec.path m w = r at hk hm
  obtain ⟨o, m1, w1⟩ := r
  cases o with
  | abort => exact hk
  | raise e => exact hk
  | ret v =>
    cases v with
    | none => exact hk
    | some em =>
      have hpath := (hm em rfl).2
      simp only at hpath hk ⊢
      split
      · exact hk
      · have hfind : mapFind m1.m_renderers spec = none := by assumption
        split
        · exact hk
        · have hc : ¬ setCount m1.m_rendererMismatches spec > 0 := by assumption
          have hnm : spec ∉ m1.m_rendererMismatches :=
            fun hmm => hc ((setCount_pos _ _).2 hmm)
          split
          · refine ⟨hk.1, fun sp hs hmm => ?_, hk.2.2⟩
            rcases (mem_setInsert _ _ _).1 hmm with hmm | hmm
            · subst hmm
              simp only [hfind] at hs
              cases hs
            · exact hk.2.1 sp hs hmm
          · refine ⟨hk.1, fun sp hs => ?_, fun sp hs => ?_⟩
            · simp only [mapFind_mapAssign_isSome, Bool.or_eq_true, decide_eq_true_eq] at hs
              rcases hs with hs | hs
              · rw [hs]
                exact hnm
              · exact hk.2.1 sp hs
            · simp only [mapFind_mapAssign_isSome, Bool.or_eq_true, decide_eq_true_eq] at hs
              rcases hs with hs | hs
              · rw [hs]
                show (mapFind m1.m_models spec.path).isSome = true
                rw [hpath]
                rfl
              · exact hk.2.2 sp hs

theorem consistent_prepareRenderers {σ : Type} (ops : AssetOps σ) (m : EntityModelManager)
    (w : σ) (h : m.Consistent) : (prepareRenderers ops m w).2.1.Consistent := by
  unfold prepareRenderers
  repeat' split
  all_goals exact h

theorem consistent_call {σ : Type} (ops : AssetOps σ) (c : ManagerCall)
    (s : EntityModelManager × σ) (h : s.1.Consistent) : (c.run ops s).1.Consistent := by
  cases c with
  | clear => exact consistent_clear ops s.1 s.2
  | reset game => exact consistent_reset ops game s.1 s.2 h
  | model path => exact consistent_model ops path s.1 s.2 h
  | renderer spec => exact consistent_renderer ops spec s.1 s.2 h
  | activateVbo => exact consistent_prepareRenderers ops s.1 _ h
  | deactivateVbo => exact h

theorem consistent_runCalls {σ : Type} (ops : AssetOps σ) (calls : List ManagerCall)
    (s : EntityModelManager × σ) (h : s.1.Consistent) :
    (runCalls ops calls s).1.Consistent := by
  induction calls generalizing s with
  | nil => exact h
  | cons c rest ih => exact ih _ (consistent_call ops c s h)

end TrenchBroom.Assets

namespace TrenchBroom.Renderer

open MapRenderer

theorem collectBoundsEntities_eq (filter : Filter) (entities : List Entity)
    (c : EntityCollection) :
    collectBoundsEntities filter entities c =
      ⟨c.allEntities ++ entitiesIn filter Bucket.normal entities,
        c.allSelectedEntities ++ entitiesIn filter Bucket.selected entities,
        c.allLockedEntities ++ entitiesIn filter Bucket.locked entities⟩ := by
  induction entities generalizing c with
  | nil => simp [collectBoundsEntities, entitiesIn]
  | cons e rest ih =>
    simp only [collectBoundsEntities]
    cases hv : filter.entityVisible e with
    | false => simp [ih, entitiesIn, hv]
    | true =>
      cases hs : (e.selected || e.partiallySelected) with
      | true =>
        have hb : entityBucket e = Bucket.selected := by simp [entityBucket, hs]
        simp [ih, entitiesIn, hv, hb, hs]
      | false =>
        cases hl : e.locked with
        | true =>
          have hb : entityBucket e = Bucket.locked := by simp [entityBucket, hs, hl]
          simp [ih, entitiesIn, hv, hb, hs, hl]
        | false =>
          have hb : entityBucket e = Bucket.normal := by simp [entityBucket, hs, hl]
          simp [ih, entitiesIn, hv, hb, hs, hl]

theorem collectBoundsEntities_entities (filter : Filter) (entities : List Entity) (k : Bucket) :
    (collectBoundsEntities filter entities ⟨[], [], []⟩).entities k =
      entitiesIn filter k entities := by
  rw [collectBoundsEntities_eq]
  cases k <;> simp [EntityCollection.entities]

theorem entitiesIn_lengths (filter : Filter) (entities : List Entity) :
    (entitiesIn filter Bucket.selected entities).length +
      (entitiesIn filter Bucket.locked entities).length +
      (entitiesIn filter Bucket.normal entities).length =
        (entities.filter filter.entityVisible).length := by
  induction entities with
  | nil => rfl
  | cons e rest ih =>
    simp only [entitiesIn] at ih ⊢
    cases hv : filter.entityVisible e with
    | false => simpa [hv] using ih
    | true =>
      cases hb : entityBucket e <;> simp [hv, hb] <;> omega

end TrenchBroom.Renderer
namespace TrenchBroom.Assets
open EntityModelManager

/-- C35: in the state after any run of `clear`, `reset`, `model`, `renderer`, `activateVbo`
and `deactivateVbo` calls on a new manager, whichever way each call ends (a raised
`GameException` included), no path has an entry in the model cache and in the set of model
mismatches, no specification has an entry in the renderer cache and in the set of renderer
mismatches, and the path of every specification with an entry in the renderer cache has an
entry in the model cache. -/
theorem caches_stay_consistent {σ : Type} (ops : AssetOps σ) (logger : Option Logger) (w : σ)
    (calls : List ManagerCall) :
    (∀ p, (mapFind (runCalls ops calls (EntityModelManager.new logger, w)).1.m_models p).isSome
        = true →
      p ∉ (runCalls ops calls (EntityModelManager.new logger, w)).1.m_modelMismatches) ∧
    (∀ sp,
      (mapFind (runCalls ops calls (EntityModelManager.new logger, w)).1.m_renderers sp).isSome
        = true →
      sp ∉ (runCalls ops calls (EntityModelManager.new logger, w)).1.m_rendererMismatches) ∧
    (∀ sp,
      (mapFind (runCalls ops calls (EntityModelManager.new logger, w)).1.m_renderers sp).isSome
        = true →
      (mapFind (runCalls ops calls (EntityModelManager.new logger, w)).1.m_models
        sp.path).isSome = true) :=
  consistent_runCalls ops calls _ (consistent_new logger)

end TrenchBroom.Assets

namespace TrenchBroom.Renderer

open MapRenderer

/-- C32: the collecting loop of `rebuildEntityData` puts every entity that passes the
visibility filter into exactly one of its three lists: the selected list holds, in map
order, the visible entities that are selected or partially selected, the locked list those
of the others that are locked, the normal list the remaining ones; a visible entity of the
map is in a list exactly when the list is the one of its state, and the three lists together
have as many members as there are visible entities. -/
theorem entities_routed_by_state (filter : Filter) (entities : List Entity) :
    (∀ k, (collectBoundsEntities filter entities ⟨[], [], []⟩).entities k =
      entities.filter (fun e => filter.entityVisible e && decide (entityBucket e = k))) ∧
    (∀ e ∈ entities, filter.entityVisible e = true → ∀ k,
      (e ∈ (collectBoundsEntities filter entities ⟨[], [], []⟩).entities k ↔
        entityBucket e = k)) ∧
    (collectBoundsEntities filter entities ⟨[], [], []⟩).allSelectedEntities.length +
      (collectBoundsEntities filter entities ⟨[], [], []⟩).allLockedEntities.length +
      (collectBoundsEntities filter entities ⟨[], [], []⟩).allEntities.length =
        (entities.filter filter.entityVisible).length ∧
    ∀ e : Entity, entityBucket e =
      if e.selected || e.partiallySelected then Bucket.selected
      else if e.locked then Bucket.locked
      else Bucket.normal := by
  refine ⟨fun k => collectBoundsEntities_entities filter entities k, fun e he hv k => ?_, ?_,
    fun e => rfl⟩
  · rw [collectBoundsEntities_entities]
    simp [entitiesIn, he, hv]
  · have h := entitiesIn_lengths filter entities
    rw [← collectBoundsEntities_entities, ← collectBoundsEntities_entities,
      ← collectBoundsEntities_entities] at h
    exact h

end TrenchBroom.Renderer

namespace TrenchBroom.Renderer

open MapRenderer

theorem layout_append (o : Nat) (a b : List BlockItem) :
    layout o (a ++ b) = layout o a ++ layout (layoutEnd o a) b := by
  induction a generalizing o with
  | nil => rfl
  | cons i rest ih => simp [layout, layoutEnd, ih]

theorem layoutEnd_append (o : Nat) (a b : List BlockItem) :
    layoutEnd o (a ++ b) = layoutEnd (layoutEnd o a) b := by
  induction a generalizing o with
  | nil => rfl
  | cons i rest ih => simp [layoutEnd, ih]

theorem layout_map_item (o : Nat) (a : List BlockItem) :
    (layout o a).map BlockWrite.item = a := by
  induction a generalizing o with
  | nil => rfl
  | cons i rest ih => simp [layout, ih]

theorem layoutEnd_eq (o : Nat) (a : List BlockItem) (h : o < 4294967296) :
    layoutEnd o a = u32 (o + (a.map BlockItem.size).sum) := by
  induction a generalizing o with
  | nil => simp [layoutEnd, u32_of_lt h]
  | cons i rest ih =>
    simp only [layoutEnd, List.map_cons, List.sum_cons]
    rw [ih _ (u32_lt _), u32_add_u32, Nat.add_assoc]

theorem laid_refl (s : VboBlock × Nat) : Laid s s := ⟨[], by simp [layout], rfl⟩

theorem laid_trans {s s1 s2 : VboBlock × Nat} (h1 : Laid s s1) (h2 : Laid s1 s2) :
    Laid s s2 := by
  obtain ⟨a, a1, a2⟩ := h1
  obtain ⟨b, b1, b2⟩ := h2
  refine ⟨a ++ b, ?_, ?_⟩
  · rw [b1, a1, a2, layout_append, List.append_assoc]
  · rw [b2, a2, layoutEnd_append]

theorem put_laid (item : BlockItem) (s : VboBlock × Nat) : Laid s (put item s) :=
  ⟨[item], rfl, rfl⟩

theorem putVertex_laid (v : FaceVertex) (s : VboBlock × Nat) : Laid s (putVertex v s) :=
  laid_trans (laid_trans (put_laid _ s) (put_laid _ _)) (put_laid _ _)

theorem writeFan_laid (vs : List FaceVertex) (k j : Nat) (s s1 : VboBlock × Nat)
    (h : writeFan vs j k s = some s1) : Laid s s1 := by
  induction k generalizing j s with
  | zero =>
    simp only [writeFan, Option.some.injEq] at h
    rw [← h]
    exact laid_refl s
  | succ k ih =>
    simp only [writeFan] at h
    cases h0 : vs[0]? with
    | none => simp [h0] at h
    | some v0 =>
      cases hj : vs[j]? with
      | none => simp [h0, hj] at h
      | some vj =>
        cases hj1 : vs[j + 1]? with
        | none => simp [h0, hj, hj1] at h
        | some vj1 =>
          simp only [h0, hj, hj1] at h
          exact laid_trans (laid_trans (laid_trans (putVertex_laid _ s) (putVertex_laid _ _))
            (putVertex_laid _ _)) (ih _ _ h)

theorem writeFace_laid (face : Face) (s s1 : (VboBlock × Nat) × Nat)
    (h : writeFace face s = some s1) : Laid s.1 s1.1 := by
  unfold writeFace at h
  split at h
  · cases h
  · cases hf : writeFan face.vertices 1 (face.vertices.length - 2) s.1 with
    | none => simp [hf] at h
    | some r =>
      simp only [hf, Option.some.injEq] at h
      rw [← h]
      exact writeFan_laid _ _ _ _ _ hf

theorem writeFaces_laid (faces : List Face) (s s1 : (VboBlock × Nat) × Nat)
    (h : writeFaces faces s = some s1) : Laid s.1 s1.1 := by
  induction faces generalizing s with
  | nil =>
    simp only [writeFaces, Option.some.injEq] at h
    rw [← h]
    exact laid_refl _
  | cons f rest ih =>
    simp only [writeFaces] at h
    cases hf : writeFace f s with
    | none => simp [hf] at h
    | some r =>
      simp only [hf] at h
      exact laid_trans (writeFace_laid f s r hf) (ih _ h)

theorem writeFaceGroups_laid (groups : FacesByTexture) (address : Nat)
    (s r : (VboBlock × Nat) × List TexturedTriangleRenderInfo)
    (h : writeFaceGroups groups address s = some r) : Laid s.1 r.1 := by
  induction groups generalizing address s with
  | nil =>
    simp only [writeFaceGroups, Option.some.injEq] at h
    rw [← h]
    exact laid_refl _
  | cons g rest ih =>
    obtain ⟨texture, faces⟩ := g
    simp only [writeFaceGroups] at h
    cases hf : writeFaces faces (s.1, 0) with
    | none => simp [hf] at h
    | some r1 =>
      simp only [hf] at h
      exact laid_trans (writeFaces_laid faces _ r1 hf) (ih _ _ h)

theorem laid_writes {s s1 : VboBlock × Nat} (h : Laid s s1) (items : List BlockItem)
    (hi : s1.1.items = s.1.items ++ items) :
    s1.1.writes = s.1.writes ++ layout s.2 items := by
  obtain ⟨a, a1, _⟩ := h
  have e : s1.1.items = s.1.items ++ a := by
    simp only [VboBlock.items, a1, List.map_append, layout_map_item]
  rw [hi] at e
  rw [a1, List.append_cancel_left e]

theorem layout_vertexTuples (i : Nat) (vs : List FaceVertex)
    (h : FaceVertexSize * (i + vs.length) < 4294967296) :
    layout (FaceVertexSize * i) (vs.flatMap vertexTuple) = tupleWritesFrom i vs := by
  induction vs generalizing i with
  | nil => rfl
  | cons v rest ih =>
    simp only [List.length_cons] at h
    have h1 := ih (i + 1) (by rw [Nat.add_assoc, Nat.add_comm 1]; exact h)
    have hs : FaceVertexSize = 28 := rfl
    have ht : TexCoordSize = 8 := rfl
    have hv : VertexSize = 12 := rfl
    rw [hs] at h h1
    have e1 : u32 (28 * i + 8) = 28 * i + 8 := u32_of_lt (by omega)
    have e2 : u32 (28 * i + 8 + 8) = 28 * i + (8 + 8) := by
      rw [u32_of_lt (by omega)]
    have e3 : u32 (28 * i + 8 + 8 + 12) = 28 * (i + 1) := by
      rw [u32_of_lt (by omega)]
      omega
    have hl : layout (28 * i) (vertexTuple v) =
        [⟨28 * i, BlockItem.vec2 v.gridCoord⟩, ⟨28 * i + 8, BlockItem.vec2 v.texCoord⟩,
          ⟨28 * i + (8 + 8), BlockItem.vec3 v.position⟩] := by
      simp only [layout, vertexTuple, BlockItem.size, ht, hv, u32_add_u32, e1, e2]
    have he : layoutEnd (28 * i) (vertexTuple v) = 28 * (i + 1) := by
      simp only [layoutEnd, vertexTuple, BlockItem.size, ht, hv, u32_add_u32, e3]
    show layout (28 * i) ((v :: rest).flatMap vertexTuple) = _
    rw [List.flatMap_cons, layout_append, hl, he, h1]
    rfl

theorem writeFaceData_writes (facesByTexture : FacesByTexture)
    (renderInfos : List TexturedTriangleRenderInfo) (block : VboBlock)
    (r : List TexturedTriangleRenderInfo × VboBlock)
    (h : ∀ f ∈ allFaces facesByTexture, 2 ≤ f.vertices.length)
    (hr : writeFaceData facesByTexture renderInfos block = some r) :
    r.2.items = block.items ++ (writtenVertices facesByTexture).flatMap vertexTuple ∧
    r.2.writes = block.writes ++ layout 0 ((writtenVertices facesByTexture).flatMap vertexTuple) := by
  obtain ⟨r1, h1, _, _, hitems, _⟩ := writeFaceData_some facesByTexture renderInfos block h
  rw [hr] at h1
  cases Option.some.inj h1
  have e : (allFaces facesByTexture).flatMap faceItems =
      (writtenVertices facesByTexture).flatMap vertexTuple := by
    unfold writtenVertices
    rw [List.flatMap_assoc]
    apply List.flatMap_congr
    intro f _
    exact faceItems_eq f
  rw [e] at hitems
  refine ⟨hitems, ?_⟩
  unfold writeFaceData at hr
  split at hr
  · have he : facesByTexture = [] := List.isEmpty_iff.mp (by assumption)
    cases Option.some.inj hr
    simp [he, writtenVertices, allFaces, layout]
  · cases hg : writeFaceGroups facesByTexture block.address ((block, 0), renderInfos) with
    | none => simp [hg] at hr
    | some g =>
      simp only [hg, Option.some.injEq] at hr
      have hl := writeFaceGroups_laid _ _ _ _ hg
      rw [← hr] at hitems ⊢
      exact laid_writes hl _ hitems

end TrenchBroom.Renderer
namespace TrenchBroom.Renderer

open MapRenderer

/-- C34 (counterexample): for the sample face map, whose only face has three vertices with
texture coordinates different from their grid coordinates, `writeFaceData` stores for the
first vertex the grid coordinate before the texture coordinate, which is not the stated
order (texture coordinate, grid coordinate, position). -/
theorem grid_coordinate_written_first :
    ∃ r, writeFaceData sampleFaceMap [] ⟨0, 84, []⟩ = some r ∧
      r.2.items.take 3 = vertexTuple (sampleVertex 0) ∧
      r.2.items.take 3 ≠ statedVertexTuple (sampleVertex 0) ∧
      r.2.writes.take 2 = [⟨0, BlockItem.vec2 (sampleVertex 0).gridCoord⟩,
        ⟨8, BlockItem.vec2 (sampleVertex 0).texCoord⟩] :=
  ⟨_, rfl, rfl, by decide, rfl⟩

/-- C34 (amended): when every face has at least two vertices `writeFaceData` returns, and
every vertex tuple it writes into the block is laid out in the order grid coordinate,
texture coordinate, position: the items appended to the block are the tuples of the written
vertices in that order, stored one behind the other from offset 0 on; and as long as the
byte count stays below 2^32, tuple number `i` starts at byte `FaceVertexSize * i` with the
grid coordinate, followed by the texture coordinate at `TexCoordSize` and the position at
`TexCoordSize + TexCoordSize` bytes from the start of the tuple. -/
theorem vertex_tuple_layout (facesByTexture : FacesByTexture)
    (renderInfos : List TexturedTriangleRenderInfo) (block : VboBlock)
    (h : ∀ f ∈ allFaces facesByTexture, 2 ≤ f.vertices.length) :
    ∃ r, writeFaceData facesByTexture renderInfos block = some r ∧
      r.2.items = block.items ++ (writtenVertices facesByTexture).flatMap (fun v =>
        [BlockItem.vec2 v.gridCoord, BlockItem.vec2 v.texCoord, BlockItem.vec3 v.position]) ∧
      r.2.writes = block.writes ++
        layout 0 ((writtenVertices facesByTexture).flatMap vertexTuple) ∧
      (FaceVertexSize * (writtenVertices facesByTexture).length < 4294967296 →
        r.2.writes = block.writes ++ tupleWritesFrom 0 (writtenVertices facesByTexture)) := by
  obtain ⟨r, hr, _⟩ := writeFaceData_some facesByTexture renderInfos block h
  obtain ⟨h1, h2⟩ := writeFaceData_writes facesByTexture renderInfos block r h hr
  refine ⟨r, hr, h1, h2, fun hno => ?_⟩
  rw [h2, ← layout_vertexTuples 0 _ (by simpa using hno)]
  rfl

theorem vertex_tuple_layout_witness :
    ∃ r, writeFaceData sampleFaceMap [] ⟨0, 84, []⟩ = some r ∧
      r.2.items = (⟨0, 84, []⟩ : VboBlock).items ++
        (writtenVertices sampleFaceMap).flatMap (fun v =>
          [BlockItem.vec2 v.gridCoord, BlockItem.vec2 v.texCoord, BlockItem.vec3 v.position]) ∧
      r.2.writes = (⟨0, 84, []⟩ : VboBlock).writes ++
        layout 0 ((writtenVertices sampleFaceMap).flatMap vertexTuple) ∧
      (FaceVertexSize * (writtenVertices sampleFaceMap).length < 4294967296 →
        r.2.writes = (⟨0, 84, []⟩ : VboBlock).writes ++
          tupleWritesFrom 0 (writtenVertices sampleFaceMap)) :=
  vertex_tuple_layout sampleFaceMap [] ⟨0, 84, []⟩ (by decide)

end TrenchBroom.Renderer

namespace TrenchBroom.Renderer

open MapRenderer

theorem wrote_bytes {s s1 : VboBlock × Nat} {items : List BlockItem} (h : Wrote s s1 items) :
    s1.1.bytesWritten = s.1.bytesWritten + (items.map BlockItem.size).sum := by
  unfold VboBlock.bytesWritten
  rw [h.2.2.1, List.map_append, List.sum_append]

theorem putEdge_wrote (color : Color) (edge : Edge) (s : VboBlock × Nat) :
    Wrote s (putEdge color edge s) (edgeItems color edge) := by
  unfold putEdge edgeItems
  exact wrote_trans (wrote_trans (wrote_trans (put_wrote _ s) (put_wrote _ _)) (put_wrote _ _))
    (put_wrote _ _)

theorem putEdge_laid (color : Color) (edge : Edge) (s : VboBlock × Nat) :
    Laid s (putEdge color edge s) :=
  laid_trans (laid_trans (laid_trans (put_laid _ s) (put_laid _ _)) (put_laid _ _))
    (put_laid _ _)

theorem writeEdges_wrote (color : Color) (edges : List Edge) (s : VboBlock × Nat)
    (hs : s.2 < 4294967296) :
    Wrote s (writeEdges color edges s) (edges.flatMap (edgeItems color)) := by
  induction edges generalizing s with
  | nil => simpa [writeEdges] using wrote_refl s hs
  | cons e rest ih =>
    rw [List.flatMap_cons]
    exact wrote_trans (putEdge_wrote color e s)
      (ih _ (wrote_offset_lt (putEdge_wrote color e s)))

theorem writeBrushEdges_wrote (worldColor : Color) (brushes : List Brush)
    (s : (VboBlock × Nat) × Nat) (hs : s.1.2 < 4294967296) :
    Wrote s.1 (writeBrushEdges worldColor brushes s).1
      (brushes.flatMap (fun b => b.edges.flatMap (edgeItems (edgeColor worldColor b.owner)))) := by
  induction brushes generalizing s with
  | nil => simpa [writeBrushEdges] using wrote_refl s.1 hs
  | cons b rest ih =>
    rw [List.flatMap_cons]
    have h1 := writeEdges_wrote (edgeColor worldColor b.owner) b.edges s.1 hs
    unfold writeBrushEdges
    exact wrote_trans h1 (ih _ (wrote_offset_lt h1))

theorem writeFaceEdges_wrote (worldColor : Color) (faces : List Face)
    (s : (VboBlock × Nat) × Nat) (hs : s.1.2 < 4294967296) :
    Wrote s.1 (writeFaceEdges worldColor faces s).1
      (faces.flatMap (fun f => f.edges.flatMap (edgeItems (edgeColor worldColor f.owner)))) := by
  induction faces generalizing s with
  | nil => simpa [writeFaceEdges] using wrote_refl s.1 hs
  | cons f rest ih =>
    rw [List.flatMap_cons]
    have h1 := writeEdges_wrote (edgeColor worldColor f.owner) f.edges s.1 hs
    unfold writeFaceEdges
    exact wrote_trans h1 (ih _ (wrote_offset_lt h1))

theorem edgeItems_size (color : Color) (edges : List Edge) :
    ((edges.flatMap (edgeItems color)).map BlockItem.size).sum =
      EdgeVertexSize * (2 * edges.length) := by
  rw [flatMap_size_const (edgeItems color) 32 edges (fun _ => rfl)]
  show edges.length * 32 = 16 * (2 * edges.length)
  omega

theorem edgeDataItems_size (worldColor : Color) (brushes : List Brush) (faces : List Face) :
    ((edgeDataItems worldColor brushes faces).map BlockItem.size).sum =
      EdgeVertexSize * (brushEdgeVertices brushes + faceEdgeVertices faces) := by
  have hb : ∀ l : List Brush,
      ((l.flatMap (fun b => b.edges.flatMap (edgeItems (edgeColor worldColor b.owner)))).map
        BlockItem.size).sum = EdgeVertexSize * brushEdgeVertices l := by
    intro l
    induction l with
    | nil => rfl
    | cons b rest ih =>
      rw [List.flatMap_cons, List.map_append, List.sum_append, ih, edgeItems_size]
      simp only [brushEdgeVertices, List.map_cons, List.sum_cons]
      ring
  have hf : ∀ l : List Face,
      ((l.flatMap (fun f => f.edges.flatMap (edgeItems (edgeColor worldColor f.owner)))).map
        BlockItem.size).sum = EdgeVertexSize * faceEdgeVertices l := by
    intro l
    induction l with
    | nil => rfl
    | cons f rest ih =>
      rw [List.flatMap_cons, List.map_append, List.sum_append, ih, edgeItems_size]
      simp only [faceEdgeVertices, List.map_cons, List.sum_cons]
      ring
  unfold edgeDataItems
  rw [List.map_append, List.sum_append, hb, hf]
  ring

theorem writeEdgeData_wrote (prefs : Preferences) (brushes : List Brush) (faces : List Face)
    (renderInfo : EdgeRenderInfo) (block : VboBlock)
    (h : (brushes.isEmpty && faces.isEmpty) = false) :
    (writeEdgeData prefs brushes faces renderInfo block).2.capacity = block.capacity ∧
    (writeEdgeData prefs brushes faces renderInfo block).2.address = block.address ∧
    (writeEdgeData prefs brushes faces renderInfo block).2.items =
      block.items ++ edgeDataItems prefs.edgeColor brushes faces ∧
    (writeEdgeData prefs brushes faces renderInfo block).2.bytesWritten =
      block.bytesWritten +
        EdgeVertexSize * (brushEdgeVertices brushes + faceEdgeVertices faces) ∧
    (writeEdgeData prefs brushes faces renderInfo block).1.offset = block.address := by
  have h1 := writeBrushEdges_wrote prefs.edgeColor brushes ((block, 0), 0) (by simp)
  have h2 := writeFaceEdges_wrote prefs.edgeColor faces
    (writeBrushEdges prefs.edgeColor brushes ((block, 0), 0)) (wrote_offset_lt h1)
  have h3 := wrote_trans h1 h2
  have hb := wrote_bytes h3
  rw [show (brushes.flatMap (fun b => b.edges.flatMap (edgeItems (edgeColor prefs.edgeColor
      b.owner))) ++ faces.flatMap (fun f => f.edges.flatMap (edgeItems (edgeColor
      prefs.edgeColor f.owner)))) = edgeDataItems prefs.edgeColor brushes faces from rfl,
    edgeDataItems_size] at hb
  unfold writeEdgeData
  rw [h]
  simp only [Bool.false_eq_true, if_false]
  exact ⟨h3.2.1, h3.1, h3.2.2.1, hb, trivial⟩

theorem writeBoundsVertices_wrote (color : Color) (vs : List Vec3f) (s : VboBlock × Nat)
    (hs : s.2 < 4294967296) :
    Wrote s (writeBoundsVertices color vs s)
      (vs.flatMap (fun v => [BlockItem.color color, BlockItem.vec3 v])) := by
  induction vs generalizing s with
  | nil => simpa [writeBoundsVertices] using wrote_refl s hs
  | cons v rest ih =>
    rw [List.flatMap_cons]
    have h1 : Wrote s (put (BlockItem.vec3 v) (put (BlockItem.color color) s))
        [BlockItem.color color, BlockItem.vec3 v] :=
      wrote_trans (put_wrote _ s) (put_wrote _ _)
    unfold writeBoundsVertices
    exact wrote_trans h1 (ih _ (wrote_offset_lt h1))

theorem bounds_vertices_length (b : BBox) : b.vertices.length = 24 := rfl

theorem writeEntitiesBounds_wrote (prefs : Preferences) (entities : List Entity)
    (s : (VboBlock × Nat) × Nat) (hs : s.1.2 < 4294967296) (hc : s.2 < 4294967296) :
    Wrote s.1 (writeEntitiesBounds prefs entities s).1 (entities.flatMap (boundsItems prefs)) ∧
    (writeEntitiesBounds prefs entities s).2 = u32 (s.2 + 24 * entities.length) := by
  induction entities generalizing s with
  | nil => exact ⟨by simpa [writeEntitiesBounds] using wrote_refl s.1 hs,
      by simp [writeEntitiesBounds, u32_of_lt hc]⟩
  | cons e rest ih =>
    have h1 : Wrote s.1 (writeBoundsVertices (entityBoundsColor prefs e) e.bounds.vertices s.1)
        (boundsItems prefs e) :=
      writeBoundsVertices_wrote (entityBoundsColor prefs e) e.bounds.vertices s.1 hs
    obtain ⟨i1, i2⟩ := ih (writeBoundsVertices (entityBoundsColor prefs e) e.bounds.vertices s.1,
      u32 (s.2 + e.bounds.vertices.length)) (wrote_offset_lt h1) (u32_lt _)
    have e1 : e.bounds.vertices.length = 24 := bounds_vertices_length _
    have h2 := wrote_trans h1 i1
    rw [← List.flatMap_cons] at h2
    have h3 : (writeEntitiesBounds prefs rest
        (writeBoundsVertices (entityBoundsColor prefs e) e.bounds.vertices s.1,
          u32 (s.2 + e.bounds.vertices.length))).2 = u32 (s.2 + 24 * (e :: rest).length) := by
      rw [i2, u32_add_u32, e1]
      simp only [List.length_cons]
      congr 1
      omega
    exact ⟨h2, h3⟩

theorem boundsItems_size_one (prefs : Preferences) (e : Entity) :
    ((boundsItems prefs e).map BlockItem.size).sum = 384 := by
  unfold boundsItems
  rw [flatMap_size_const (fun v => [BlockItem.color (entityBoundsColor prefs e),
    BlockItem.vec3 v]) 16 e.bounds.vertices (fun _ => rfl), bounds_vertices_length]

theorem boundsItems_size (prefs : Preferences) (entities : List Entity) :
    ((entities.flatMap (boundsItems prefs)).map BlockItem.size).sum =
      EntityBoundsVertexSize * (24 * entities.length) := by
  rw [flatMap_size_const (boundsItems prefs) 384 entities (boundsItems_size_one prefs)]
  show entities.length * 384 = 16 * (24 * entities.length)
  omega

theorem writeEntityBounds_wrote (prefs : Preferences) (entities : List Entity)
    (renderInfo : EdgeRenderInfo) (block : VboBlock) (h : entities.isEmpty = false) :
    (writeEntityBounds prefs entities renderInfo block).2.capacity = block.capacity ∧
    (writeEntityBounds prefs entities renderInfo block).2.address = block.address ∧
    (writeEntityBounds prefs entities renderInfo block).2.items =
      block.items ++ entities.flatMap (boundsItems prefs) ∧
    (writeEntityBounds prefs entities renderInfo block).2.bytesWritten =
      block.bytesWritten + EntityBoundsVertexSize * (24 * entities.length) ∧
    (writeEntityBounds prefs entities renderInfo block).1 =
      ⟨block.address, u32 (24 * entities.length)⟩ := by
  obtain ⟨h1, h2⟩ := writeEntitiesBounds_wrote prefs entities ((block, 0), 0) (by simp) (by simp)
  have hb := wrote_bytes h1
  rw [boundsItems_size] at hb
  unfold writeEntityBounds
  rw [h]
  simp only [Bool.false_eq_true, if_false]
  refine ⟨h1.2.1, h1.1, h1.2.2.1, hb, ?_⟩
  rw [h2]
  simp

theorem manyEntities_length (n : Nat) : (manyEntities n).length = n := by
  simp [manyEntities]

end TrenchBroom.Renderer

namespace TrenchBroom.Renderer

open MapRenderer

theorem writeFaceGroups_infos (groups : FacesByTexture) (address : Nat)
    (s : (VboBlock × Nat) × List TexturedTriangleRenderInfo) (hs : s.1.2 < 4294967296)
    (h : ∀ f ∈ allFaces groups, 2 ≤ f.vertices.length) :
    ∃ r, writeFaceGroups groups address s = some r ∧
      r.2 = s.2 ++ wrappedRenderInfos s.1.1.address address s.1.2 groups := by
  induction groups generalizing address s with
  | nil => exact ⟨s, rfl, by simp [wrappedRenderInfos]⟩
  | cons g rest ih =>
    obtain ⟨texture, faces⟩ := g
    rw [allFaces_cons] at h
    have hf : ∀ f ∈ faces, 2 ≤ f.vertices.length := fun f hf => h f (List.mem_append_left _ hf)
    obtain ⟨s1, h1, w1⟩ := writeFaces_some faces (s.1, 0) hs (by simp) hf
    have e2 : s1.2 = u32 (s.1.2 + fanVertices faces * FaceVertexSize) := by
      rw [w1.2.2.2, fanVertices_flatMap_size faces hf]
    obtain ⟨r, h2, c2⟩ := ih (u32 (s1.1.address + s1.2))
      (s1, s.2 ++ [{ texture := texture, offset := address,
                     vertexCount := u32 (0 + fanVertices faces) }]) (wrote_offset_lt w1)
      (fun f hf => h f (List.mem_append_right _ hf))
    refine ⟨r, ?_, ?_⟩
    · simp only [writeFaceGroups, h1]
      exact h2
    · rw [c2]
      simp only [wrappedRenderInfos, List.append_assoc, List.singleton_append, Nat.zero_add]
      rw [w1.1, e2]

theorem writeFaceData_infos (facesByTexture : FacesByTexture)
    (renderInfos : List TexturedTriangleRenderInfo) (block : VboBlock)
    (r : List TexturedTriangleRenderInfo × VboBlock)
    (h : ∀ f ∈ allFaces facesByTexture, 2 ≤ f.vertices.length)
    (hr : writeFaceData facesByTexture renderInfos block = some r) :
    r.1 = renderInfos ++ wrappedRenderInfos block.address block.address 0 facesByTexture := by
  unfold writeFaceData at hr
  split at hr
  · have he : facesByTexture = [] := List.isEmpty_iff.mp (by assumption)
    cases Option.some.inj hr
    simp [he, wrappedRenderInfos]
  · obtain ⟨g, hg, cg⟩ := writeFaceGroups_infos facesByTexture block.address
      ((block, 0), renderInfos) (by simp) h
    simp only [hg, Option.some.injEq] at hr
    rw [← hr]
    exact cg

theorem fanTotal_append (a b : List Face) : fanTotal (a ++ b) = fanTotal a + fanTotal b := by
  simp [fanTotal]

theorem wrappedRenderInfos_exact (base : Nat) (groups : FacesByTexture) (address offset : Nat)
    (h : ∀ f ∈ allFaces groups, 2 ≤ f.vertices.length) (ha : address = base + offset)
    (hno : base + offset + fanTotal (allFaces groups) * FaceVertexSize < 4294967296) :
    wrappedRenderInfos base address offset groups = faceRenderInfosFrom address groups := by
  induction groups generalizing address offset with
  | nil => rfl
  | cons g rest ih =>
    obtain ⟨texture, faces⟩ := g
    rw [allFaces_cons] at h
    have hf : ∀ f ∈ faces, 2 ≤ f.vertices.length := fun f hf => h f (List.mem_append_left _ hf)
    have hs : FaceVertexSize = 28 := rfl
    rw [allFaces_cons, fanTotal_append, hs] at hno
    simp only at hno
    have e0 := fanVertices_eq_fanTotal faces hf
    have e1 : u32 (fanTotal faces) = fanTotal faces := u32_of_lt (by omega)
    have e2 : u32 (offset + fanTotal faces * 28) = offset + fanTotal faces * 28 :=
      u32_of_lt (by omega)
    have e3 : u32 (base + (offset + fanTotal faces * 28)) = address + fanTotal faces * 28 := by
      rw [u32_of_lt (by omega), ha]
      omega
    simp only [wrappedRenderInfos, faceRenderInfosFrom, e0, hs, e1, e2, e3]
    rw [ih (address + fanTotal faces * 28) (offset + fanTotal faces * 28)
      (fun f hf => h f (List.mem_append_right _ hf)) (by omega) (by rw [hs]; omega)]

theorem faceRenderInfosFrom_texture (address : Nat) (groups : FacesByTexture) :
    (faceRenderInfosFrom address groups).map (fun i => i.texture) = groups.map (fun g => g.1) := by
  induction groups generalizing address with
  | nil => rfl
  | cons g rest ih =>
    obtain ⟨texture, faces⟩ := g
    simp [faceRenderInfosFrom, ih]

theorem faceRenderInfosFrom_count (address : Nat) (groups : FacesByTexture) :
    (faceRenderInfosFrom address groups).map (fun i => i.vertexCount) =
      groups.map (fun g => fanTotal g.2) := by
  induction groups generalizing address with
  | nil => rfl
  | cons g rest ih =>
    obtain ⟨texture, faces⟩ := g
    simp [faceRenderInfosFrom, ih]

theorem faceRenderInfosFrom_sum (address : Nat) (groups : FacesByTexture) :
    ((faceRenderInfosFrom address groups).map (fun i => i.vertexCount)).sum =
      fanTotal (allFaces groups) := by
  induction groups generalizing address with
  | nil => rfl
  | cons g rest ih =>
    obtain ⟨texture, faces⟩ := g
    rw [allFaces_cons, fanTotal_append]
    simp [faceRenderInfosFrom, ih]

theorem faceRenderInfosFrom_head (address : Nat) (groups : FacesByTexture) :
    ∀ a, (faceRenderInfosFrom address groups)[0]? = some a → a.offset = address := by
  intro a ha
  cases groups with
  | nil => simp [faceRenderInfosFrom] at ha
  | cons g rest =>
    obtain ⟨texture, faces⟩ := g
    simp only [faceRenderInfosFrom, List.getElem?_cons_zero, Option.some.injEq] at ha
    rw [← ha]

theorem faceRenderInfosFrom_next (address : Nat) (groups : FacesByTexture) (i : Nat)
    (a b : TexturedTriangleRenderInfo)
    (ha : (faceRenderInfosFrom address groups)[i]? = some a)
    (hb : (faceRenderInfosFrom address groups)[i + 1]? = some b) :
    b.offset = a.offset + a.vertexCount * FaceVertexSize := by
  induction groups generalizing address i with
  | nil => simp [faceRenderInfosFrom] at ha
  | cons g rest ih =>
    obtain ⟨texture, faces⟩ := g
    cases i with
    | zero =>
      simp only [faceRenderInfosFrom, List.getElem?_cons_zero, Option.some.injEq] at ha
      simp only [faceRenderInfosFrom, List.getElem?_cons_succ] at hb
      rw [← ha, faceRenderInfosFrom_head _ _ b hb]
    | succ j =>
      simp only [faceRenderInfosFrom, List.getElem?_cons_succ] at ha hb
      exact ih _ j ha hb


theorem insertFace_keys (m : FacesByTexture) (t : Texture) (f : Face) :
    ∀ k ∈ (insertFace m t f).map (fun g => g.1), k = t ∨ k ∈ m.map (fun g => g.1) := by
  induction m with
  | nil => simp [insertFace]
  | cons g rest ih =>
    obtain ⟨k0, faces⟩ := g
    intro k hk
    simp only [insertFace] at hk
    split_ifs at hk with h1 h2
    · simp only [List.map_cons, List.mem_cons] at hk ⊢
      exact Or.inr hk
    · simp only [List.map_cons, List.mem_cons] at hk ⊢
      rcases hk with hk | hk | hk
      · exact Or.inl hk
      · exact Or.inr (Or.inl hk)
      · exact Or.inr (Or.inr hk)
    · simp only [List.map_cons, List.mem_cons] at hk ⊢
      rcases hk with hk | hk
      · exact Or.inr (Or.inl hk)
      · rcases ih k hk with h | h
        · exact Or.inl h
        · exact Or.inr (Or.inr h)

theorem insertFace_sorted (m : FacesByTexture) (t : Texture) (f : Face)
    (h : (m.map (fun g => g.1)).Pairwise (fun a b => a < b)) :
    ((insertFace m t f).map (fun g => g.1)).Pairwise (fun a b => a < b) := by
  induction m with
  | nil => simp [insertFace]
  | cons g rest ih =>
    obtain ⟨k0, faces⟩ := g
    simp only [List.map_cons, List.pairwise_cons] at h
    simp only [insertFace]
    split_ifs with h1 h2
    · simp only [List.map_cons, List.pairwise_cons]
      exact h
    · simp only [List.map_cons, List.pairwise_cons, List.mem_cons]
      refine ⟨?_, h⟩
      intro a ha
      rcases ha with ha | ha
      · rw [ha]
        exact h2
      · exact Nat.lt_trans h2 (h.1 a ha)
    · simp only [List.map_cons, List.pairwise_cons]
      refine ⟨?_, ih h.2⟩
      intro a ha
      rcases insertFace_keys rest t f a ha with e | e
      · rw [e]
        exact Nat.lt_of_le_of_ne (Nat.le_of_not_lt h2) (fun e1 => h1 e1.symm)
      · exact h.1 a e

theorem insertFace_groups (d : Texture) (m : FacesByTexture) (f : Face)
    (h : ∀ g ∈ m, g.2 ≠ [] ∧ ∀ x ∈ g.2, faceTexture d x = g.1) :
    ∀ g ∈ insertFace m (faceTexture d f) f, g.2 ≠ [] ∧ ∀ x ∈ g.2, faceTexture d x = g.1 := by
  induction m with
  | nil =>
    intro g hg
    simp only [insertFace, List.mem_singleton] at hg
    rw [hg]
    simp
  | cons g0 rest ih =>
    obtain ⟨k0, faces⟩ := g0
    intro g hg
    simp only [insertFace] at hg
    split_ifs at hg with h1 h2
    · simp only [List.mem_cons] at hg
      rcases hg with hg | hg
      · rw [hg]
        refine ⟨by simp, fun x hx => ?_⟩
        simp only [List.mem_append, List.mem_singleton] at hx
        rcases hx with hx | hx
        · exact (h (k0, faces) (List.mem_cons_self _ _)).2 x hx
        · rw [hx]
          exact h1
      · exact h g (List.mem_cons_of_mem _ hg)
    · simp only [List.mem_cons] at hg
      rcases hg with hg | hg | hg
      · rw [hg]
        simp
      · rw [hg]
        exact h (k0, faces) (List.mem_cons_self _ _)
      · exact h g (List.mem_cons_of_mem _ hg)
    · simp only [List.mem_cons] at hg
      rcases hg with hg | hg
      · rw [hg]
        exact h (k0, faces) (List.mem_cons_self _ _)
      · exact ih (fun g1 hg1 => h g1 (List.mem_cons_of_mem _ hg1)) g hg

theorem insertFaces_grouped (d : Texture) (l : List Face) (m : FacesByTexture)
    (hs : (m.map (fun g => g.1)).Pairwise (fun a b => a < b))
    (h : ∀ g ∈ m, g.2 ≠ [] ∧ ∀ x ∈ g.2, faceTexture d x = g.1) :
    ((insertFaces d l m).map (fun g => g.1)).Pairwise (fun a b => a < b) ∧
    ∀ g ∈ insertFaces d l m, g.2 ≠ [] ∧ ∀ x ∈ g.2, faceTexture d x = g.1 := by
  induction l generalizing m with
  | nil => exact ⟨hs, h⟩
  | cons f rest ih =>
    exact ih _ (insertFace_sorted m _ f hs) (insertFace_groups d m f h)

theorem insertFaces_nil_grouped (d : Texture) (l : List Face) :
    ((insertFaces d l []).map (fun g => g.1)).Nodup ∧
    ∀ g ∈ insertFaces d l [], g.2 ≠ [] ∧ ∀ x ∈ g.2, faceTexture d x = g.1 := by
  obtain ⟨h1, h2⟩ := insertFaces_grouped d l [] (by simp) (by simp)
  exact ⟨h1.imp (fun hab => Nat.ne_of_lt hab), h2⟩

theorem fanTotal_perm {l1 l2 : List Face} (h : l1.Perm l2) : fanTotal l1 = fanTotal l2 := by
  unfold fanTotal
  exact (h.map _).sum_eq

theorem rebuildGeometryData_m_faceBlock_run {σ : Type} (ops : MapOps σ) (prefs : Preferences)
    (document : MapDocument) (context : RenderContext) (m : MapRenderer) (w : σ)
    (c : GeometryCollection)
    (hc : collectEntities context.filter m.m_dummyTexture document.entities
      GeometryCollection.empty = some c)
    (hok : ∀ k f, f ∈ allFaces (c.faces k) → 2 ≤ f.vertices.length)
    (hinv : m.m_geometryDataValid = false) (hne : c.unselectedFaces.isEmpty = false) :
    ∃ r a res, rebuildGeometryData ops prefs document context m w = some r ∧
      writeFaceData c.unselectedFaces [] ⟨a, u32 (c.totalUnselectedFaceVertexCount * FaceVertexSize), []⟩ = some res ∧
      r.1.m_faceBlock = some res.2 ∧ r.1.m_faceRenderInfos = res.1 := by
  obtain ⟨a1, a2, m3, b1, b2, m5, h1, h2, h3, h4, h5, h6, hr⟩ :=
    rebuildGeometryData_chain ops prefs document context m w c hc hok
  have t1 := writeUnselectedFaces_touches c _ a1 h1
  have t2 := writeSelectedFaces_touches c a1 a2 h2
  have t3 := writeLockedFaces_touches c a2 m3 h3
  have t4 := writeUnselectedEdges_touches prefs c _ b1 h4
  have t5 := writeSelectedEdges_touches prefs c b1 b2 h5
  have t6 := writeLockedEdges_touches prefs c b2 m5 h6
  generalize hw2 : (ops.vboMap VboKind.face (ops.vboActivate VboKind.face
    (resetGeometry ops m w).2)) = w2 at h1 h4 t1 t4
  have r0 := resetGeometry_m_faceBlock ops m w hinv
  have f0 := (flags_eq_iff _ _).1 (resetGeometry_flags ops m w)
  have f2 := (flags_eq_iff _ _).1 (allocFaceBlocks_flags ops c (resetGeometry ops m w).1 w2)
  have u2 := allocFaceBlocks_touches ops c (resetGeometry ops m w).1 w2
  obtain ⟨a, ha⟩ := allocFaceBlocks_m_faceBlock ops c (resetGeometry ops m w).1 w2
    (f0.1.trans hinv) hne
  generalize allocFaceBlocks ops c (resetGeometry ops m w).1 w2 = s2 at h1 h4 t1 t4 f2 u2 ha
  generalize hw4 : (ops.vboMap VboKind.edge (ops.vboActivate VboKind.edge
    (ops.vboDeactivate VboKind.face (ops.vboUnmap VboKind.face s2.2)))) = w4 at h4 t4
  have u4 := allocEdgeBlocks_touches ops c m3 w4
  generalize allocEdgeBlocks ops c m3 w4 = s4 at h4 t4 u4
  have pF : s2.1.m_geometryDataValid = s2.1.m_geometryDataValid := by
    rfl
  have pB : s2.1.m_faceBlock = s2.1.m_faceBlock := by
    rfl
  have pI : s2.1.m_faceRenderInfos = s2.1.m_faceRenderInfos := by
    rfl
  have sI : s2.1.m_faceRenderInfos = [] := by
    rw [u2]
    exact r0.2
  obtain ⟨r, hr1, hr2, hr3, hr4, hr5, hr6⟩ := writeFaceData_some c.unselectedFaces s2.1.m_faceRenderInfos
    ⟨a, u32 (c.totalUnselectedFaceVertexCount * FaceVertexSize), []⟩ (hok Bucket.normal)
  have hrun := writeUnselectedFaces_run c s2.1 _ r
    (pF.trans (f2.1.trans (f0.1.trans hinv))) hne (pB.trans ha) hr1
  rw [h1] at hrun
  have hpost := Option.some.inj hrun
  have qB : m3.m_faceBlock = a1.m_faceBlock := by
    rw [t3, t2]
  have qI : m3.m_faceRenderInfos = a1.m_faceRenderInfos := by
    rw [t3, t2]
  have eB : m5.m_faceBlock = m3.m_faceBlock := by
    rw [t6, t5, t4, u4]
  have eI : m5.m_faceRenderInfos = m3.m_faceRenderInfos := by
    rw [t6, t5, t4, u4]
  have hE : c.unselectedFaces.isEmpty ≠ true := by simp [hne]
  rw [pI, sI] at hr1
  refine ⟨_, a, r, hr, hr1, ?_, ?_⟩
  · show m5.m_faceBlock = _
    rw [eB, qB, hpost]
  · show m5.m_faceRenderInfos = _
    rw [eI, qI, hpost]

theorem rebuildGeometryData_m_selectedFaceBlock_run {σ : Type} (ops : MapOps σ) (prefs : Preferences)
    (document : MapDocument) (context : RenderContext) (m : MapRenderer) (w : σ)
    (c : GeometryCollection)
    (hc : collectEntities context.filter m.m_dummyTexture document.entities
      GeometryCollection.empty = some c)
    (hok : ∀ k f, f ∈ allFaces (c.faces k) → 2 ≤ f.vertices.length)
    (hinv : m.m_selectedGeometryDataValid = false) (hne : c.selectedFaces.isEmpty = false) :
    ∃ r a res, rebuildGeometryData ops prefs document context m w = some r ∧
      writeFaceData c.selectedFaces [] ⟨a, u32 (c.totalSelectedFaceVertexCount * FaceVertexSize), []⟩ = some res ∧
      r.1.m_selectedFaceBlock = some res.2 ∧ r.1.m_selectedFaceRenderInfos = res.1 := by
  obtain ⟨a1, a2, m3, b1, b2, m5, h1, h2, h3, h4, h5, h6, hr⟩ :=
    rebuildGeometryData_chain ops prefs document context m w c hc hok
  have t1 := writeUnselectedFaces_touches c _ a1 h1
  have t2 := writeSelectedFaces_touches c a1 a2 h2
  have t3 := writeLockedFaces_touches c a2 m3 h3
  have t4 := writeUnselectedEdges_touches prefs c _ b1 h4
  have t5 := writeSelectedEdges_touches prefs c b1 b2 h5
  have t6 := writeLockedEdges_touches prefs c b2 m5 h6
  generalize hw2 : (ops.vboMap VboKind.face (ops.vboActivate VboKind.face
    (resetGeometry ops m w).2)) = w2 at h1 h4 t1 t4
  have r0 := resetGeometry_m_selectedFaceBlock ops m w hinv
  have f0 := (flags_eq_iff _ _).1 (resetGeometry_flags ops m w)
  have f2 := (flags_eq_iff _ _).1 (allocFaceBlocks_flags ops c (resetGeometry ops m w).1 w2)
  have u2 := allocFaceBlocks_touches ops c (resetGeometry ops m w).1 w2
  obtain ⟨a, ha⟩ := allocFaceBlocks_m_selectedFaceBlock ops c (resetGeometry ops m w).1 w2
    (f0.2.1.trans hinv) hne
  generalize allocFaceBlocks ops c (resetGeometry ops m w).1 w2 = s2 at h1 h4 t1 t4 f2 u2 ha
  generalize hw4 : (ops.vboMap VboKind.edge (ops.vboActivate VboKind.edge
    (ops.vboDeactivate VboKind.face (ops.vboUnmap VboKind.face s2.2)))) = w4 at h4 t4
  have u4 := allocEdgeBlocks_touches ops c m3 w4
  generalize allocEdgeBlocks ops c m3 w4 = s4 at h4 t4 u4
  have pF : a1.m_selectedGeometryDataValid = s2.1.m_selectedGeometryDataValid := by
    rw [t1]
  have pB : a1.m_selectedFaceBlock = s2.1.m_selectedFaceBlock := by
    rw [t1]
  have pI : a1.m_selectedFaceRenderInfos = s2.1.m_selectedFaceRenderInfos := by
    rw [t1]
  have sI : s2.1.m_selectedFaceRenderInfos = [] := by
    rw [u2]
    exact r0.2
  obtain ⟨r, hr1, hr2, hr3, hr4, hr5, hr6⟩ := writeFaceData_some c.selectedFaces a1.m_selectedFaceRenderInfos
    ⟨a, u32 (c.totalSelectedFaceVertexCount * FaceVertexSize), []⟩ (hok Bucket.selected)
  have hrun := writeSelectedFaces_run c a1 _ r
    (pF.trans (f2.2.1.trans (f0.2.1.trans hinv))) hne (pB.trans ha) hr1
  rw [h2] at hrun
  have hpost := Option.some.inj hrun
  have qB : m3.m_selectedFaceBlock = a2.m_selectedFaceBlock := by
    rw [t3]
  have qI : m3.m_selectedFaceRenderInfos = a2.m_selectedFaceRenderInfos := by
    rw [t3]
  have eB : m5.m_selectedFaceBlock = m3.m_selectedFaceBlock := by
    rw [t6, t5, t4, u4]
  have eI : m5.m_selectedFaceRenderInfos = m3.m_selectedFaceRenderInfos := by
    rw [t6, t5, t4, u4]
  have hE : c.selectedFaces.isEmpty ≠ true := by simp [hne]
  rw [pI, sI] at hr1
  refine ⟨_, a, r, hr, hr1, ?_, ?_⟩
  · show m5.m_selectedFaceBlock = _
    rw [eB, qB, hpost]
  · show m5.m_selectedFaceRenderInfos = _
    rw [eI, qI, hpost]

theorem rebuildGeometryData_m_lockedFaceBlock_run {σ : Type} (ops : MapOps σ) (prefs : Preferences)
    (document : MapDocument) (context : RenderContext) (m : MapRenderer) (w : σ)
    (c : GeometryCollection)
    (hc : collectEntities context.filter m.m_dummyTexture document.entities
      GeometryCollection.empty = some c)
    (hok : ∀ k f, f ∈ allFaces (c.faces k) → 2 ≤ f.vertices.length)
    (hinv : m.m_lockedGeometryDataValid = false) (hne : c.lockedFaces.isEmpty = false) :
    ∃ r a res, rebuildGeometryData ops prefs document context m w = some r ∧
      writeFaceData c.lockedFaces [] ⟨a, u32 (c.totalLockedFaceVertexCount * FaceVertexSize), []⟩ = some res ∧
      r.1.m_lockedFaceBlock = some res.2 ∧ r.1.m_lockedFaceRenderInfos = res.1 := by
  obtain ⟨a1, a2, m3, b1, b2, m5, h1, h2, h3, h4, h5, h6, hr⟩ :=
    rebuildGeometryData_chain ops prefs document context m w c hc hok
  have t1 := writeUnselectedFaces_touches c _ a1 h1
  have t2 := writeSelectedFaces_touches c a1 a2 h2
  have t3 := writeLockedFaces_touches c a2 m3 h3
  have t4 := writeUnselectedEdges_touches prefs c _ b1 h4
  have t5 := writeSelectedEdges_touches prefs c b1 b2 h5
  have t6 := writeLockedEdges_touches prefs c b2 m5 h6
  generalize hw2 : (ops.vboMap VboKind.face (ops.vboActivate VboKind.face
    (resetGeometry ops m w).2)) = w2 at h1 h4 t1 t4
  have r0 := resetGeometry_m_lockedFaceBlock ops m w hinv
  have f0 := (flags_eq_iff _ _).1 (resetGeometry_flags ops m w)
  have f2 := (flags_eq_iff _ _).1 (allocFaceBlocks_flags ops c (resetGeometry ops m w).1 w2)
  have u2 := allocFaceBlocks_touches ops c (resetGeometry ops m w).1 w2
  obtain ⟨a, ha⟩ := allocFaceBlocks_m_lockedFaceBlock ops c (resetGeometry ops m w).1 w2
    (f0.2.2.1.trans hinv) hne
  generalize allocFaceBlocks ops c (resetGeometry ops m w).1 w2 = s2 at h1 h4 t1 t4 f2 u2 ha
  generalize hw4 : (ops.vboMap VboKind.edge (ops.vboActivate VboKind.edge
    (ops.vboDeactivate VboKind.face (ops.vboUnmap VboKind.face s2.2)))) = w4 at h4 t4
  have u4 := allocEdgeBlocks_touches ops c m3 w4
  generalize allocEdgeBlocks ops c m3 w4 = s4 at h4 t4 u4
  have pF : a2.m_lockedGeometryDataValid = s2.1.m_lockedGeometryDataValid := by
    rw [t2, t1]
  have pB : a2.m_lockedFaceBlock = s2.1.m_lockedFaceBlock := by
    rw [t2, t1]
  have pI : a2.m_lockedFaceRenderInfos = s2.1.m_lockedFaceRenderInfos := by
    rw [t2, t1]
  have sI : s2.1.m_lockedFaceRenderInfos = [] := by
    rw [u2]
    exact r0.2
  obtain ⟨r, hr1, hr2, hr3, hr4, hr5, hr6⟩ := writeFaceData_some c.lockedFaces a2.m_lockedFaceRenderInfos
    ⟨a, u32 (c.totalLockedFaceVertexCount * FaceVertexSize), []⟩ (hok Bucket.locked)
  have hrun := writeLockedFaces_run c a2 _ r
    (pF.trans (f2.2.2.1.trans (f0.2.2.1.trans hinv))) hne (pB.trans ha) hr1
  rw [h3] at hrun
  have hpost := Option.some.inj hrun
  have qB : m3.m_lockedFaceBlock = m3.m_lockedFaceBlock := by
    rfl
  have qI : m3.m_lockedFaceRenderInfos = m3.m_lockedFaceRenderInfos := by
    rfl
  have eB : m5.m_lockedFaceBlock = m3.m_lockedFaceBlock := by
    rw [t6, t5, t4, u4]
  have eI : m5.m_lockedFaceRenderInfos = m3.m_lockedFaceRenderInfos := by
    rw [t6, t5, t4, u4]
  have hE : c.lockedFaces.isEmpty ≠ true := by simp [hne]
  rw [pI, sI] at hr1
  refine ⟨_, a, r, hr, hr1, ?_, ?_⟩
  · show m5.m_lockedFaceBlock = _
    rw [eB, qB, hpost]
  · show m5.m_lockedFaceRenderInfos = _
    rw [eI, qI, hpost]


end TrenchBroom.Renderer

namespace TrenchBroom.Renderer

open MapRenderer

theorem brushEdgeVertices_perm {l1 l2 : List Brush} (h : l1.Perm l2) :
    brushEdgeVertices l1 = brushEdgeVertices l2 := by
  unfold brushEdgeVertices
  exact (h.map _).sum_eq

theorem collectBoundsEntities_lists (filter : Filter) (entities : List Entity) :
    (collectBoundsEntities filter entities ⟨[], [], []⟩).allEntities =
      entitiesIn filter Bucket.normal entities ∧
    (collectBoundsEntities filter entities ⟨[], [], []⟩).allSelectedEntities =
      entitiesIn filter Bucket.selected entities ∧
    (collectBoundsEntities filter entities ⟨[], [], []⟩).allLockedEntities =
      entitiesIn filter Bucket.locked entities := by
  rw [collectBoundsEntities_eq]
  simp

theorem rebuildGeometryData_faces_run {σ : Type} (ops : MapOps σ) (prefs : Preferences)
    (document : MapDocument) (context : RenderContext) (m : MapRenderer) (w : σ)
    (hok : (visibleFaces context.filter document.entities).all faceOk = true) (k : Bucket)
    (hv : m.geometryDataValid k = false)
    (hne : facesIn k (visibleFaces context.filter document.entities) ≠ []) :
    ∃ r a res, rebuildGeometryData ops prefs document context m w = some r ∧
      writeFaceData
          (insertFaces m.m_dummyTexture
            (facesIn k (visibleFaces context.filter document.entities)) []) []
          ⟨a, u32 (u32 (fanVertices
            (facesIn k (visibleFaces context.filter document.entities))) * FaceVertexSize),
            []⟩ = some res ∧
      r.1.faceBlock k = some res.2 ∧ r.1.faceRenderInfos k = res.1 := by
  have hc := collectEntities_of_ok context.filter m.m_dummyTexture document.entities hok
  have hok2 : ∀ k f, f ∈ allFaces ((collected m.m_dummyTexture
      (visibleBrushes context.filter document.entities)
      (visibleFaces context.filter document.entities) GeometryCollection.empty).faces k) →
      2 ≤ f.vertices.length := fun k f hf => collected_ok2 _ _ _ hok k f hf
  have he := collected_isEmpty m.m_dummyTexture
    (visibleBrushes context.filter document.entities)
    (visibleFaces context.filter document.entities) k
  have hne2 : (facesIn k (visibleFaces context.filter document.entities)).isEmpty = false := by
    cases hl : facesIn k (visibleFaces context.filter document.entities) with
    | nil => exact absurd hl hne
    | cons a l => rfl
  rw [hne2] at he
  cases k with
  | selected =>
    have h := rebuildGeometryData_m_selectedFaceBlock_run ops prefs document context m w _ hc
      hok2 hv he
    simpa [collected, GeometryCollection.empty, MapRenderer.faceBlock,
      MapRenderer.faceRenderInfos] using h
  | locked =>
    have h := rebuildGeometryData_m_lockedFaceBlock_run ops prefs document context m w _ hc
      hok2 hv he
    simpa [collected, GeometryCollection.empty, MapRenderer.faceBlock,
      MapRenderer.faceRenderInfos] using h
  | normal =>
    have h := rebuildGeometryData_m_faceBlock_run ops prefs document context m w _ hc
      hok2 hv he
    simpa [collected, GeometryCollection.empty, MapRenderer.faceBlock,
      MapRenderer.faceRenderInfos] using h

theorem rebuildGeometryData_edges_run {σ : Type} (ops : MapOps σ) (prefs : Preferences)
    (document : MapDocument) (context : RenderContext) (m : MapRenderer) (w : σ)
    (r : MapRenderer × σ) (h : rebuildGeometryData ops prefs document context m w = some r)
    (k : Bucket) (hv : m.geometryDataValid k = false)
    (hs : sourceNonEmpty document context VboKind.edge k = true) :
    ∃ b, r.1.edgeBlock k = some (writeEdgeData prefs
          (edgeBrushes context.filter document.entities k)
          (edgeFaces context.filter document.entities k) ⟨0, 0⟩ b).2 ∧
      b.capacity = u32 (u32 (brushEdgeVertices (edgeBrushes context.filter
          document.entities k) + faceEdgeVertices (edgeFaces context.filter
          document.entities k)) * EdgeVertexSize) ∧
      b.writes = [] ∧
      r.1.edgeRenderInfo k = (writeEdgeData prefs (edgeBrushes context.filter document.entities k)
        (edgeFaces context.filter document.entities k) ⟨0, 0⟩ b).1 := by
  obtain ⟨_, hc⟩ := rebuildGeometryData_collected ops prefs document context m w r h
  cases k with
  | selected =>
    have hh := rebuildGeometryData_m_selectedEdgeBlock_run ops prefs document context m w r _ h hc
      hv (by
        rw [collected_selectedBrushes, collected_partialFaces]
        simpa [sourceNonEmpty, edgeBrushes, edgeFaces] using hs)
    rw [collected_selectedBrushes, collected_partialFaces] at hh
    simpa [collected, GeometryCollection.empty, MapRenderer.edgeBlock,
      MapRenderer.edgeRenderInfo, edgeBrushes, edgeFaces] using hh
  | locked =>
    have hh := rebuildGeometryData_m_lockedEdgeBlock_run ops prefs document context m w r _ h hc
      hv (by
        rw [collected_lockedBrushes]
        simpa [sourceNonEmpty, edgeBrushes, edgeFaces] using hs)
    rw [collected_lockedBrushes] at hh
    simpa [collected, GeometryCollection.empty, MapRenderer.edgeBlock,
      MapRenderer.edgeRenderInfo, edgeBrushes, edgeFaces, faceEdgeVertices] using hh
  | normal =>
    have hh := rebuildGeometryData_m_edgeBlock_run ops prefs document context m w r _ h hc
      hv (by
        rw [collected_unselectedBrushes]
        simpa [sourceNonEmpty, edgeBrushes, edgeFaces] using hs)
    rw [collected_unselectedBrushes] at hh
    have hp := brushEdgeVertices_perm (brushesOf_normal_perm
      (visibleBrushes context.filter document.entities))
    simpa [collected, GeometryCollection.empty, MapRenderer.edgeBlock,
      MapRenderer.edgeRenderInfo, edgeBrushes, edgeFaces, faceEdgeVertices, hp] using hh

theorem rebuildEntityData_bounds_run {σ : Type} (ops : MapOps σ) (prefs : Preferences)
    (document : MapDocument) (context : RenderContext) (m : MapRenderer) (w : σ)
    (r : MapRenderer × σ) (h : rebuildEntityData ops prefs document context m w = some r)
    (k : Bucket) (hv : m.entityDataValid k = false)
    (hne : entitiesIn context.filter k document.entities ≠ []) :
    ∃ b, r.1.boundsBlock k = some (writeEntityBounds prefs
        (entitiesIn context.filter k document.entities) ⟨0, 0⟩ b).2 ∧
      b.capacity =
        entityBoundsBlockSize (entitiesIn context.filter k document.entities).length ∧
      b.writes = [] ∧
      r.1.boundsRenderInfo k = (writeEntityBounds prefs
        (entitiesIn context.filter k document.entities) ⟨0, 0⟩ b).1 := by
  obtain ⟨l1, l2, l3⟩ := collectBoundsEntities_lists context.filter document.entities
  have hne2 : (entitiesIn context.filter k document.entities).isEmpty = false := by
    cases hl : entitiesIn context.filter k document.entities with
    | nil => exact absurd hl hne
    | cons a l => rfl
  cases k with
  | selected =>
    have hh := rebuildEntityData_m_selectedEntityBoundsBlock_run ops prefs document context m w r
      h hv (by rw [l2]; exact hne2)
    rw [l2] at hh
    exact hh
  | locked =>
    have hh := rebuildEntityData_m_lockedEntityBoundsBlock_run ops prefs document context m w r
      h hv (by rw [l3]; exact hne2)
    rw [l3] at hh
    exact hh
  | normal =>
    have hh := rebuildEntityData_m_entityBoundsBlock_run ops prefs document context m w r
      h hv (by rw [l1]; exact hne2)
    rw [l1] at hh
    exact hh

theorem entitiesIn_manyEntities (n : Nat) :
    entitiesIn sampleContext.filter Bucket.normal (manyEntities n) = manyEntities n := by
  unfold entitiesIn
  apply List.filter_eq_self.2
  intro e he
  simp only [manyEntities, List.mem_map] at he
  obtain ⟨i, _, rfl⟩ := he
  rfl

theorem rebuildEntityData_manyEntities (n : Nat) (hn : 0 < n) :
    ∃ r b, rebuildEntityData sampleMapOps samplePreferences ⟨manyEntities n, []⟩
        sampleContext (MapRenderer.new 0) 0 = some r ∧
      r.1.m_entityBoundsBlock = some b ∧ b.capacity = entityBoundsBlockSize n ∧
      b.bytesWritten = EntityBoundsVertexSize * (24 * n) := by
  generalize hd : (⟨manyEntities n, []⟩ : MapDocument) = document
  have hde : document.entities = manyEntities n := by
    rw [← hd]
  obtain ⟨r, hr⟩ := rebuildEntityData_some sampleMapOps samplePreferences
    document sampleContext (MapRenderer.new 0) 0
  have hl := manyEntities_length n
  have hin := entitiesIn_manyEntities n
  have hm : manyEntities n ≠ [] := by
    intro h0
    rw [h0] at hl
    simp at hl
    omega
  have hne : entitiesIn sampleContext.filter Bucket.normal document.entities ≠ [] := by
    rw [hde, hin]
    exact hm
  obtain ⟨b0, hb, hcap, hw, _⟩ := rebuildEntityData_bounds_run sampleMapOps samplePreferences
    document sampleContext (MapRenderer.new 0) 0 r hr Bucket.normal rfl hne
  rw [hde, hin] at hb
  rw [hde, hin, hl] at hcap
  have he : (manyEntities n).isEmpty = false := by
    cases h : manyEntities n with
    | nil => exact absurd h hm
    | cons a l => rfl
  obtain ⟨w1, _, _, w4, _⟩ := writeEntityBounds_wrote samplePreferences (manyEntities n)
    ⟨0, 0⟩ b0 he
  have hz : b0.bytesWritten = 0 := by
    simp [VboBlock.bytesWritten, VboBlock.items, hw]
  rw [hz, hl] at w4
  refine ⟨r, _, hr, hb, ?_, ?_⟩
  · rw [w1, hcap]
  · rw [w4]
    omega

end TrenchBroom.Renderer
namespace TrenchBroom.Renderer

open MapRenderer

/-- C37 (counterexample): for a map of 5592406 visible point entities, `rebuildEntityData`
on a new renderer asks for a block of `2 * 4 * 6 * 5592406 * 16` bytes in `unsigned int`
arithmetic, which is 512 bytes, and `writeEntityBounds` then writes 2147483904 bytes into
it. -/
theorem bounds_block_too_small_after_wrap :
    (MapRenderer.new 0).m_entityDataValid = false ∧
    ∃ r b, rebuildEntityData sampleMapOps samplePreferences ⟨manyEntities 5592406, []⟩
        sampleContext (MapRenderer.new 0) 0 = some r ∧
      r.1.m_entityBoundsBlock = some b ∧ b.capacity = 512 ∧ b.bytesWritten = 2147483904 ∧
      b.capacity < b.bytesWritten := by
  refine ⟨rfl, ?_⟩
  obtain ⟨r, b, hr, hb, c1, c2⟩ := rebuildEntityData_manyEntities 5592406 (by decide)
  have d1 : entityBoundsBlockSize 5592406 = 512 := by decide
  have d2 : EntityBoundsVertexSize * (24 * 5592406) = 2147483904 := by decide
  rw [d1] at c1
  rw [d2] at c2
  refine ⟨r, b, hr, hb, c1, c2, ?_⟩
  rw [c1, c2]
  decide

/-- C37 (amended): as long as the byte sizes stay below 2^32 (16 bytes per edge vertex of a
group, and `2 * 4 * 6 * 16` bytes per entity of a list), no rebuilt edge or entity-bounds
partition gets more bytes written than its block holds. When every visible face has at least three
vertices `rebuildGeometryData` returns, the edge vertex total accumulated for a state class
while collecting equals the vertex count `writeEdgeData` reports, and the block of a rebuilt
edge partition has exactly the `16 * vertex count` bytes that are written into it.
`rebuildEntityData` returns, and into the block of a rebuilt entity-bounds partition, which
has `2 * 4 * 6 * 16` bytes per entity, `24 * 16` bytes per entity are written. -/
theorem written_bytes_fit_block {σ : Type} (ops : MapOps σ) (prefs : Preferences)
    (document : MapDocument) (context : RenderContext) (m : MapRenderer) (w : σ)
    (hok : (visibleFaces context.filter document.entities).all faceOk = true)
    (hno : ∀ k, EdgeVertexSize *
      (brushEdgeVertices (edgeBrushes context.filter document.entities k) +
        faceEdgeVertices (edgeFaces context.filter document.entities k)) < 4294967296)
    (hnb : ∀ k, EntityBoundsVertexSize *
      (2 * 4 * 6 * (entitiesIn context.filter k document.entities).length) < 4294967296) :
    (∃ r c, rebuildGeometryData ops prefs document context m w = some r ∧
      collectEntities context.filter m.m_dummyTexture document.entities
        GeometryCollection.empty = some c ∧
      ∀ k, m.geometryDataValid k = false →
        sourceNonEmpty document context VboKind.edge k = true →
        ∃ b, r.1.edgeBlock k = some b ∧
          c.edgeTotal k = (r.1.edgeRenderInfo k).vertexCount ∧
          b.capacity = EdgeVertexSize * c.edgeTotal k ∧
          b.bytesWritten = EdgeVertexSize * (r.1.edgeRenderInfo k).vertexCount ∧
          b.bytesWritten ≤ b.capacity) ∧
    (∃ r, rebuildEntityData ops prefs document context m w = some r ∧
      ∀ k, m.entityDataValid k = false →
        entitiesIn context.filter k document.entities ≠ [] →
        ∃ b, r.1.boundsBlock k = some b ∧
          (r.1.boundsRenderInfo k).vertexCount =
            24 * (entitiesIn context.filter k document.entities).length ∧
          b.capacity = EntityBoundsVertexSize *
            (2 * 4 * 6 * (entitiesIn context.filter k document.entities).length) ∧
          b.bytesWritten = EntityBoundsVertexSize * (r.1.boundsRenderInfo k).vertexCount ∧
          b.bytesWritten ≤ b.capacity) := by
  have h16 : EdgeVertexSize = 16 := rfl
  have h16b : EntityBoundsVertexSize = 16 := rfl
  constructor
  · obtain ⟨r, hr⟩ := rebuildGeometryData_some ops prefs document context m w hok
    have hc := collectEntities_of_ok context.filter m.m_dummyTexture document.entities hok
    refine ⟨r, _, hr, hc, fun k hv hs => ?_⟩
    obtain ⟨b0, hb, hcap, hw, hi⟩ :=
      rebuildGeometryData_edges_run ops prefs document context m w r hr k hv hs
    have hne : ((edgeBrushes context.filter document.entities k).isEmpty &&
        (edgeFaces context.filter document.entities k).isEmpty) = false := by
      revert hs
      simp only [sourceNonEmpty]
      generalize (edgeBrushes context.filter document.entities k).isEmpty = x
      generalize (edgeFaces context.filter document.entities k).isEmpty = y
      cases x <;> cases y <;> simp
    obtain ⟨w1, _, _, w4, _⟩ := writeEdgeData_wrote prefs
      (edgeBrushes context.filter document.entities k)
      (edgeFaces context.filter document.entities k) ⟨0, 0⟩ b0 hne
    have hcount := writeEdgeData_count prefs (edgeBrushes context.filter document.entities k)
      (edgeFaces context.filter document.entities k) ⟨0, 0⟩ b0 hne
    have hz : b0.bytesWritten = 0 := by
      simp [VboBlock.bytesWritten, VboBlock.items, hw]
    have hk := hno k
    rw [h16] at hk
    generalize hn : brushEdgeVertices (edgeBrushes context.filter document.entities k) +
      faceEdgeVertices (edgeFaces context.filter document.entities k) = n at *
    have e1 : u32 n = n := u32_of_lt (by omega)
    have e2 : u32 (n * 16) = 16 * n := by
      rw [u32_of_lt (by omega)]
      omega
    have htotal : (collected m.m_dummyTexture (visibleBrushes context.filter document.entities)
        (visibleFaces context.filter document.entities) GeometryCollection.empty).edgeTotal k
        = n := by
      rw [← hn]
      cases k with
      | selected =>
        simp only [GeometryCollection.edgeTotal, collected, GeometryCollection.empty,
          Nat.zero_add, edgeBrushes, edgeFaces]
        rw [← hn] at e1
        exact e1
      | locked =>
        simp only [GeometryCollection.edgeTotal, collected, GeometryCollection.empty,
          Nat.zero_add, edgeBrushes, edgeFaces, faceEdgeVertices, List.map_nil, List.sum_nil,
          Nat.add_zero]
        rw [← hn] at e1
        simpa [edgeBrushes, edgeFaces, faceEdgeVertices] using e1
      | normal =>
        simp only [GeometryCollection.edgeTotal, collected, GeometryCollection.empty,
          Nat.zero_add, edgeBrushes, edgeFaces, faceEdgeVertices, List.map_nil, List.sum_nil,
          Nat.add_zero]
        rw [← hn] at e1
        rw [← brushEdgeVertices_perm (brushesOf_normal_perm _)]
        simpa [edgeBrushes, edgeFaces, faceEdgeVertices] using e1
    refine ⟨_, hb, ?_, ?_, ?_, ?_⟩
    · rw [htotal, hi, hcount, e1]
    · rw [w1, hcap, htotal, e1, h16, e2]
    · rw [w4, hz, hi, hcount, e1, h16]
      omega
    · rw [w4, hz, w1, hcap, e1, h16, e2]
      omega
  · obtain ⟨r, hr⟩ := rebuildEntityData_some ops prefs document context m w
    refine ⟨r, hr, fun k hv hne => ?_⟩
    obtain ⟨b0, hb, hcap, hw, hi⟩ :=
      rebuildEntityData_bounds_run ops prefs document context m w r hr k hv hne
    have he : (entitiesIn context.filter k document.entities).isEmpty = false := by
      cases hl : entitiesIn context.filter k document.entities with
      | nil => exact absurd hl hne
      | cons a l => rfl
    obtain ⟨w1, _, _, w4, w5⟩ := writeEntityBounds_wrote prefs
      (entitiesIn context.filter k document.entities) ⟨0, 0⟩ b0 he
    have hz : b0.bytesWritten = 0 := by
      simp [VboBlock.bytesWritten, VboBlock.items, hw]
    have hk := hnb k
    rw [h16b] at hk
    generalize (entitiesIn context.filter k document.entities).length = n at *
    have e1 : u32 (24 * n) = 24 * n := u32_of_lt (by omega)
    have e2 : entityBoundsBlockSize n = 16 * (2 * 4 * 6 * n) := by
      unfold entityBoundsBlockSize
      rw [h16b, u32_of_lt (show n < 4294967296 by omega),
        u32_of_lt (show 2 * 4 * 6 * n < 4294967296 by omega), u32_of_lt (by omega)]
      omega
    refine ⟨_, hb, ?_, ?_, ?_, ?_⟩
    · rw [hi, w5]
      exact e1
    · rw [w1, hcap, e2, h16b]
    · rw [w4, hz, hi, w5, h16b]
      show 0 + 16 * (24 * n) = 16 * u32 (24 * n)
      rw [e1]
      omega
    · rw [w4, hz, w1, hcap, e2, h16b]
      omega

theorem written_bytes_fit_block_witness :
    (∃ r c, rebuildGeometryData sampleMapOps samplePreferences sampleDocument sampleContext
        (MapRenderer.new 0) 0 = some r ∧
      collectEntities sampleContext.filter (MapRenderer.new 0).m_dummyTexture
        sampleDocument.entities GeometryCollection.empty = some c ∧
      ∀ k, (MapRenderer.new 0).geometryDataValid k = false →
        sourceNonEmpty sampleDocument sampleContext VboKind.edge k = true →
        ∃ b, r.1.edgeBlock k = some b ∧
          c.edgeTotal k = (r.1.edgeRenderInfo k).vertexCount ∧
          b.capacity = EdgeVertexSize * c.edgeTotal k ∧
          b.bytesWritten = EdgeVertexSize * (r.1.edgeRenderInfo k).vertexCount ∧
          b.bytesWritten ≤ b.capacity) ∧
    (∃ r, rebuildEntityData sampleMapOps samplePreferences sampleDocument sampleContext
        (MapRenderer.new 0) 0 = some r ∧
      ∀ k, (MapRenderer.new 0).entityDataValid k = false →
        entitiesIn sampleContext.filter k sampleDocument.entities ≠ [] →
        ∃ b, r.1.boundsBlock k = some b ∧
          (r.1.boundsRenderInfo k).vertexCount =
            24 * (entitiesIn sampleContext.filter k sampleDocument.entities).length ∧
          b.capacity = EntityBoundsVertexSize *
            (2 * 4 * 6 * (entitiesIn sampleContext.filter k sampleDocument.entities).length) ∧
          b.bytesWritten = EntityBoundsVertexSize * (r.1.boundsRenderInfo k).vertexCount ∧
          b.bytesWritten ≤ b.capacity) :=
  written_bytes_fit_block sampleMapOps samplePreferences sampleDocument sampleContext
    (MapRenderer.new 0) 0 (by decide) (fun k => by cases k <;> decide)
    (fun k => by cases k <;> decide)

end TrenchBroom.Renderer


namespace TrenchBroom.Renderer

open MapRenderer

end TrenchBroom.Renderer

namespace TrenchBroom.Renderer

open MapRenderer

/-- C33: on a non-empty entity list, when the bytes written fit the block, whose size is an
`unsigned int`, `writeEntityBounds` appends to the block, for each entity in order, the 24
vertices of its bounding box (the end points of its 12 edges), each preceded by the colour
of the entity, which is the colour of its definition with the alpha of the entity-bounds
preference colour, or the entity-bounds preference colour itself when the entity has no
definition; the render info starts at the address of the block and reports a vertex count
of 24 times the number of entities. -/
theorem entity_bounds_written (prefs : Preferences) (entities : List Entity)
    (renderInfo : EdgeRenderInfo) (block : VboBlock) (hne : entities ≠ [])
    (hcap : block.capacity < 4294967296)
    (hfit : (writeEntityBounds prefs entities renderInfo block).2.bytesWritten ≤
      block.capacity) :
    (writeEntityBounds prefs entities renderInfo block).2.items = block.items ++
      entities.flatMap (fun e => e.bounds.vertices.flatMap (fun v =>
        [BlockItem.color (entityBoundsColor prefs e), BlockItem.vec3 v])) ∧
    (∀ e ∈ entities, e.bounds.vertices.length = 24) ∧
    (∀ e ∈ entities, entityBoundsColor prefs e =
      match e.definition with
      | some definition => ⟨definition.color.x, definition.color.y, definition.color.z,
          prefs.entityBoundsColor.w⟩
      | none => prefs.entityBoundsColor) ∧
    (writeEntityBounds prefs entities renderInfo block).1.offset = block.address ∧
    (writeEntityBounds prefs entities renderInfo block).1.vertexCount =
      24 * entities.length := by
  have he : entities.isEmpty = false := by
    cases entities with
    | nil => exact absurd rfl hne
    | cons a l => rfl
  obtain ⟨_, _, h3, h4, h5⟩ := writeEntityBounds_wrote prefs entities renderInfo block he
  refine ⟨h3, fun e _ => rfl, fun e _ => ?_, ?_, ?_⟩
  · unfold entityBoundsColor
    cases e.definition <;> rfl
  · rw [h5]
  · rw [h5]
    show u32 (24 * entities.length) = 24 * entities.length
    rw [h4] at hfit
    have h16 : EntityBoundsVertexSize = 16 := rfl
    rw [h16] at hfit
    exact u32_of_lt (by omega)

theorem entity_bounds_written_witness :
    (writeEntityBounds samplePreferences [sampleEntity] ⟨0, 0⟩ ⟨0, 768, []⟩).2.items =
      (⟨0, 768, []⟩ : VboBlock).items ++
      [sampleEntity].flatMap (fun e => e.bounds.vertices.flatMap (fun v =>
        [BlockItem.color (entityBoundsColor samplePreferences e), BlockItem.vec3 v])) ∧
    (∀ e ∈ [sampleEntity], e.bounds.vertices.length = 24) ∧
    (∀ e ∈ [sampleEntity], entityBoundsColor samplePreferences e =
      match e.definition with
      | some definition => ⟨definition.color.x, definition.color.y, definition.color.z,
          samplePreferences.entityBoundsColor.w⟩
      | none => samplePreferences.entityBoundsColor) ∧
    (writeEntityBounds samplePreferences [sampleEntity] ⟨0, 0⟩ ⟨0, 768, []⟩).1.offset =
      (⟨0, 768, []⟩ : VboBlock).address ∧
    (writeEntityBounds samplePreferences [sampleEntity] ⟨0, 0⟩ ⟨0, 768, []⟩).1.vertexCount =
      24 * [sampleEntity].length :=
  entity_bounds_written samplePreferences [sampleEntity] ⟨0, 0⟩ ⟨0, 768, []⟩ (by simp)
    (by decide) (by decide)

end TrenchBroom.Renderer

namespace TrenchBroom.Renderer

open MapRenderer

/-- C38: when every visible face has at least three vertices, `rebuildGeometryData` returns,
and for each rebuilt face partition with faces: the faces are grouped by texture, a face
without a texture under the renderer's dummy texture, no texture twice and no group empty,
and `writeFaceData` emits exactly one render info per group. When the bytes written fit the
block and the block lies below 2^32 in the buffer, the block has `FaceVertexSize` bytes per
fan vertex, the first render info starts at the block's address, each following one starts
at the previous start plus the previous vertex count times `FaceVertexSize`, so that the
regions lie one behind the other, and the vertex counts sum to the total used to size the
block. -/
theorem face_render_infos_contiguous {σ : Type} (ops : MapOps σ) (prefs : Preferences)
    (document : MapDocument) (context : RenderContext) (m : MapRenderer) (w : σ)
    (hok : (visibleFaces context.filter document.entities).all faceOk = true) :
    ∃ r, rebuildGeometryData ops prefs document context m w = some r ∧
      ∀ k, m.geometryDataValid k = false →
        facesIn k (visibleFaces context.filter document.entities) ≠ [] →
        ∃ b, r.1.faceBlock k = some b ∧
          ((insertFaces m.m_dummyTexture
            (facesIn k (visibleFaces context.filter document.entities)) []).map
              (fun g => g.1)).Nodup ∧
          (∀ g ∈ insertFaces m.m_dummyTexture
              (facesIn k (visibleFaces context.filter document.entities)) [],
            g.2 ≠ [] ∧ ∀ x ∈ g.2, faceTexture m.m_dummyTexture x = g.1) ∧
          (allFaces (insertFaces m.m_dummyTexture
            (facesIn k (visibleFaces context.filter document.entities)) [])).Perm
              (facesIn k (visibleFaces context.filter document.entities)) ∧
          (r.1.faceRenderInfos k).map (fun i => i.texture) =
            (insertFaces m.m_dummyTexture
              (facesIn k (visibleFaces context.filter document.entities)) []).map
                (fun g => g.1) ∧
          (b.bytesWritten ≤ b.capacity → b.address + b.capacity < 4294967296 →
            b.capacity = fanTotal (facesIn k (visibleFaces context.filter document.entities)) *
              FaceVertexSize ∧
            (∀ a, (r.1.faceRenderInfos k)[0]? = some a → a.offset = b.address) ∧
            (∀ i a c, (r.1.faceRenderInfos k)[i]? = some a →
              (r.1.faceRenderInfos k)[i + 1]? = some c →
              c.offset = a.offset + a.vertexCount * FaceVertexSize) ∧
            (r.1.faceRenderInfos k).map (fun i => i.vertexCount) =
              (insertFaces m.m_dummyTexture
                (facesIn k (visibleFaces context.filter document.entities)) []).map
                  (fun g => fanTotal g.2) ∧
            ((r.1.faceRenderInfos k).map (fun i => i.vertexCount)).sum =
              fanTotal (facesIn k (visibleFaces context.filter document.entities))) := by
  obtain ⟨r, hr⟩ := rebuildGeometryData_some ops prefs document context m w hok
  refine ⟨r, hr, fun k hv hne => ?_⟩
  obtain ⟨r1, a, res, hr1, hwr, hb, hi⟩ :=
    rebuildGeometryData_faces_run ops prefs document context m w hok k hv hne
  rw [hr] at hr1
  cases Option.some.inj hr1
  generalize hL : facesIn k (visibleFaces context.filter document.entities) = L at *
  have hL3 : ∀ f ∈ L, 3 ≤ f.vertices.length := by
    intro f hf
    rw [← hL] at hf
    exact facesIn_ok _ hok k f hf
  have hL2 : ∀ f ∈ L, 2 ≤ f.vertices.length := fun f hf => by
    have := hL3 f hf
    omega
  have hp := allFaces_insertFaces_nil m.m_dummyTexture L
  have hG : ∀ f ∈ allFaces (insertFaces m.m_dummyTexture L []), 2 ≤ f.vertices.length :=
    fun f hf => hL2 f (hp.mem_iff.1 hf)
  obtain ⟨h1, h2⟩ := insertFaces_nil_grouped m.m_dummyTexture L
  have hne2 : (insertFaces m.m_dummyTexture L []).isEmpty = false := by
    rw [insertFaces_isEmpty]
    cases L with
    | nil => exact absurd rfl hne
    | cons x l => rfl
  obtain ⟨res1, hres1, wa, wc, wi, wt, _⟩ := writeFaceData_some
    (insertFaces m.m_dummyTexture L []) []
    ⟨a, u32 (u32 (fanVertices L) * FaceVertexSize), []⟩ hG
  rw [hwr] at hres1
  cases Option.some.inj hres1
  have hinfo := writeFaceData_infos (insertFaces m.m_dummyTexture L []) []
    ⟨a, u32 (u32 (fanVertices L) * FaceVertexSize), []⟩ res hG hwr
  simp only [List.nil_append] at hinfo
  rw [hne2] at wt
  simp only [List.map_nil, List.nil_append, Bool.false_eq_true, if_false] at wt
  have h28 : FaceVertexSize = 28 := rfl
  have hbytes : res.2.bytesWritten = fanTotal L * FaceVertexSize := by
    have wi2 : res.2.items = (allFaces (insertFaces m.m_dummyTexture L [])).flatMap
        faceItems := by
      rw [wi]
      simp [VboBlock.items]
    unfold VboBlock.bytesWritten
    rw [wi2, fanVertices_flatMap_size _ hG, fanVertices_perm hp,
      fanVertices_eq_fanTotal L hL2]
  refine ⟨res.2, hb, h1, h2, hp, ?_, fun hfit hend => ?_⟩
  · rw [hi]
    exact wt
  · rw [hbytes, wc] at hfit
    rw [wa, wc] at hend
    simp only at hfit hend
    have hlt := u32_lt (u32 (fanVertices L) * FaceVertexSize)
    have hsmall : fanTotal L * FaceVertexSize < 4294967296 := Nat.lt_of_le_of_lt hfit hlt
    have hcap : u32 (u32 (fanVertices L) * FaceVertexSize) = fanTotal L * FaceVertexSize := by
      rw [fanVertices_eq_fanTotal L hL2]
      rw [h28] at hsmall ⊢
      rw [u32_of_lt (show fanTotal L < 4294967296 by omega), u32_of_lt hsmall]
    rw [hcap] at hend
    have hno : a + fanTotal L * FaceVertexSize < 4294967296 := hend
    have hex := wrappedRenderInfos_exact a (insertFaces m.m_dummyTexture L []) a 0 hG rfl
      (by rw [fanTotal_perm hp]; simpa using hno)
    rw [hex] at hinfo
    rw [hi, hinfo]
    refine ⟨?_, ?_, ?_, ?_, ?_⟩
    · rw [wc, fanVertices_eq_fanTotal L hL2]
      rw [h28] at hno ⊢
      simp only
      rw [u32_of_lt (show fanTotal L < 4294967296 by omega), u32_of_lt (by omega)]
    · intro x hx
      rw [wa]
      exact faceRenderInfosFrom_head a _ x hx
    · intro i x y hx hy
      exact faceRenderInfosFrom_next a _ i x y hx hy
    · exact faceRenderInfosFrom_count a _
    · rw [faceRenderInfosFrom_sum, fanTotal_perm hp]

theorem face_render_infos_contiguous_witness :
    ∃ r, rebuildGeometryData sampleMapOps samplePreferences sampleDocument sampleContext
        (MapRenderer.new 0) 0 = some r ∧
      ∀ k, (MapRenderer.new 0).geometryDataValid k = false →
        facesIn k (visibleFaces sampleContext.filter sampleDocument.entities) ≠ [] →
        ∃ b, r.1.faceBlock k = some b ∧
          ((insertFaces (MapRenderer.new 0).m_dummyTexture
            (facesIn k (visibleFaces sampleContext.filter sampleDocument.entities)) []).map
              (fun g => g.1)).Nodup ∧
          (∀ g ∈ insertFaces (MapRenderer.new 0).m_dummyTexture
              (facesIn k (visibleFaces sampleContext.filter sampleDocument.entities)) [],
            g.2 ≠ [] ∧ ∀ x ∈ g.2, faceTexture (MapRenderer.new 0).m_dummyTexture x = g.1) ∧
          (allFaces (insertFaces (MapRenderer.new 0).m_dummyTexture
            (facesIn k (visibleFaces sampleContext.filter sampleDocument.entities)) [])).Perm
              (facesIn k (visibleFaces sampleContext.filter sampleDocument.entities)) ∧
          (r.1.faceRenderInfos k).map (fun i => i.texture) =
            (insertFaces (MapRenderer.new 0).m_dummyTexture
              (facesIn k (visibleFaces sampleContext.filter sampleDocument.entities)) []).map
                (fun g => g.1) ∧
          (b.bytesWritten ≤ b.capacity → b.address + b.capacity < 4294967296 →
            b.capacity =
              fanTotal (facesIn k (visibleFaces sampleContext.filter sampleDocument.entities)) *
              FaceVertexSize ∧
            (∀ a, (r.1.faceRenderInfos k)[0]? = some a → a.offset = b.address) ∧
            (∀ i a c, (r.1.faceRenderInfos k)[i]? = some a →
              (r.1.faceRenderInfos k)[i + 1]? = some c →
              c.offset = a.offset + a.vertexCount * FaceVertexSize) ∧
            (r.1.faceRenderInfos k).map (fun i => i.vertexCount) =
              (insertFaces (MapRenderer.new 0).m_dummyTexture
                (facesIn k (visibleFaces sampleContext.filter sampleDocument.entities))
                  []).map (fun g => fanTotal g.2) ∧
            ((r.1.faceRenderInfos k).map (fun i => i.vertexCount)).sum =
              fanTotal
                (facesIn k (visibleFaces sampleContext.filter sampleDocument.entities))) :=
  face_render_infos_contiguous sampleMapOps samplePreferences sampleDocument sampleContext
    (MapRenderer.new 0) 0 (by decide)

end TrenchBroom.Renderer

namespace TrenchBroom.Renderer

open MapRenderer

end TrenchBroom.Renderer

namespace TrenchBroom.Renderer

open MapRenderer

theorem run_recorded {σ : Type} (draw : DrawOps σ) (calls : List DrawCall) (w : σ)
    (l : List RenderEvent) :
    draw.recorded.run calls (w, l) = (draw.run calls w, l ++ calls.map RenderEvent.draw) := by
  induction calls generalizing w l with
  | nil => simp [DrawOps.run]
  | cons c rest ih =>
    have h := ih (draw.call c w) (l ++ [RenderEvent.draw c])
    simp only [DrawOps.run, List.foldl_cons, List.map_cons] at h ⊢
    rw [show draw.recorded.call c (w, l) = (draw.call c w, l ++ [RenderEvent.draw c]) from rfl,
      h, List.append_assoc]
    rfl

theorem run_recorded_log {σ : Type} (draw : DrawOps σ) (calls : List DrawCall)
    (s : σ × List RenderEvent) :
    (draw.recorded.run calls s).2 = s.2 ++ calls.map RenderEvent.draw := by
  obtain ⟨w, l⟩ := s
  rw [run_recorded]

theorem GlState.run_append (s : GlState) (a b : List RenderEvent) :
    s.run (a ++ b) = (s.run a).run b := by
  induction a generalizing s with
  | nil => rfl
  | cons e rest ih => exact ih (s.step e)

theorem observe_append (s : GlState) (a b : List RenderEvent) :
    observe s (a ++ b) = observe s a ++ observe (s.run a) b := by
  induction a generalizing s with
  | nil => rfl
  | cons e rest ih =>
    show s.emits e ++ observe (s.step e) (rest ++ b) = _
    rw [ih (s.step e), ← List.append_assoc]
    rfl

theorem stretch_append {l1 l2 : List RenderEvent} {b b1 b2 : Option VboKind} {d d1 d2 : Bool}
    {o1 o2 : List Drawn} (h1 : Stretch l1 b d b1 d1 o1) (h2 : Stretch l2 b1 d1 b2 d2 o2) :
    Stretch (l1 ++ l2) b d b2 d2 (o1 ++ o2) := by
  intro s hs
  obtain ⟨e1, r1⟩ := h1 s hs
  obtain ⟨e2, r2⟩ := h2 _ r1
  rw [observe_append, GlState.run_append, e1, e2]
  exact ⟨rfl, r2⟩

theorem stretch_setup (b : Option VboKind) (d : Bool) :
    Stretch (renderSetup.map RenderEvent.draw) b d b true [] := by
  intro s hs
  obtain ⟨h1, h2, h3, h4, h5, h6⟩ := hs
  simp [renderSetup, observe, GlState.run, GlState.step, GlState.emits, GlState.gl,
    GlState.setCap, GlState.Ready, glEnable, glDepthFunc, glResetEdgeOffset, h1, h2, h3, h4, h5]

theorem stretch_vboActivate (vbo : VboKind) (b : Option VboKind) (d : Bool) :
    Stretch [RenderEvent.map (MapCall.vboActivate vbo)] b d (some vbo) d [] := by
  intro s hs
  obtain ⟨h1, h2, h3, h4, h5, h6⟩ := hs
  simp [observe, GlState.run, GlState.step, GlState.emits, GlState.Ready, h1, h2, h3, h4, h6]

theorem stretch_vboDeactivate (vbo : VboKind) (b : Option VboKind) (d : Bool) :
    Stretch [RenderEvent.map (MapCall.vboDeactivate vbo)] b d none d [] := by
  intro s hs
  obtain ⟨h1, h2, h3, h4, h5, h6⟩ := hs
  simp [observe, GlState.run, GlState.step, GlState.emits, GlState.Ready, h1, h2, h3, h4, h6]

theorem stretch_enableArray (b : Option VboKind) (d : Bool) :
    Stretch ([glEnableClientState "GL_VERTEX_ARRAY"].map RenderEvent.draw) b d b d [] := by
  intro s hs
  obtain ⟨h1, h2, h3, h4, h5, h6⟩ := hs
  simp [observe, GlState.run, GlState.step, GlState.emits, GlState.gl, GlState.setCap,
    GlState.Ready, glEnable, glDisable, glDepthFunc, glResetEdgeOffset, glSetEdgeOffset,
    glEnableClientState, glDisableClientState, glColorV4f, glActiveTexture, glTexEnvi, h1, h2, h3, h4, h5, h6]

theorem stretch_disableArray (b : Option VboKind) (d : Bool) :
    Stretch ([glDisableClientState "GL_VERTEX_ARRAY"].map RenderEvent.draw) b d b d [] := by
  intro s hs
  obtain ⟨h1, h2, h3, h4, h5, h6⟩ := hs
  simp [observe, GlState.run, GlState.step, GlState.emits, GlState.gl, GlState.setCap,
    GlState.Ready, glEnable, glDisable, glDepthFunc, glResetEdgeOffset, glSetEdgeOffset,
    glEnableClientState, glDisableClientState, glColorV4f, glActiveTexture, glTexEnvi, h1, h2, h3, h4, h5, h6]

theorem stretch_edgeOffset (b : Option VboKind) (d : Bool) :
    Stretch ([glEnableClientState "GL_VERTEX_ARRAY", glSetEdgeOffset "0.01f"].map RenderEvent.draw) b d b d [] := by
  intro s hs
  obtain ⟨h1, h2, h3, h4, h5, h6⟩ := hs
  simp [observe, GlState.run, GlState.step, GlState.emits, GlState.gl, GlState.setCap,
    GlState.Ready, glEnable, glDisable, glDepthFunc, glResetEdgeOffset, glSetEdgeOffset,
    glEnableClientState, glDisableClientState, glColorV4f, glActiveTexture, glTexEnvi, h1, h2, h3, h4, h5, h6]

theorem stretch_occluded (b : Option VboKind) (d : Bool) :
    Stretch ([glSetEdgeOffset "0.02f", glDisable "GL_DEPTH_TEST"].map RenderEvent.draw) b d b false [] := by
  intro s hs
  obtain ⟨h1, h2, h3, h4, h5, h6⟩ := hs
  simp [observe, GlState.run, GlState.step, GlState.emits, GlState.gl, GlState.setCap,
    GlState.Ready, glEnable, glDisable, glDepthFunc, glResetEdgeOffset, glSetEdgeOffset,
    glEnableClientState, glDisableClientState, glColorV4f, glActiveTexture, glTexEnvi, h1, h2, h3, h4, h5, h6]

theorem stretch_depthOn (b : Option VboKind) (d : Bool) :
    Stretch ([glEnable "GL_DEPTH_TEST"].map RenderEvent.draw) b d b true [] := by
  intro s hs
  obtain ⟨h1, h2, h3, h4, h5, h6⟩ := hs
  simp [observe, GlState.run, GlState.step, GlState.emits, GlState.gl, GlState.setCap,
    GlState.Ready, glEnable, glDisable, glDepthFunc, glResetEdgeOffset, glSetEdgeOffset,
    glEnableClientState, glDisableClientState, glColorV4f, glActiveTexture, glTexEnvi, h1, h2, h3, h4, h5, h6]

theorem stretch_depthOff (b : Option VboKind) (d : Bool) :
    Stretch ([glDisable "GL_DEPTH_TEST"].map RenderEvent.draw) b d b false [] := by
  intro s hs
  obtain ⟨h1, h2, h3, h4, h5, h6⟩ := hs
  simp [observe, GlState.run, GlState.step, GlState.emits, GlState.gl, GlState.setCap,
    GlState.Ready, glEnable, glDisable, glDepthFunc, glResetEdgeOffset, glSetEdgeOffset,
    glEnableClientState, glDisableClientState, glColorV4f, glActiveTexture, glTexEnvi, h1, h2, h3, h4, h5, h6]

theorem stretch_edgesEnd (b : Option VboKind) (d : Bool) :
    Stretch ([glResetEdgeOffset, glDisableClientState "GL_VERTEX_ARRAY"].map RenderEvent.draw) b d b d [] := by
  intro s hs
  obtain ⟨h1, h2, h3, h4, h5, h6⟩ := hs
  simp [observe, GlState.run, GlState.step, GlState.emits, GlState.gl, GlState.setCap,
    GlState.Ready, glEnable, glDisable, glDepthFunc, glResetEdgeOffset, glSetEdgeOffset,
    glEnableClientState, glDisableClientState, glColorV4f, glActiveTexture, glTexEnvi, h1, h2, h3, h4, h5, h6]

theorem stretch_depthLequal (b : Option VboKind) (d : Bool) :
    Stretch ([glEnable "GL_DEPTH_TEST", glDepthFunc "GL_LEQUAL"].map RenderEvent.draw) b d b true [] := by
  intro s hs
  obtain ⟨h1, h2, h3, h4, h5, h6⟩ := hs
  simp [observe, GlState.run, GlState.step, GlState.emits, GlState.gl, GlState.setCap,
    GlState.Ready, glEnable, glDisable, glDepthFunc, glResetEdgeOffset, glSetEdgeOffset,
    glEnableClientState, glDisableClientState, glColorV4f, glActiveTexture, glTexEnvi, h1, h2, h3, h4, h5, h6]

theorem stretch_boundsEnd (b : Option VboKind) (d : Bool) :
    Stretch ([glDepthFunc "GL_LESS", glDisableClientState "GL_VERTEX_ARRAY"].map RenderEvent.draw) b d b d [] := by
  intro s hs
  obtain ⟨h1, h2, h3, h4, h5, h6⟩ := hs
  simp [observe, GlState.run, GlState.step, GlState.emits, GlState.gl, GlState.setCap,
    GlState.Ready, glEnable, glDisable, glDepthFunc, glResetEdgeOffset, glSetEdgeOffset,
    glEnableClientState, glDisableClientState, glColorV4f, glActiveTexture, glTexEnvi, h1, h2, h3, h4, h5, h6]

theorem stretch_text (labels selectedLabels : TextRenderer) (color selectedColor : Color)
    (b : Option VboKind) (d : Bool) :
    Stretch ([DrawCall.stringManagerActivate,
      DrawCall.textRender Bucket.normal labels color,
      DrawCall.textRender Bucket.selected selectedLabels selectedColor,
      DrawCall.stringManagerDeactivate].map RenderEvent.draw) b d b d
      [Drawn.text Bucket.normal labels color,
       Drawn.text Bucket.selected selectedLabels selectedColor] := by
  intro s hs
  obtain ⟨h1, h2, h3, h4, h5, h6⟩ := hs
  simp [observe, GlState.run, GlState.step, GlState.emits, GlState.gl, GlState.setCap,
    GlState.Ready, glEnable, glDisable, glDepthFunc, glResetEdgeOffset, glSetEdgeOffset,
    glEnableClientState, glDisableClientState, glColorV4f, glActiveTexture, glTexEnvi, h1, h2, h3, h4, h5, h6]

theorem stretch_renderEdges (renderInfo : EdgeRenderInfo) (color : Option Color)
    (vbo : VboKind) (d : Bool) :
    Stretch ((renderEdges renderInfo color).map RenderEvent.draw) (some vbo) d (some vbo) d
      (linePass vbo EdgeVertexSize
        (match color with
         | none => ColorSource.vertices
         | some c => ColorSource.current (some c)) d renderInfo) := by
  intro s hs
  obtain ⟨h1, h2, h3, h4, h5, h6⟩ := hs
  unfold renderEdges linePass
  split
  · simp [observe, GlState.run, GlState.Ready, h1, h2, h3, h4, h5, h6]
  · cases color <;>
      simp [lineArrayCalls, observe, GlState.run, GlState.step, GlState.emits, GlState.gl, GlState.setCap,
    GlState.Ready, glEnable, glDisable, glDepthFunc, glResetEdgeOffset, glSetEdgeOffset,
    glEnableClientState, glDisableClientState, glColorV4f, glActiveTexture, glTexEnvi, h1, h2, h3, h4, h5, h6]

theorem stretch_renderEntityBounds (renderInfo : EdgeRenderInfo) (color : Option Color)
    (vbo : VboKind) (d : Bool) :
    Stretch ((renderEntityBounds renderInfo color).map RenderEvent.draw) (some vbo) d
      (some vbo) d
      (linePass vbo EntityBoundsVertexSize
        (match color with
         | none => ColorSource.vertices
         | some c => ColorSource.current (some c)) d renderInfo) := by
  intro s hs
  obtain ⟨h1, h2, h3, h4, h5, h6⟩ := hs
  unfold renderEntityBounds linePass
  split
  · simp [observe, GlState.run, GlState.Ready, h1, h2, h3, h4, h5, h6]
  · cases color <;>
      simp [lineArrayCalls, observe, GlState.run, GlState.step, GlState.emits, GlState.gl, GlState.setCap,
    GlState.Ready, glEnable, glDisable, glDepthFunc, glResetEdgeOffset, glSetEdgeOffset,
    glEnableClientState, glDisableClientState, glColorV4f, glActiveTexture, glTexEnvi, h1, h2, h3, h4, h5, h6]

theorem observe_entityRenders (queries : RenderQueries) (context : RenderContext)
    (l : EntityRenderers) (s : GlState) :
    observe s ((l.flatMap (fun it =>
      if context.filter.entityVisible (queries.entityAt it.1) then
        [DrawCall.entityRender it.2.renderer it.1]
      else [])).map RenderEvent.draw) =
      l.flatMap (fun it =>
        if context.filter.entityVisible (queries.entityAt it.1) then
          [Drawn.model it.2.renderer it.1]
        else []) ∧
    s.run ((l.flatMap (fun it =>
      if context.filter.entityVisible (queries.entityAt it.1) then
        [DrawCall.entityRender it.2.renderer it.1]
      else [])).map RenderEvent.draw) = s := by
  induction l with
  | nil => exact ⟨rfl, rfl⟩
  | cons it rest ih =>
    obtain ⟨i1, i2⟩ := ih
    rw [List.flatMap_cons, List.map_append, observe_append, GlState.run_append,
      List.flatMap_cons]
    by_cases hv : context.filter.entityVisible (queries.entityAt it.1) = true
    · simp only [hv, if_true, List.map_cons, List.map_nil, observe, GlState.run, GlState.step,
        GlState.emits, List.append_nil]
      exact ⟨congrArg _ i1, i2⟩
    · simp only [hv, if_false, List.map_nil, observe, GlState.run, List.nil_append]
      exact ⟨i1, i2⟩

theorem stretch_renderEntityModels (queries : RenderQueries) (rprefs : RenderPreferences)
    (context : RenderContext) (entities : EntityRenderers) (b : Option VboKind) (d : Bool) :
    Stretch ((renderEntityModels queries rprefs context entities).map RenderEvent.draw) b d b d
      (if entities.isEmpty then [] else modelPass queries context entities) := by
  intro s hs
  obtain ⟨h1, h2, h3, h4, h5, h6⟩ := hs
  unfold renderEntityModels modelPass
  split
  · simp [observe, GlState.run, GlState.Ready, h1, h2, h3, h4, h5, h6]
  · have key := observe_entityRenders queries context (inKeyOrder entities)
    have k1 := fun s => (key s).1
    have k2 := fun s => (key s).2
    simp only [List.map_append, observe_append, GlState.run_append, k1, k2]
    simp [observe, GlState.run, GlState.step, GlState.emits, GlState.gl, GlState.setCap,
    GlState.Ready, glEnable, glDisable, glDepthFunc, glResetEdgeOffset, glSetEdgeOffset,
    glEnableClientState, glDisableClientState, glColorV4f, glActiveTexture, glTexEnvi, h1, h2, h3, h4, h5, h6]

theorem observe_faceInfo (queries : RenderQueries) (rprefs : RenderPreferences)
    (i : TexturedTriangleRenderInfo) (s : GlState) (h1 : s.activeTexture = "GL_TEXTURE0")
    (h3 : s.bound0 = none) :
    observe s ((renderFaceInfo queries rprefs true true i).map RenderEvent.draw) =
      [Drawn.triangles s.buffer (if queries.dummy i.texture then none else some i.texture)
        (if s.texture2D1 then s.envColor1 else none) (i.offset / FaceVertexSize)
        i.vertexCount] ∧
    ∃ t c, s.run ((renderFaceInfo queries rprefs true true i).map RenderEvent.draw) =
      { s with texture2D0 := t, color := c } := by
  cases hd : queries.dummy i.texture
  · refine ⟨?_, true, s.color, ?_⟩
    · simp [renderFaceInfo, hd, observe, GlState.run, GlState.step, GlState.emits, GlState.gl, GlState.setCap,
    GlState.Ready, glEnable, glDisable, glDepthFunc, glResetEdgeOffset, glSetEdgeOffset,
    glEnableClientState, glDisableClientState, glColorV4f, glActiveTexture, glTexEnvi, h1, h3]
    · simp [renderFaceInfo, hd, observe, GlState.run, GlState.step, GlState.emits, GlState.gl, GlState.setCap,
    GlState.Ready, glEnable, glDisable, glDepthFunc, glResetEdgeOffset, glSetEdgeOffset,
    glEnableClientState, glDisableClientState, glColorV4f, glActiveTexture, glTexEnvi, h1, h3]
  · refine ⟨?_, false, some rprefs.faceColor, ?_⟩
    · simp [renderFaceInfo, hd, observe, GlState.run, GlState.step, GlState.emits, GlState.gl, GlState.setCap,
    GlState.Ready, glEnable, glDisable, glDepthFunc, glResetEdgeOffset, glSetEdgeOffset,
    glEnableClientState, glDisableClientState, glColorV4f, glActiveTexture, glTexEnvi, h1, h3]
    · simp [renderFaceInfo, hd, observe, GlState.run, GlState.step, GlState.emits, GlState.gl, GlState.setCap,
    GlState.Ready, glEnable, glDisable, glDepthFunc, glResetEdgeOffset, glSetEdgeOffset,
    glEnableClientState, glDisableClientState, glColorV4f, glActiveTexture, glTexEnvi, h1, h3]

theorem observe_faceInfos (queries : RenderQueries) (rprefs : RenderPreferences)
    (infos : List TexturedTriangleRenderInfo) (s : GlState)
    (h1 : s.activeTexture = "GL_TEXTURE0") (h3 : s.bound0 = none) :
    observe s ((infos.flatMap (renderFaceInfo queries rprefs true true)).map
        RenderEvent.draw) =
      infos.map (fun i =>
        Drawn.triangles s.buffer (if queries.dummy i.texture then none else some i.texture)
          (if s.texture2D1 then s.envColor1 else none) (i.offset / FaceVertexSize)
          i.vertexCount) ∧
    ∃ t c, s.run ((infos.flatMap (renderFaceInfo queries rprefs true true)).map
        RenderEvent.draw) = { s with texture2D0 := t, color := c } := by
  induction infos generalizing s with
  | nil => exact ⟨rfl, s.texture2D0, s.color, rfl⟩
  | cons i rest ih =>
    obtain ⟨o1, t1, c1, r1⟩ := observe_faceInfo queries rprefs i s h1 h3
    obtain ⟨o2, t2, c2, r2⟩ := ih { s with texture2D0 := t1, color := c1 } h1 h3
    rw [List.flatMap_cons, List.map_append, observe_append, GlState.run_append, o1, r1, o2, r2]
    exact ⟨rfl, t2, c2, rfl⟩

theorem faceSetup_observed (rprefs : RenderPreferences) (dummyTexture : Texture)
    (selected locked : Bool) (d : Bool) (s : GlState)
    (hs : s.Ready (some VboKind.face) d) :
    observe s ((faceSetupCalls rprefs dummyTexture true selected locked).map
        RenderEvent.draw) = [] ∧
    (s.run ((faceSetupCalls rprefs dummyTexture true selected locked).map
        RenderEvent.draw)).InFacePass d
      (if selected then some rprefs.selectedFaceColor
       else if locked then some rprefs.lockedFaceColor else none) := by
  obtain ⟨h1, h2, h3, h4, h5, h6⟩ := hs
  cases selected <;> cases locked <;>
    simp [faceSetupCalls, faceTintCalls, GlState.InFacePass, observe, GlState.run, GlState.step, GlState.emits, GlState.gl, GlState.setCap,
    GlState.Ready, glEnable, glDisable, glDepthFunc, glResetEdgeOffset, glSetEdgeOffset,
    glEnableClientState, glDisableClientState, glColorV4f, glActiveTexture, glTexEnvi, h1, h2, h3, h4, h5, h6]

theorem faceLoop_observed (queries : RenderQueries) (rprefs : RenderPreferences)
    (infos : List TexturedTriangleRenderInfo) (d : Bool) (tint : Option Color) (s : GlState)
    (hs : s.InFacePass d tint) :
    observe s ((infos.flatMap (renderFaceInfo queries rprefs true true)).map
        RenderEvent.draw) = facePass queries tint infos ∧
    (s.run ((infos.flatMap (renderFaceInfo queries rprefs true true)).map
        RenderEvent.draw)).InFacePass d tint := by
  obtain ⟨h1, h2, h3, h4, h5, h6, h7, h8⟩ := hs
  obtain ⟨o, t, c, r⟩ := observe_faceInfos queries rprefs infos s h1 h4
  rw [o, r]
  refine ⟨?_, h1, h2, h3, h4, h5, h6, h7, h8⟩
  rw [h6, h3]
  rfl

theorem faceTeardown_observed (dummyTexture : Texture) (selected locked : Bool) (d : Bool)
    (tint : Option Color) (s : GlState) (hs : s.InFacePass d tint)
    (ht : tint.isSome = (selected || locked)) :
    observe s ((faceTeardownCalls dummyTexture true selected locked).map
        RenderEvent.draw) = [] ∧
    (s.run ((faceTeardownCalls dummyTexture true selected locked).map
        RenderEvent.draw)).Ready (some VboKind.face) d := by
  obtain ⟨h1, h2, h3, h4, h5, h6, h7, rest, h8⟩ := hs
  rw [ht] at h2
  cases selected <;> cases locked <;> simp only [Bool.or_self, Bool.or_true, Bool.or_false,
    Bool.true_or, Bool.false_or] at h2 <;>
    simp [faceTeardownCalls, observe, GlState.run, GlState.step, GlState.emits, GlState.gl, GlState.setCap,
    GlState.Ready, glEnable, glDisable, glDepthFunc, glResetEdgeOffset, glSetEdgeOffset,
    glEnableClientState, glDisableClientState, glColorV4f, glActiveTexture, glTexEnvi, h1, h2, h4, h5, h6, h7, h8]

theorem stretch_renderFaces (queries : RenderQueries) (rprefs : RenderPreferences)
    (dummyTexture : Texture) (selected locked : Bool)
    (infos : List TexturedTriangleRenderInfo) (d : Bool) :
    Stretch ((renderFaces queries rprefs dummyTexture true selected locked infos).map
        RenderEvent.draw) (some VboKind.face) d (some VboKind.face) d
      (facePass queries
        (if selected then some rprefs.selectedFaceColor
         else if locked then some rprefs.lockedFaceColor else none) infos) := by
  intro s hs
  unfold renderFaces
  split
  · have he : infos = [] := List.isEmpty_iff.mp (by assumption)
    subst he
    exact ⟨rfl, hs⟩
  · obtain ⟨o1, r1⟩ := faceSetup_observed rprefs dummyTexture selected locked d s hs
    obtain ⟨o2, r2⟩ := faceLoop_observed queries rprefs infos d _ _ r1
    obtain ⟨o3, r3⟩ := faceTeardown_observed dummyTexture selected locked d _ _ r2
      (by cases selected <;> cases locked <;> rfl)
    rw [List.map_append, List.map_append, observe_append, observe_append,
      GlState.run_append, GlState.run_append, GlState.run_append, o1, o2, o3]
    exact ⟨by simp, r3⟩

end TrenchBroom.Renderer
namespace TrenchBroom.Renderer

open MapRenderer

theorem modelPass_of_isEmpty (queries : RenderQueries) (context : RenderContext)
    (entities : EntityRenderers) :
    (if entities.isEmpty then [] else modelPass queries context entities) =
      modelPass queries context entities := by
  cases entities with
  | nil => simp [modelPass, inKeyOrder]
  | cons a l => simp

/-- The log of `render`: the log of `validate` followed by the calls of `render` itself. -/
theorem render_recorded {σ : Type} (ops : MapOps σ) (draw : DrawOps σ)
    (queries : RenderQueries) (prefs : Preferences) (rprefs : RenderPreferences)
    (document : MapDocument) (context : RenderContext) (m : MapRenderer) (w : σ)
    (m1 : MapRenderer) (w1 : σ × List RenderEvent)
    (hv : validate ops.recorded prefs document context m (w, []) = some (m1, w1)) :
    ∃ r, render ops.recorded draw.recorded queries prefs rprefs document context m (w, []) =
        some r ∧
      r.1 = m1 ∧
      r.2.2 = w1.2 ++
        (renderSetup.map RenderEvent.draw ++
        ([RenderEvent.map (MapCall.vboActivate VboKind.face)] ++
        ([glEnableClientState "GL_VERTEX_ARRAY"].map RenderEvent.draw ++
        ((renderFaces queries rprefs m1.m_dummyTexture true false false
          m1.m_faceRenderInfos).map RenderEvent.draw ++
        ((renderFaces queries rprefs m1.m_dummyTexture true true false
          m1.m_selectedFaceRenderInfos).map RenderEvent.draw ++
        ((renderFaces queries rprefs m1.m_dummyTexture true false true
          m1.m_lockedFaceRenderInfos).map RenderEvent.draw ++
        ([glDisableClientState "GL_VERTEX_ARRAY"].map RenderEvent.draw ++
        ([RenderEvent.map (MapCall.vboDeactivate VboKind.face)] ++
        ([RenderEvent.map (MapCall.vboActivate VboKind.edge)] ++
        ([glEnableClientState "GL_VERTEX_ARRAY", glSetEdgeOffset "0.01f"].map RenderEvent.draw ++
        ((renderEdges m1.m_edgeRenderInfo none).map RenderEvent.draw ++
        ((renderEdges m1.m_lockedEdgeRenderInfo (some rprefs.lockedEdgeColor)).map
          RenderEvent.draw ++
        ([glSetEdgeOffset "0.02f", glDisable "GL_DEPTH_TEST"].map RenderEvent.draw ++
        ((renderEdges m1.m_selectedEdgeRenderInfo
          (some rprefs.occludedSelectedEdgeColor)).map RenderEvent.draw ++
        ([glEnable "GL_DEPTH_TEST"].map RenderEvent.draw ++
        ((renderEdges m1.m_selectedEdgeRenderInfo (some rprefs.selectedEdgeColor)).map
          RenderEvent.draw ++
        ([glResetEdgeOffset, glDisableClientState "GL_VERTEX_ARRAY"].map RenderEvent.draw ++
        ([RenderEvent.map (MapCall.vboDeactivate VboKind.edge)] ++
        ([RenderEvent.map (MapCall.vboActivate VboKind.entityBounds)] ++
        ([glEnableClientState "GL_VERTEX_ARRAY"].map RenderEvent.draw ++
        ((renderEntityBounds m1.m_entityBoundsRenderInfo none).map RenderEvent.draw ++
        ((renderEntityBounds m1.m_lockedEntityBoundsRenderInfo
          (some rprefs.lockedEntityBoundsColor)).map RenderEvent.draw ++
        ([glDisable "GL_DEPTH_TEST"].map RenderEvent.draw ++
        ((renderEntityBounds m1.m_selectedEntityBoundsRenderInfo
          (some rprefs.occludedSelectedEntityBoundsColor)).map RenderEvent.draw ++
        ([glEnable "GL_DEPTH_TEST", glDepthFunc "GL_LEQUAL"].map RenderEvent.draw ++
        ((renderEntityBounds m1.m_selectedEntityBoundsRenderInfo
          (some rprefs.selectedEntityBoundsColor)).map RenderEvent.draw ++
        ([glDepthFunc "GL_LESS", glDisableClientState "GL_VERTEX_ARRAY"].map RenderEvent.draw ++
        ([RenderEvent.map (MapCall.vboDeactivate VboKind.entityBounds)] ++
        ((renderEntityModels queries rprefs context m1.m_entityRenderers).map RenderEvent.draw ++
        ((renderEntityModels queries rprefs context m1.m_selectedEntityRenderers).map
          RenderEvent.draw ++
        [DrawCall.stringManagerActivate,
          DrawCall.textRender Bucket.normal m1.m_classnameRenderer rprefs.infoOverlayColor,
          DrawCall.textRender Bucket.selected m1.m_selectedClassnameRenderer
            rprefs.selectedInfoOverlayColor,
          DrawCall.stringManagerDeactivate].map RenderEvent.draw)))))))))))))))))))))))))))))) := by
  refine ⟨_, by simp only [render, hv]; rfl, rfl, ?_⟩
  simp only [run_recorded_log, MapOps.recorded, List.map_append, List.append_assoc,
    List.cons_append, List.nil_append, List.singleton_append, List.map_cons, List.map_nil]

theorem render_tail_observed (queries : RenderQueries) (rprefs : RenderPreferences)
    (context : RenderContext) (m1 : MapRenderer) (b : Option VboKind) (d : Bool) :
    Stretch
        (renderSetup.map RenderEvent.draw ++
        ([RenderEvent.map (MapCall.vboActivate VboKind.face)] ++
        ([glEnableClientState "GL_VERTEX_ARRAY"].map RenderEvent.draw ++
        ((renderFaces queries rprefs m1.m_dummyTexture true false false
          m1.m_faceRenderInfos).map RenderEvent.draw ++
        ((renderFaces queries rprefs m1.m_dummyTexture true true false
          m1.m_selectedFaceRenderInfos).map RenderEvent.draw ++
        ((renderFaces queries rprefs m1.m_dummyTexture true false true
          m1.m_lockedFaceRenderInfos).map RenderEvent.draw ++
        ([glDisableClientState "GL_VERTEX_ARRAY"].map RenderEvent.draw ++
        ([RenderEvent.map (MapCall.vboDeactivate VboKind.face)] ++
        ([RenderEvent.map (MapCall.vboActivate VboKind.edge)] ++
        ([glEnableClientState "GL_VERTEX_ARRAY", glSetEdgeOffset "0.01f"].map RenderEvent.draw ++
        ((renderEdges m1.m_edgeRenderInfo none).map RenderEvent.draw ++
        ((renderEdges m1.m_lockedEdgeRenderInfo (some rprefs.lockedEdgeColor)).map
          RenderEvent.draw ++
        ([glSetEdgeOffset "0.02f", glDisable "GL_DEPTH_TEST"].map RenderEvent.draw ++
        ((renderEdges m1.m_selectedEdgeRenderInfo
          (some rprefs.occludedSelectedEdgeColor)).map RenderEvent.draw ++
        ([glEnable "GL_DEPTH_TEST"].map RenderEvent.draw ++
        ((renderEdges m1.m_selectedEdgeRenderInfo (some rprefs.selectedEdgeColor)).map
          RenderEvent.draw ++
        ([glResetEdgeOffset, glDisableClientState "GL_VERTEX_ARRAY"].map RenderEvent.draw ++
        ([RenderEvent.map (MapCall.vboDeactivate VboKind.edge)] ++
        ([RenderEvent.map (MapCall.vboActivate VboKind.entityBounds)] ++
        ([glEnableClientState "GL_VERTEX_ARRAY"].map RenderEvent.draw ++
        ((renderEntityBounds m1.m_entityBoundsRenderInfo none).map RenderEvent.draw ++
        ((renderEntityBounds m1.m_lockedEntityBoundsRenderInfo
          (some rprefs.lockedEntityBoundsColor)).map RenderEvent.draw ++
        ([glDisable "GL_DEPTH_TEST"].map RenderEvent.draw ++
        ((renderEntityBounds m1.m_selectedEntityBoundsRenderInfo
          (some rprefs.occludedSelectedEntityBoundsColor)).map RenderEvent.draw ++
        ([glEnable "GL_DEPTH_TEST", glDepthFunc "GL_LEQUAL"].map RenderEvent.draw ++
        ((renderEntityBounds m1.m_selectedEntityBoundsRenderInfo
          (some rprefs.selectedEntityBoundsColor)).map RenderEvent.draw ++
        ([glDepthFunc "GL_LESS", glDisableClientState "GL_VERTEX_ARRAY"].map RenderEvent.draw ++
        ([RenderEvent.map (MapCall.vboDeactivate VboKind.entityBounds)] ++
        ((renderEntityModels queries rprefs context m1.m_entityRenderers).map RenderEvent.draw ++
        ((renderEntityModels queries rprefs context m1.m_selectedEntityRenderers).map
          RenderEvent.draw ++
        [DrawCall.stringManagerActivate,
          DrawCall.textRender Bucket.normal m1.m_classnameRenderer rprefs.infoOverlayColor,
          DrawCall.textRender Bucket.selected m1.m_selectedClassnameRenderer
            rprefs.selectedInfoOverlayColor,
          DrawCall.stringManagerDeactivate].map RenderEvent.draw))))))))))))))))))))))))))))))
      b d none true
      (facePass queries none m1.m_faceRenderInfos ++
        facePass queries (some rprefs.selectedFaceColor) m1.m_selectedFaceRenderInfos ++
        facePass queries (some rprefs.lockedFaceColor) m1.m_lockedFaceRenderInfos ++
        linePass VboKind.edge EdgeVertexSize ColorSource.vertices true m1.m_edgeRenderInfo ++
        linePass VboKind.edge EdgeVertexSize (ColorSource.current (some rprefs.lockedEdgeColor))
          true m1.m_lockedEdgeRenderInfo ++
        linePass VboKind.edge EdgeVertexSize
          (ColorSource.current (some rprefs.occludedSelectedEdgeColor)) false
          m1.m_selectedEdgeRenderInfo ++
        linePass VboKind.edge EdgeVertexSize (ColorSource.current (some rprefs.selectedEdgeColor))
          true m1.m_selectedEdgeRenderInfo ++
        linePass VboKind.entityBounds EntityBoundsVertexSize ColorSource.vertices true
          m1.m_entityBoundsRenderInfo ++
        linePass VboKind.entityBounds EntityBoundsVertexSize
          (ColorSource.current (some rprefs.lockedEntityBoundsColor)) true
          m1.m_lockedEntityBoundsRenderInfo ++
        linePass VboKind.entityBounds EntityBoundsVertexSize
          (ColorSource.current (some rprefs.occludedSelectedEntityBoundsColor)) false
          m1.m_selectedEntityBoundsRenderInfo ++
        linePass VboKind.entityBounds EntityBoundsVertexSize
          (ColorSource.current (some rprefs.selectedEntityBoundsColor)) true
          m1.m_selectedEntityBoundsRenderInfo ++
        modelPass queries context m1.m_entityRenderers ++
        modelPass queries context m1.m_selectedEntityRenderers ++
        [Drawn.text Bucket.normal m1.m_classnameRenderer rprefs.infoOverlayColor,
         Drawn.text Bucket.selected m1.m_selectedClassnameRenderer
           rprefs.selectedInfoOverlayColor]) := by
  have h :=
    (stretch_append (stretch_setup b d)
    (stretch_append (stretch_vboActivate VboKind.face _ _)
    (stretch_append (stretch_enableArray _ _)
    (stretch_append (stretch_renderFaces queries rprefs m1.m_dummyTexture false false m1.m_faceRenderInfos true)
    (stretch_append (stretch_renderFaces queries rprefs m1.m_dummyTexture true false m1.m_selectedFaceRenderInfos true)
    (stretch_append (stretch_renderFaces queries rprefs m1.m_dummyTexture false true m1.m_lockedFaceRenderInfos true)
    (stretch_append (stretch_disableArray _ _)
    (stretch_append (stretch_vboDeactivate VboKind.face _ _)
    (stretch_append (stretch_vboActivate VboKind.edge _ _)
    (stretch_append (stretch_edgeOffset _ _)
    (stretch_append (stretch_renderEdges m1.m_edgeRenderInfo none VboKind.edge true)
    (stretch_append (stretch_renderEdges m1.m_lockedEdgeRenderInfo (some rprefs.lockedEdgeColor) VboKind.edge true)
    (stretch_append (stretch_occluded _ _)
    (stretch_append (stretch_renderEdges m1.m_selectedEdgeRenderInfo (some rprefs.occludedSelectedEdgeColor) VboKind.edge false)
    (stretch_append (stretch_depthOn _ _)
    (stretch_append (stretch_renderEdges m1.m_selectedEdgeRenderInfo (some rprefs.selectedEdgeColor) VboKind.edge true)
    (stretch_append (stretch_edgesEnd _ _)
    (stretch_append (stretch_vboDeactivate VboKind.edge _ _)
    (stretch_append (stretch_vboActivate VboKind.entityBounds _ _)
    (stretch_append (stretch_enableArray _ _)
    (stretch_append (stretch_renderEntityBounds m1.m_entityBoundsRenderInfo none VboKind.entityBounds true)
    (stretch_append (stretch_renderEntityBounds m1.m_lockedEntityBoundsRenderInfo (some rprefs.lockedEntityBoundsColor) VboKind.entityBounds true)
    (stretch_append (stretch_depthOff _ _)
    (stretch_append (stretch_renderEntityBounds m1.m_selectedEntityBoundsRenderInfo (some rprefs.occludedSelectedEntityBoundsColor) VboKind.entityBounds false)
    (stretch_append (stretch_depthLequal _ _)
    (stretch_append (stretch_renderEntityBounds m1.m_selectedEntityBoundsRenderInfo (some rprefs.selectedEntityBoundsColor) VboKind.entityBounds true)
    (stretch_append (stretch_boundsEnd _ _)
    (stretch_append (stretch_vboDeactivate VboKind.entityBounds _ _)
    (stretch_append (stretch_renderEntityModels queries rprefs context m1.m_entityRenderers _ _)
    (stretch_append (stretch_renderEntityModels queries rprefs context m1.m_selectedEntityRenderers _ _)
    (stretch_text m1.m_classnameRenderer m1.m_selectedClassnameRenderer rprefs.infoOverlayColor rprefs.selectedInfoOverlayColor _ _)))))))))))))))))))))))))))))))
  intro s hs
  obtain ⟨o, r⟩ := h s hs
  refine ⟨?_, r⟩
  rw [o]
  simp only [modelPass_of_isEmpty, List.nil_append, List.append_nil, List.append_assoc,
    Bool.false_eq_true, if_false, if_true]

end TrenchBroom.Renderer
namespace TrenchBroom.Renderer

open MapRenderer

/-- C31: for every renderer state, when every visible face has at least three vertices and
the entity renderer cache is valid or every entity has a classname, `render` returns the
state that `validate` returns, all validity flags true, and its log is the log of
`validate` followed by calls that, from any OpenGL state between passes, draw the same
sequence of passes whatever the renderer state: from the face buffer the triangles of the
normal render infos untinted, then those of the selected render infos with the selected
tint, then those of the locked render infos with the locked tint; from the edge buffer the
normal edges in the colours of the buffer, the locked edges in the locked colour, the
selected edges in the occluded colour with the depth test disabled and again in the
selected colour with the depth test enabled; from the entity bounds buffer the normal,
the locked and, with the depth test disabled and then enabled, the selected bounds; the
models of the visible entities of the normal, then of the selected renderer map; the
classname texts, normal then selected. A pass with nothing to draw is empty. -/
theorem render_pass_order {σ : Type} (ops : MapOps σ) (draw : DrawOps σ)
    (queries : RenderQueries) (prefs : Preferences) (rprefs : RenderPreferences)
    (document : MapDocument) (context : RenderContext) (m : MapRenderer) (w : σ)
    (g : GlState) (buffer : Option VboKind) (depthTest : Bool)
    (hg : g.Ready buffer depthTest)
    (hok : (visibleFaces context.filter document.entities).all faceOk = true)
    (hcls : m.m_entityRendererCacheValid = true ∨
      ∀ e ∈ document.entities, e.classname.isSome = true) :
    ∃ v r tail, validate ops.recorded prefs document context m (w, []) = some v ∧
      render ops.recorded draw.recorded queries prefs rprefs document context
        m (w, []) = some r ∧
      r.1 = v.1 ∧
      r.1.flags = [true, true, true, true, true, true, true] ∧
      r.2.2 = v.2.2 ++ tail ∧
      observe g tail =
        facePass queries none r.1.m_faceRenderInfos ++
        facePass queries (some rprefs.selectedFaceColor) r.1.m_selectedFaceRenderInfos ++
        facePass queries (some rprefs.lockedFaceColor) r.1.m_lockedFaceRenderInfos ++
        linePass VboKind.edge EdgeVertexSize ColorSource.vertices true r.1.m_edgeRenderInfo ++
        linePass VboKind.edge EdgeVertexSize (ColorSource.current (some rprefs.lockedEdgeColor))
          true r.1.m_lockedEdgeRenderInfo ++
        linePass VboKind.edge EdgeVertexSize
          (ColorSource.current (some rprefs.occludedSelectedEdgeColor)) false
          r.1.m_selectedEdgeRenderInfo ++
        linePass VboKind.edge EdgeVertexSize (ColorSource.current (some rprefs.selectedEdgeColor))
          true r.1.m_selectedEdgeRenderInfo ++
        linePass VboKind.entityBounds EntityBoundsVertexSize ColorSource.vertices true
          r.1.m_entityBoundsRenderInfo ++
        linePass VboKind.entityBounds EntityBoundsVertexSize
          (ColorSource.current (some rprefs.lockedEntityBoundsColor)) true
          r.1.m_lockedEntityBoundsRenderInfo ++
        linePass VboKind.entityBounds EntityBoundsVertexSize
          (ColorSource.current (some rprefs.occludedSelectedEntityBoundsColor)) false
          r.1.m_selectedEntityBoundsRenderInfo ++
        linePass VboKind.entityBounds EntityBoundsVertexSize
          (ColorSource.current (some rprefs.selectedEntityBoundsColor)) true
          r.1.m_selectedEntityBoundsRenderInfo ++
        modelPass queries context r.1.m_entityRenderers ++
        modelPass queries context r.1.m_selectedEntityRenderers ++
        [Drawn.text Bucket.normal r.1.m_classnameRenderer rprefs.infoOverlayColor,
         Drawn.text Bucket.selected r.1.m_selectedClassnameRenderer
           rprefs.selectedInfoOverlayColor] ∧
      (GlState.run g tail).Ready none true := by
  obtain ⟨v, hv⟩ := validate_some ops.recorded prefs document context m (w, []) hok hcls
  have hf := validate_flags ops.recorded prefs document context m (w, []) v hv
  obtain ⟨m1, w1⟩ := v
  obtain ⟨r, hr, h1, h2⟩ := render_recorded ops draw queries prefs rprefs document context m w
    m1 w1 hv
  obtain ⟨o, hready⟩ := render_tail_observed queries rprefs context m1 buffer depthTest g hg
  refine ⟨(m1, w1), r, _, hv, hr, h1, ?_, h2, ?_, hready⟩
  · rw [h1]
    exact hf
  · rw [h1]
    exact o

theorem render_pass_order_witness :
    ∃ v r tail, validate sampleMapOps.recorded samplePreferences sampleDocument sampleContext
        (MapRenderer.new 0) (0, []) = some v ∧
      render sampleMapOps.recorded sampleDrawOps.recorded sampleRenderQueries samplePreferences
        sampleRenderPreferences sampleDocument sampleContext
        (MapRenderer.new 0) (0, []) = some r ∧
      r.1 = v.1 ∧
      r.1.flags = [true, true, true, true, true, true, true] ∧
      r.2.2 = v.2.2 ++ tail ∧
      observe GlState.initial tail =
        facePass sampleRenderQueries none r.1.m_faceRenderInfos ++
        facePass sampleRenderQueries (some sampleRenderPreferences.selectedFaceColor)
          r.1.m_selectedFaceRenderInfos ++
        facePass sampleRenderQueries (some sampleRenderPreferences.lockedFaceColor)
          r.1.m_lockedFaceRenderInfos ++
        linePass VboKind.edge EdgeVertexSize ColorSource.vertices true r.1.m_edgeRenderInfo ++
        linePass VboKind.edge EdgeVertexSize
          (ColorSource.current (some sampleRenderPreferences.lockedEdgeColor)) true
          r.1.m_lockedEdgeRenderInfo ++
        linePass VboKind.edge EdgeVertexSize
          (ColorSource.current (some sampleRenderPreferences.occludedSelectedEdgeColor)) false
          r.1.m_selectedEdgeRenderInfo ++
        linePass VboKind.edge EdgeVertexSize
          (ColorSource.current (some sampleRenderPreferences.selectedEdgeColor)) true
          r.1.m_selectedEdgeRenderInfo ++
        linePass VboKind.entityBounds EntityBoundsVertexSize ColorSource.vertices true
          r.1.m_entityBoundsRenderInfo ++
        linePass VboKind.entityBounds EntityBoundsVertexSize
          (ColorSource.current (some sampleRenderPreferences.lockedEntityBoundsColor)) true
          r.1.m_lockedEntityBoundsRenderInfo ++
        linePass VboKind.entityBounds EntityBoundsVertexSize
          (ColorSource.current (some sampleRenderPreferences.occludedSelectedEntityBoundsColor)) false
          r.1.m_selectedEntityBoundsRenderInfo ++
        linePass VboKind.entityBounds EntityBoundsVertexSize
          (ColorSource.current (some sampleRenderPreferences.selectedEntityBoundsColor)) true
          r.1.m_selectedEntityBoundsRenderInfo ++
        modelPass sampleRenderQueries sampleContext r.1.m_entityRenderers ++
        modelPass sampleRenderQueries sampleContext r.1.m_selectedEntityRenderers ++
        [Drawn.text Bucket.normal r.1.m_classnameRenderer sampleRenderPreferences.infoOverlayColor,
         Drawn.text Bucket.selected r.1.m_selectedClassnameRenderer
           sampleRenderPreferences.selectedInfoOverlayColor] ∧
      (GlState.run GlState.initial tail).Ready none true :=
  render_pass_order sampleMapOps sampleDrawOps sampleRenderQueries samplePreferences
    sampleRenderPreferences sampleDocument sampleContext (MapRenderer.new 0) 0
    GlState.initial none false ⟨rfl, rfl, rfl, rfl, rfl, rfl⟩ (by decide) (Or.inl rfl)

end TrenchBroom.Renderer
